import Mathlib

/-!
# Synchronization check of a tie switch, and the variable frequency drive

Shallow embedding of `powerflow/sync_check.cpp`, and of the methods of `powerflow/vfd.cpp`
that decide its low-speed error and the accesses to its settle-frequency array.

Modelling conventions.

* The monitor is embedded at two levels of arithmetic.  In the record `sync_check` and
  its methods a `double` is an exact rational number: rounding, overflow, NaN and
  infinite configuration values are not modelled.  The one place where the code divides
  by a value that can be zero is the per-unit division by `volt_norm`; that division is
  modelled with the IEEE-754 outcome for a zero divisor (`fdiv`), since the comparison
  that follows depends on it.
* The record `sync_check_d` and the methods with the suffix `_d` are the same code over
  the values of the machine.  The six published doubles and the four relaxed tolerances
  computed from them range over the finite numbers, the two infinities and NaN
  (`quot_val`), with the IEEE-754 comparisons and products; the quotient
  `dt / DT_SECOND` and the sum `t_sat += dt_dm_sec` are rounded to 53 bits, ties to even
  (`round_to_double`); the sum `t0 + 1` wraps at 64 bits (`wrap_int64`).  The values read
  from other objects (frequencies, phasors, nominal voltages and the nominal frequency)
  are finite, and a product of two finite doubles is exact.  The properties that depend on
  NaN, on rounding or on the wrap are stated on this level.
* The object is one record `sync_check` holding the member variables.  The status
  property of the parent switch, which the object reaches through `swt_prop_status`,
  is the field `swt_status`; two further fields record the effects on the outside
  (writes of the switch status, requests to start deltamode).
* Declarations of the simulation core that the file uses but does not contain
  (magnitude and argument of the complex class, `DT_SECOND`, the switch status codes,
  the phase bits) are the parameter `Core`.
* Functions that can end in `GL_THROW` return `Except SetupError`.
* The calls into the base class `powerflow_object` are outside the file: the time that
  `powerflow_object::postsync` returns is an argument of `postsync`, and the return
  value of `powerflow_object::init` is not modelled.
* Timestamps are integers: unbounded in `postsync`, and within 64 bits in `postsync_d`,
  where the sum `t0 + 1` wraps.
* For `vfd`, the array behind the pointer `settleFreq` is `none` for `NULL` and the
  content of the allocated block otherwise; an access outside a block is a fault of its
  own, next to the `GL_THROW` calls.  `roundf` rounds to the nearest integer exactly.
-/

namespace SyncCheck

/-! ## Numbers -/

/-- Phasor of the core complex class: real and imaginary part. -/
structure complex where
  Re : ℚ
  Im : ℚ
deriving DecidableEq

/-- Componentwise difference, the `operator-` of the complex class. -/
def complex.sub (a b : complex) : complex := ⟨a.Re - b.Re, a.Im - b.Im⟩

instance : Sub complex := ⟨complex.sub⟩

/-- Result of a division of doubles: a finite quotient, or the IEEE-754 value produced
by a zero divisor. -/
inductive quot_val where
  | finite (q : ℚ)
  | pos_inf
  | neg_inf
  | nan
deriving DecidableEq

/-- Division `x / y` of doubles: for `y = 0` it yields NaN (`x = 0`), `+inf` (`x > 0`) or
`-inf` (`x < 0`). -/
def fdiv (x y : ℚ) : quot_val :=
  if y = 0 then
    if x = 0 then quot_val.nan
    else if 0 < x then quot_val.pos_inf
    else quot_val.neg_inf
  else quot_val.finite (x / y)

/-- Comparison `x <= y` of a division result with a finite double: false for NaN and
`+inf`, true for `-inf`. -/
def quot_val.le (x : quot_val) (y : ℚ) : Bool :=
  match x with
  | quot_val.finite q => decide (q ≤ y)
  | quot_val.pos_inf => false
  | quot_val.neg_inf => true
  | quot_val.nan => false

/-- The double `M_PI` of `<cmath>`: the double nearest to pi. -/
def M_PI : ℚ := 884279719003555 / 281474976710656

/-- Macro `RAD_TO_DEG(rad)`, which expands to `rad / M_PI * 180`. -/
def RAD_TO_DEG (rad : ℚ) : ℚ := rad / M_PI * 180

/-! ## Types of the core -/

/-- Integer type of enumeration properties. -/
abbrev enumeration := ℕ

/-- Simulation time in seconds. -/
abbrev TIMESTAMP := ℤ

/-- Return values of a deltamode update. -/
inductive SIMULATIONMODE where
  | SM_INIT
  | SM_EVENT
  | SM_DELTA
  | SM_DELTA_ITER
  | SM_ERROR
deriving DecidableEq

/-- Keywords of the property `volt_compare_mode`. -/
inductive VOLT_COMPARE_MODE where
  | MAG_DIFF
  | SEP_DIFF
deriving DecidableEq

/-- Declarations of the simulation core used by `sync_check.cpp` whose definitions are not
part of it: `Mag()` and `Arg()` of the complex class, the number of deltamode time units
per second, the switch status codes and the phase bits. -/
structure Core where
  Mag : complex → ℚ
  Arg : complex → ℚ
  DT_SECOND : ℕ
  LS_OPEN : enumeration
  LS_CLOSED : enumeration
  PHASE_A : ℕ
  PHASE_B : ℕ
  PHASE_C : ℕ

/-! ## The objects around the monitor -/

/-- A bus object as the monitor sees it at setup: its nominal voltage (`none` when the
property is not a valid double) and whether each measured property can be mapped. -/
structure node where
  nominal_voltage : Option ℚ
  measured_frequency_valid : Bool
  voltage_A_valid : Bool
  voltage_B_valid : Bool
  voltage_C_valid : Bool

/-- The parent object as the monitor sees it at setup; `none` stands for a property that
is not valid (or not set, or not of the expected type). -/
structure switch_object where
  is_switch : Bool
  status : Option enumeration
  phases : Option ℕ
  from_node : Option node
  to_node : Option node

/-- Global state read at setup: the powerflow global `nominal_frequency` (`none` when it
cannot be mapped as a double), the global clock, the deltamode flag of the object header
and the module flag `enable_subsecond_models`. -/
structure Globals where
  nominal_frequency : Option ℚ
  gl_globalclock : TIMESTAMP
  obj_flag_deltamode : Bool
  enable_subsecond_models : Bool

/-- Values of the mapped bus properties at the time of a call. -/
structure bus_values where
  fm_node_freq : ℚ
  to_node_freq : ℚ
  fm_node_volt_A : complex
  fm_node_volt_B : complex
  fm_node_volt_C : complex
  to_node_volt_A : complex
  to_node_volt_B : complex
  to_node_volt_C : complex

/-- The fatal errors (`GL_THROW`) of setup. -/
inductive SetupError where
  | parent_not_specified
  | parent_not_switch
  | status_not_mapped
  | nominal_frequency_not_mapped
  | from_not_mapped
  | to_not_mapped
  | nominal_voltage_not_mapped
  | nominal_voltage_mismatch
  | phases_not_mapped
  | frequency_not_mapped
  | voltage_not_mapped
deriving DecidableEq

/-! ## The object -/

/-- Member variables of a `sync_check` object.  `phases` is inherited from
`powerflow_object`.  `swt_status` is the value of the parent switch's status property
(the target of `swt_prop_status`); `swt_status_writes` counts the `setp` calls on it and
`deltamode_starts` lists the arguments of the `schedule_deltamode_start` calls. -/
structure sync_check where
  sc_enabled_flag : Bool
  frequency_tolerance_hz : ℚ
  voltage_tolerance_pu : ℚ
  metrics_period_sec : ℚ
  volt_compare_mode : VOLT_COMPARE_MODE
  voltage_magnitude_tolerance_pu : ℚ
  voltage_angle_tolerance_deg : ℚ
  delta_trigger_mult : ℚ
  frequency_tolerance_hz_deltamode_trig : ℚ
  voltage_tolerance_pu_deltamode_trig : ℚ
  voltage_magnitude_tolerance_pu_deltamode_trig : ℚ
  voltage_angle_tolerance_deg_deltamode_trig : ℚ
  deltamode_trigger_keep_flag : Bool
  deltamode_check_return_val : SIMULATIONMODE
  next_trigger_update_time : TIMESTAMP
  reg_dm_flag : Bool
  deltamode_inclusive : Bool
  metrics_flag : Bool
  t_sat : ℚ
  volt_norm : ℚ
  swt_fm_node : Option node
  swt_to_node : Option node
  swt_fm_node_freq : ℚ
  swt_to_node_freq : ℚ
  swt_fm_volt_A : complex
  swt_fm_volt_B : complex
  swt_fm_volt_C : complex
  swt_to_volt_A : complex
  swt_to_volt_B : complex
  swt_to_volt_C : complex
  swt_phases : ℕ
  swt_ph_A_flag : Bool
  swt_ph_B_flag : Bool
  swt_ph_C_flag : Bool
  phases : ℕ
  swt_status : enumeration
  swt_status_writes : ℕ
  deltamode_starts : List TIMESTAMP

/-! ## Metric evaluation -/

/-- Angle difference in degrees of one phase in `SEP_DIFF` mode, from the two `Arg()` values:
`abs` of the difference, `RAD_TO_DEG`, and the wrap `360 - x` when `x > 180`. -/
def ang_deg_diff (fm_arg to_arg : ℚ) : ℚ :=
  let ang_rad_diff := |fm_arg - to_arg|
  let ang_deg_diff_temp := RAD_TO_DEG ang_rad_diff
  if ang_deg_diff_temp > 180 then 360 - ang_deg_diff_temp else ang_deg_diff_temp

/-- Method `sync_check::check_metrics`. -/
def check_metrics (K : Core) (s : sync_check) (deltamode_check : Bool) : sync_check :=
  let freq_diff_hz := |s.swt_fm_node_freq - s.swt_to_node_freq|
  if s.volt_compare_mode = VOLT_COMPARE_MODE.MAG_DIFF then
    let volt_A_diff := K.Mag (s.swt_fm_volt_A - s.swt_to_volt_A)
    let volt_A_diff_pu := fdiv volt_A_diff s.volt_norm
    let volt_B_diff := K.Mag (s.swt_fm_volt_B - s.swt_to_volt_B)
    let volt_B_diff_pu := fdiv volt_B_diff s.volt_norm
    let volt_C_diff := K.Mag (s.swt_fm_volt_C - s.swt_to_volt_C)
    let volt_C_diff_pu := fdiv volt_C_diff s.volt_norm
    if deltamode_check = true then
      if decide (freq_diff_hz ≤ s.frequency_tolerance_hz_deltamode_trig)
          && volt_A_diff_pu.le s.voltage_tolerance_pu_deltamode_trig
          && volt_B_diff_pu.le s.voltage_tolerance_pu_deltamode_trig
          && volt_C_diff_pu.le s.voltage_tolerance_pu_deltamode_trig then
        { s with deltamode_trigger_keep_flag := true }
      else
        { s with deltamode_trigger_keep_flag := false }
    else
      if decide (freq_diff_hz ≤ s.frequency_tolerance_hz)
          && volt_A_diff_pu.le s.voltage_tolerance_pu
          && volt_B_diff_pu.le s.voltage_tolerance_pu
          && volt_C_diff_pu.le s.voltage_tolerance_pu then
        { s with metrics_flag := true }
      else
        { s with metrics_flag := false }
  else
    let volt_A_mag_diff := |K.Mag s.swt_fm_volt_A - K.Mag s.swt_to_volt_A|
    let volt_A_mag_diff_pu := fdiv volt_A_mag_diff s.volt_norm
    let volt_A_ang_deg_diff := ang_deg_diff (K.Arg s.swt_fm_volt_A) (K.Arg s.swt_to_volt_A)
    let volt_B_mag_diff := |K.Mag s.swt_fm_volt_B - K.Mag s.swt_to_volt_B|
    let volt_B_mag_diff_pu := fdiv volt_B_mag_diff s.volt_norm
    let volt_B_ang_deg_diff := ang_deg_diff (K.Arg s.swt_fm_volt_B) (K.Arg s.swt_to_volt_B)
    let volt_C_mag_diff := |K.Mag s.swt_fm_volt_C - K.Mag s.swt_to_volt_C|
    let volt_C_mag_diff_pu := fdiv volt_C_mag_diff s.volt_norm
    let volt_C_ang_deg_diff := ang_deg_diff (K.Arg s.swt_fm_volt_C) (K.Arg s.swt_to_volt_C)
    if deltamode_check = true then
      if decide (freq_diff_hz ≤ s.frequency_tolerance_hz_deltamode_trig)
          && volt_A_mag_diff_pu.le s.voltage_magnitude_tolerance_pu_deltamode_trig
          && volt_B_mag_diff_pu.le s.voltage_magnitude_tolerance_pu_deltamode_trig
          && volt_C_mag_diff_pu.le s.voltage_magnitude_tolerance_pu_deltamode_trig
          && decide (volt_A_ang_deg_diff ≤ s.voltage_angle_tolerance_deg_deltamode_trig)
          && decide (volt_B_ang_deg_diff ≤ s.voltage_angle_tolerance_deg_deltamode_trig)
          && decide (volt_C_ang_deg_diff ≤ s.voltage_angle_tolerance_deg_deltamode_trig) then
        { s with deltamode_trigger_keep_flag := true }
      else
        { s with deltamode_trigger_keep_flag := false }
    else
      if decide (freq_diff_hz ≤ s.frequency_tolerance_hz)
          && volt_A_mag_diff_pu.le s.voltage_magnitude_tolerance_pu
          && volt_B_mag_diff_pu.le s.voltage_magnitude_tolerance_pu
          && volt_C_mag_diff_pu.le s.voltage_magnitude_tolerance_pu
          && decide (volt_A_ang_deg_diff ≤ s.voltage_angle_tolerance_deg)
          && decide (volt_B_ang_deg_diff ≤ s.voltage_angle_tolerance_deg)
          && decide (volt_C_ang_deg_diff ≤ s.voltage_angle_tolerance_deg) then
        { s with metrics_flag := true }
      else
        { s with metrics_flag := false }

/-! ## Setup -/

/-- Method `sync_check::init_vars`, called by `create`.  All members are assigned before
the nominal frequency is looked up; the defaults that depend on it follow the lookup. -/
def init_vars (G : Globals) (s : sync_check) : Except SetupError sync_check :=
  let s : sync_check := { s with
    volt_compare_mode := VOLT_COMPARE_MODE.MAG_DIFF
    voltage_magnitude_tolerance_pu := 1e-2
    voltage_angle_tolerance_deg := 5
    reg_dm_flag := false
    deltamode_inclusive := false
    metrics_flag := false
    t_sat := 0
    sc_enabled_flag := false
    volt_norm := 0
    swt_fm_node := none
    swt_to_node := none
    swt_fm_node_freq := 0
    swt_to_node_freq := 0
    swt_fm_volt_A := ⟨0, 0⟩
    swt_fm_volt_B := ⟨0, 0⟩
    swt_fm_volt_C := ⟨0, 0⟩
    swt_to_volt_A := ⟨0, 0⟩
    swt_to_volt_B := ⟨0, 0⟩
    swt_to_volt_C := ⟨0, 0⟩
    swt_phases := 0
    swt_ph_A_flag := false
    swt_ph_B_flag := false
    swt_ph_C_flag := false }
  match G.nominal_frequency with
  | none => Except.error SetupError.nominal_frequency_not_mapped
  | some temp_freq_val =>
    Except.ok { s with
      frequency_tolerance_hz := 0.01 * temp_freq_val
      voltage_tolerance_pu := 1e-2
      metrics_period_sec := 1.2
      delta_trigger_mult := 2.0
      frequency_tolerance_hz_deltamode_trig := 0.0
      voltage_tolerance_pu_deltamode_trig := 0.0
      voltage_magnitude_tolerance_pu_deltamode_trig := 0.0
      voltage_angle_tolerance_deg_deltamode_trig := 0.0
      deltamode_trigger_keep_flag := false
      deltamode_check_return_val := SIMULATIONMODE.SM_EVENT }

/-- Method `sync_check::data_sanity_check`, on finite configuration values
(`data_sanity_check_d` takes NaN and the infinities). -/
def data_sanity_check (K : Core) (G : Globals) (par : Option switch_object) (s : sync_check) :
    Except SetupError sync_check :=
  match par with
  | none => Except.error SetupError.parent_not_specified
  | some p =>
    if p.is_switch = false then Except.error SetupError.parent_not_switch
    else
      match p.status with
      | none => Except.error SetupError.status_not_mapped
      | some swt_init_status =>
        let s : sync_check := { s with swt_status := swt_init_status }
        let s : sync_check :=
          if s.sc_enabled_flag = true then
            if swt_init_status ≠ K.LS_OPEN then { s with sc_enabled_flag := false } else s
          else s
        let r : Except SetupError sync_check :=
          if s.frequency_tolerance_hz ≤ 0 then
            match G.nominal_frequency with
            | none => Except.error SetupError.nominal_frequency_not_mapped
            | some temp_freq_val =>
              Except.ok { s with frequency_tolerance_hz := 0.01 * temp_freq_val }
          else Except.ok s
        match r with
        | Except.error e => Except.error e
        | Except.ok s =>
          let s : sync_check :=
            if s.voltage_tolerance_pu ≤ 0 then { s with voltage_tolerance_pu := 1e-2 } else s
          let s : sync_check :=
            if s.voltage_magnitude_tolerance_pu ≤ 0 then
              { s with voltage_magnitude_tolerance_pu := 1e-2 }
            else s
          let s : sync_check :=
            if s.voltage_angle_tolerance_deg ≤ 0 then { s with voltage_angle_tolerance_deg := 5 }
            else s
          let s : sync_check :=
            if s.metrics_period_sec ≤ 0 then { s with metrics_period_sec := 1.2 } else s
          Except.ok s

/-- Method `sync_check::init_norm_values`, on finite configuration values
(`init_norm_values_d` takes NaN and the infinities).  A property looked up on a null object
is not valid. -/
def init_norm_values (G : Globals) (par : Option switch_object) (s : sync_check) :
    Except SetupError sync_check :=
  match par.bind (fun p => p.from_node) with
  | none => Except.error SetupError.from_not_mapped
  | some fm =>
    let s : sync_check := { s with swt_fm_node := some fm }
    match par.bind (fun p => p.to_node) with
    | none => Except.error SetupError.to_not_mapped
    | some tn =>
      let s : sync_check := { s with swt_to_node := some tn }
      match fm.nominal_voltage with
      | none => Except.error SetupError.nominal_voltage_not_mapped
      | some volt_norm_fm =>
        match tn.nominal_voltage with
        | none => Except.error SetupError.nominal_voltage_not_mapped
        | some volt_norm_to =>
          let s : sync_check := { s with volt_norm := (volt_norm_fm + volt_norm_to) / 2 }
          if |volt_norm_fm - volt_norm_to| > s.voltage_tolerance_pu * s.volt_norm then
            Except.error SetupError.nominal_voltage_mismatch
          else
            let s : sync_check :=
              if s.delta_trigger_mult ≤ 1.0 then { s with delta_trigger_mult := 2.0 } else s
            let s : sync_check := { s with
              frequency_tolerance_hz_deltamode_trig :=
                s.delta_trigger_mult * s.frequency_tolerance_hz }
            let s : sync_check := { s with
              voltage_tolerance_pu_deltamode_trig := s.delta_trigger_mult * s.voltage_tolerance_pu }
            let s : sync_check := { s with
              voltage_magnitude_tolerance_pu_deltamode_trig :=
                s.delta_trigger_mult * s.voltage_magnitude_tolerance_pu }
            let s : sync_check := { s with
              voltage_angle_tolerance_deg_deltamode_trig :=
                s.delta_trigger_mult * s.voltage_angle_tolerance_deg }
            Except.ok { s with next_trigger_update_time := G.gl_globalclock }

/-- Method `sync_check::init_sensors`.  The phase flags are computed from the member
`phases`, after `swt_phases` has been read from the parent. -/
def init_sensors (K : Core) (par : Option switch_object) (s : sync_check) :
    Except SetupError sync_check :=
  match par.bind (fun p => p.phases) with
  | none => Except.error SetupError.phases_not_mapped
  | some ph =>
    let s : sync_check := { s with swt_phases := ph }
    let s : sync_check := { s with
      swt_ph_A_flag := decide (s.phases &&& K.PHASE_A = K.PHASE_A)
      swt_ph_B_flag := decide (s.phases &&& K.PHASE_B = K.PHASE_B)
      swt_ph_C_flag := decide (s.phases &&& K.PHASE_C = K.PHASE_C) }
    let valid (n : Option node) (f : node → Bool) : Bool :=
      match n with
      | none => false
      | some x => f x
    if valid s.swt_fm_node (fun n => n.measured_frequency_valid) = false then
      Except.error SetupError.frequency_not_mapped
    else if valid s.swt_to_node (fun n => n.measured_frequency_valid) = false then
      Except.error SetupError.frequency_not_mapped
    else if valid s.swt_fm_node (fun n => n.voltage_A_valid) = false then
      Except.error SetupError.voltage_not_mapped
    else if valid s.swt_fm_node (fun n => n.voltage_B_valid) = false then
      Except.error SetupError.voltage_not_mapped
    else if valid s.swt_fm_node (fun n => n.voltage_C_valid) = false then
      Except.error SetupError.voltage_not_mapped
    else if valid s.swt_to_node (fun n => n.voltage_A_valid) = false then
      Except.error SetupError.voltage_not_mapped
    else if valid s.swt_to_node (fun n => n.voltage_B_valid) = false then
      Except.error SetupError.voltage_not_mapped
    else if valid s.swt_to_node (fun n => n.voltage_C_valid) = false then
      Except.error SetupError.voltage_not_mapped
    else Except.ok s

/-- Method `sync_check::reg_deltamode_check` (the module-wide object counter is not part of
the object). -/
def reg_deltamode_check (G : Globals) (s : sync_check) : sync_check :=
  let s : sync_check :=
    if G.obj_flag_deltamode = true then { s with deltamode_inclusive := true } else s
  if G.enable_subsecond_models = true then
    if s.deltamode_inclusive ≠ true then s else { s with reg_dm_flag := true }
  else s

/-- Method `sync_check::init`: the four setup steps in order; the first fatal error ends
it. -/
def init (K : Core) (G : Globals) (parent : Option switch_object) (s : sync_check) :
    Except SetupError sync_check :=
  match data_sanity_check K G parent s with
  | Except.error e => Except.error e
  | Except.ok s1 =>
    match init_norm_values G parent s1 with
    | Except.error e => Except.error e
    | Except.ok s2 =>
      match init_sensors K parent s2 with
      | Except.error e => Except.error e
      | Except.ok s3 => Except.ok (reg_deltamode_check G s3)

/-! ## Measurements, dwell timer and the two entry points -/

/-- Method `sync_check::update_measurements`: both frequencies, and the phasors of the
phases whose flag is set. -/
def update_measurements (s : sync_check) (b : bus_values) : sync_check :=
  let s : sync_check := { s with swt_fm_node_freq := b.fm_node_freq }
  let s : sync_check := { s with swt_to_node_freq := b.to_node_freq }
  let s : sync_check :=
    if s.swt_ph_A_flag = true then
      { s with swt_fm_volt_A := b.fm_node_volt_A, swt_to_volt_A := b.to_node_volt_A }
    else s
  let s : sync_check :=
    if s.swt_ph_B_flag = true then
      { s with swt_fm_volt_B := b.fm_node_volt_B, swt_to_volt_B := b.to_node_volt_B }
    else s
  if s.swt_ph_C_flag = true then
    { s with swt_fm_volt_C := b.fm_node_volt_C, swt_to_volt_C := b.to_node_volt_C }
  else s

/-- Method `sync_check::reset_after_excitation`. -/
def reset_after_excitation (s : sync_check) : sync_check :=
  { s with sc_enabled_flag := false, metrics_flag := false, t_sat := 0 }

/-- Method `sync_check::check_excitation`, with exact sums (`check_excitation_d` rounds
them). -/
def check_excitation (K : Core) (s : sync_check) (dt : ℕ) : sync_check :=
  let dt_dm_sec : ℚ := (dt : ℚ) / (K.DT_SECOND : ℚ)
  let s : sync_check :=
    if s.metrics_flag = true then { s with t_sat := s.t_sat + dt_dm_sec }
    else { s with t_sat := 0 }
  if s.t_sat ≥ s.metrics_period_sec then
    let swt_cmd := K.LS_CLOSED
    let s : sync_check :=
      { s with swt_status := swt_cmd, swt_status_writes := s.swt_status_writes + 1 }
    reset_after_excitation s
  else s

/-- Method `sync_check::inter_deltaupdate_sync_check`: the new state and the returned
mode.  The argument `delta_time` is not used by the method. -/
def inter_deltaupdate_sync_check (K : Core) (s : sync_check) (b : bus_values)
    (_delta_time : ℕ) (dt : ℕ) (iteration_count_val : ℕ) (interupdate_pos : Bool) :
    sync_check × SIMULATIONMODE :=
  let s : sync_check :=
    if s.sc_enabled_flag = true then
      if iteration_count_val = 0 ∧ interupdate_pos = false then
        let s : sync_check := update_measurements s b
        let s : sync_check := check_metrics K s true
        let s : sync_check :=
          if s.deltamode_trigger_keep_flag = true then
            { s with deltamode_check_return_val := SIMULATIONMODE.SM_DELTA }
          else
            { s with deltamode_check_return_val := SIMULATIONMODE.SM_EVENT }
        let s : sync_check := check_metrics K s false
        check_excitation K s dt
      else s
    else
      { s with
        deltamode_trigger_keep_flag := false
        deltamode_check_return_val := SIMULATIONMODE.SM_EVENT
        t_sat := 0.0 }
  (s, s.deltamode_check_return_val)

/-- Method `sync_check::postsync`; `tret0` is the time returned by
`powerflow_object::postsync(t0)`.  The result is the new state and the returned time.  The
sum `t0 + 1` is over unbounded integers (`postsync_d` wraps it at 64 bits). -/
def postsync (K : Core) (s : sync_check) (b : bus_values) (t0 : TIMESTAMP) (tret0 : TIMESTAMP) :
    sync_check × TIMESTAMP :=
  if s.next_trigger_update_time ≤ t0 then
    let s : sync_check := { s with t_sat := 0.0 }
    let s : sync_check := { s with next_trigger_update_time := t0 + 1 }
    if s.sc_enabled_flag = true then
      let s : sync_check := update_measurements s b
      let s : sync_check := check_metrics K s true
      if s.deltamode_trigger_keep_flag = true then
        let s : sync_check := { s with deltamode_starts := s.deltamode_starts ++ [t0] }
        let s : sync_check := { s with deltamode_check_return_val := SIMULATIONMODE.SM_EVENT }
        (s, t0)
      else (s, tret0)
    else
      let s : sync_check := { s with
        deltamode_trigger_keep_flag := false
        deltamode_check_return_val := SIMULATIONMODE.SM_EVENT }
      (s, tret0)
  else (s, tret0)

/-! ## The setup methods, block by block

The blocks of `data_sanity_check`, `init_norm_values` and `init_sensors` as separate
functions; `data_sanity_check_eq` and `init_norm_values_eq` state that the methods are their
composition. -/

/-- Block of `data_sanity_check` that binds the switch status and disarms the monitor when
the switch is not open. -/
def dsc_status (K : Core) (swt_init_status : enumeration) (s : sync_check) : sync_check :=
  let s : sync_check := { s with swt_status := swt_init_status }
  if s.sc_enabled_flag = true then
    if swt_init_status ≠ K.LS_OPEN then { s with sc_enabled_flag := false } else s
  else s

/-- Block of `data_sanity_check` on `frequency_tolerance_hz`. -/
def dsc_freq (G : Globals) (s : sync_check) : Except SetupError sync_check :=
  if s.frequency_tolerance_hz ≤ 0 then
    match G.nominal_frequency with
    | none => Except.error SetupError.nominal_frequency_not_mapped
    | some temp_freq_val =>
      Except.ok { s with frequency_tolerance_hz := 0.01 * temp_freq_val }
  else Except.ok s

/-- Block of `data_sanity_check` on `voltage_tolerance_pu`. -/
def dsc_volt (s : sync_check) : sync_check :=
  if s.voltage_tolerance_pu ≤ 0 then { s with voltage_tolerance_pu := 1e-2 } else s

/-- Block of `data_sanity_check` on `voltage_magnitude_tolerance_pu`. -/
def dsc_vmag (s : sync_check) : sync_check :=
  if s.voltage_magnitude_tolerance_pu ≤ 0 then { s with voltage_magnitude_tolerance_pu := 1e-2 }
  else s

/-- Block of `data_sanity_check` on `voltage_angle_tolerance_deg`. -/
def dsc_vang (s : sync_check) : sync_check :=
  if s.voltage_angle_tolerance_deg ≤ 0 then { s with voltage_angle_tolerance_deg := 5 } else s

/-- Block of `data_sanity_check` on `metrics_period_sec`. -/
def dsc_period (s : sync_check) : sync_check :=
  if s.metrics_period_sec ≤ 0 then { s with metrics_period_sec := 1.2 } else s

/-- The four blocks of `data_sanity_check` that follow the frequency tolerance, in order. -/
def dsc_rest (s : sync_check) : sync_check :=
  dsc_period (dsc_vang (dsc_vmag (dsc_volt s)))

/-- Block of `init_norm_values` that stores the two bus references and `volt_norm`. -/
def inv_nodes (fm tn : node) (volt_norm_fm volt_norm_to : ℚ) (s : sync_check) : sync_check :=
  { s with
    swt_fm_node := some fm
    swt_to_node := some tn
    volt_norm := (volt_norm_fm + volt_norm_to) / 2 }

/-- Blocks of `init_norm_values` after the consistency check: the default of the trigger
multiplier, the four relaxed tolerances and the first trigger time. -/
def inv_tail (G : Globals) (s : sync_check) : sync_check :=
  let s : sync_check :=
    if s.delta_trigger_mult ≤ 1.0 then { s with delta_trigger_mult := 2.0 } else s
  let s : sync_check := { s with
    frequency_tolerance_hz_deltamode_trig := s.delta_trigger_mult * s.frequency_tolerance_hz }
  let s : sync_check := { s with
    voltage_tolerance_pu_deltamode_trig := s.delta_trigger_mult * s.voltage_tolerance_pu }
  let s : sync_check := { s with
    voltage_magnitude_tolerance_pu_deltamode_trig :=
      s.delta_trigger_mult * s.voltage_magnitude_tolerance_pu }
  let s : sync_check := { s with
    voltage_angle_tolerance_deg_deltamode_trig :=
      s.delta_trigger_mult * s.voltage_angle_tolerance_deg }
  { s with next_trigger_update_time := G.gl_globalclock }

/-- The assignments of `init_sensors`: `swt_phases` and the three phase flags. -/
def sensors_state (K : Core) (ph : ℕ) (s : sync_check) : sync_check :=
  { s with
    swt_phases := ph
    swt_ph_A_flag := decide (s.phases &&& K.PHASE_A = K.PHASE_A)
    swt_ph_B_flag := decide (s.phases &&& K.PHASE_B = K.PHASE_B)
    swt_ph_C_flag := decide (s.phases &&& K.PHASE_C = K.PHASE_C) }

/-- The first two steps of `init`, which the claims call setup: `data_sanity_check`
followed by `init_norm_values`. -/
def setup_steps (K : Core) (G : Globals) (par : Option switch_object) (s : sync_check) :
    Except SetupError sync_check :=
  match data_sanity_check K G par s with
  | Except.error e => Except.error e
  | Except.ok s1 => init_norm_values G par s1

/-! ## Runs of evaluating sub-steps -/

/-- One evaluating fine sub-step: the state after `inter_deltaupdate_sync_check` called
with `iteration_count_val = 0` and `interupdate_pos = false`. -/
def tick (K : Core) (s : sync_check) (b : bus_values) (dt : ℕ) : sync_check :=
  (inter_deltaupdate_sync_check K s b 0 dt 0 false).1

/-- State after the first `n` evaluating fine sub-steps of a run in which sub-step `k`
(counted from 0) sees the bus values `bs k` and every sub-step has length `dt`. -/
def run_ticks (K : Core) (s : sync_check) (bs : ℕ → bus_values) (dt : ℕ) : ℕ → sync_check
  | 0 => s
  | n + 1 => tick K (run_ticks K s bs dt n) (bs n) dt

/-- Tick `n`, counted from 1, of the run issues the close command: it writes the switch
status. -/
def closes_at (K : Core) (s : sync_check) (bs : ℕ → bus_values) (dt : ℕ) (n : ℕ) : Prop :=
  (run_ticks K s bs dt n).swt_status_writes
    = (run_ticks K s bs dt (n - 1)).swt_status_writes + 1

/-! ## Vocabulary of the claims -/

/-- The state `s` with another measurement snapshot. -/
def with_snapshot (s : sync_check) (b : bus_values) : sync_check :=
  { s with
    swt_fm_node_freq := b.fm_node_freq
    swt_to_node_freq := b.to_node_freq
    swt_fm_volt_A := b.fm_node_volt_A
    swt_fm_volt_B := b.fm_node_volt_B
    swt_fm_volt_C := b.fm_node_volt_C
    swt_to_volt_A := b.to_node_volt_A
    swt_to_volt_B := b.to_node_volt_B
    swt_to_volt_C := b.to_node_volt_C }

/-- The four strict tolerances are strictly positive. -/
def strict_tolerances_pos (s : sync_check) : Prop :=
  0 < s.frequency_tolerance_hz ∧ 0 < s.voltage_tolerance_pu
    ∧ 0 < s.voltage_magnitude_tolerance_pu ∧ 0 < s.voltage_angle_tolerance_deg

/-- The stored phasors of the two buses are equal on each of the three phases. -/
def phasors_identical (s : sync_check) : Prop :=
  s.swt_fm_volt_A = s.swt_to_volt_A ∧ s.swt_fm_volt_B = s.swt_to_volt_B
    ∧ s.swt_fm_volt_C = s.swt_to_volt_C

/-- Both buses of the stored snapshot are identical: equal frequencies and equal phasors
on the three phases. -/
def buses_identical (s : sync_check) : Prop :=
  s.swt_fm_node_freq = s.swt_to_node_freq ∧ phasors_identical s

/-- The stored phasors of every phase whose flag is not set are zero. -/
def inactive_phasors_zero (s : sync_check) : Prop :=
  (s.swt_ph_A_flag = false → s.swt_fm_volt_A = ⟨0, 0⟩ ∧ s.swt_to_volt_A = ⟨0, 0⟩)
    ∧ (s.swt_ph_B_flag = false → s.swt_fm_volt_B = ⟨0, 0⟩ ∧ s.swt_to_volt_B = ⟨0, 0⟩)
    ∧ (s.swt_ph_C_flag = false → s.swt_fm_volt_C = ⟨0, 0⟩ ∧ s.swt_to_volt_C = ⟨0, 0⟩)

/-- All per-phase voltage differences that `check_metrics` computes in the active mode are
zero: the magnitude of the phasor difference in `MAG_DIFF` mode, the magnitude difference
and the angle difference in `SEP_DIFF` mode. -/
def volt_diffs_zero (K : Core) (s : sync_check) : Prop :=
  if s.volt_compare_mode = VOLT_COMPARE_MODE.MAG_DIFF then
    K.Mag (s.swt_fm_volt_A - s.swt_to_volt_A) = 0
      ∧ K.Mag (s.swt_fm_volt_B - s.swt_to_volt_B) = 0
      ∧ K.Mag (s.swt_fm_volt_C - s.swt_to_volt_C) = 0
  else
    (|K.Mag s.swt_fm_volt_A - K.Mag s.swt_to_volt_A| = 0
        ∧ ang_deg_diff (K.Arg s.swt_fm_volt_A) (K.Arg s.swt_to_volt_A) = 0)
      ∧ (|K.Mag s.swt_fm_volt_B - K.Mag s.swt_to_volt_B| = 0
        ∧ ang_deg_diff (K.Arg s.swt_fm_volt_B) (K.Arg s.swt_to_volt_B) = 0)
      ∧ (|K.Mag s.swt_fm_volt_C - K.Mag s.swt_to_volt_C| = 0
        ∧ ang_deg_diff (K.Arg s.swt_fm_volt_C) (K.Arg s.swt_to_volt_C) = 0)

/-- The wrap of a raw angle difference in degrees, in the words of the claims: a raw
difference above 180 is replaced by 360 minus it. -/
def wrap_deg (raw : ℚ) : ℚ := if raw > 180 then 360 - raw else raw

/-- What setup establishes on the configuration: positive voltage tolerances and dwell
period, a trigger multiplier above one, and relaxed tolerances equal to the multiplier
times the strict ones. -/
def setup_invariant (s : sync_check) : Prop :=
  0 < s.voltage_tolerance_pu ∧ 0 < s.voltage_magnitude_tolerance_pu
    ∧ 0 < s.voltage_angle_tolerance_deg ∧ 0 < s.metrics_period_sec
    ∧ 1 < s.delta_trigger_mult
    ∧ s.frequency_tolerance_hz_deltamode_trig = s.delta_trigger_mult * s.frequency_tolerance_hz
    ∧ s.voltage_tolerance_pu_deltamode_trig = s.delta_trigger_mult * s.voltage_tolerance_pu
    ∧ s.voltage_magnitude_tolerance_pu_deltamode_trig
        = s.delta_trigger_mult * s.voltage_magnitude_tolerance_pu
    ∧ s.voltage_angle_tolerance_deg_deltamode_trig
        = s.delta_trigger_mult * s.voltage_angle_tolerance_deg

/-- The fields read by the strict check agree in the two states. -/
def strict_inputs_eq (s r : sync_check) : Prop :=
  r.volt_compare_mode = s.volt_compare_mode
    ∧ r.frequency_tolerance_hz = s.frequency_tolerance_hz
    ∧ r.voltage_tolerance_pu = s.voltage_tolerance_pu
    ∧ r.voltage_magnitude_tolerance_pu = s.voltage_magnitude_tolerance_pu
    ∧ r.voltage_angle_tolerance_deg = s.voltage_angle_tolerance_deg
    ∧ r.volt_norm = s.volt_norm
    ∧ r.swt_fm_node_freq = s.swt_fm_node_freq ∧ r.swt_to_node_freq = s.swt_to_node_freq
    ∧ r.swt_fm_volt_A = s.swt_fm_volt_A ∧ r.swt_to_volt_A = s.swt_to_volt_A
    ∧ r.swt_fm_volt_B = s.swt_fm_volt_B ∧ r.swt_to_volt_B = s.swt_to_volt_B
    ∧ r.swt_fm_volt_C = s.swt_fm_volt_C ∧ r.swt_to_volt_C = s.swt_to_volt_C

/-- The two states have the same strict configuration, dwell period, phase flags and
stored phasors of the inactive phases. -/
def same_setup (s r : sync_check) : Prop :=
  r.volt_compare_mode = s.volt_compare_mode
    ∧ r.frequency_tolerance_hz = s.frequency_tolerance_hz
    ∧ r.voltage_tolerance_pu = s.voltage_tolerance_pu
    ∧ r.voltage_magnitude_tolerance_pu = s.voltage_magnitude_tolerance_pu
    ∧ r.voltage_angle_tolerance_deg = s.voltage_angle_tolerance_deg
    ∧ r.volt_norm = s.volt_norm
    ∧ r.metrics_period_sec = s.metrics_period_sec
    ∧ r.swt_ph_A_flag = s.swt_ph_A_flag ∧ r.swt_ph_B_flag = s.swt_ph_B_flag
    ∧ r.swt_ph_C_flag = s.swt_ph_C_flag
    ∧ (s.swt_ph_A_flag = false →
        r.swt_fm_volt_A = s.swt_fm_volt_A ∧ r.swt_to_volt_A = s.swt_to_volt_A)
    ∧ (s.swt_ph_B_flag = false →
        r.swt_fm_volt_B = s.swt_fm_volt_B ∧ r.swt_to_volt_B = s.swt_to_volt_B)
    ∧ (s.swt_ph_C_flag = false →
        r.swt_fm_volt_C = s.swt_fm_volt_C ∧ r.swt_to_volt_C = s.swt_to_volt_C)

/-! ## The claims that fail as they are stated -/

/-- Claim C1 as it is stated, at one core and state (of either mode): identical buses and
strictly positive strict tolerances give a passing strict check. -/
def C1_as_stated (K : Core) (s : sync_check) : Prop :=
  buses_identical s → strict_tolerances_pos s → (check_metrics K s false).metrics_flag = true

/-- Claim C2 as it is stated, at one core and state: with all voltage differences zero and
strictly positive tolerances, the strict check passes exactly when the frequency difference
is within its tolerance. -/
def C2_as_stated (K : Core) (s : sync_check) : Prop :=
  volt_diffs_zero K s → strict_tolerances_pos s →
    ((check_metrics K s false).metrics_flag = true
      ↔ |s.swt_fm_node_freq - s.swt_to_node_freq| ≤ s.frequency_tolerance_hz)

/-- Claim C3 as it is stated, at one core and state; the per-unit quotient is the
division of the code. -/
def C3_as_stated (K : Core) (s : sync_check) : Prop :=
  s.volt_compare_mode = VOLT_COMPARE_MODE.MAG_DIFF → inactive_phasors_zero s →
    ((check_metrics K s false).metrics_flag = true
      ↔ |s.swt_fm_node_freq - s.swt_to_node_freq| ≤ s.frequency_tolerance_hz
        ∧ (s.swt_ph_A_flag = true →
            (fdiv (K.Mag (s.swt_fm_volt_A - s.swt_to_volt_A)) s.volt_norm).le
              s.voltage_tolerance_pu = true)
        ∧ (s.swt_ph_B_flag = true →
            (fdiv (K.Mag (s.swt_fm_volt_B - s.swt_to_volt_B)) s.volt_norm).le
              s.voltage_tolerance_pu = true)
        ∧ (s.swt_ph_C_flag = true →
            (fdiv (K.Mag (s.swt_fm_volt_C - s.swt_to_volt_C)) s.volt_norm).le
              s.voltage_tolerance_pu = true))

/-- Claim C4 as it is stated, at one core and state; the per-unit quotient is the
division of the code. -/
def C4_as_stated (K : Core) (s : sync_check) : Prop :=
  s.volt_compare_mode = VOLT_COMPARE_MODE.SEP_DIFF → inactive_phasors_zero s →
    ((check_metrics K s false).metrics_flag = true
      ↔ |s.swt_fm_node_freq - s.swt_to_node_freq| ≤ s.frequency_tolerance_hz
        ∧ (s.swt_ph_A_flag = true →
            (fdiv |K.Mag s.swt_fm_volt_A - K.Mag s.swt_to_volt_A| s.volt_norm).le
                s.voltage_magnitude_tolerance_pu = true
              ∧ wrap_deg (RAD_TO_DEG |K.Arg s.swt_fm_volt_A - K.Arg s.swt_to_volt_A|)
                ≤ s.voltage_angle_tolerance_deg)
        ∧ (s.swt_ph_B_flag = true →
            (fdiv |K.Mag s.swt_fm_volt_B - K.Mag s.swt_to_volt_B| s.volt_norm).le
                s.voltage_magnitude_tolerance_pu = true
              ∧ wrap_deg (RAD_TO_DEG |K.Arg s.swt_fm_volt_B - K.Arg s.swt_to_volt_B|)
                ≤ s.voltage_angle_tolerance_deg)
        ∧ (s.swt_ph_C_flag = true →
            (fdiv |K.Mag s.swt_fm_volt_C - K.Mag s.swt_to_volt_C| s.volt_norm).le
                s.voltage_magnitude_tolerance_pu = true
              ∧ wrap_deg (RAD_TO_DEG |K.Arg s.swt_fm_volt_C - K.Arg s.swt_to_volt_C|)
                ≤ s.voltage_angle_tolerance_deg))

/-- Claim C7 as it is stated, on the state after setup: each relaxed tolerance is the
multiplier times the strict tolerance and is at least the strict tolerance. -/
def C7_as_stated (s : sync_check) : Prop :=
  (s.frequency_tolerance_hz_deltamode_trig = s.delta_trigger_mult * s.frequency_tolerance_hz
      ∧ s.frequency_tolerance_hz_deltamode_trig ≥ s.frequency_tolerance_hz)
    ∧ (s.voltage_tolerance_pu_deltamode_trig = s.delta_trigger_mult * s.voltage_tolerance_pu
      ∧ s.voltage_tolerance_pu_deltamode_trig ≥ s.voltage_tolerance_pu)
    ∧ (s.voltage_magnitude_tolerance_pu_deltamode_trig
          = s.delta_trigger_mult * s.voltage_magnitude_tolerance_pu
      ∧ s.voltage_magnitude_tolerance_pu_deltamode_trig ≥ s.voltage_magnitude_tolerance_pu)
    ∧ (s.voltage_angle_tolerance_deg_deltamode_trig
          = s.delta_trigger_mult * s.voltage_angle_tolerance_deg
      ∧ s.voltage_angle_tolerance_deg_deltamode_trig ≥ s.voltage_angle_tolerance_deg)

/-! ## A concrete core and concrete objects, for running the model -/

/-- Rational stand-in for `atan` on `[-1, 1]`: exact at `-1`, `0` and `1`. -/
def atan_unit (x : ℚ) : ℚ := M_PI / 4 * x + 273 / 1000 * x * (1 - |x|)

/-- Rational stand-in for `atan`. -/
def atan_q (x : ℚ) : ℚ :=
  if |x| ≤ 1 then atan_unit x
  else if 0 < x then M_PI / 2 - atan_unit (1 / x)
  else -(M_PI / 2) - atan_unit (1 / x)

/-- A concrete core: magnitude by the rational square root, argument in `(-pi, pi]` by
quadrant from `atan_q`, nanosecond deltamode time units, `LS_OPEN = 0`, `LS_CLOSED = 1`,
phase bits 1, 2 and 4. -/
def stdCore : Core where
  Mag z := Rat.sqrt (z.Re * z.Re + z.Im * z.Im)
  Arg z :=
    if z.Re = 0 then
      if 0 < z.Im then M_PI / 2 else if z.Im = 0 then 0 else -(M_PI / 2)
    else if 0 < z.Re then atan_q (z.Im / z.Re)
    else if 0 ≤ z.Im then M_PI + atan_q (z.Im / z.Re)
    else -M_PI + atan_q (z.Im / z.Re)
  DT_SECOND := 1000000000
  LS_OPEN := 0
  LS_CLOSED := 1
  PHASE_A := 1
  PHASE_B := 2
  PHASE_C := 4

/-- Globals of a run with the given nominal frequency, clock at 0 and deltamode enabled. -/
def globals_at (nominal_frequency : ℚ) : Globals :=
  { nominal_frequency := some nominal_frequency
    gl_globalclock := 0
    obj_flag_deltamode := true
    enable_subsecond_models := true }

/-- A bus with the given nominal voltage and all measured properties mapped. -/
def bus_at (nominal_voltage : ℚ) : node :=
  { nominal_voltage := some nominal_voltage
    measured_frequency_valid := true
    voltage_A_valid := true
    voltage_B_valid := true
    voltage_C_valid := true }

/-- An open three-phase switch between two buses with the given nominal voltages. -/
def open_switch (volt_fm volt_to : ℚ) : switch_object :=
  { is_switch := true
    status := some stdCore.LS_OPEN
    phases := some 7
    from_node := some (bus_at volt_fm)
    to_node := some (bus_at volt_to) }

/-- Object memory before `create`: everything zero, with the given inherited `phases`. -/
def blank (phases : ℕ) : sync_check :=
  { sc_enabled_flag := false
    frequency_tolerance_hz := 0
    voltage_tolerance_pu := 0
    metrics_period_sec := 0
    volt_compare_mode := VOLT_COMPARE_MODE.MAG_DIFF
    voltage_magnitude_tolerance_pu := 0
    voltage_angle_tolerance_deg := 0
    delta_trigger_mult := 0
    frequency_tolerance_hz_deltamode_trig := 0
    voltage_tolerance_pu_deltamode_trig := 0
    voltage_magnitude_tolerance_pu_deltamode_trig := 0
    voltage_angle_tolerance_deg_deltamode_trig := 0
    deltamode_trigger_keep_flag := false
    deltamode_check_return_val := SIMULATIONMODE.SM_INIT
    next_trigger_update_time := 0
    reg_dm_flag := false
    deltamode_inclusive := false
    metrics_flag := false
    t_sat := 0
    volt_norm := 0
    swt_fm_node := none
    swt_to_node := none
    swt_fm_node_freq := 0
    swt_to_node_freq := 0
    swt_fm_volt_A := ⟨0, 0⟩
    swt_fm_volt_B := ⟨0, 0⟩
    swt_fm_volt_C := ⟨0, 0⟩
    swt_to_volt_A := ⟨0, 0⟩
    swt_to_volt_B := ⟨0, 0⟩
    swt_to_volt_C := ⟨0, 0⟩
    swt_phases := 0
    swt_ph_A_flag := false
    swt_ph_B_flag := false
    swt_ph_C_flag := false
    phases := phases
    swt_status := 0
    swt_status_writes := 0
    deltamode_starts := [] }

/-- Configuration step that arms the monitor and selects a compare mode. -/
def arm (m : VOLT_COMPARE_MODE) (s : sync_check) : sync_check :=
  { s with sc_enabled_flag := true, volt_compare_mode := m }

/-- The methods `create` and `init` in sequence, with the configuration of the published
properties in between. -/
def create_and_init (K : Core) (G : Globals) (parent : Option switch_object)
    (configure : sync_check → sync_check) (s : sync_check) : Except SetupError sync_check :=
  match init_vars G s with
  | Except.error e => Except.error e
  | Except.ok s1 => init K G parent (configure s1)

/-- The state that `init_vars` produces from `blank ph` at nominal frequency `f`. -/
def created (f : ℚ) (ph : ℕ) : sync_check :=
  { blank ph with
    frequency_tolerance_hz := f / 100
    voltage_tolerance_pu := 1 / 100
    metrics_period_sec := 6 / 5
    voltage_magnitude_tolerance_pu := 1 / 100
    voltage_angle_tolerance_deg := 5
    delta_trigger_mult := 2
    deltamode_check_return_val := SIMULATIONMODE.SM_EVENT }

/-- The state reached by `create`, arming in mode `m`, and `init` on an open three-phase
switch between two buses of nominal voltage `v`, at nominal frequency `f` and with the
inherited `phases` equal to `ph` (see `create_and_init_sample`). -/
def after_setup (m : VOLT_COMPARE_MODE) (f v : ℚ) (ph : ℕ) : sync_check :=
  { sc_enabled_flag := true
    frequency_tolerance_hz := f / 100
    voltage_tolerance_pu := 1 / 100
    metrics_period_sec := 6 / 5
    volt_compare_mode := m
    voltage_magnitude_tolerance_pu := 1 / 100
    voltage_angle_tolerance_deg := 5
    delta_trigger_mult := 2
    frequency_tolerance_hz_deltamode_trig := f / 50
    voltage_tolerance_pu_deltamode_trig := 1 / 50
    voltage_magnitude_tolerance_pu_deltamode_trig := 1 / 50
    voltage_angle_tolerance_deg_deltamode_trig := 10
    deltamode_trigger_keep_flag := false
    deltamode_check_return_val := SIMULATIONMODE.SM_EVENT
    next_trigger_update_time := 0
    reg_dm_flag := true
    deltamode_inclusive := true
    metrics_flag := false
    t_sat := 0
    volt_norm := v
    swt_fm_node := some (bus_at v)
    swt_to_node := some (bus_at v)
    swt_fm_node_freq := 0
    swt_to_node_freq := 0
    swt_fm_volt_A := ⟨0, 0⟩
    swt_fm_volt_B := ⟨0, 0⟩
    swt_fm_volt_C := ⟨0, 0⟩
    swt_to_volt_A := ⟨0, 0⟩
    swt_to_volt_B := ⟨0, 0⟩
    swt_to_volt_C := ⟨0, 0⟩
    swt_phases := 7
    swt_ph_A_flag := decide (ph &&& 1 = 1)
    swt_ph_B_flag := decide (ph &&& 2 = 2)
    swt_ph_C_flag := decide (ph &&& 4 = 4)
    phases := ph
    swt_status := 0
    swt_status_writes := 0
    deltamode_starts := [] }

/-- The state `after_setup m f v ph` before `init_sensors` and `reg_deltamode_check`. -/
def after_steps (m : VOLT_COMPARE_MODE) (f v : ℚ) (ph : ℕ) : sync_check :=
  { after_setup m f v ph with
    swt_phases := 0
    swt_ph_A_flag := false
    swt_ph_B_flag := false
    swt_ph_C_flag := false
    reg_dm_flag := false
    deltamode_inclusive := false }

/-- Bus values with identical phasors of 7200 V on both sides, at 60 Hz. -/
def steady_bus : bus_values :=
  ⟨60, 60, ⟨7200, 0⟩, ⟨0, 7200⟩, ⟨0, -7200⟩, ⟨7200, 0⟩, ⟨0, 7200⟩, ⟨0, -7200⟩⟩

/-! ## Sequences of calls, frames and vocabulary of the claims on the state machine and on setup -/

/-- One call of an entry point of the monitor by the scheduler. -/
inductive call where
  | postsync (b : bus_values) (t0 tret0 : TIMESTAMP)
  | inter_deltaupdate (b : bus_values) (delta_time dt iteration_count_val : ℕ)
      (interupdate_pos : Bool)

/-- State after one call. -/
def do_call (K : Core) (s : sync_check) : call → sync_check
  | call.postsync b t0 tret0 => (postsync K s b t0 tret0).1
  | call.inter_deltaupdate b delta_time dt iteration_count_val interupdate_pos =>
    (inter_deltaupdate_sync_check K s b delta_time dt iteration_count_val interupdate_pos).1

/-- State after a sequence of calls, with no write to the object from outside in between. -/
def run_calls (K : Core) (s : sync_check) : List call → sync_check
  | [] => s
  | c :: cs => run_calls K (do_call K s c) cs

/-- The state in which `postsync` evaluates the relaxed check on a due tick of an armed
monitor: accumulator reset, next trigger time set, snapshot refreshed, relaxed check run. -/
def postsync_eval (K : Core) (s : sync_check) (b : bus_values) (t0 : TIMESTAMP) : sync_check :=
  check_metrics K
    (update_measurements { s with t_sat := 0, next_trigger_update_time := t0 + 1 } b) true

/-- The request made by `postsync` when the relaxed check of `u` has passed at `t0`. -/
def postsync_request (u : sync_check) (t0 : TIMESTAMP) : sync_check :=
  { u with
    deltamode_starts := u.deltamode_starts ++ [t0]
    deltamode_check_return_val := SIMULATIONMODE.SM_EVENT }

/-- The two states agree on everything setup fixes: the strict configuration, dwell period,
`volt_norm`, phase flags and stored phasors of inactive phases (`same_setup`), the relaxed
tolerances and the trigger multiplier. -/
def same_config (s r : sync_check) : Prop :=
  same_setup s r
    ∧ r.frequency_tolerance_hz_deltamode_trig = s.frequency_tolerance_hz_deltamode_trig
    ∧ r.voltage_tolerance_pu_deltamode_trig = s.voltage_tolerance_pu_deltamode_trig
    ∧ r.voltage_magnitude_tolerance_pu_deltamode_trig
        = s.voltage_magnitude_tolerance_pu_deltamode_trig
    ∧ r.voltage_angle_tolerance_deg_deltamode_trig
        = s.voltage_angle_tolerance_deg_deltamode_trig
    ∧ r.delta_trigger_mult = s.delta_trigger_mult

/-- The state `s` with the fields that setup may assign taken from `r`. -/
def with_setup_fields (s r : sync_check) : sync_check :=
  { s with
    sc_enabled_flag := r.sc_enabled_flag
    frequency_tolerance_hz := r.frequency_tolerance_hz
    voltage_tolerance_pu := r.voltage_tolerance_pu
    metrics_period_sec := r.metrics_period_sec
    voltage_magnitude_tolerance_pu := r.voltage_magnitude_tolerance_pu
    voltage_angle_tolerance_deg := r.voltage_angle_tolerance_deg
    delta_trigger_mult := r.delta_trigger_mult
    frequency_tolerance_hz_deltamode_trig := r.frequency_tolerance_hz_deltamode_trig
    voltage_tolerance_pu_deltamode_trig := r.voltage_tolerance_pu_deltamode_trig
    voltage_magnitude_tolerance_pu_deltamode_trig :=
      r.voltage_magnitude_tolerance_pu_deltamode_trig
    voltage_angle_tolerance_deg_deltamode_trig := r.voltage_angle_tolerance_deg_deltamode_trig
    next_trigger_update_time := r.next_trigger_update_time
    reg_dm_flag := r.reg_dm_flag
    deltamode_inclusive := r.deltamode_inclusive
    volt_norm := r.volt_norm
    swt_fm_node := r.swt_fm_node
    swt_to_node := r.swt_to_node
    swt_phases := r.swt_phases
    swt_ph_A_flag := r.swt_ph_A_flag
    swt_ph_B_flag := r.swt_ph_B_flag
    swt_ph_C_flag := r.swt_ph_C_flag
    swt_status := r.swt_status }

/-- The snapshot stored in a state. -/
def snapshot_of (s : sync_check) : bus_values :=
  { fm_node_freq := s.swt_fm_node_freq
    to_node_freq := s.swt_to_node_freq
    fm_node_volt_A := s.swt_fm_volt_A
    fm_node_volt_B := s.swt_fm_volt_B
    fm_node_volt_C := s.swt_fm_volt_C
    to_node_volt_A := s.swt_to_volt_A
    to_node_volt_B := s.swt_to_volt_B
    to_node_volt_C := s.swt_to_volt_C }

/-- The state `s` with the dwell accumulator set to `t`. -/
def with_t_sat (s : sync_check) (t : ℚ) : sync_check := { s with t_sat := t }

/-- The armed sample object with 0.2 s on the dwell accumulator: one compliant second
reaches the dwell period of 1.2 s. -/
def near_close : sync_check := with_t_sat (after_setup VOLT_COMPARE_MODE.MAG_DIFF 60 7200 7) (1 / 5)

/-- The sample object after setup, disarmed, with 0.7 s left on the accumulator. -/
def disarmed_sample : sync_check :=
  { with_t_sat (after_setup VOLT_COMPARE_MODE.MAG_DIFF 60 7200 7) (7 / 10) with
    sc_enabled_flag := false }

/-- A three-phase switch that is closed, between two buses with the given nominal
voltages. -/
def closed_switch (volt_fm volt_to : ℚ) : switch_object :=
  { is_switch := true
    status := some stdCore.LS_CLOSED
    phases := some 7
    from_node := some (bus_at volt_fm)
    to_node := some (bus_at volt_to) }

/-- Claim C15 as it is stated, on the state after setup: the five tolerances and the dwell
period are strictly positive and the trigger multiplier is above one. -/
def C15_as_stated (s : sync_check) : Prop :=
  0 < s.frequency_tolerance_hz ∧ 0 < s.voltage_tolerance_pu
    ∧ 0 < s.voltage_magnitude_tolerance_pu ∧ 0 < s.voltage_angle_tolerance_deg
    ∧ 0 < s.metrics_period_sec ∧ 1 < s.delta_trigger_mult

/-- A configuration in which every corrected field is invalid. -/
def unset_config : sync_check :=
  { arm VOLT_COMPARE_MODE.MAG_DIFF (created 60 7) with
    frequency_tolerance_hz := 0
    voltage_tolerance_pu := -1
    voltage_magnitude_tolerance_pu := 0
    voltage_angle_tolerance_deg := -5
    metrics_period_sec := 0
    delta_trigger_mult := 1 }

/-- The configuration step changes published properties only: `armed`,
`frequency_tolerance`, `voltage_tolerance`, `metrics_period`, `volt_compare_mode`,
`voltage_magnitude_tolerance`, `voltage_angle_tolerance` and `delta_trigger_mult`. -/
def published_only (configure : sync_check → sync_check) : Prop :=
  ∀ x, configure x = { x with
    sc_enabled_flag := (configure x).sc_enabled_flag
    frequency_tolerance_hz := (configure x).frequency_tolerance_hz
    voltage_tolerance_pu := (configure x).voltage_tolerance_pu
    metrics_period_sec := (configure x).metrics_period_sec
    volt_compare_mode := (configure x).volt_compare_mode
    voltage_magnitude_tolerance_pu := (configure x).voltage_magnitude_tolerance_pu
    voltage_angle_tolerance_deg := (configure x).voltage_angle_tolerance_deg
    delta_trigger_mult := (configure x).delta_trigger_mult }

/-- States reachable after setup: `create`, a configuration of the published properties
and a successful `init`, followed by any sequence of calls of the two entry points. -/
def reachable_after_setup (K : Core) (s : sync_check) : Prop :=
  ∃ (G : Globals) (parent : Option switch_object) (configure : sync_check → sync_check)
    (s_pre s0 : sync_check) (cs : List call),
    published_only configure
      ∧ create_and_init K G parent configure s_pre = Except.ok s0
      ∧ s = run_calls K s0 cs

/-- All six stored phasors are zero. -/
def phasors_zero (s : sync_check) : Prop :=
  s.swt_fm_volt_A = ⟨0, 0⟩ ∧ s.swt_to_volt_A = ⟨0, 0⟩
    ∧ s.swt_fm_volt_B = ⟨0, 0⟩ ∧ s.swt_to_volt_B = ⟨0, 0⟩
    ∧ s.swt_fm_volt_C = ⟨0, 0⟩ ∧ s.swt_to_volt_C = ⟨0, 0⟩

/-- The state in which an armed monitor calls `check_excitation` on an evaluating fine
sub-step: snapshot refreshed, relaxed verdict and requested mode stored, strict verdict
stored. -/
def tick_checked (K : Core) (s : sync_check) (b : bus_values) : sync_check :=
  { update_measurements s b with
    deltamode_trigger_keep_flag :=
      (check_metrics K (update_measurements s b) true).deltamode_trigger_keep_flag
    deltamode_check_return_val :=
      if (check_metrics K (update_measurements s b) true).deltamode_trigger_keep_flag = true
      then SIMULATIONMODE.SM_DELTA else SIMULATIONMODE.SM_EVENT
    metrics_flag := (check_metrics K (update_measurements s b) false).metrics_flag }

/-- The stored mode is one of `SM_EVENT` and `SM_DELTA`. -/
def mode_is_event_or_delta (s : sync_check) : Prop :=
  s.deltamode_check_return_val = SIMULATIONMODE.SM_EVENT
    ∨ s.deltamode_check_return_val = SIMULATIONMODE.SM_DELTA

/-- Claim C23 as it is stated, at one core and state: `postsync` leaves the dwell
accumulator as it was, for all bus values and timestamps. -/
def C23_as_stated (K : Core) (s : sync_check) : Prop :=
  ∀ (b : bus_values) (t0 tret0 : TIMESTAMP), (postsync K s b t0 tret0).1.t_sat = s.t_sat

/-- The sample object after one compliant fine sub-step of 0.2 s. -/
def after_one_tick : sync_check :=
  run_calls stdCore (after_setup VOLT_COMPARE_MODE.MAG_DIFF 60 7200 7)
    [call.inter_deltaupdate steady_bus 0 200000000 0 false]

/-- The dwell accumulator is within `[0, metrics_period_sec)` and the dwell period is
positive. -/
def dwell_in_range (s : sync_check) : Prop :=
  0 < s.metrics_period_sec ∧ 0 ≤ s.t_sat ∧ s.t_sat < s.metrics_period_sec

/-! ## The variable frequency drive

The methods of `vfd.cpp` that decide the low-speed error and the accesses to the
settle-frequency array. -/

/-- Ways in which a method of `vfd` does not return normally: the `GL_THROW` calls of
`init`, `initialParameters`, `vfdCoreCalculations` and `VFD_current_injection`, and an
access through `settleFreq` that is not inside an allocated block. -/
inductive vfd_fault where
  | stable_time_negative
  | alloc_failed
  | rated_voltage_too_high
  | attach_failed
  | low_speed
  | prev_freq_not_positive
  | freq_not_positive
  | settle_volt_not_positive
  | settle_time_not_positive
  | null_pointer
  | out_of_bounds
deriving DecidableEq

/-- The members of `vfd` that its control flow reads.  `settleFreq` is `none` for the
`NULL` pointer and the content of the allocated block otherwise.  The phasors, the node
voltages and currents, the power values, `nominal_output_radian_freq` and `torqueRated`
are written by the methods and read by none of the tests or array accesses; they are left
out. -/
structure vfd where
  ratedRPM : ℚ
  desiredRPM : ℚ
  motorPoles : ℚ
  voltageLLRating : ℚ
  horsePowerRatedVFD : ℚ
  nominal_output_frequency : ℚ
  stableTime : ℚ
  stayTime : ℚ
  settleFreq : Option (List ℚ)
  settleFreq_length : ℤ
  vfdState : ℤ
  curr_array_position : ℕ
  force_array_realloc : Bool
  prevDesiredFreq : ℚ
  VbyF : ℚ
  HPbyF : ℚ
  driveFrequency : ℚ
  currEfficiency : ℚ
  currSetFreq : ℚ
  settleTime : ℚ
  settleVolt : ℚ

/-- Conversion `(int) x` of a double: truncation toward zero. -/
def trunc_int (x : ℚ) : ℤ := if 0 ≤ x then ⌊x⌋ else ⌈x⌉

/-- Function `roundf`: the nearest integer, halfway cases away from zero. -/
def roundf (x : ℚ) : ℚ := if 0 ≤ x then (⌊x + 1 / 2⌋ : ℚ) else (⌈x - 1 / 2⌉ : ℚ)

/-- Number of passes of a loop `for (i = 0; i < x; i++)` with an integer counter and a
double bound `x`: the number of integers `i ≥ 0` with `i < x`. -/
def loop_passes (x : ℚ) : ℕ := ⌈x⌉.toNat

/-- Read of `a[i]`. -/
def arr_read (a : Option (List ℚ)) (i : ℕ) : Except vfd_fault ℚ :=
  match a with
  | none => Except.error vfd_fault.null_pointer
  | some l =>
    match l.get? i with
    | none => Except.error vfd_fault.out_of_bounds
    | some v => Except.ok v

/-- Write `a[i] = v`. -/
def arr_write (a : Option (List ℚ)) (i : ℕ) (v : ℚ) : Except vfd_fault (Option (List ℚ)) :=
  match a with
  | none => Except.error vfd_fault.null_pointer
  | some l =>
    if i < l.length then Except.ok (some (l.set i v)) else Except.error vfd_fault.out_of_bounds

/-- Method `vfd::create`: the defaults. -/
def vfd.create (s : vfd) : vfd :=
  { s with
    ratedRPM := 1800
    desiredRPM := 900
    motorPoles := 4
    voltageLLRating := 480
    horsePowerRatedVFD := 75
    nominal_output_frequency := 60.0
    stableTime := 0.03
    settleFreq := none
    settleFreq_length := 0
    vfdState := -1
    curr_array_position := 0
    force_array_realloc := false
    prevDesiredFreq := 0.0 }

/-- Method `vfd::alloc_freq_arrays`: the new state and the returned status; `malloc_ok`
tells whether `gl_malloc` returns a block. -/
def vfd.alloc_freq_arrays (s : vfd) (delta_t_val : ℚ) (malloc_ok : Bool) : vfd × ℤ :=
  let s : vfd :=
    if s.force_array_realloc = true then
      let s : vfd := if s.settleFreq ≠ none then { s with settleFreq_length := 0 } else s
      let s : vfd := { s with force_array_realloc := false }
      { s with settleFreq := none }
    else s
  if s.settleFreq = none then
    let s : vfd := { s with settleFreq_length := trunc_int (s.stableTime / delta_t_val + 0.5) }
    if s.settleFreq_length ≤ 0 then (s, 0)
    else if malloc_ok = false then (s, 0)
    else ({ s with settleFreq := some (List.replicate s.settleFreq_length.toNat 0.0) }, 1)
  else (s, 1)

/-- Method `vfd::init`, after `link_object::init`: `from_volt_mag` is the magnitude of the
phase A voltage of the from node, `attach` the outcome of mapping and calling
`attach_vfd_to_pwr_object` (`none` when the function is not found, `some false` when it
fails). -/
def vfd.init (s : vfd) (from_volt_mag : ℚ) (attach : Option Bool) (malloc_ok : Bool) :
    Except vfd_fault vfd :=
  if s.stableTime < 0.0 then Except.error vfd_fault.stable_time_negative
  else
    let s : vfd := { s with stableTime := (trunc_int (100 * s.stableTime + 0.5) : ℚ) }
    let s : vfd := { s with stayTime := (trunc_int (0.0206 * s.stableTime + 0.5) : ℚ) }
    let r := s.alloc_freq_arrays 1.0 malloc_ok
    if r.2 = 0 then Except.error vfd_fault.alloc_failed
    else
      let s : vfd := r.1
      if s.voltageLLRating > from_volt_mag then Except.error vfd_fault.rated_voltage_too_high
      else
        let s : vfd := { s with VbyF := s.voltageLLRating / s.nominal_output_frequency }
        let s : vfd := { s with HPbyF := 100 / s.nominal_output_frequency }
        match attach with
        | none => Except.error vfd_fault.attach_failed
        | some false => Except.error vfd_fault.attach_failed
        | some true => Except.ok s

/-- The efficiency polynomial of `vfd::initialParameters` (the 75 HP equation). -/
def efficiency_curve (z : ℚ) : ℚ :=
  3.497*z*z*z*z*z*z*z - 8.2828*z*z*z*z*z*z + 0.97848*z*z*z*z*z + 8.7113*z*z*z*z
    - 3.2079*z*z*z - 4.4504*z*z + 3.8759*z + 96.014

/-- Method `vfd::initialParameters`. -/
def vfd.initialParameters (s : vfd) : Except vfd_fault vfd :=
  let s : vfd := { s with driveFrequency := (s.desiredRPM * s.motorPoles) / 120 }
  if s.driveFrequency < 6.67 then Except.error vfd_fault.low_speed
  else
    let s : vfd := { s with driveFrequency := roundf (s.driveFrequency * 1000) / 1000 }
    let driveCurrPower : ℚ := s.HPbyF * s.driveFrequency
    let z : ℚ := (driveCurrPower - 50.138) / 37.009
    Except.ok { s with currEfficiency := efficiency_curve z }

/-- Method `vfd::vfdCoreCalculations`: the two tests and the member they read. -/
def vfd.vfdCoreCalculations (s : vfd) : Except vfd_fault vfd :=
  let s : vfd := { s with settleVolt := s.VbyF * s.currSetFreq }
  if s.settleVolt ≤ 0 then Except.error vfd_fault.settle_volt_not_positive
  else if s.settleTime ≤ 0 then Except.error vfd_fault.settle_time_not_positive
  else Except.ok s

/-- First loop of the start and speed-change branch, `n` passes from the current
position: `settleFreq[curr_array_position] = startFrequency`. -/
def fill_loop (startFrequency : ℚ) : ℕ → vfd → Except vfd_fault vfd
  | 0, s => Except.ok s
  | n + 1, s =>
    match arr_write s.settleFreq s.curr_array_position startFrequency with
    | Except.error e => Except.error e
    | Except.ok a =>
      fill_loop startFrequency n
        { s with settleFreq := a, curr_array_position := s.curr_array_position + 1 }

/-- Inner loop of the second loop, `n` passes from index `temp_idx`:
`meanFreqArray += settleFreq[temp_idx]`. -/
def sum_loop (a : Option (List ℚ)) : ℕ → ℕ → ℚ → Except vfd_fault ℚ
  | 0, _, meanFreqArray => Except.ok meanFreqArray
  | n + 1, temp_idx, meanFreqArray =>
    match arr_read a temp_idx with
    | Except.error e => Except.error e
    | Except.ok v => sum_loop a n (temp_idx + 1) (meanFreqArray + v)

/-- Second loop of the start and speed-change branch, `n` passes from the current
position, with the value of the local `meanFreqArray` at entry. -/
def ramp_loop : ℕ → vfd → ℚ → Except vfd_fault vfd
  | 0, s, _ => Except.ok s
  | n + 1, s, meanFreqArray =>
    match arr_write s.settleFreq s.curr_array_position s.driveFrequency with
    | Except.error e => Except.error e
    | Except.ok a =>
      let s : vfd := { s with settleFreq := a }
      match sum_loop s.settleFreq (loop_passes s.stableTime) 0 meanFreqArray with
      | Except.error e => Except.error e
      | Except.ok m =>
        let meanFreqArray : ℚ := m / s.stableTime
        let s : vfd := { s with currSetFreq := roundf (meanFreqArray * 1000) / 1000 }
        let s : vfd := { s with settleTime := s.settleTime + 1 }
        match s.vfdCoreCalculations with
        | Except.error e => Except.error e
        | Except.ok s =>
          ramp_loop n { s with curr_array_position := s.curr_array_position + 1 } 0

/-- The block of `VFD_current_injection` for `vfdState` 0 or 1. -/
def vfd.ramp (s : vfd) (startFrequency meanFreqArray : ℚ) : Except vfd_fault vfd :=
  match fill_loop startFrequency (loop_passes s.stableTime)
      { s with curr_array_position := 0 } with
  | Except.error e => Except.error e
  | Except.ok s =>
    match ramp_loop (loop_passes s.stableTime) { s with curr_array_position := 0 }
        meanFreqArray with
    | Except.error e => Except.error e
    | Except.ok s =>
      let s : vfd := { s with prevDesiredFreq := s.currSetFreq }
      Except.ok { s with settleFreq := none }

/-- The choice of `vfdState` in `VFD_current_injection`: the new state and the local
`startFrequency` (which the steady branch leaves as it was). -/
def vfd.choose_state (s : vfd) (startFrequency : ℚ) : Except vfd_fault (vfd × ℚ) :=
  if s.prevDesiredFreq = 0.0 then
    Except.ok ({ s with vfdState := 0, settleTime := 0 }, 3)
  else if s.prevDesiredFreq ≠ 0.0 ∧ s.prevDesiredFreq ≠ s.driveFrequency then
    let s : vfd := { s with vfdState := 1 }
    let startFrequency : ℚ := s.prevDesiredFreq
    if s.prevDesiredFreq ≤ 0.0 then Except.error vfd_fault.prev_freq_not_positive
    else Except.ok (s, startFrequency)
  else if s.prevDesiredFreq ≠ 0.0 ∧ s.prevDesiredFreq = s.driveFrequency then
    let s : vfd := { s with vfdState := 2 }
    let s : vfd := { s with settleTime := s.settleTime + 1 }
    if s.prevDesiredFreq ≤ 0.0 ∨ s.driveFrequency ≤ 0 then
      Except.error vfd_fault.freq_not_positive
    else
      let s : vfd := { s with prevDesiredFreq := s.driveFrequency }
      let s : vfd := { s with currSetFreq := s.driveFrequency }
      match s.vfdCoreCalculations with
      | Except.error e => Except.error e
      | Except.ok s => Except.ok (s, startFrequency)
  else Except.ok (s, startFrequency)

/-- Method `vfd::VFD_current_injection`.  The locals `meanFreqArray` and `startFrequency`
are not initialized by the method; their values at entry are arguments. -/
def vfd.VFD_current_injection (s : vfd) (meanFreqArray startFrequency : ℚ) :
    Except vfd_fault vfd :=
  match s.initialParameters with
  | Except.error e => Except.error e
  | Except.ok s =>
    match s.choose_state startFrequency with
    | Except.error e => Except.error e
    | Except.ok (s, startFrequency) =>
      if s.vfdState = 0 ∨ s.vfdState = 1 then s.ramp startFrequency meanFreqArray
      else Except.ok s

/-- Object memory of a `vfd` before `create`. -/
def blank_vfd : vfd :=
  { ratedRPM := 0, desiredRPM := 0, motorPoles := 0, voltageLLRating := 0
    horsePowerRatedVFD := 0, nominal_output_frequency := 0, stableTime := 0, stayTime := 0
    settleFreq := none, settleFreq_length := 0, vfdState := 0, curr_array_position := 0
    force_array_realloc := false, prevDesiredFreq := 0, VbyF := 0, HPbyF := 0
    driveFrequency := 0, currEfficiency := 0, currSetFreq := 0, settleTime := 0
    settleVolt := 0 }

/-- The default object with the given desired speed and number of poles. -/
def vfd_at (desiredRPM motorPoles : ℚ) : vfd :=
  { vfd.create blank_vfd with desiredRPM := desiredRPM, motorPoles := motorPoles }

/-- The fault is an access through `settleFreq` outside an allocated block. -/
def memory_fault (e : vfd_fault) : Prop :=
  e = vfd_fault.null_pointer ∨ e = vfd_fault.out_of_bounds

/-- The default object after `init` on a 480 V bus: `stableTime` is 3 and the block has
three entries. -/
def vfd_ready : vfd :=
  { vfd.create blank_vfd with
    stableTime := 3
    stayTime := 0
    settleFreq := some [0, 0, 0]
    settleFreq_length := 3
    VbyF := 8
    HPbyF := 5 / 3 }

/-- The object `vfd_ready` after its first call of `VFD_current_injection` (the start
branch), with 0 as the value of the uninitialized local `meanFreqArray`. -/
def vfd_started : vfd :=
  { vfd_ready with
    driveFrequency := 30
    currEfficiency := efficiency_curve ((5 / 3 * 30 - 50.138) / 37.009)
    vfdState := 0
    settleTime := 3
    curr_array_position := 3
    currSetFreq := 30
    settleVolt := 240
    prevDesiredFreq := 30
    settleFreq := none }

/-! ## The monitor over the doubles of the machine

The methods of `sync_check.cpp` once more, over `sync_check_d`: NaN and infinite
configuration values, rounded dwell sums and 64-bit timestamps. -/

/-- Product `x * y` of two doubles, without rounding: NaN when a factor is NaN and for
zero times infinity, an infinity of the product sign when a factor is infinite. -/
def quot_val.mul (x y : quot_val) : quot_val :=
  match x with
  | quot_val.nan => quot_val.nan
  | quot_val.finite a =>
    match y with
    | quot_val.nan => quot_val.nan
    | quot_val.finite b => quot_val.finite (a * b)
    | quot_val.pos_inf =>
      if a = 0 then quot_val.nan else if 0 < a then quot_val.pos_inf else quot_val.neg_inf
    | quot_val.neg_inf =>
      if a = 0 then quot_val.nan else if 0 < a then quot_val.neg_inf else quot_val.pos_inf
  | quot_val.pos_inf =>
    match y with
    | quot_val.nan => quot_val.nan
    | quot_val.finite b =>
      if b = 0 then quot_val.nan else if 0 < b then quot_val.pos_inf else quot_val.neg_inf
    | quot_val.pos_inf => quot_val.pos_inf
    | quot_val.neg_inf => quot_val.neg_inf
  | quot_val.neg_inf =>
    match y with
    | quot_val.nan => quot_val.nan
    | quot_val.finite b =>
      if b = 0 then quot_val.nan else if 0 < b then quot_val.neg_inf else quot_val.pos_inf
    | quot_val.pos_inf => quot_val.neg_inf
    | quot_val.neg_inf => quot_val.pos_inf

/-- Comparison `x <= y` of two doubles: false when one of them is NaN. -/
def quot_val.le_val (x y : quot_val) : Bool :=
  match x with
  | quot_val.nan => false
  | quot_val.neg_inf =>
    match y with
    | quot_val.nan => false
    | _ => true
  | quot_val.finite a =>
    match y with
    | quot_val.finite b => decide (a ≤ b)
    | quot_val.pos_inf => true
    | _ => false
  | quot_val.pos_inf =>
    match y with
    | quot_val.pos_inf => true
    | _ => false

/-- Comparison `x < y` of two doubles: false when one of them is NaN. -/
def quot_val.lt_val (x y : quot_val) : Bool :=
  match x with
  | quot_val.nan => false
  | quot_val.neg_inf =>
    match y with
    | quot_val.finite _ => true
    | quot_val.pos_inf => true
    | _ => false
  | quot_val.finite a =>
    match y with
    | quot_val.finite b => decide (a < b)
    | quot_val.pos_inf => true
    | _ => false
  | quot_val.pos_inf => false

/-- The integer nearest to `q`, the even one of the two when `q` is halfway. -/
def round_half_even (q : ℚ) : ℤ :=
  if q - (⌊q⌋ : ℚ) < 1 / 2 then ⌊q⌋
  else if 1 / 2 < q - (⌊q⌋ : ℚ) then ⌊q⌋ + 1
  else if ⌊q⌋ % 2 = 0 then ⌊q⌋ else ⌊q⌋ + 1

/-- The double nearest to `x`: 53 significant bits, round to nearest, ties to even.  The
range of the exponent is not bounded (no overflow, no subnormal numbers). -/
def round_to_double (x : ℚ) : ℚ :=
  if x = 0 then 0
  else (round_half_even (x / (2 : ℚ) ^ (Int.log 2 |x| - 52)) : ℚ) * (2 : ℚ) ^ (Int.log 2 |x| - 52)

/-- The 64-bit signed integer that a wrapping 64-bit addition leaves for the value `x`. -/
def wrap_int64 (x : ℤ) : ℤ := (x + 2 ^ 63) % 2 ^ 64 - 2 ^ 63

/-- Member variables of a `sync_check` object with the value domain of the machine for the
six published doubles and the four relaxed tolerances computed from them: each is a finite
number, an infinity or NaN.  The other members are as in `sync_check`. -/
structure sync_check_d where
  sc_enabled_flag : Bool
  frequency_tolerance_hz : quot_val
  voltage_tolerance_pu : quot_val
  metrics_period_sec : quot_val
  volt_compare_mode : VOLT_COMPARE_MODE
  voltage_magnitude_tolerance_pu : quot_val
  voltage_angle_tolerance_deg : quot_val
  delta_trigger_mult : quot_val
  frequency_tolerance_hz_deltamode_trig : quot_val
  voltage_tolerance_pu_deltamode_trig : quot_val
  voltage_magnitude_tolerance_pu_deltamode_trig : quot_val
  voltage_angle_tolerance_deg_deltamode_trig : quot_val
  deltamode_trigger_keep_flag : Bool
  deltamode_check_return_val : SIMULATIONMODE
  next_trigger_update_time : TIMESTAMP
  reg_dm_flag : Bool
  deltamode_inclusive : Bool
  metrics_flag : Bool
  t_sat : ℚ
  volt_norm : ℚ
  swt_fm_node : Option node
  swt_to_node : Option node
  swt_fm_node_freq : ℚ
  swt_to_node_freq : ℚ
  swt_fm_volt_A : complex
  swt_fm_volt_B : complex
  swt_fm_volt_C : complex
  swt_to_volt_A : complex
  swt_to_volt_B : complex
  swt_to_volt_C : complex
  swt_phases : ℕ
  swt_ph_A_flag : Bool
  swt_ph_B_flag : Bool
  swt_ph_C_flag : Bool
  phases : ℕ
  swt_status : enumeration
  swt_status_writes : ℕ
  deltamode_starts : List TIMESTAMP

/-- Method `sync_check::check_metrics` over `sync_check_d`: each `<=` against a tolerance
is the comparison of doubles. -/
def check_metrics_d (K : Core) (s : sync_check_d) (deltamode_check : Bool) : sync_check_d :=
  let freq_diff_hz := |s.swt_fm_node_freq - s.swt_to_node_freq|
  if s.volt_compare_mode = VOLT_COMPARE_MODE.MAG_DIFF then
    let volt_A_diff := K.Mag (s.swt_fm_volt_A - s.swt_to_volt_A)
    let volt_A_diff_pu := fdiv volt_A_diff s.volt_norm
    let volt_B_diff := K.Mag (s.swt_fm_volt_B - s.swt_to_volt_B)
    let volt_B_diff_pu := fdiv volt_B_diff s.volt_norm
    let volt_C_diff := K.Mag (s.swt_fm_volt_C - s.swt_to_volt_C)
    let volt_C_diff_pu := fdiv volt_C_diff s.volt_norm
    if deltamode_check = true then
      if (quot_val.finite freq_diff_hz).le_val s.frequency_tolerance_hz_deltamode_trig
          && volt_A_diff_pu.le_val s.voltage_tolerance_pu_deltamode_trig
          && volt_B_diff_pu.le_val s.voltage_tolerance_pu_deltamode_trig
          && volt_C_diff_pu.le_val s.voltage_tolerance_pu_deltamode_trig then
        { s with deltamode_trigger_keep_flag := true }
      else
        { s with deltamode_trigger_keep_flag := false }
    else
      if (quot_val.finite freq_diff_hz).le_val s.frequency_tolerance_hz
          && volt_A_diff_pu.le_val s.voltage_tolerance_pu
          && volt_B_diff_pu.le_val s.voltage_tolerance_pu
          && volt_C_diff_pu.le_val s.voltage_tolerance_pu then
        { s with metrics_flag := true }
      else
        { s with metrics_flag := false }
  else
    let volt_A_mag_diff := |K.Mag s.swt_fm_volt_A - K.Mag s.swt_to_volt_A|
    let volt_A_mag_diff_pu := fdiv volt_A_mag_diff s.volt_norm
    let volt_A_ang_deg_diff := ang_deg_diff (K.Arg s.swt_fm_volt_A) (K.Arg s.swt_to_volt_A)
    let volt_B_mag_diff := |K.Mag s.swt_fm_volt_B - K.Mag s.swt_to_volt_B|
    let volt_B_mag_diff_pu := fdiv volt_B_mag_diff s.volt_norm
    let volt_B_ang_deg_diff := ang_deg_diff (K.Arg s.swt_fm_volt_B) (K.Arg s.swt_to_volt_B)
    let volt_C_mag_diff := |K.Mag s.swt_fm_volt_C - K.Mag s.swt_to_volt_C|
    let volt_C_mag_diff_pu := fdiv volt_C_mag_diff s.volt_norm
    let volt_C_ang_deg_diff := ang_deg_diff (K.Arg s.swt_fm_volt_C) (K.Arg s.swt_to_volt_C)
    if deltamode_check = true then
      if (quot_val.finite freq_diff_hz).le_val s.frequency_tolerance_hz_deltamode_trig
          && volt_A_mag_diff_pu.le_val s.voltage_magnitude_tolerance_pu_deltamode_trig
          && volt_B_mag_diff_pu.le_val s.voltage_magnitude_tolerance_pu_deltamode_trig
          && volt_C_mag_diff_pu.le_val s.voltage_magnitude_tolerance_pu_deltamode_trig
          && (quot_val.finite volt_A_ang_deg_diff).le_val
              s.voltage_angle_tolerance_deg_deltamode_trig
          && (quot_val.finite volt_B_ang_deg_diff).le_val
              s.voltage_angle_tolerance_deg_deltamode_trig
          && (quot_val.finite volt_C_ang_deg_diff).le_val
              s.voltage_angle_tolerance_deg_deltamode_trig then
        { s with deltamode_trigger_keep_flag := true }
      else
        { s with deltamode_trigger_keep_flag := false }
    else
      if (quot_val.finite freq_diff_hz).le_val s.frequency_tolerance_hz
          && volt_A_mag_diff_pu.le_val s.voltage_magnitude_tolerance_pu
          && volt_B_mag_diff_pu.le_val s.voltage_magnitude_tolerance_pu
          && volt_C_mag_diff_pu.le_val s.voltage_magnitude_tolerance_pu
          && (quot_val.finite volt_A_ang_deg_diff).le_val s.voltage_angle_tolerance_deg
          && (quot_val.finite volt_B_ang_deg_diff).le_val s.voltage_angle_tolerance_deg
          && (quot_val.finite volt_C_ang_deg_diff).le_val s.voltage_angle_tolerance_deg then
        { s with metrics_flag := true }
      else
        { s with metrics_flag := false }

/-- Method `sync_check::init_vars` over `sync_check_d`. -/
def init_vars_d (G : Globals) (s : sync_check_d) : Except SetupError sync_check_d :=
  let s : sync_check_d := { s with
    volt_compare_mode := VOLT_COMPARE_MODE.MAG_DIFF
    voltage_magnitude_tolerance_pu := quot_val.finite 1e-2
    voltage_angle_tolerance_deg := quot_val.finite 5
    reg_dm_flag := false
    deltamode_inclusive := false
    metrics_flag := false
    t_sat := 0
    sc_enabled_flag := false
    volt_norm := 0
    swt_fm_node := none
    swt_to_node := none
    swt_fm_node_freq := 0
    swt_to_node_freq := 0
    swt_fm_volt_A := ⟨0, 0⟩
    swt_fm_volt_B := ⟨0, 0⟩
    swt_fm_volt_C := ⟨0, 0⟩
    swt_to_volt_A := ⟨0, 0⟩
    swt_to_volt_B := ⟨0, 0⟩
    swt_to_volt_C := ⟨0, 0⟩
    swt_phases := 0
    swt_ph_A_flag := false
    swt_ph_B_flag := false
    swt_ph_C_flag := false }
  match G.nominal_frequency with
  | none => Except.error SetupError.nominal_frequency_not_mapped
  | some temp_freq_val =>
    Except.ok { s with
      frequency_tolerance_hz := quot_val.finite (0.01 * temp_freq_val)
      voltage_tolerance_pu := quot_val.finite 1e-2
      metrics_period_sec := quot_val.finite 1.2
      delta_trigger_mult := quot_val.finite 2.0
      frequency_tolerance_hz_deltamode_trig := quot_val.finite 0.0
      voltage_tolerance_pu_deltamode_trig := quot_val.finite 0.0
      voltage_magnitude_tolerance_pu_deltamode_trig := quot_val.finite 0.0
      voltage_angle_tolerance_deg_deltamode_trig := quot_val.finite 0.0
      deltamode_trigger_keep_flag := false
      deltamode_check_return_val := SIMULATIONMODE.SM_EVENT }

/-- Method `sync_check::data_sanity_check` over `sync_check_d`: each test `x <= 0` is the
comparison of doubles, which is false for a NaN. -/
def data_sanity_check_d (K : Core) (G : Globals) (par : Option switch_object)
    (s : sync_check_d) : Except SetupError sync_check_d :=
  match par with
  | none => Except.error SetupError.parent_not_specified
  | some p =>
    if p.is_switch = false then Except.error SetupError.parent_not_switch
    else
      match p.status with
      | none => Except.error SetupError.status_not_mapped
      | some swt_init_status =>
        let s : sync_check_d := { s with swt_status := swt_init_status }
        let s : sync_check_d :=
          if s.sc_enabled_flag = true then
            if swt_init_status ≠ K.LS_OPEN then { s with sc_enabled_flag := false } else s
          else s
        let r : Except SetupError sync_check_d :=
          if s.frequency_tolerance_hz.le 0 = true then
            match G.nominal_frequency with
            | none => Except.error SetupError.nominal_frequency_not_mapped
            | some temp_freq_val =>
              Except.ok { s with
                frequency_tolerance_hz := quot_val.finite (0.01 * temp_freq_val) }
          else Except.ok s
        match r with
        | Except.error e => Except.error e
        | Except.ok s =>
          let s : sync_check_d :=
            if s.voltage_tolerance_pu.le 0 = true then
              { s with voltage_tolerance_pu := quot_val.finite 1e-2 }
            else s
          let s : sync_check_d :=
            if s.voltage_magnitude_tolerance_pu.le 0 = true then
              { s with voltage_magnitude_tolerance_pu := quot_val.finite 1e-2 }
            else s
          let s : sync_check_d :=
            if s.voltage_angle_tolerance_deg.le 0 = true then
              { s with voltage_angle_tolerance_deg := quot_val.finite 5 }
            else s
          let s : sync_check_d :=
            if s.metrics_period_sec.le 0 = true then
              { s with metrics_period_sec := quot_val.finite 1.2 }
            else s
          Except.ok s

/-- Method `sync_check::init_norm_values` over `sync_check_d`. -/
def init_norm_values_d (G : Globals) (par : Option switch_object) (s : sync_check_d) :
    Except SetupError sync_check_d :=
  match par.bind (fun p => p.from_node) with
  | none => Except.error SetupError.from_not_mapped
  | some fm =>
    let s : sync_check_d := { s with swt_fm_node := some fm }
    match par.bind (fun p => p.to_node) with
    | none => Except.error SetupError.to_not_mapped
    | some tn =>
      let s : sync_check_d := { s with swt_to_node := some tn }
      match fm.nominal_voltage with
      | none => Except.error SetupError.nominal_voltage_not_mapped
      | some volt_norm_fm =>
        match tn.nominal_voltage with
        | none => Except.error SetupError.nominal_voltage_not_mapped
        | some volt_norm_to =>
          let s : sync_check_d := { s with volt_norm := (volt_norm_fm + volt_norm_to) / 2 }
          if (s.voltage_tolerance_pu.mul (quot_val.finite s.volt_norm)).lt_val
              (quot_val.finite |volt_norm_fm - volt_norm_to|) = true then
            Except.error SetupError.nominal_voltage_mismatch
          else
            let s : sync_check_d :=
              if s.delta_trigger_mult.le 1.0 = true then
                { s with delta_trigger_mult := quot_val.finite 2.0 }
              else s
            let s : sync_check_d := { s with
              frequency_tolerance_hz_deltamode_trig :=
                s.delta_trigger_mult.mul s.frequency_tolerance_hz }
            let s : sync_check_d := { s with
              voltage_tolerance_pu_deltamode_trig :=
                s.delta_trigger_mult.mul s.voltage_tolerance_pu }
            let s : sync_check_d := { s with
              voltage_magnitude_tolerance_pu_deltamode_trig :=
                s.delta_trigger_mult.mul s.voltage_magnitude_tolerance_pu }
            let s : sync_check_d := { s with
              voltage_angle_tolerance_deg_deltamode_trig :=
                s.delta_trigger_mult.mul s.voltage_angle_tolerance_deg }
            Except.ok { s with next_trigger_update_time := G.gl_globalclock }

/-- Method `sync_check::init_sensors` over `sync_check_d`. -/
def init_sensors_d (K : Core) (par : Option switch_object) (s : sync_check_d) :
    Except SetupError sync_check_d :=
  match par.bind (fun p => p.phases) with
  | none => Except.error SetupError.phases_not_mapped
  | some ph =>
    let s : sync_check_d := { s with swt_phases := ph }
    let s : sync_check_d := { s with
      swt_ph_A_flag := decide (s.phases &&& K.PHASE_A = K.PHASE_A)
      swt_ph_B_flag := decide (s.phases &&& K.PHASE_B = K.PHASE_B)
      swt_ph_C_flag := decide (s.phases &&& K.PHASE_C = K.PHASE_C) }
    let valid (n : Option node) (f : node → Bool) : Bool :=
      match n with
      | none => false
      | some x => f x
    if valid s.swt_fm_node (fun n => n.measured_frequency_valid) = false then
      Except.error SetupError.frequency_not_mapped
    else if valid s.swt_to_node (fun n => n.measured_frequency_valid) = false then
      Except.error SetupError.frequency_not_mapped
    else if valid s.swt_fm_node (fun n => n.voltage_A_valid) = false then
      Except.error SetupError.voltage_not_mapped
    else if valid s.swt_fm_node (fun n => n.voltage_B_valid) = false then
      Except.error SetupError.voltage_not_mapped
    else if valid s.swt_fm_node (fun n => n.voltage_C_valid) = false then
      Except.error SetupError.voltage_not_mapped
    else if valid s.swt_to_node (fun n => n.voltage_A_valid) = false then
      Except.error SetupError.voltage_not_mapped
    else if valid s.swt_to_node (fun n => n.voltage_B_valid) = false then
      Except.error SetupError.voltage_not_mapped
    else if valid s.swt_to_node (fun n => n.voltage_C_valid) = false then
      Except.error SetupError.voltage_not_mapped
    else Except.ok s

/-- Method `sync_check::reg_deltamode_check` over `sync_check_d`. -/
def reg_deltamode_check_d (G : Globals) (s : sync_check_d) : sync_check_d :=
  let s : sync_check_d :=
    if G.obj_flag_deltamode = true then { s with deltamode_inclusive := true } else s
  if G.enable_subsecond_models = true then
    if s.deltamode_inclusive ≠ true then s else { s with reg_dm_flag := true }
  else s

/-- Method `sync_check::init` over `sync_check_d`. -/
def init_d (K : Core) (G : Globals) (parent : Option switch_object) (s : sync_check_d) :
    Except SetupError sync_check_d :=
  match data_sanity_check_d K G parent s with
  | Except.error e => Except.error e
  | Except.ok s1 =>
    match init_norm_values_d G parent s1 with
    | Except.error e => Except.error e
    | Except.ok s2 =>
      match init_sensors_d K parent s2 with
      | Except.error e => Except.error e
      | Except.ok s3 => Except.ok (reg_deltamode_check_d G s3)

/-- Method `sync_check::update_measurements` over `sync_check_d`. -/
def update_measurements_d (s : sync_check_d) (b : bus_values) : sync_check_d :=
  let s : sync_check_d := { s with swt_fm_node_freq := b.fm_node_freq }
  let s : sync_check_d := { s with swt_to_node_freq := b.to_node_freq }
  let s : sync_check_d :=
    if s.swt_ph_A_flag = true then
      { s with swt_fm_volt_A := b.fm_node_volt_A, swt_to_volt_A := b.to_node_volt_A }
    else s
  let s : sync_check_d :=
    if s.swt_ph_B_flag = true then
      { s with swt_fm_volt_B := b.fm_node_volt_B, swt_to_volt_B := b.to_node_volt_B }
    else s
  if s.swt_ph_C_flag = true then
    { s with swt_fm_volt_C := b.fm_node_volt_C, swt_to_volt_C := b.to_node_volt_C }
  else s

/-- Method `sync_check::reset_after_excitation` over `sync_check_d`. -/
def reset_after_excitation_d (s : sync_check_d) : sync_check_d :=
  { s with sc_enabled_flag := false, metrics_flag := false, t_sat := 0 }

/-- Method `sync_check::check_excitation` over `sync_check_d`: the quotient
`(double)dt / (double)DT_SECOND` and the sum `t_sat += dt_dm_sec` are rounded to doubles,
as the two conversions are, and `>=` is the comparison of doubles. -/
def check_excitation_d (K : Core) (s : sync_check_d) (dt : ℕ) : sync_check_d :=
  let dt_dm_sec : ℚ :=
    round_to_double (round_to_double (dt : ℚ) / round_to_double (K.DT_SECOND : ℚ))
  let s : sync_check_d :=
    if s.metrics_flag = true then { s with t_sat := round_to_double (s.t_sat + dt_dm_sec) }
    else { s with t_sat := 0 }
  if s.metrics_period_sec.le_val (quot_val.finite s.t_sat) = true then
    let swt_cmd := K.LS_CLOSED
    let s : sync_check_d :=
      { s with swt_status := swt_cmd, swt_status_writes := s.swt_status_writes + 1 }
    reset_after_excitation_d s
  else s

/-- Method `sync_check::inter_deltaupdate_sync_check` over `sync_check_d`. -/
def inter_deltaupdate_sync_check_d (K : Core) (s : sync_check_d) (b : bus_values)
    (_delta_time : ℕ) (dt : ℕ) (iteration_count_val : ℕ) (interupdate_pos : Bool) :
    sync_check_d × SIMULATIONMODE :=
  let s : sync_check_d :=
    if s.sc_enabled_flag = true then
      if iteration_count_val = 0 ∧ interupdate_pos = false then
        let s : sync_check_d := update_measurements_d s b
        let s : sync_check_d := check_metrics_d K s true
        let s : sync_check_d :=
          if s.deltamode_trigger_keep_flag = true then
            { s with deltamode_check_return_val := SIMULATIONMODE.SM_DELTA }
          else
            { s with deltamode_check_return_val := SIMULATIONMODE.SM_EVENT }
        let s : sync_check_d := check_metrics_d K s false
        check_excitation_d K s dt
      else s
    else
      { s with
        deltamode_trigger_keep_flag := false
        deltamode_check_return_val := SIMULATIONMODE.SM_EVENT
        t_sat := 0.0 }
  (s, s.deltamode_check_return_val)

/-- Method `sync_check::postsync` over `sync_check_d`: the 64-bit sum `t0 + 1` wraps. -/
def postsync_d (K : Core) (s : sync_check_d) (b : bus_values) (t0 : TIMESTAMP)
    (tret0 : TIMESTAMP) : sync_check_d × TIMESTAMP :=
  if s.next_trigger_update_time ≤ t0 then
    let s : sync_check_d := { s with t_sat := 0.0 }
    let s : sync_check_d := { s with next_trigger_update_time := wrap_int64 (t0 + 1) }
    if s.sc_enabled_flag = true then
      let s : sync_check_d := update_measurements_d s b
      let s : sync_check_d := check_metrics_d K s true
      if s.deltamode_trigger_keep_flag = true then
        let s : sync_check_d := { s with deltamode_starts := s.deltamode_starts ++ [t0] }
        let s : sync_check_d :=
          { s with deltamode_check_return_val := SIMULATIONMODE.SM_EVENT }
        (s, t0)
      else (s, tret0)
    else
      let s : sync_check_d := { s with
        deltamode_trigger_keep_flag := false
        deltamode_check_return_val := SIMULATIONMODE.SM_EVENT }
      (s, tret0)
  else (s, tret0)

/-! ## Setup blocks, runs and vocabulary of the claims over the doubles of the machine -/

/-- Block of `data_sanity_check_d` that binds the switch status and disarms the monitor
when the switch is not open. -/
def dsc_status_d (K : Core) (swt_init_status : enumeration) (s : sync_check_d) :
    sync_check_d :=
  let s : sync_check_d := { s with swt_status := swt_init_status }
  if s.sc_enabled_flag = true then
    if swt_init_status ≠ K.LS_OPEN then { s with sc_enabled_flag := false } else s
  else s

/-- Block of `data_sanity_check_d` on `frequency_tolerance_hz`. -/
def dsc_freq_d (G : Globals) (s : sync_check_d) : Except SetupError sync_check_d :=
  if s.frequency_tolerance_hz.le 0 = true then
    match G.nominal_frequency with
    | none => Except.error SetupError.nominal_frequency_not_mapped
    | some temp_freq_val =>
      Except.ok { s with frequency_tolerance_hz := quot_val.finite (0.01 * temp_freq_val) }
  else Except.ok s

/-- Block of `data_sanity_check_d` on `voltage_tolerance_pu`. -/
def dsc_volt_d (s : sync_check_d) : sync_check_d :=
  if s.voltage_tolerance_pu.le 0 = true then
    { s with voltage_tolerance_pu := quot_val.finite 1e-2 }
  else s

/-- Block of `data_sanity_check_d` on `voltage_magnitude_tolerance_pu`. -/
def dsc_vmag_d (s : sync_check_d) : sync_check_d :=
  if s.voltage_magnitude_tolerance_pu.le 0 = true then
    { s with voltage_magnitude_tolerance_pu := quot_val.finite 1e-2 }
  else s

/-- Block of `data_sanity_check_d` on `voltage_angle_tolerance_deg`. -/
def dsc_vang_d (s : sync_check_d) : sync_check_d :=
  if s.voltage_angle_tolerance_deg.le 0 = true then
    { s with voltage_angle_tolerance_deg := quot_val.finite 5 }
  else s

/-- Block of `data_sanity_check_d` on `metrics_period_sec`. -/
def dsc_period_d (s : sync_check_d) : sync_check_d :=
  if s.metrics_period_sec.le 0 = true then { s with metrics_period_sec := quot_val.finite 1.2 }
  else s

/-- The four blocks of `data_sanity_check_d` that follow the frequency tolerance. -/
def dsc_rest_d (s : sync_check_d) : sync_check_d :=
  dsc_period_d (dsc_vang_d (dsc_vmag_d (dsc_volt_d s)))

/-- Block of `init_norm_values_d` that stores the two bus references and `volt_norm`. -/
def inv_nodes_d (fm tn : node) (volt_norm_fm volt_norm_to : ℚ) (s : sync_check_d) :
    sync_check_d :=
  { s with
    swt_fm_node := some fm
    swt_to_node := some tn
    volt_norm := (volt_norm_fm + volt_norm_to) / 2 }

/-- Blocks of `init_norm_values_d` after the consistency check: the default of the trigger
multiplier, the four relaxed tolerances and the first trigger time. -/
def inv_tail_d (G : Globals) (s : sync_check_d) : sync_check_d :=
  let s : sync_check_d :=
    if s.delta_trigger_mult.le 1.0 = true then
      { s with delta_trigger_mult := quot_val.finite 2.0 }
    else s
  let s : sync_check_d := { s with
    frequency_tolerance_hz_deltamode_trig := s.delta_trigger_mult.mul s.frequency_tolerance_hz }
  let s : sync_check_d := { s with
    voltage_tolerance_pu_deltamode_trig := s.delta_trigger_mult.mul s.voltage_tolerance_pu }
  let s : sync_check_d := { s with
    voltage_magnitude_tolerance_pu_deltamode_trig :=
      s.delta_trigger_mult.mul s.voltage_magnitude_tolerance_pu }
  let s : sync_check_d := { s with
    voltage_angle_tolerance_deg_deltamode_trig :=
      s.delta_trigger_mult.mul s.voltage_angle_tolerance_deg }
  { s with next_trigger_update_time := G.gl_globalclock }

/-- The assignments of `init_sensors_d`: `swt_phases` and the three phase flags. -/
def sensors_state_d (K : Core) (ph : ℕ) (s : sync_check_d) : sync_check_d :=
  { s with
    swt_phases := ph
    swt_ph_A_flag := decide (s.phases &&& K.PHASE_A = K.PHASE_A)
    swt_ph_B_flag := decide (s.phases &&& K.PHASE_B = K.PHASE_B)
    swt_ph_C_flag := decide (s.phases &&& K.PHASE_C = K.PHASE_C) }

/-- The first two steps of `init_d`, which the claims call setup: `data_sanity_check_d`
followed by `init_norm_values_d`. -/
def setup_steps_d (K : Core) (G : Globals) (par : Option switch_object) (s : sync_check_d) :
    Except SetupError sync_check_d :=
  match data_sanity_check_d K G par s with
  | Except.error e => Except.error e
  | Except.ok s1 => init_norm_values_d G par s1

/-- The methods `create` and `init` over `sync_check_d`, with the configuration of the
published properties in between. -/
def create_and_init_d (K : Core) (G : Globals) (parent : Option switch_object)
    (configure : sync_check_d → sync_check_d) (s : sync_check_d) :
    Except SetupError sync_check_d :=
  match init_vars_d G s with
  | Except.error e => Except.error e
  | Except.ok s1 => init_d K G parent (configure s1)

/-- The configuration step changes published properties only, over `sync_check_d`. -/
def published_only_d (configure : sync_check_d → sync_check_d) : Prop :=
  ∀ x, configure x = { x with
    sc_enabled_flag := (configure x).sc_enabled_flag
    frequency_tolerance_hz := (configure x).frequency_tolerance_hz
    voltage_tolerance_pu := (configure x).voltage_tolerance_pu
    metrics_period_sec := (configure x).metrics_period_sec
    volt_compare_mode := (configure x).volt_compare_mode
    voltage_magnitude_tolerance_pu := (configure x).voltage_magnitude_tolerance_pu
    voltage_angle_tolerance_deg := (configure x).voltage_angle_tolerance_deg
    delta_trigger_mult := (configure x).delta_trigger_mult }

/-- State after one call, over `sync_check_d`. -/
def do_call_d (K : Core) (s : sync_check_d) : call → sync_check_d
  | call.postsync b t0 tret0 => (postsync_d K s b t0 tret0).1
  | call.inter_deltaupdate b delta_time dt iteration_count_val interupdate_pos =>
    (inter_deltaupdate_sync_check_d K s b delta_time dt iteration_count_val
      interupdate_pos).1

/-- State after a sequence of calls, over `sync_check_d`. -/
def run_calls_d (K : Core) (s : sync_check_d) : List call → sync_check_d
  | [] => s
  | c :: cs => run_calls_d K (do_call_d K s c) cs

/-- One evaluating fine sub-step over `sync_check_d`: the state after
`inter_deltaupdate_sync_check_d` called with `iteration_count_val = 0` and
`interupdate_pos = false`. -/
def tick_d (K : Core) (s : sync_check_d) (b : bus_values) (dt : ℕ) : sync_check_d :=
  (inter_deltaupdate_sync_check_d K s b 0 dt 0 false).1

/-- State after the first `n` evaluating fine sub-steps of a run in which sub-step `k`
(counted from 0) sees the bus values `bs k` and every sub-step has length `dt`. -/
def run_ticks_d (K : Core) (s : sync_check_d) (bs : ℕ → bus_values) (dt : ℕ) :
    ℕ → sync_check_d
  | 0 => s
  | n + 1 => tick_d K (run_ticks_d K s bs dt n) (bs n) dt

/-- Tick `n`, counted from 1, of the run issues the close command: it writes the switch
status. -/
def closes_at_d (K : Core) (s : sync_check_d) (bs : ℕ → bus_values) (dt : ℕ) (n : ℕ) : Prop :=
  (run_ticks_d K s bs dt n).swt_status_writes
    = (run_ticks_d K s bs dt (n - 1)).swt_status_writes + 1

/-- The double `dt_dm_sec` that `check_excitation_d` computes from `dt`. -/
def elapsed_d (K : Core) (dt : ℕ) : ℚ :=
  round_to_double (round_to_double (dt : ℚ) / round_to_double (K.DT_SECOND : ℚ))

/-- The dwell accumulator after `n` additions of the double `d` to zero, each sum rounded
to a double. -/
def dwell_sum (d : ℚ) : ℕ → ℚ
  | 0 => 0
  | n + 1 => round_to_double (dwell_sum d n + d)

/-- The state `s` with another measurement snapshot. -/
def with_snapshot_d (s : sync_check_d) (b : bus_values) : sync_check_d :=
  { s with
    swt_fm_node_freq := b.fm_node_freq
    swt_to_node_freq := b.to_node_freq
    swt_fm_volt_A := b.fm_node_volt_A
    swt_fm_volt_B := b.fm_node_volt_B
    swt_fm_volt_C := b.fm_node_volt_C
    swt_to_volt_A := b.to_node_volt_A
    swt_to_volt_B := b.to_node_volt_B
    swt_to_volt_C := b.to_node_volt_C }

/-- What every successful setup establishes on the configuration over `sync_check_d`: no
voltage tolerance and no dwell period passes the test `<= 0`, the trigger multiplier does
not pass the test `<= 1`, and each relaxed tolerance is the product of the multiplier and
the strict tolerance. -/
def setup_invariant_d (s : sync_check_d) : Prop :=
  s.voltage_tolerance_pu.le 0 = false ∧ s.voltage_magnitude_tolerance_pu.le 0 = false
    ∧ s.voltage_angle_tolerance_deg.le 0 = false ∧ s.metrics_period_sec.le 0 = false
    ∧ s.delta_trigger_mult.le 1 = false
    ∧ s.frequency_tolerance_hz_deltamode_trig
        = s.delta_trigger_mult.mul s.frequency_tolerance_hz
    ∧ s.voltage_tolerance_pu_deltamode_trig = s.delta_trigger_mult.mul s.voltage_tolerance_pu
    ∧ s.voltage_magnitude_tolerance_pu_deltamode_trig
        = s.delta_trigger_mult.mul s.voltage_magnitude_tolerance_pu
    ∧ s.voltage_angle_tolerance_deg_deltamode_trig
        = s.delta_trigger_mult.mul s.voltage_angle_tolerance_deg

/-- The trigger multiplier is a number, and it is not infinite while the strict frequency
tolerance is zero (the product of the two is then NaN). -/
def mult_usable (s : sync_check_d) : Prop :=
  s.delta_trigger_mult ≠ quot_val.nan
    ∧ ¬ (s.delta_trigger_mult = quot_val.pos_inf
        ∧ s.frequency_tolerance_hz = quot_val.finite 0)

/-- The two states agree on everything setup fixes: compare mode, strict and relaxed
tolerances, trigger multiplier, dwell period, `volt_norm`, phase flags and the stored
phasors of the inactive phases. -/
def same_config_d (s r : sync_check_d) : Prop :=
  r.volt_compare_mode = s.volt_compare_mode
    ∧ r.frequency_tolerance_hz = s.frequency_tolerance_hz
    ∧ r.voltage_tolerance_pu = s.voltage_tolerance_pu
    ∧ r.voltage_magnitude_tolerance_pu = s.voltage_magnitude_tolerance_pu
    ∧ r.voltage_angle_tolerance_deg = s.voltage_angle_tolerance_deg
    ∧ r.volt_norm = s.volt_norm
    ∧ r.metrics_period_sec = s.metrics_period_sec
    ∧ r.delta_trigger_mult = s.delta_trigger_mult
    ∧ r.frequency_tolerance_hz_deltamode_trig = s.frequency_tolerance_hz_deltamode_trig
    ∧ r.voltage_tolerance_pu_deltamode_trig = s.voltage_tolerance_pu_deltamode_trig
    ∧ r.voltage_magnitude_tolerance_pu_deltamode_trig
        = s.voltage_magnitude_tolerance_pu_deltamode_trig
    ∧ r.voltage_angle_tolerance_deg_deltamode_trig
        = s.voltage_angle_tolerance_deg_deltamode_trig
    ∧ r.swt_ph_A_flag = s.swt_ph_A_flag ∧ r.swt_ph_B_flag = s.swt_ph_B_flag
    ∧ r.swt_ph_C_flag = s.swt_ph_C_flag
    ∧ (s.swt_ph_A_flag = false →
        r.swt_fm_volt_A = s.swt_fm_volt_A ∧ r.swt_to_volt_A = s.swt_to_volt_A)
    ∧ (s.swt_ph_B_flag = false →
        r.swt_fm_volt_B = s.swt_fm_volt_B ∧ r.swt_to_volt_B = s.swt_to_volt_B)
    ∧ (s.swt_ph_C_flag = false →
        r.swt_fm_volt_C = s.swt_fm_volt_C ∧ r.swt_to_volt_C = s.swt_to_volt_C)

/-- The dwell accumulator is in range: `0 <= t_sat < metrics_period_sec` as doubles. -/
def dwell_in_range_d (s : sync_check_d) : Prop :=
  0 ≤ s.t_sat ∧ (quot_val.finite s.t_sat).lt_val s.metrics_period_sec = true

/-- Claim C15 as it is stated, on the state after setup over `sync_check_d`: the five
tolerances and the dwell period compare strictly above zero and the trigger multiplier
strictly above one. -/
def C15_d_as_stated (s : sync_check_d) : Prop :=
  (quot_val.finite 0).lt_val s.frequency_tolerance_hz = true
    ∧ (quot_val.finite 0).lt_val s.voltage_tolerance_pu = true
    ∧ (quot_val.finite 0).lt_val s.voltage_magnitude_tolerance_pu = true
    ∧ (quot_val.finite 0).lt_val s.voltage_angle_tolerance_deg = true
    ∧ (quot_val.finite 0).lt_val s.metrics_period_sec = true
    ∧ (quot_val.finite 1).lt_val s.delta_trigger_mult = true

/-- Claim C7 as it is stated, on the state after setup over `sync_check_d`: each relaxed
tolerance is the multiplier times the strict tolerance and compares at least the strict
tolerance. -/
def C7_d_as_stated (s : sync_check_d) : Prop :=
  (s.frequency_tolerance_hz_deltamode_trig = s.delta_trigger_mult.mul s.frequency_tolerance_hz
      ∧ s.frequency_tolerance_hz.le_val s.frequency_tolerance_hz_deltamode_trig = true)
    ∧ (s.voltage_tolerance_pu_deltamode_trig
          = s.delta_trigger_mult.mul s.voltage_tolerance_pu
      ∧ s.voltage_tolerance_pu.le_val s.voltage_tolerance_pu_deltamode_trig = true)
    ∧ (s.voltage_magnitude_tolerance_pu_deltamode_trig
          = s.delta_trigger_mult.mul s.voltage_magnitude_tolerance_pu
      ∧ s.voltage_magnitude_tolerance_pu.le_val
          s.voltage_magnitude_tolerance_pu_deltamode_trig = true)
    ∧ (s.voltage_angle_tolerance_deg_deltamode_trig
          = s.delta_trigger_mult.mul s.voltage_angle_tolerance_deg
      ∧ s.voltage_angle_tolerance_deg.le_val s.voltage_angle_tolerance_deg_deltamode_trig
          = true)

/-- A state of the rational model as a state over `sync_check_d`: every double is
finite. -/
def to_machine (s : sync_check) : sync_check_d :=
  { sc_enabled_flag := s.sc_enabled_flag
    frequency_tolerance_hz := quot_val.finite s.frequency_tolerance_hz
    voltage_tolerance_pu := quot_val.finite s.voltage_tolerance_pu
    metrics_period_sec := quot_val.finite s.metrics_period_sec
    volt_compare_mode := s.volt_compare_mode
    voltage_magnitude_tolerance_pu := quot_val.finite s.voltage_magnitude_tolerance_pu
    voltage_angle_tolerance_deg := quot_val.finite s.voltage_angle_tolerance_deg
    delta_trigger_mult := quot_val.finite s.delta_trigger_mult
    frequency_tolerance_hz_deltamode_trig :=
      quot_val.finite s.frequency_tolerance_hz_deltamode_trig
    voltage_tolerance_pu_deltamode_trig := quot_val.finite s.voltage_tolerance_pu_deltamode_trig
    voltage_magnitude_tolerance_pu_deltamode_trig :=
      quot_val.finite s.voltage_magnitude_tolerance_pu_deltamode_trig
    voltage_angle_tolerance_deg_deltamode_trig :=
      quot_val.finite s.voltage_angle_tolerance_deg_deltamode_trig
    deltamode_trigger_keep_flag := s.deltamode_trigger_keep_flag
    deltamode_check_return_val := s.deltamode_check_return_val
    next_trigger_update_time := s.next_trigger_update_time
    reg_dm_flag := s.reg_dm_flag
    deltamode_inclusive := s.deltamode_inclusive
    metrics_flag := s.metrics_flag
    t_sat := s.t_sat
    volt_norm := s.volt_norm
    swt_fm_node := s.swt_fm_node
    swt_to_node := s.swt_to_node
    swt_fm_node_freq := s.swt_fm_node_freq
    swt_to_node_freq := s.swt_to_node_freq
    swt_fm_volt_A := s.swt_fm_volt_A
    swt_fm_volt_B := s.swt_fm_volt_B
    swt_fm_volt_C := s.swt_fm_volt_C
    swt_to_volt_A := s.swt_to_volt_A
    swt_to_volt_B := s.swt_to_volt_B
    swt_to_volt_C := s.swt_to_volt_C
    swt_phases := s.swt_phases
    swt_ph_A_flag := s.swt_ph_A_flag
    swt_ph_B_flag := s.swt_ph_B_flag
    swt_ph_C_flag := s.swt_ph_C_flag
    phases := s.phases
    swt_status := s.swt_status
    swt_status_writes := s.swt_status_writes
    deltamode_starts := s.deltamode_starts }

/-! ## Sample objects over the doubles of the machine -/

/-- The armed sample configuration at 60 Hz and three phases in `MAG_DIFF` mode, with the
given voltage tolerance, trigger multiplier and dwell period; the other published values
are the defaults of `init_vars_d`. -/
def sample_config_d (vtol mult period : quot_val) : sync_check_d :=
  { to_machine (arm VOLT_COMPARE_MODE.MAG_DIFF (created 60 7)) with
    voltage_tolerance_pu := vtol
    delta_trigger_mult := mult
    metrics_period_sec := period }

/-- The state that the two setup steps produce from `sample_config_d` on an open switch
between two buses of 7200 V, when none of the three values is corrected (see
`setup_steps_d_sample`). -/
def sample_after_steps_d (vtol mult period : quot_val) : sync_check_d :=
  { to_machine (after_steps VOLT_COMPARE_MODE.MAG_DIFF 60 7200 7) with
    voltage_tolerance_pu := vtol
    delta_trigger_mult := mult
    metrics_period_sec := period
    frequency_tolerance_hz_deltamode_trig := mult.mul (quot_val.finite (3 / 5))
    voltage_tolerance_pu_deltamode_trig := mult.mul vtol
    voltage_magnitude_tolerance_pu_deltamode_trig := mult.mul (quot_val.finite (1 / 100))
    voltage_angle_tolerance_deg_deltamode_trig := mult.mul (quot_val.finite 5) }

/-- The state that `init_d` produces from `sample_config_d` on an open switch between two
buses of 7200 V, when none of the three values is corrected (see `init_d_sample`). -/
def sample_after_setup_d (vtol mult period : quot_val) : sync_check_d :=
  { to_machine (after_setup VOLT_COMPARE_MODE.MAG_DIFF 60 7200 7) with
    voltage_tolerance_pu := vtol
    delta_trigger_mult := mult
    metrics_period_sec := period
    frequency_tolerance_hz_deltamode_trig := mult.mul (quot_val.finite (3 / 5))
    voltage_tolerance_pu_deltamode_trig := mult.mul vtol
    voltage_magnitude_tolerance_pu_deltamode_trig := mult.mul (quot_val.finite (1 / 100))
    voltage_angle_tolerance_deg_deltamode_trig := mult.mul (quot_val.finite 5) }

/-- Configuration step of the samples: arm the monitor and set the voltage tolerance, the
trigger multiplier and the dwell period. -/
def configure_d (vtol mult period : quot_val) (s : sync_check_d) : sync_check_d :=
  { s with
    sc_enabled_flag := true
    voltage_tolerance_pu := vtol
    delta_trigger_mult := mult
    metrics_period_sec := period }

/-- The state in which an armed monitor calls `check_excitation_d` on an evaluating fine
sub-step: snapshot refreshed, relaxed verdict and requested mode stored, strict verdict
stored. -/
def tick_checked_d (K : Core) (s : sync_check_d) (b : bus_values) : sync_check_d :=
  { update_measurements_d s b with
    deltamode_trigger_keep_flag :=
      (check_metrics_d K (update_measurements_d s b) true).deltamode_trigger_keep_flag
    deltamode_check_return_val :=
      if (check_metrics_d K (update_measurements_d s b) true).deltamode_trigger_keep_flag = true
      then SIMULATIONMODE.SM_DELTA else SIMULATIONMODE.SM_EVENT
    metrics_flag := (check_metrics_d K (update_measurements_d s b) false).metrics_flag }

/-- The value that `check_excitation_d` gives the dwell accumulator before it compares it
with the dwell period. -/
def dwell_next (K : Core) (s : sync_check_d) (dt : ℕ) : ℚ :=
  if s.metrics_flag = true then round_to_double (s.t_sat + elapsed_d K dt) else 0

/-- The state after the close command of `check_excitation_d` and
`reset_after_excitation_d`. -/
def closed_d (K : Core) (s : sync_check_d) : sync_check_d :=
  { s with
    swt_status := K.LS_CLOSED
    swt_status_writes := s.swt_status_writes + 1
    sc_enabled_flag := false
    metrics_flag := false
    t_sat := 0 }

/-! ## Lemmas on the numeric model -/

theorem M_PI_pos : 0 < M_PI := by unfold M_PI; norm_num

theorem fdiv_le_of_ne_zero (x t : ℚ) {y : ℚ} (hy : y ≠ 0) :
    (fdiv x y).le t = decide (x / y ≤ t) := by
  simp [fdiv, hy, quot_val.le]

theorem fdiv_zero_le (t : ℚ) {y : ℚ} (hy : y ≠ 0) (ht : 0 ≤ t) : (fdiv 0 y).le t = true := by
  simp [fdiv, hy, quot_val.le, ht]

theorem complex_sub_self (a : complex) : a - a = ⟨0, 0⟩ := by
  show complex.sub a a = _
  simp [complex.sub]

theorem RAD_TO_DEG_abs_sub (x y : ℚ) :
    RAD_TO_DEG |x - y| = |RAD_TO_DEG x - RAD_TO_DEG y| := by
  unfold RAD_TO_DEG
  have h : x / M_PI * 180 - y / M_PI * 180 = (x - y) * (180 / M_PI) := by ring
  rw [h, abs_mul, abs_of_pos (div_pos (by norm_num) M_PI_pos)]
  ring

theorem ang_deg_diff_self (x : ℚ) : ang_deg_diff x x = 0 := by
  simp [ang_deg_diff, RAD_TO_DEG]


theorem ite_metrics_flag (c : Bool) (s : sync_check) :
    (if c = true then { s with metrics_flag := true }
      else { s with metrics_flag := false }).metrics_flag = c := by
  cases c <;> rfl

theorem ite_keep_flag (c : Bool) (s : sync_check) :
    (if c = true then { s with deltamode_trigger_keep_flag := true }
      else { s with deltamode_trigger_keep_flag := false }).deltamode_trigger_keep_flag = c := by
  cases c <;> rfl

/-- Strict verdict in `MAG_DIFF` mode as a Boolean expression. -/
theorem metrics_flag_MAG_DIFF (K : Core) (s : sync_check)
    (hm : s.volt_compare_mode = VOLT_COMPARE_MODE.MAG_DIFF) :
    (check_metrics K s false).metrics_flag =
      (decide (|s.swt_fm_node_freq - s.swt_to_node_freq| ≤ s.frequency_tolerance_hz)
        && (fdiv (K.Mag (s.swt_fm_volt_A - s.swt_to_volt_A)) s.volt_norm).le s.voltage_tolerance_pu
        && (fdiv (K.Mag (s.swt_fm_volt_B - s.swt_to_volt_B)) s.volt_norm).le s.voltage_tolerance_pu
        && (fdiv (K.Mag (s.swt_fm_volt_C - s.swt_to_volt_C)) s.volt_norm).le s.voltage_tolerance_pu) := by
  unfold check_metrics
  rw [if_pos hm]
  exact ite_metrics_flag _ s

/-- Relaxed verdict in `MAG_DIFF` mode as a Boolean expression. -/
theorem keep_flag_MAG_DIFF (K : Core) (s : sync_check)
    (hm : s.volt_compare_mode = VOLT_COMPARE_MODE.MAG_DIFF) :
    (check_metrics K s true).deltamode_trigger_keep_flag =
      (decide (|s.swt_fm_node_freq - s.swt_to_node_freq| ≤ s.frequency_tolerance_hz_deltamode_trig)
        && (fdiv (K.Mag (s.swt_fm_volt_A - s.swt_to_volt_A)) s.volt_norm).le
            s.voltage_tolerance_pu_deltamode_trig
        && (fdiv (K.Mag (s.swt_fm_volt_B - s.swt_to_volt_B)) s.volt_norm).le
            s.voltage_tolerance_pu_deltamode_trig
        && (fdiv (K.Mag (s.swt_fm_volt_C - s.swt_to_volt_C)) s.volt_norm).le
            s.voltage_tolerance_pu_deltamode_trig) := by
  unfold check_metrics
  rw [if_pos hm]
  exact ite_keep_flag _ s

/-- Strict verdict in `SEP_DIFF` mode as a Boolean expression. -/
theorem metrics_flag_SEP_DIFF (K : Core) (s : sync_check)
    (hm : s.volt_compare_mode ≠ VOLT_COMPARE_MODE.MAG_DIFF) :
    (check_metrics K s false).metrics_flag =
      (decide (|s.swt_fm_node_freq - s.swt_to_node_freq| ≤ s.frequency_tolerance_hz)
        && (fdiv |K.Mag s.swt_fm_volt_A - K.Mag s.swt_to_volt_A| s.volt_norm).le
            s.voltage_magnitude_tolerance_pu
        && (fdiv |K.Mag s.swt_fm_volt_B - K.Mag s.swt_to_volt_B| s.volt_norm).le
            s.voltage_magnitude_tolerance_pu
        && (fdiv |K.Mag s.swt_fm_volt_C - K.Mag s.swt_to_volt_C| s.volt_norm).le
            s.voltage_magnitude_tolerance_pu
        && decide (ang_deg_diff (K.Arg s.swt_fm_volt_A) (K.Arg s.swt_to_volt_A)
            ≤ s.voltage_angle_tolerance_deg)
        && decide (ang_deg_diff (K.Arg s.swt_fm_volt_B) (K.Arg s.swt_to_volt_B)
            ≤ s.voltage_angle_tolerance_deg)
        && decide (ang_deg_diff (K.Arg s.swt_fm_volt_C) (K.Arg s.swt_to_volt_C)
            ≤ s.voltage_angle_tolerance_deg)) := by
  unfold check_metrics
  rw [if_neg hm]
  exact ite_metrics_flag _ s

/-- Relaxed verdict in `SEP_DIFF` mode as a Boolean expression. -/
theorem keep_flag_SEP_DIFF (K : Core) (s : sync_check)
    (hm : s.volt_compare_mode ≠ VOLT_COMPARE_MODE.MAG_DIFF) :
    (check_metrics K s true).deltamode_trigger_keep_flag =
      (decide (|s.swt_fm_node_freq - s.swt_to_node_freq| ≤ s.frequency_tolerance_hz_deltamode_trig)
        && (fdiv |K.Mag s.swt_fm_volt_A - K.Mag s.swt_to_volt_A| s.volt_norm).le
            s.voltage_magnitude_tolerance_pu_deltamode_trig
        && (fdiv |K.Mag s.swt_fm_volt_B - K.Mag s.swt_to_volt_B| s.volt_norm).le
            s.voltage_magnitude_tolerance_pu_deltamode_trig
        && (fdiv |K.Mag s.swt_fm_volt_C - K.Mag s.swt_to_volt_C| s.volt_norm).le
            s.voltage_magnitude_tolerance_pu_deltamode_trig
        && decide (ang_deg_diff (K.Arg s.swt_fm_volt_A) (K.Arg s.swt_to_volt_A)
            ≤ s.voltage_angle_tolerance_deg_deltamode_trig)
        && decide (ang_deg_diff (K.Arg s.swt_fm_volt_B) (K.Arg s.swt_to_volt_B)
            ≤ s.voltage_angle_tolerance_deg_deltamode_trig)
        && decide (ang_deg_diff (K.Arg s.swt_fm_volt_C) (K.Arg s.swt_to_volt_C)
            ≤ s.voltage_angle_tolerance_deg_deltamode_trig)) := by
  unfold check_metrics
  rw [if_neg hm]
  exact ite_keep_flag _ s


/-! ## The sample set-up state -/

theorem create_and_init_sample (m : VOLT_COMPARE_MODE) (f v : ℚ) (ph : ℕ) (hv : 0 ≤ v) :
    create_and_init stdCore (globals_at f) (some (open_switch v v)) (arm m) (blank ph)
      = Except.ok (after_setup m f v ph) := by
  have h : ¬ ((1 : ℚ) / 100 * v < 0) := not_lt.mpr (by positivity)
  have e1 : (1 : ℚ) / 100 * f = f / 100 := by ring
  have e2 : (2 : ℚ) * (f / 100) = f / 50 := by ring
  by_cases hf : f ≤ 0 <;>
  norm_num [create_and_init, init_vars, init, data_sanity_check, init_norm_values,
    init_sensors, reg_deltamode_check, globals_at, open_switch, bus_at, blank, stdCore, arm,
    after_setup, h, hf, e1, e2]

theorem stdCore_Mag_zero : stdCore.Mag ⟨0, 0⟩ = 0 := by
  simp [stdCore, Rat.sqrt]

theorem stdCore_Mag_real (x : ℚ) (hx : 0 ≤ x) : stdCore.Mag ⟨x, 0⟩ = x := by
  simp [stdCore, Rat.sqrt_eq, abs_of_nonneg hx]

theorem stdCore_Arg_real (x : ℚ) (hx : 0 < x) : stdCore.Arg ⟨x, 0⟩ = 0 := by
  simp [stdCore, hx, hx.ne.symm, atan_q, atan_unit]

/-- Phase bits of the value 3 (phases A and B). -/
theorem land_three : (3 &&& 1 = 1) ∧ (3 &&& 2 = 2) ∧ (3 &&& 4 = 0) := by decide

/-- Phase bits of the value 7 (phases A, B and C). -/
theorem land_seven : (7 &&& 1 = 1) ∧ (7 &&& 2 = 2) ∧ (7 &&& 4 = 4) := by decide

/-! ## Claims on the metric evaluation -/

/-- C1, amended: when `volt_norm` is not zero, a snapshot with equal frequencies and equal
phasors on the three phases passes the strict check, in `MAG_DIFF` mode and in `SEP_DIFF`
mode, for all strictly positive strict tolerances (the magnitude of the zero phasor being
zero). -/
theorem C1_identical_buses_pass (K : Core) (s : sync_check)
    (hMag : K.Mag ⟨0, 0⟩ = 0) (hvn : s.volt_norm ≠ 0)
    (hid : buses_identical s) (hpos : strict_tolerances_pos s) :
    (check_metrics K s false).metrics_flag = true := by
  obtain ⟨hf, hA, hB, hC⟩ := hid
  obtain ⟨h1, h2, h3, h4⟩ := hpos
  by_cases hm : s.volt_compare_mode = VOLT_COMPARE_MODE.MAG_DIFF
  · rw [metrics_flag_MAG_DIFF _ _ hm]
    simp [hf, hA, hB, hC, complex_sub_self, hMag, fdiv_zero_le _ hvn h2.le, h1.le]
  · rw [metrics_flag_SEP_DIFF _ _ hm]
    simp [hf, hA, hB, hC, ang_deg_diff_self, fdiv_zero_le _ hvn h3.le, h1.le, h4.le]

/-- Witness of C1: the first, all-zero snapshot of an object set up on a 7200 V switch in
`SEP_DIFF` mode. -/
theorem C1_identical_buses_pass_witness :
    (check_metrics stdCore (after_setup VOLT_COMPARE_MODE.SEP_DIFF 60 7200 7) false).metrics_flag
      = true :=
  C1_identical_buses_pass stdCore (after_setup VOLT_COMPARE_MODE.SEP_DIFF 60 7200 7)
    stdCore_Mag_zero
    (by norm_num [after_setup])
    (by norm_num [after_setup, buses_identical, phasors_identical])
    (by norm_num [after_setup, strict_tolerances_pos])

/-- Counterexample to C1 as stated: after a successful setup between two buses of nominal
voltage zero, `volt_norm` is zero; the snapshot with identical buses then fails the strict
check, because `0 / 0` is not below any tolerance. -/
theorem C1_fails_at_zero_volt_norm :
    create_and_init stdCore (globals_at 60) (some (open_switch 0 0))
        (arm VOLT_COMPARE_MODE.MAG_DIFF) (blank 7)
      = Except.ok (after_setup VOLT_COMPARE_MODE.MAG_DIFF 60 0 7)
    ∧ ¬ C1_as_stated stdCore (after_setup VOLT_COMPARE_MODE.MAG_DIFF 60 0 7) := by
  refine ⟨create_and_init_sample _ _ _ _ le_rfl, ?_⟩
  intro h
  have h2 := h (by norm_num [after_setup, buses_identical, phasors_identical])
    (by norm_num [after_setup, strict_tolerances_pos])
  rw [metrics_flag_MAG_DIFF _ _ rfl] at h2
  norm_num [after_setup, fdiv, quot_val.le, complex_sub_self, stdCore_Mag_zero] at h2

/-- Identical phasors have all voltage differences zero. -/
theorem volt_diffs_zero_of_identical (K : Core) (s : sync_check) (hMag : K.Mag ⟨0, 0⟩ = 0)
    (hid : phasors_identical s) : volt_diffs_zero K s := by
  obtain ⟨hA, hB, hC⟩ := hid
  unfold volt_diffs_zero
  split <;> simp [hA, hB, hC, complex_sub_self, hMag, ang_deg_diff_self]

/-- With a non-zero `volt_norm`, zero voltage differences and non-negative voltage
tolerances, the strict verdict is the frequency comparison. -/
theorem strict_iff_freq (K : Core) (s : sync_check) (hvn : s.volt_norm ≠ 0)
    (hz : volt_diffs_zero K s) (h2 : 0 ≤ s.voltage_tolerance_pu)
    (h3 : 0 ≤ s.voltage_magnitude_tolerance_pu) (h4 : 0 ≤ s.voltage_angle_tolerance_deg) :
    (check_metrics K s false).metrics_flag = true
      ↔ |s.swt_fm_node_freq - s.swt_to_node_freq| ≤ s.frequency_tolerance_hz := by
  unfold volt_diffs_zero at hz
  by_cases hm : s.volt_compare_mode = VOLT_COMPARE_MODE.MAG_DIFF
  · rw [if_pos hm] at hz
    obtain ⟨hA, hB, hC⟩ := hz
    rw [metrics_flag_MAG_DIFF _ _ hm, hA, hB, hC]
    simp [fdiv_zero_le _ hvn h2]
  · rw [if_neg hm] at hz
    obtain ⟨⟨hA, hA2⟩, ⟨hB, hB2⟩, hC, hC2⟩ := hz
    rw [metrics_flag_SEP_DIFF _ _ hm, hA, hB, hC, hA2, hB2, hC2]
    simp [fdiv_zero_le _ hvn h3, h4]

/-- A frequency difference above the tolerance fails the strict check. -/
theorem strict_false_of_freq (K : Core) (s : sync_check)
    (h : s.frequency_tolerance_hz < |s.swt_fm_node_freq - s.swt_to_node_freq|) :
    (check_metrics K s false).metrics_flag = false := by
  have hd : decide (|s.swt_fm_node_freq - s.swt_to_node_freq| ≤ s.frequency_tolerance_hz)
      = false := decide_eq_false (not_le.mpr h)
  by_cases hm : s.volt_compare_mode = VOLT_COMPARE_MODE.MAG_DIFF
  · rw [metrics_flag_MAG_DIFF _ _ hm, hd]; rfl
  · rw [metrics_flag_SEP_DIFF _ _ hm, hd]; rfl

/-- C2, amended: when `volt_norm` is not zero, for a snapshot whose per-phase voltage
differences are all zero and strictly positive tolerances, the strict check passes in
either mode exactly when the frequency difference is within `frequency_tolerance_hz`; a
frequency difference above the tolerance fails the check whatever the voltages are; with
tolerance 0.01 Hz, 60.00 against 60.005 Hz passes and 60.00 against 60.02 Hz fails. -/
theorem C2_frequency_check (K : Core) (s : sync_check) (hvn : s.volt_norm ≠ 0)
    (hz : volt_diffs_zero K s) (hpos : strict_tolerances_pos s) :
    ((check_metrics K s false).metrics_flag = true
        ↔ |s.swt_fm_node_freq - s.swt_to_node_freq| ≤ s.frequency_tolerance_hz)
      ∧ (∀ r : sync_check,
          r.frequency_tolerance_hz < |r.swt_fm_node_freq - r.swt_to_node_freq| →
            (check_metrics K r false).metrics_flag = false)
      ∧ (s.frequency_tolerance_hz = 0.01 → s.swt_fm_node_freq = 60.00 →
          s.swt_to_node_freq = 60.005 → (check_metrics K s false).metrics_flag = true)
      ∧ (∀ r : sync_check, r.frequency_tolerance_hz = 0.01 → r.swt_fm_node_freq = 60.00 →
          r.swt_to_node_freq = 60.02 → (check_metrics K r false).metrics_flag = false) := by
  obtain ⟨_, h2, h3, h4⟩ := hpos
  have hiff := strict_iff_freq K s hvn hz h2.le h3.le h4.le
  refine ⟨hiff, fun r hr => strict_false_of_freq K r hr, ?_, ?_⟩
  · intro ht hf hto
    rw [hiff, ht, hf, hto]
    norm_num [abs_le]
  · intro r ht hf hto
    apply strict_false_of_freq
    rw [ht, hf, hto]
    norm_num [lt_abs]

/-- Witness of C2: the sample object set up on a 7200 V switch in `SEP_DIFF` mode, with
tolerance 0.01 Hz and a snapshot of equal phasors at 60.00 and 60.005 Hz. -/
theorem C2_frequency_check_witness :
    (check_metrics stdCore
      (with_snapshot
        { after_setup VOLT_COMPARE_MODE.SEP_DIFF 60 7200 7 with frequency_tolerance_hz := 0.01 }
        ⟨60.00, 60.005, ⟨7200, 0⟩, ⟨0, 7200⟩, ⟨0, -7200⟩, ⟨7200, 0⟩, ⟨0, 7200⟩, ⟨0, -7200⟩⟩)
      false).metrics_flag = true :=
  (C2_frequency_check stdCore _
    (by norm_num [with_snapshot, after_setup])
    (volt_diffs_zero_of_identical _ _ stdCore_Mag_zero
      (by norm_num [with_snapshot, phasors_identical]))
    (by norm_num [with_snapshot, after_setup, strict_tolerances_pos])).2.2.1
    (by norm_num [with_snapshot]) (by norm_num [with_snapshot]) (by norm_num [with_snapshot])

/-- Counterexample to C2 as stated: after a successful setup between two buses of nominal
voltage zero, a snapshot with zero voltage differences and frequencies 60.00 and 60.005 Hz
has its frequency difference within the tolerance and still fails the strict check. -/
theorem C2_fails_at_zero_volt_norm :
    create_and_init stdCore (globals_at 60) (some (open_switch 0 0))
        (arm VOLT_COMPARE_MODE.SEP_DIFF) (blank 7)
      = Except.ok (after_setup VOLT_COMPARE_MODE.SEP_DIFF 60 0 7)
    ∧ ¬ C2_as_stated stdCore
        (with_snapshot (after_setup VOLT_COMPARE_MODE.SEP_DIFF 60 0 7)
          ⟨60.00, 60.005, ⟨0, 0⟩, ⟨0, 0⟩, ⟨0, 0⟩, ⟨0, 0⟩, ⟨0, 0⟩, ⟨0, 0⟩⟩) := by
  refine ⟨create_and_init_sample _ _ _ _ le_rfl, ?_⟩
  intro h
  have h2 := (h (volt_diffs_zero_of_identical _ _ stdCore_Mag_zero
      (by norm_num [with_snapshot, after_setup, phasors_identical]))
    (by norm_num [with_snapshot, after_setup, strict_tolerances_pos])).mpr
    (by norm_num [with_snapshot, after_setup, abs_le])
  rw [metrics_flag_SEP_DIFF _ _ (by simp [with_snapshot, after_setup])] at h2
  norm_num [with_snapshot, after_setup, fdiv, quot_val.le] at h2


/-- One phase of the `MAG_DIFF` check: an inactive phase with zero phasors passes, an
active phase passes exactly when its per-unit difference is within the tolerance. -/
theorem mag_phase_iff (K : Core) (fv tv : complex) (flag : Bool) (vn tol : ℚ)
    (hMag : K.Mag ⟨0, 0⟩ = 0) (hvn : vn ≠ 0) (htol : 0 ≤ tol)
    (hin : flag = false → fv = ⟨0, 0⟩ ∧ tv = ⟨0, 0⟩) :
    (fdiv (K.Mag (fv - tv)) vn).le tol = true ↔ (flag = true → K.Mag (fv - tv) / vn ≤ tol) := by
  rw [fdiv_le_of_ne_zero _ _ hvn, decide_eq_true_eq]
  cases flag
  · obtain ⟨h1, h2⟩ := hin rfl
    simp [h1, h2, complex_sub_self, hMag, htol]
  · simp

/-- One phase of the `SEP_DIFF` check. -/
theorem sep_phase_iff (K : Core) (fv tv : complex) (flag : Bool) (vn tolm tola : ℚ)
    (hvn : vn ≠ 0) (htm : 0 ≤ tolm) (hta : 0 ≤ tola)
    (hin : flag = false → fv = ⟨0, 0⟩ ∧ tv = ⟨0, 0⟩) :
    ((fdiv |K.Mag fv - K.Mag tv| vn).le tolm = true
        ∧ ang_deg_diff (K.Arg fv) (K.Arg tv) ≤ tola)
      ↔ (flag = true → |K.Mag fv - K.Mag tv| / vn ≤ tolm
          ∧ wrap_deg (RAD_TO_DEG |K.Arg fv - K.Arg tv|) ≤ tola) := by
  rw [fdiv_le_of_ne_zero _ _ hvn, decide_eq_true_eq]
  cases flag
  · obtain ⟨h1, h2⟩ := hin rfl
    simp [h1, h2, ang_deg_diff_self, htm, hta]
  · simp [ang_deg_diff, wrap_deg]

/-- C3, amended: in `MAG_DIFF` mode, for a state with non-zero `volt_norm` and non-negative
`voltage_tolerance_pu` whose stored phasors of inactive phases are zero, the strict check
passes exactly when the frequency difference is within `frequency_tolerance_hz` and, on
every active phase, the magnitude of the phasor difference divided by `volt_norm` is at
most `voltage_tolerance_pu` (the magnitude of the zero phasor being zero). -/
theorem C3_MAG_DIFF_verdict (K : Core) (s : sync_check)
    (hm : s.volt_compare_mode = VOLT_COMPARE_MODE.MAG_DIFF)
    (hMag : K.Mag ⟨0, 0⟩ = 0) (hvn : s.volt_norm ≠ 0) (htol : 0 ≤ s.voltage_tolerance_pu)
    (hin : inactive_phasors_zero s) :
    (check_metrics K s false).metrics_flag = true
      ↔ |s.swt_fm_node_freq - s.swt_to_node_freq| ≤ s.frequency_tolerance_hz
        ∧ (s.swt_ph_A_flag = true →
            K.Mag (s.swt_fm_volt_A - s.swt_to_volt_A) / s.volt_norm ≤ s.voltage_tolerance_pu)
        ∧ (s.swt_ph_B_flag = true →
            K.Mag (s.swt_fm_volt_B - s.swt_to_volt_B) / s.volt_norm ≤ s.voltage_tolerance_pu)
        ∧ (s.swt_ph_C_flag = true →
            K.Mag (s.swt_fm_volt_C - s.swt_to_volt_C) / s.volt_norm ≤ s.voltage_tolerance_pu) := by
  obtain ⟨hA, hB, hC⟩ := hin
  rw [metrics_flag_MAG_DIFF _ _ hm]
  simp only [Bool.and_eq_true, decide_eq_true_eq, and_assoc]
  rw [mag_phase_iff K _ _ _ _ _ hMag hvn htol hA, mag_phase_iff K _ _ _ _ _ hMag hvn htol hB,
    mag_phase_iff K _ _ _ _ _ hMag hvn htol hC]

/-- Witness of C3: the sample object on a 7200 V switch with phases A and B only, and a
snapshot that differs by 36 V on phase A. -/
theorem C3_MAG_DIFF_verdict_witness :
    (check_metrics stdCore
        (with_snapshot (after_setup VOLT_COMPARE_MODE.MAG_DIFF 60 7200 3)
          ⟨60, 60, ⟨7236, 0⟩, ⟨0, 7200⟩, ⟨0, 0⟩, ⟨7200, 0⟩, ⟨0, 7200⟩, ⟨0, 0⟩⟩)
        false).metrics_flag = true :=
  (C3_MAG_DIFF_verdict stdCore
    (with_snapshot (after_setup VOLT_COMPARE_MODE.MAG_DIFF 60 7200 3)
      ⟨60, 60, ⟨7236, 0⟩, ⟨0, 7200⟩, ⟨0, 0⟩, ⟨7200, 0⟩, ⟨0, 7200⟩, ⟨0, 0⟩⟩)
    rfl stdCore_Mag_zero
    (by norm_num [with_snapshot, after_setup])
    (by norm_num [with_snapshot, after_setup])
    (by norm_num [with_snapshot, after_setup, inactive_phasors_zero, land_three])).mpr
    (by
      have h36 : Rat.sqrt (36 * 36) = 36 := by rw [Rat.sqrt_eq]; norm_num
      have h0 : Rat.sqrt 0 = 0 := by simp [Rat.sqrt]
      have e1 : (⟨7236, 0⟩ : complex) - ⟨7200, 0⟩ = ⟨36, 0⟩ := by
        show complex.sub _ _ = _
        norm_num [complex.sub]
      norm_num [with_snapshot, after_setup, stdCore, complex_sub_self, e1, h36, h0, land_three])

/-- Counterexample to C3 as stated: after a successful setup between two buses of nominal
voltage zero with no phase active, the all-zero snapshot satisfies the right-hand side
(equal frequencies, no active phase) and fails the strict check. -/
theorem C3_fails_at_zero_volt_norm :
    create_and_init stdCore (globals_at 60) (some (open_switch 0 0))
        (arm VOLT_COMPARE_MODE.MAG_DIFF) (blank 0)
      = Except.ok (after_setup VOLT_COMPARE_MODE.MAG_DIFF 60 0 0)
    ∧ ¬ C3_as_stated stdCore (after_setup VOLT_COMPARE_MODE.MAG_DIFF 60 0 0) := by
  refine ⟨create_and_init_sample _ _ _ _ le_rfl, ?_⟩
  intro h
  have h2 := (h rfl (by norm_num [after_setup, inactive_phasors_zero])).mpr
    (by norm_num [after_setup])
  rw [metrics_flag_MAG_DIFF _ _ rfl] at h2
  norm_num [after_setup, fdiv, quot_val.le, complex_sub_self, stdCore_Mag_zero] at h2

/-- C4, amended: in `SEP_DIFF` mode, for a state with non-zero `volt_norm` and non-negative
`voltage_magnitude_tolerance_pu` and `voltage_angle_tolerance_deg` whose stored phasors of
inactive phases are zero, the strict check passes exactly when the frequency difference is
within `frequency_tolerance_hz` and, on every active phase, the difference of the
magnitudes divided by `volt_norm` is at most `voltage_magnitude_tolerance_pu` and the
wrapped angle difference in degrees is at most `voltage_angle_tolerance_deg`. -/
theorem C4_SEP_DIFF_verdict (K : Core) (s : sync_check)
    (hm : s.volt_compare_mode = VOLT_COMPARE_MODE.SEP_DIFF)
    (hvn : s.volt_norm ≠ 0) (htm : 0 ≤ s.voltage_magnitude_tolerance_pu)
    (hta : 0 ≤ s.voltage_angle_tolerance_deg) (hin : inactive_phasors_zero s) :
    (check_metrics K s false).metrics_flag = true
      ↔ |s.swt_fm_node_freq - s.swt_to_node_freq| ≤ s.frequency_tolerance_hz
        ∧ (s.swt_ph_A_flag = true →
            |K.Mag s.swt_fm_volt_A - K.Mag s.swt_to_volt_A| / s.volt_norm
                ≤ s.voltage_magnitude_tolerance_pu
              ∧ wrap_deg (RAD_TO_DEG |K.Arg s.swt_fm_volt_A - K.Arg s.swt_to_volt_A|)
                ≤ s.voltage_angle_tolerance_deg)
        ∧ (s.swt_ph_B_flag = true →
            |K.Mag s.swt_fm_volt_B - K.Mag s.swt_to_volt_B| / s.volt_norm
                ≤ s.voltage_magnitude_tolerance_pu
              ∧ wrap_deg (RAD_TO_DEG |K.Arg s.swt_fm_volt_B - K.Arg s.swt_to_volt_B|)
                ≤ s.voltage_angle_tolerance_deg)
        ∧ (s.swt_ph_C_flag = true →
            |K.Mag s.swt_fm_volt_C - K.Mag s.swt_to_volt_C| / s.volt_norm
                ≤ s.voltage_magnitude_tolerance_pu
              ∧ wrap_deg (RAD_TO_DEG |K.Arg s.swt_fm_volt_C - K.Arg s.swt_to_volt_C|)
                ≤ s.voltage_angle_tolerance_deg) := by
  obtain ⟨hA, hB, hC⟩ := hin
  have hm2 : s.volt_compare_mode ≠ VOLT_COMPARE_MODE.MAG_DIFF := by rw [hm]; decide
  rw [metrics_flag_SEP_DIFF _ _ hm2, ← sep_phase_iff K _ _ _ _ _ _ hvn htm hta hA,
    ← sep_phase_iff K _ _ _ _ _ _ hvn htm hta hB, ← sep_phase_iff K _ _ _ _ _ _ hvn htm hta hC]
  simp only [Bool.and_eq_true, decide_eq_true_eq]
  tauto


/-- Witness of C4: the sample object on a 7200 V switch with phases A and B only, in
`SEP_DIFF` mode, and a snapshot whose magnitudes differ by 36 V on phase A. -/
theorem C4_SEP_DIFF_verdict_witness :
    (check_metrics stdCore
        (with_snapshot (after_setup VOLT_COMPARE_MODE.SEP_DIFF 60 7200 3)
          ⟨60, 60, ⟨7236, 0⟩, ⟨7200, 0⟩, ⟨0, 0⟩, ⟨7200, 0⟩, ⟨7200, 0⟩, ⟨0, 0⟩⟩)
        false).metrics_flag = true :=
  (C4_SEP_DIFF_verdict stdCore
    (with_snapshot (after_setup VOLT_COMPARE_MODE.SEP_DIFF 60 7200 3)
      ⟨60, 60, ⟨7236, 0⟩, ⟨7200, 0⟩, ⟨0, 0⟩, ⟨7200, 0⟩, ⟨7200, 0⟩, ⟨0, 0⟩⟩)
    rfl
    (by norm_num [with_snapshot, after_setup])
    (by norm_num [with_snapshot, after_setup])
    (by norm_num [with_snapshot, after_setup])
    (by norm_num [with_snapshot, after_setup, inactive_phasors_zero, land_three])).mpr
    (by
      have m1 := stdCore_Mag_real 7236 (by norm_num)
      have m2 := stdCore_Mag_real 7200 (by norm_num)
      have a1 := stdCore_Arg_real 7236 (by norm_num)
      have a2 := stdCore_Arg_real 7200 (by norm_num)
      norm_num [with_snapshot, after_setup, land_three, m1, m2, a1, a2, wrap_deg, RAD_TO_DEG])

/-- Counterexample to C4 as stated: after a successful setup in `SEP_DIFF` mode between two
buses of nominal voltage zero with no phase active, the all-zero snapshot satisfies the
right-hand side and fails the strict check. -/
theorem C4_fails_at_zero_volt_norm :
    create_and_init stdCore (globals_at 60) (some (open_switch 0 0))
        (arm VOLT_COMPARE_MODE.SEP_DIFF) (blank 0)
      = Except.ok (after_setup VOLT_COMPARE_MODE.SEP_DIFF 60 0 0)
    ∧ ¬ C4_as_stated stdCore (after_setup VOLT_COMPARE_MODE.SEP_DIFF 60 0 0) := by
  refine ⟨create_and_init_sample _ _ _ _ le_rfl, ?_⟩
  intro h
  have h2 := (h rfl (by norm_num [after_setup, inactive_phasors_zero])).mpr
    (by norm_num [after_setup])
  rw [metrics_flag_SEP_DIFF _ _ (by simp [after_setup])] at h2
  norm_num [after_setup, fdiv, quot_val.le] at h2

/-- C5: for two `Arg()` values whose angles `a` and `b` in degrees lie in `(-180, 180]`, the
angle difference compared by the `SEP_DIFF` check is `min (|a - b|) (360 - |a - b|)`, lies in
`[0, 180]` and is symmetric in the two phasors; for `a = 179` and `b = -179` it is 2. -/
theorem C5_angle_wrap (x y : ℚ)
    (hx : -180 < RAD_TO_DEG x ∧ RAD_TO_DEG x ≤ 180)
    (hy : -180 < RAD_TO_DEG y ∧ RAD_TO_DEG y ≤ 180) :
    ang_deg_diff x y
        = min |RAD_TO_DEG x - RAD_TO_DEG y| (360 - |RAD_TO_DEG x - RAD_TO_DEG y|)
      ∧ 0 ≤ ang_deg_diff x y ∧ ang_deg_diff x y ≤ 180
      ∧ ang_deg_diff x y = ang_deg_diff y x
      ∧ (RAD_TO_DEG x = 179 → RAD_TO_DEG y = -179 →
          ang_deg_diff x y = 2 ∧ ang_deg_diff x y ≠ 358) := by
  have key : ∀ u v : ℚ, ang_deg_diff u v
      = if |RAD_TO_DEG u - RAD_TO_DEG v| > 180 then 360 - |RAD_TO_DEG u - RAD_TO_DEG v|
        else |RAD_TO_DEG u - RAD_TO_DEG v| := by
    intro u v
    unfold ang_deg_diff
    simp only [RAD_TO_DEG_abs_sub]
  have hlt : |RAD_TO_DEG x - RAD_TO_DEG y| < 360 := by
    rw [abs_lt]; constructor <;> linarith [hx.1, hx.2, hy.1, hy.2]
  have hnn : 0 ≤ |RAD_TO_DEG x - RAD_TO_DEG y| := abs_nonneg _
  have hsymm : |RAD_TO_DEG y - RAD_TO_DEG x| = |RAD_TO_DEG x - RAD_TO_DEG y| := abs_sub_comm _ _
  refine ⟨?_, ?_, ?_, ?_, ?_⟩
  · rw [key]
    split
    · rw [min_eq_right]; linarith
    · rw [min_eq_left]; linarith
  · rw [key]; split <;> linarith
  · rw [key]; split <;> linarith
  · rw [key, key, hsymm]
  · intro ha hb
    rw [key, ha, hb]
    norm_num [abs_of_pos]

/-- Witness of C5: the two arguments `179 / 180 * M_PI` and `-179 / 180 * M_PI`, that is
179 and -179 degrees. -/
theorem C5_angle_wrap_witness :
    ang_deg_diff (179 / 180 * M_PI) (-179 / 180 * M_PI) = 2 := by
  have h1 : RAD_TO_DEG (179 / 180 * M_PI) = 179 := by norm_num [RAD_TO_DEG, M_PI]
  have h2 : RAD_TO_DEG (-179 / 180 * M_PI) = -179 := by norm_num [RAD_TO_DEG, M_PI]
  exact ((C5_angle_wrap (179 / 180 * M_PI) (-179 / 180 * M_PI)
    (by rw [h1]; norm_num) (by rw [h2]; norm_num)).2.2.2.2 h1 h2).1

/-! ## Lemmas on setup -/

theorem data_sanity_check_eq (K : Core) (G : Globals) (par : Option switch_object)
    (s : sync_check) :
    data_sanity_check K G par s =
      match par with
      | none => Except.error SetupError.parent_not_specified
      | some p =>
        if p.is_switch = false then Except.error SetupError.parent_not_switch
        else
          match p.status with
          | none => Except.error SetupError.status_not_mapped
          | some swt_init_status =>
            match dsc_freq G (dsc_status K swt_init_status s) with
            | Except.error e => Except.error e
            | Except.ok s => Except.ok (dsc_rest s) := by
  rfl

theorem data_sanity_check_ok_iff (K : Core) (G : Globals) (par : Option switch_object)
    (s s1 : sync_check) :
    data_sanity_check K G par s = Except.ok s1 ↔
      ∃ p st r, par = some p ∧ p.is_switch = true ∧ p.status = some st
        ∧ dsc_freq G (dsc_status K st s) = Except.ok r ∧ s1 = dsc_rest r := by
  rw [data_sanity_check_eq]
  constructor
  · intro h
    split at h
    · cases h
    · rename_i p
      split at h
      · cases h
      · rename_i hsw
        split at h
        · cases h
        · rename_i st hst
          split at h
          · cases h
          · rename_i r hr
            injection h with h
            exact ⟨p, st, r, rfl, by simpa using hsw, hst, hr, h.symm⟩
  · rintro ⟨p, st, r, rfl, hsw, hst, hr, rfl⟩
    simp [hsw, hst, hr]


theorem init_norm_values_eq (G : Globals) (par : Option switch_object) (s : sync_check) :
    init_norm_values G par s =
      match par.bind (fun p => p.from_node) with
      | none => Except.error SetupError.from_not_mapped
      | some fm =>
        match par.bind (fun p => p.to_node) with
        | none => Except.error SetupError.to_not_mapped
        | some tn =>
          match fm.nominal_voltage with
          | none => Except.error SetupError.nominal_voltage_not_mapped
          | some volt_norm_fm =>
            match tn.nominal_voltage with
            | none => Except.error SetupError.nominal_voltage_not_mapped
            | some volt_norm_to =>
              if |volt_norm_fm - volt_norm_to|
                  > s.voltage_tolerance_pu * ((volt_norm_fm + volt_norm_to) / 2) then
                Except.error SetupError.nominal_voltage_mismatch
              else Except.ok (inv_tail G (inv_nodes fm tn volt_norm_fm volt_norm_to s)) := by
  rfl

theorem init_norm_values_ok_iff (G : Globals) (par : Option switch_object)
    (s s2 : sync_check) :
    init_norm_values G par s = Except.ok s2 ↔
      ∃ fm tn vf vt, par.bind (fun p => p.from_node) = some fm
        ∧ par.bind (fun p => p.to_node) = some tn
        ∧ fm.nominal_voltage = some vf ∧ tn.nominal_voltage = some vt
        ∧ ¬ (|vf - vt| > s.voltage_tolerance_pu * ((vf + vt) / 2))
        ∧ s2 = inv_tail G (inv_nodes fm tn vf vt s) := by
  rw [init_norm_values_eq]
  constructor
  · intro h
    split at h
    · cases h
    · rename_i fm hfm
      split at h
      · cases h
      · rename_i tn htn
        split at h
        · cases h
        · rename_i vf hvf
          split at h
          · cases h
          · rename_i vt hvt
            split at h
            · cases h
            · rename_i hc
              injection h with h
              exact ⟨fm, tn, vf, vt, hfm, htn, hvf, hvt, hc, h.symm⟩
  · rintro ⟨fm, tn, vf, vt, hfm, htn, hvf, hvt, hc, rfl⟩
    simp only [hfm, htn, hvf, hvt, if_neg hc]

theorem init_sensors_ok (K : Core) (par : Option switch_object) (s s3 : sync_check)
    (h : init_sensors K par s = Except.ok s3) :
    ∃ ph, par.bind (fun p => p.phases) = some ph ∧ s3 = sensors_state K ph s := by
  unfold init_sensors at h
  split at h
  · cases h
  · rename_i ph hph
    refine ⟨ph, hph, ?_⟩
    simp only [] at h
    split_ifs at h
    injection h with h
    exact h.symm

theorem init_ok_iff (K : Core) (G : Globals) (parent : Option switch_object)
    (s r : sync_check) :
    init K G parent s = Except.ok r ↔
      ∃ s1 s2 s3, data_sanity_check K G parent s = Except.ok s1
        ∧ init_norm_values G parent s1 = Except.ok s2
        ∧ init_sensors K parent s2 = Except.ok s3 ∧ r = reg_deltamode_check G s3 := by
  unfold init
  constructor
  · intro h
    split at h
    · cases h
    · rename_i s1 h1
      split at h
      · cases h
      · rename_i s2 h2
        split at h
        · cases h
        · rename_i s3 h3
          injection h with h
          exact ⟨s1, s2, s3, h1, h2, h3, h.symm⟩
  · rintro ⟨s1, s2, s3, h1, h2, h3, rfl⟩
    simp only [h1, h2, h3]


theorem dsc_volt_props (s : sync_check) :
    0 < (dsc_volt s).voltage_tolerance_pu
      ∧ (dsc_volt s).voltage_magnitude_tolerance_pu = s.voltage_magnitude_tolerance_pu
      ∧ (dsc_volt s).voltage_angle_tolerance_deg = s.voltage_angle_tolerance_deg
      ∧ (dsc_volt s).metrics_period_sec = s.metrics_period_sec
      ∧ (dsc_volt s).frequency_tolerance_hz = s.frequency_tolerance_hz
      ∧ (dsc_volt s).delta_trigger_mult = s.delta_trigger_mult := by
  unfold dsc_volt
  split_ifs with h
  · exact ⟨by norm_num, rfl, rfl, rfl, rfl, rfl⟩
  · exact ⟨not_le.mp h, rfl, rfl, rfl, rfl, rfl⟩

theorem dsc_vmag_props (s : sync_check) :
    (dsc_vmag s).voltage_tolerance_pu = s.voltage_tolerance_pu
      ∧ 0 < (dsc_vmag s).voltage_magnitude_tolerance_pu
      ∧ (dsc_vmag s).voltage_angle_tolerance_deg = s.voltage_angle_tolerance_deg
      ∧ (dsc_vmag s).metrics_period_sec = s.metrics_period_sec
      ∧ (dsc_vmag s).frequency_tolerance_hz = s.frequency_tolerance_hz
      ∧ (dsc_vmag s).delta_trigger_mult = s.delta_trigger_mult := by
  unfold dsc_vmag
  split_ifs with h
  · exact ⟨rfl, by norm_num, rfl, rfl, rfl, rfl⟩
  · exact ⟨rfl, not_le.mp h, rfl, rfl, rfl, rfl⟩

theorem dsc_vang_props (s : sync_check) :
    (dsc_vang s).voltage_tolerance_pu = s.voltage_tolerance_pu
      ∧ (dsc_vang s).voltage_magnitude_tolerance_pu = s.voltage_magnitude_tolerance_pu
      ∧ 0 < (dsc_vang s).voltage_angle_tolerance_deg
      ∧ (dsc_vang s).metrics_period_sec = s.metrics_period_sec
      ∧ (dsc_vang s).frequency_tolerance_hz = s.frequency_tolerance_hz
      ∧ (dsc_vang s).delta_trigger_mult = s.delta_trigger_mult := by
  unfold dsc_vang
  split_ifs with h
  · exact ⟨rfl, rfl, by norm_num, rfl, rfl, rfl⟩
  · exact ⟨rfl, rfl, not_le.mp h, rfl, rfl, rfl⟩

theorem dsc_period_props (s : sync_check) :
    (dsc_period s).voltage_tolerance_pu = s.voltage_tolerance_pu
      ∧ (dsc_period s).voltage_magnitude_tolerance_pu = s.voltage_magnitude_tolerance_pu
      ∧ (dsc_period s).voltage_angle_tolerance_deg = s.voltage_angle_tolerance_deg
      ∧ 0 < (dsc_period s).metrics_period_sec
      ∧ (dsc_period s).frequency_tolerance_hz = s.frequency_tolerance_hz
      ∧ (dsc_period s).delta_trigger_mult = s.delta_trigger_mult := by
  unfold dsc_period
  split_ifs with h
  · exact ⟨rfl, rfl, rfl, by norm_num, rfl, rfl⟩
  · exact ⟨rfl, rfl, rfl, not_le.mp h, rfl, rfl⟩

theorem dsc_rest_props (r : sync_check) :
    0 < (dsc_rest r).voltage_tolerance_pu ∧ 0 < (dsc_rest r).voltage_magnitude_tolerance_pu
      ∧ 0 < (dsc_rest r).voltage_angle_tolerance_deg ∧ 0 < (dsc_rest r).metrics_period_sec
      ∧ (dsc_rest r).frequency_tolerance_hz = r.frequency_tolerance_hz
      ∧ (dsc_rest r).delta_trigger_mult = r.delta_trigger_mult := by
  obtain ⟨a1, a2, a3, a4, a5, a6⟩ := dsc_volt_props r
  obtain ⟨b1, b2, b3, b4, b5, b6⟩ := dsc_vmag_props (dsc_volt r)
  obtain ⟨c1, c2, c3, c4, c5, c6⟩ := dsc_vang_props (dsc_vmag (dsc_volt r))
  obtain ⟨d1, d2, d3, d4, d5, d6⟩ := dsc_period_props (dsc_vang (dsc_vmag (dsc_volt r)))
  unfold dsc_rest
  refine ⟨?_, ?_, ?_, d4, ?_, ?_⟩
  · rw [d1, c1, b1]; exact a1
  · rw [d2, c2]; exact b2
  · rw [d3]; exact c3
  · rw [d5, c5, b5, a5]
  · rw [d6, c6, b6, a6]

theorem inv_tail_props (G : Globals) (s : sync_check) :
    (inv_tail G s).voltage_tolerance_pu = s.voltage_tolerance_pu
      ∧ (inv_tail G s).voltage_magnitude_tolerance_pu = s.voltage_magnitude_tolerance_pu
      ∧ (inv_tail G s).voltage_angle_tolerance_deg = s.voltage_angle_tolerance_deg
      ∧ (inv_tail G s).metrics_period_sec = s.metrics_period_sec
      ∧ (inv_tail G s).frequency_tolerance_hz = s.frequency_tolerance_hz
      ∧ 1 < (inv_tail G s).delta_trigger_mult
      ∧ (inv_tail G s).frequency_tolerance_hz_deltamode_trig
          = (inv_tail G s).delta_trigger_mult * (inv_tail G s).frequency_tolerance_hz
      ∧ (inv_tail G s).voltage_tolerance_pu_deltamode_trig
          = (inv_tail G s).delta_trigger_mult * (inv_tail G s).voltage_tolerance_pu
      ∧ (inv_tail G s).voltage_magnitude_tolerance_pu_deltamode_trig
          = (inv_tail G s).delta_trigger_mult * (inv_tail G s).voltage_magnitude_tolerance_pu
      ∧ (inv_tail G s).voltage_angle_tolerance_deg_deltamode_trig
          = (inv_tail G s).delta_trigger_mult * (inv_tail G s).voltage_angle_tolerance_deg := by
  simp only [inv_tail]
  split_ifs with h
  · norm_num
  · norm_num at h ⊢
    exact h

/-- The two setup steps named by the claims establish the invariant. -/
theorem setup_invariant_of_steps (K : Core) (G : Globals) (par : Option switch_object)
    (s s1 s2 : sync_check) (h1 : data_sanity_check K G par s = Except.ok s1)
    (h2 : init_norm_values G par s1 = Except.ok s2) : setup_invariant s2 := by
  obtain ⟨p, st, r, -, -, -, -, rfl⟩ := (data_sanity_check_ok_iff K G par s s1).mp h1
  obtain ⟨fm, tn, vf, vt, -, -, -, -, -, rfl⟩ := (init_norm_values_ok_iff G par _ s2).mp h2
  obtain ⟨a1, a2, a3, a4, -, -⟩ := dsc_rest_props r
  obtain ⟨b1, b2, b3, b4, b5, b6, b7, b8, b9, b10⟩ :=
    inv_tail_props G (inv_nodes fm tn vf vt (dsc_rest r))
  refine ⟨?_, ?_, ?_, ?_, b6, b7, b8, b9, b10⟩
  · rw [b1]; exact a1
  · rw [b2]; exact a2
  · rw [b3]; exact a3
  · rw [b4]; exact a4

theorem reg_deltamode_check_invariant (G : Globals) (s : sync_check)
    (h : setup_invariant s) : setup_invariant (reg_deltamode_check G s) := by
  simp only [reg_deltamode_check]
  split_ifs <;> exact h

/-- A successful `init` establishes the invariant. -/
theorem setup_invariant_of_init (K : Core) (G : Globals) (parent : Option switch_object)
    (s r : sync_check) (h : init K G parent s = Except.ok r) : setup_invariant r := by
  obtain ⟨s1, s2, s3, h1, h2, h3, rfl⟩ := (init_ok_iff K G parent s r).mp h
  obtain ⟨ph, -, rfl⟩ := init_sensors_ok K parent s2 s3 h3
  exact reg_deltamode_check_invariant G _ (setup_invariant_of_steps K G parent s s1 s2 h1 h2)

/-! ## The sample setup, step by step -/

theorem init_vars_blank (f : ℚ) (ph : ℕ) :
    init_vars (globals_at f) (blank ph) = Except.ok (created f ph) := by
  have e1 : (1 : ℚ) / 100 * f = f / 100 := by ring
  norm_num [init_vars, globals_at, blank, created, e1]

theorem setup_steps_sample (m : VOLT_COMPARE_MODE) (f v : ℚ) (ph : ℕ) (hv : 0 ≤ v) :
    setup_steps stdCore (globals_at f) (some (open_switch v v)) (arm m (created f ph))
      = Except.ok (after_steps m f v ph) := by
  have h : ¬ ((1 : ℚ) / 100 * v < 0) := not_lt.mpr (by positivity)
  have e1 : (1 : ℚ) / 100 * f = f / 100 := by ring
  have e2 : (2 : ℚ) * (f / 100) = f / 50 := by ring
  by_cases hf : f ≤ 0 <;>
  norm_num [setup_steps, data_sanity_check, init_norm_values, globals_at, open_switch, bus_at,
    blank, created, stdCore, arm, after_steps, after_setup, h, hf, e1, e2]

theorem init_sample (m : VOLT_COMPARE_MODE) (f v : ℚ) (ph : ℕ) (hv : 0 ≤ v) :
    init stdCore (globals_at f) (some (open_switch v v)) (arm m (created f ph))
      = Except.ok (after_setup m f v ph) := by
  have h : ¬ ((1 : ℚ) / 100 * v < 0) := not_lt.mpr (by positivity)
  have e1 : (1 : ℚ) / 100 * f = f / 100 := by ring
  have e2 : (2 : ℚ) * (f / 100) = f / 50 := by ring
  by_cases hf : f ≤ 0 <;>
  norm_num [init, data_sanity_check, init_norm_values, init_sensors, reg_deltamode_check,
    globals_at, open_switch, bus_at, blank, created, stdCore, arm, after_setup, h, hf, e1, e2]

theorem setup_steps_ok_iff (K : Core) (G : Globals) (par : Option switch_object)
    (s s2 : sync_check) :
    setup_steps K G par s = Except.ok s2 ↔
      ∃ s1, data_sanity_check K G par s = Except.ok s1
        ∧ init_norm_values G par s1 = Except.ok s2 := by
  unfold setup_steps
  constructor
  · intro h
    split at h
    · cases h
    · rename_i s1 h1
      exact ⟨s1, h1, h⟩
  · rintro ⟨s1, h1, h2⟩
    simp only [h1, h2]

/-! ## Claims on the relaxed tolerances -/

theorem quot_le_relax (q : quot_val) (t m : ℚ) (ht : 0 < t) (hm : 1 < m)
    (h : q.le t = true) : q.le (m * t) = true := by
  cases q with
  | finite x =>
    simp only [quot_val.le, decide_eq_true_eq] at h ⊢
    nlinarith
  | pos_inf => simp [quot_val.le] at h
  | neg_inf => rfl
  | nan => simp [quot_val.le] at h

theorem le_relax_of_pos (x t m : ℚ) (ht : 0 < t) (hm : 1 < m) (h : x ≤ t) : x ≤ m * t := by
  nlinarith

theorem abs_le_relax (x t m : ℚ) (hm : 1 < m) (h : |x| ≤ t) : |x| ≤ m * t := by
  have h0 : 0 ≤ t := le_trans (abs_nonneg x) h
  nlinarith

/-- Under the setup invariant a strict pass is a relaxed pass, on every snapshot and in
either mode. -/
theorem strict_implies_relaxed (K : Core) (s : sync_check) (hinv : setup_invariant s)
    (h : (check_metrics K s false).metrics_flag = true) :
    (check_metrics K s true).deltamode_trigger_keep_flag = true := by
  obtain ⟨p1, p2, p3, -, pm, e1, e2, e3, e4⟩ := hinv
  by_cases hm : s.volt_compare_mode = VOLT_COMPARE_MODE.MAG_DIFF
  · rw [metrics_flag_MAG_DIFF _ _ hm] at h
    rw [keep_flag_MAG_DIFF _ _ hm, e1, e2]
    simp only [Bool.and_eq_true, decide_eq_true_eq] at h ⊢
    obtain ⟨⟨⟨hf, hA⟩, hB⟩, hC⟩ := h
    exact ⟨⟨⟨abs_le_relax _ _ _ pm hf, quot_le_relax _ _ _ p1 pm hA⟩,
      quot_le_relax _ _ _ p1 pm hB⟩, quot_le_relax _ _ _ p1 pm hC⟩
  · rw [metrics_flag_SEP_DIFF _ _ hm] at h
    rw [keep_flag_SEP_DIFF _ _ hm, e1, e3, e4]
    simp only [Bool.and_eq_true, decide_eq_true_eq] at h ⊢
    obtain ⟨⟨⟨⟨⟨⟨hf, hA⟩, hB⟩, hC⟩, gA⟩, gB⟩, gC⟩ := h
    exact ⟨⟨⟨⟨⟨⟨abs_le_relax _ _ _ pm hf, quot_le_relax _ _ _ p2 pm hA⟩,
      quot_le_relax _ _ _ p2 pm hB⟩, quot_le_relax _ _ _ p2 pm hC⟩,
      le_relax_of_pos _ _ _ p3 pm gA⟩, le_relax_of_pos _ _ _ p3 pm gB⟩,
      le_relax_of_pos _ _ _ p3 pm gC⟩

/-- With exact arithmetic and finite configuration values: in every state produced by a
successful `init`, for every snapshot and in both modes, a pass of the strict check
(`check_metrics(false)` sets `metrics_flag`) implies a pass of the relaxed check on the same
snapshot (`check_metrics(true)` sets `deltamode_trigger_keep_flag`). -/
theorem exact_strict_pass_implies_relaxed_pass (K : Core) (G : Globals)
    (parent : Option switch_object) (s0 s : sync_check)
    (hinit : init K G parent s0 = Except.ok s) (m : VOLT_COMPARE_MODE) (b : bus_values)
    (hstrict : (check_metrics K (with_snapshot { s with volt_compare_mode := m } b)
      false).metrics_flag = true) :
    (check_metrics K (with_snapshot { s with volt_compare_mode := m } b)
      true).deltamode_trigger_keep_flag = true :=
  strict_implies_relaxed K _ (setup_invariant_of_init K G parent s0 s hinit) hstrict

/-- Sample of the strict and the relaxed check with exact arithmetic: the sample object on a
7200 V switch, switched to `SEP_DIFF` mode, with equal phasors on both buses at 60.00 and
60.005 Hz. -/
theorem exact_strict_pass_implies_relaxed_pass_sample :
    (check_metrics stdCore
      (with_snapshot
        { after_setup VOLT_COMPARE_MODE.MAG_DIFF 60 7200 7 with
          volt_compare_mode := VOLT_COMPARE_MODE.SEP_DIFF }
        ⟨60.00, 60.005, ⟨7200, 0⟩, ⟨0, 7200⟩, ⟨0, -7200⟩, ⟨7200, 0⟩, ⟨0, 7200⟩, ⟨0, -7200⟩⟩)
      true).deltamode_trigger_keep_flag = true :=
  exact_strict_pass_implies_relaxed_pass stdCore (globals_at 60) (some (open_switch 7200 7200))
    (arm VOLT_COMPARE_MODE.MAG_DIFF (created 60 7)) (after_setup VOLT_COMPARE_MODE.MAG_DIFF 60 7200 7)
    (init_sample VOLT_COMPARE_MODE.MAG_DIFF 60 7200 7 (by norm_num))
    VOLT_COMPARE_MODE.SEP_DIFF
    ⟨60.00, 60.005, ⟨7200, 0⟩, ⟨0, 7200⟩, ⟨0, -7200⟩, ⟨7200, 0⟩, ⟨0, 7200⟩, ⟨0, -7200⟩⟩
    ((strict_iff_freq stdCore _ (by norm_num [with_snapshot, after_setup])
      (volt_diffs_zero_of_identical _ _ stdCore_Mag_zero
        (by norm_num [with_snapshot, phasors_identical]))
      (by norm_num [with_snapshot, after_setup]) (by norm_num [with_snapshot, after_setup])
      (by norm_num [with_snapshot, after_setup])).mpr
      (by norm_num [with_snapshot, after_setup, abs_le]))

theorem dsc_status_freq (K : Core) (st : enumeration) (s : sync_check) :
    (dsc_status K st s).frequency_tolerance_hz = s.frequency_tolerance_hz := by
  simp only [dsc_status]
  split_ifs <;> rfl

theorem dsc_freq_ok (G : Globals) (s r : sync_check) (h : dsc_freq G s = Except.ok r) :
    (0 < s.frequency_tolerance_hz ∧ r.frequency_tolerance_hz = s.frequency_tolerance_hz)
      ∨ (s.frequency_tolerance_hz ≤ 0
        ∧ ∃ f, G.nominal_frequency = some f ∧ r.frequency_tolerance_hz = 0.01 * f) := by
  unfold dsc_freq at h
  split_ifs at h with hle
  · split at h
    · cases h
    · rename_i f hf
      injection h with h
      subst h
      exact Or.inr ⟨hle, f, hf, rfl⟩
  · injection h with h
    subst h
    exact Or.inl ⟨not_le.mp hle, rfl⟩

/-- The strict frequency tolerance after the two setup steps: the configured value when it
is positive, one percent of the nominal frequency otherwise. -/
theorem setup_steps_freq (K : Core) (G : Globals) (par : Option switch_object)
    (s0 s : sync_check) (h : setup_steps K G par s0 = Except.ok s) :
    (0 < s0.frequency_tolerance_hz ∧ s.frequency_tolerance_hz = s0.frequency_tolerance_hz)
      ∨ (s0.frequency_tolerance_hz ≤ 0
        ∧ ∃ f, G.nominal_frequency = some f ∧ s.frequency_tolerance_hz = 0.01 * f) := by
  obtain ⟨s1, h1, h2⟩ := (setup_steps_ok_iff K G par s0 s).mp h
  obtain ⟨p, st, r, -, -, -, hr, rfl⟩ := (data_sanity_check_ok_iff K G par s0 s1).mp h1
  obtain ⟨fm, tn, vf, vt, -, -, -, -, -, rfl⟩ := (init_norm_values_ok_iff G par _ s).mp h2
  have e : (inv_tail G (inv_nodes fm tn vf vt (dsc_rest r))).frequency_tolerance_hz
      = r.frequency_tolerance_hz := by
    rw [(inv_tail_props G _).2.2.2.2.1]
    exact (dsc_rest_props r).2.2.2.2.1
  rw [e]
  have := dsc_freq_ok G _ r hr
  rw [dsc_status_freq] at this
  exact this

/-- With exact arithmetic and finite configuration values: after every successful setup
(`data_sanity_check` followed by `init_norm_values`) each of the four relaxed tolerances
equals `delta_trigger_mult` times the corresponding strict tolerance as corrected by setup;
the three relaxed voltage tolerances are at least their strict tolerances; the relaxed
frequency tolerance is at least the strict one exactly when the corrected strict frequency
tolerance is not negative, which is the case whenever the configured frequency tolerance is
positive or the nominal frequency is not negative. -/
theorem exact_relaxed_tolerances (K : Core) (G : Globals) (par : Option switch_object)
    (s0 s : sync_check) (h : setup_steps K G par s0 = Except.ok s) :
    s.frequency_tolerance_hz_deltamode_trig = s.delta_trigger_mult * s.frequency_tolerance_hz
      ∧ (s.voltage_tolerance_pu_deltamode_trig = s.delta_trigger_mult * s.voltage_tolerance_pu
        ∧ s.voltage_tolerance_pu_deltamode_trig ≥ s.voltage_tolerance_pu)
      ∧ (s.voltage_magnitude_tolerance_pu_deltamode_trig
            = s.delta_trigger_mult * s.voltage_magnitude_tolerance_pu
        ∧ s.voltage_magnitude_tolerance_pu_deltamode_trig ≥ s.voltage_magnitude_tolerance_pu)
      ∧ (s.voltage_angle_tolerance_deg_deltamode_trig
            = s.delta_trigger_mult * s.voltage_angle_tolerance_deg
        ∧ s.voltage_angle_tolerance_deg_deltamode_trig ≥ s.voltage_angle_tolerance_deg)
      ∧ (s.frequency_tolerance_hz_deltamode_trig ≥ s.frequency_tolerance_hz
        ↔ 0 ≤ s.frequency_tolerance_hz)
      ∧ ((0 < s0.frequency_tolerance_hz ∨ ∃ f, G.nominal_frequency = some f ∧ 0 ≤ f) →
        s.frequency_tolerance_hz_deltamode_trig ≥ s.frequency_tolerance_hz) := by
  obtain ⟨s1, h1, h2⟩ := (setup_steps_ok_iff K G par s0 s).mp h
  obtain ⟨p1, p2, p3, -, pm, e1, e2, e3, e4⟩ := setup_invariant_of_steps K G par s0 s1 s h1 h2
  have hiff : s.frequency_tolerance_hz_deltamode_trig ≥ s.frequency_tolerance_hz
      ↔ 0 ≤ s.frequency_tolerance_hz := by
    rw [e1]
    constructor
    · intro hge
      nlinarith
    · intro hnn
      nlinarith
  refine ⟨e1, ⟨e2, ?_⟩, ⟨e3, ?_⟩, ⟨e4, ?_⟩, hiff, ?_⟩
  · rw [e2]; nlinarith
  · rw [e3]; nlinarith
  · rw [e4]; nlinarith
  · intro hc
    rw [hiff]
    rcases setup_steps_freq K G par s0 s h with ⟨hpos, heq⟩ | ⟨hle, f, hf, heq⟩
    · rw [heq]; exact hpos.le
    · rcases hc with hc | ⟨g, hg, hg0⟩
      · exact absurd hc (not_lt.mpr hle)
      · rw [hf] at hg
        injection hg with hg
        subst hg
        rw [heq]
        norm_num
        exact hg0

/-- Sample of the relaxed tolerances with exact arithmetic: the two setup steps of the
sample object at 60 Hz on a 7200 V switch. -/
theorem exact_relaxed_tolerances_sample :
    (after_steps VOLT_COMPARE_MODE.MAG_DIFF 60 7200 7).frequency_tolerance_hz_deltamode_trig
      = (after_steps VOLT_COMPARE_MODE.MAG_DIFF 60 7200 7).delta_trigger_mult
        * (after_steps VOLT_COMPARE_MODE.MAG_DIFF 60 7200 7).frequency_tolerance_hz :=
  (exact_relaxed_tolerances stdCore (globals_at 60) (some (open_switch 7200 7200))
    (arm VOLT_COMPARE_MODE.MAG_DIFF (created 60 7))
    (after_steps VOLT_COMPARE_MODE.MAG_DIFF 60 7200 7)
    (setup_steps_sample VOLT_COMPARE_MODE.MAG_DIFF 60 7200 7 (by norm_num))).1

/-- A failing input of C7 as stated, with exact arithmetic: with the global nominal
frequency set to -60 and the frequency tolerance left at its default, setup succeeds with a
strict frequency tolerance of -0.6 Hz and a relaxed one of -1.2 Hz, which is below the
strict one. -/
theorem C7_fails_at_negative_nominal_frequency :
    setup_steps stdCore (globals_at (-60)) (some (open_switch 7200 7200))
        (arm VOLT_COMPARE_MODE.MAG_DIFF (created (-60) 7))
      = Except.ok (after_steps VOLT_COMPARE_MODE.MAG_DIFF (-60) 7200 7)
    ∧ ¬ C7_as_stated (after_steps VOLT_COMPARE_MODE.MAG_DIFF (-60) 7200 7) := by
  refine ⟨setup_steps_sample _ _ _ _ (by norm_num), ?_⟩
  intro h
  have h2 := h.1.2
  norm_num [after_steps, after_setup] at h2

/-! ## Claims on the dwell timer -/

/-- C9: when the strict verdict is non-compliant (`metrics_flag` false) and
`metrics_period_sec` is positive, `check_excitation` sets the accumulator to 0 whatever its
prior value and the elapsed time, does not write the switch status, and leaves the armed
flag as it was, so an armed monitor stays armed. -/
theorem C9_non_compliant_tick (K : Core) (s : sync_check) (dt : ℕ)
    (hflag : s.metrics_flag = false) (hP : 0 < s.metrics_period_sec) :
    (check_excitation K s dt).t_sat = 0
      ∧ (check_excitation K s dt).swt_status = s.swt_status
      ∧ (check_excitation K s dt).swt_status_writes = s.swt_status_writes
      ∧ (check_excitation K s dt).sc_enabled_flag = s.sc_enabled_flag
      ∧ (s.sc_enabled_flag = true → (check_excitation K s dt).sc_enabled_flag = true) := by
  have hn : ¬ ((0 : ℚ) ≥ s.metrics_period_sec) := not_le.mpr hP
  simp only [check_excitation, hflag, Bool.false_eq_true, if_false, if_neg hn]
  exact ⟨trivial, trivial, trivial, trivial, fun h => h⟩

/-- Witness of C9: the armed sample object with accumulator 1 s and a failed verdict. -/
theorem C9_non_compliant_tick_witness :
    (check_excitation stdCore
      { after_setup VOLT_COMPARE_MODE.MAG_DIFF 60 7200 7 with metrics_flag := false, t_sat := 1 }
      1000000000).t_sat = 0 :=
  (C9_non_compliant_tick stdCore
    { after_setup VOLT_COMPARE_MODE.MAG_DIFF 60 7200 7 with metrics_flag := false, t_sat := 1 }
    1000000000 rfl (by norm_num [after_setup])).1

/-! ## Lemmas on the evaluation steps -/

theorem check_metrics_true_eq (K : Core) (s : sync_check) :
    check_metrics K s true
      = { s with deltamode_trigger_keep_flag :=
            (check_metrics K s true).deltamode_trigger_keep_flag } := by
  unfold check_metrics
  split <;> simp only [if_true] <;> split <;> rfl

theorem check_metrics_false_eq (K : Core) (s : sync_check) :
    check_metrics K s false
      = { s with metrics_flag := (check_metrics K s false).metrics_flag } := by
  unfold check_metrics
  split <;> simp only [Bool.false_eq_true, if_false] <;> split <;> rfl

theorem metrics_flag_congr (K : Core) (s r : sync_check) (h : strict_inputs_eq s r) :
    (check_metrics K r false).metrics_flag = (check_metrics K s false).metrics_flag := by
  obtain ⟨h1, h2, h3, h4, h5, h6, h7, h8, h9, h10, h11, h12, h13, h14⟩ := h
  by_cases hm : s.volt_compare_mode = VOLT_COMPARE_MODE.MAG_DIFF
  · rw [metrics_flag_MAG_DIFF _ _ hm, metrics_flag_MAG_DIFF _ _ (h1.trans hm),
      h2, h3, h6, h7, h8, h9, h10, h11, h12, h13, h14]
  · rw [metrics_flag_SEP_DIFF _ _ hm, metrics_flag_SEP_DIFF _ _ (by rw [h1]; exact hm),
      h2, h4, h5, h6, h7, h8, h9, h10, h11, h12, h13, h14]

theorem update_measurements_eq (s : sync_check) (b : bus_values) :
    update_measurements s b = { s with
      swt_fm_node_freq := b.fm_node_freq
      swt_to_node_freq := b.to_node_freq
      swt_fm_volt_A := if s.swt_ph_A_flag = true then b.fm_node_volt_A else s.swt_fm_volt_A
      swt_to_volt_A := if s.swt_ph_A_flag = true then b.to_node_volt_A else s.swt_to_volt_A
      swt_fm_volt_B := if s.swt_ph_B_flag = true then b.fm_node_volt_B else s.swt_fm_volt_B
      swt_to_volt_B := if s.swt_ph_B_flag = true then b.to_node_volt_B else s.swt_to_volt_B
      swt_fm_volt_C := if s.swt_ph_C_flag = true then b.fm_node_volt_C else s.swt_fm_volt_C
      swt_to_volt_C := if s.swt_ph_C_flag = true then b.to_node_volt_C else s.swt_to_volt_C } := by
  unfold update_measurements
  cases hA : s.swt_ph_A_flag <;> cases hB : s.swt_ph_B_flag <;> cases hC : s.swt_ph_C_flag <;>
    simp [hA, hB, hC]

theorem ite_return_eq (s : sync_check) :
    (if s.deltamode_trigger_keep_flag = true then
        { s with deltamode_check_return_val := SIMULATIONMODE.SM_DELTA }
      else { s with deltamode_check_return_val := SIMULATIONMODE.SM_EVENT })
      = { s with deltamode_check_return_val :=
          if s.deltamode_trigger_keep_flag = true then SIMULATIONMODE.SM_DELTA
          else SIMULATIONMODE.SM_EVENT } := by
  split <;> rfl

theorem tick_armed (K : Core) (s : sync_check) (b : bus_values) (dt : ℕ)
    (h : s.sc_enabled_flag = true) :
    ∃ k r, tick K s b dt = check_excitation K
      { update_measurements s b with
        deltamode_trigger_keep_flag := k
        deltamode_check_return_val := r
        metrics_flag := (check_metrics K (update_measurements s b) false).metrics_flag } dt := by
  refine ⟨(check_metrics K (update_measurements s b) true).deltamode_trigger_keep_flag,
    if (check_metrics K (update_measurements s b) true).deltamode_trigger_keep_flag = true then
      SIMULATIONMODE.SM_DELTA else SIMULATIONMODE.SM_EVENT, ?_⟩
  have e : tick K s b dt = check_excitation K (check_metrics K
      (if (check_metrics K (update_measurements s b) true).deltamode_trigger_keep_flag = true then
        { check_metrics K (update_measurements s b) true with
          deltamode_check_return_val := SIMULATIONMODE.SM_DELTA }
      else { check_metrics K (update_measurements s b) true with
          deltamode_check_return_val := SIMULATIONMODE.SM_EVENT }) false) dt := by
    unfold tick inter_deltaupdate_sync_check
    simp only [h, if_true, and_self]
  rw [e, ite_return_eq, check_metrics_false_eq]
  congr 1
  rw [metrics_flag_congr K (update_measurements s b) _ ?_]
  · conv_lhs => rw [check_metrics_true_eq]
  · rw [check_metrics_true_eq]
    exact ⟨rfl, rfl, rfl, rfl, rfl, rfl, rfl, rfl, rfl, rfl, rfl, rfl, rfl, rfl⟩


theorem same_setup_refl (s : sync_check) : same_setup s s :=
  ⟨rfl, rfl, rfl, rfl, rfl, rfl, rfl, rfl, rfl, rfl, fun _ => ⟨rfl, rfl⟩, fun _ => ⟨rfl, rfl⟩,
    fun _ => ⟨rfl, rfl⟩⟩

/-- States with the same setup give the same strict verdict on the same bus values. -/
theorem strict_verdict_of_same_setup (K : Core) (s r : sync_check) (b : bus_values)
    (h : same_setup s r) :
    (check_metrics K (update_measurements r b) false).metrics_flag
      = (check_metrics K (update_measurements s b) false).metrics_flag := by
  obtain ⟨h1, h2, h3, h4, h5, h6, -, fA, fB, fC, pA, pB, pC⟩ := h
  apply metrics_flag_congr
  rw [update_measurements_eq, update_measurements_eq]
  refine ⟨h1, h2, h3, h4, h5, h6, rfl, rfl, ?_, ?_, ?_, ?_, ?_, ?_⟩ <;>
    simp only [fA, fB, fC]
  · cases hA : s.swt_ph_A_flag
    · simp [(pA hA).1]
    · simp
  · cases hA : s.swt_ph_A_flag
    · simp [(pA hA).2]
    · simp
  · cases hB : s.swt_ph_B_flag
    · simp [(pB hB).1]
    · simp
  · cases hB : s.swt_ph_B_flag
    · simp [(pB hB).2]
    · simp
  · cases hC : s.swt_ph_C_flag
    · simp [(pC hC).1]
    · simp
  · cases hC : s.swt_ph_C_flag
    · simp [(pC hC).2]
    · simp

/-- An evaluating sub-step of an armed monitor on compliant bus values: below the dwell
period it accumulates and keeps the setup; at the dwell period it closes and disarms. -/
theorem tick_armed_compliant (K : Core) (s0 s : sync_check) (b : bus_values) (dt : ℕ)
    (harmed : s.sc_enabled_flag = true) (hs : same_setup s0 s)
    (hc : (check_metrics K (update_measurements s0 b) false).metrics_flag = true) :
    (s.t_sat + (dt : ℚ) / (K.DT_SECOND : ℚ) < s0.metrics_period_sec →
        (tick K s b dt).sc_enabled_flag = true
          ∧ (tick K s b dt).t_sat = s.t_sat + (dt : ℚ) / (K.DT_SECOND : ℚ)
          ∧ (tick K s b dt).swt_status_writes = s.swt_status_writes
          ∧ same_setup s0 (tick K s b dt))
      ∧ (s0.metrics_period_sec ≤ s.t_sat + (dt : ℚ) / (K.DT_SECOND : ℚ) →
        (tick K s b dt).sc_enabled_flag = false
          ∧ (tick K s b dt).swt_status_writes = s.swt_status_writes + 1) := by
  obtain ⟨k, r, e⟩ := tick_armed K s b dt harmed
  have hc2 := (strict_verdict_of_same_setup K s0 s b hs).trans hc
  rw [e, hc2, update_measurements_eq]
  obtain ⟨h1, h2, h3, h4, h5, h6, h7, fA, fB, fC, pA, pB, pC⟩ := hs
  constructor
  · intro hlt
    have hn : ¬ (s.t_sat + (dt : ℚ) / (K.DT_SECOND : ℚ) ≥ s.metrics_period_sec) := by
      rw [h7]; exact not_le.mpr hlt
    simp only [check_excitation, if_true, if_neg hn]
    refine ⟨harmed, trivial, trivial, h1, h2, h3, h4, h5, h6, h7, fA, fB, fC, ?_, ?_, ?_⟩
    · intro hA
      have hA2 : ¬ (s.swt_ph_A_flag = true) := by rw [fA, hA]; simp
      simp only [if_neg hA2]
      exact pA hA
    · intro hB
      have hB2 : ¬ (s.swt_ph_B_flag = true) := by rw [fB, hB]; simp
      simp only [if_neg hB2]
      exact pB hB
    · intro hC
      have hC2 : ¬ (s.swt_ph_C_flag = true) := by rw [fC, hC]; simp
      simp only [if_neg hC2]
      exact pC hC
  · intro hge
    have hp : s.t_sat + (dt : ℚ) / (K.DT_SECOND : ℚ) ≥ s.metrics_period_sec := by
      rw [h7]; exact hge
    simp only [check_excitation, if_true, if_pos hp, reset_after_excitation]
    exact ⟨trivial, trivial⟩

/-- A sub-step of a disarmed monitor keeps it disarmed and writes nothing. -/
theorem tick_disarmed (K : Core) (s : sync_check) (b : bus_values) (dt : ℕ)
    (h : s.sc_enabled_flag = false) :
    (tick K s b dt).sc_enabled_flag = false
      ∧ (tick K s b dt).swt_status_writes = s.swt_status_writes := by
  unfold tick inter_deltaupdate_sync_check
  simp only [h, Bool.false_eq_true, if_false]
  exact ⟨trivial, trivial⟩


/-- State of a run of compliant evaluating sub-steps that starts armed with accumulator 0:
while `m * d` is below the dwell period the monitor is armed with accumulator `m * d` and
has not written the switch status; from the first `m` with `m * d` at or above the dwell
period on, it is disarmed and has written the switch status once. -/
theorem run_ticks_state (K : Core) (s : sync_check) (bs : ℕ → bus_values) (dt : ℕ)
    (hDT : 0 < K.DT_SECOND) (harmed : s.sc_enabled_flag = true) (ht : s.t_sat = 0)
    (hP : 0 < s.metrics_period_sec) (hdt : 0 < dt)
    (hc : ∀ k, (check_metrics K (update_measurements s (bs k)) false).metrics_flag = true)
    (m : ℕ) :
    ((m : ℚ) * ((dt : ℚ) / (K.DT_SECOND : ℚ)) < s.metrics_period_sec →
        (run_ticks K s bs dt m).sc_enabled_flag = true
          ∧ (run_ticks K s bs dt m).t_sat = (m : ℚ) * ((dt : ℚ) / (K.DT_SECOND : ℚ))
          ∧ (run_ticks K s bs dt m).swt_status_writes = s.swt_status_writes
          ∧ same_setup s (run_ticks K s bs dt m))
      ∧ (s.metrics_period_sec ≤ (m : ℚ) * ((dt : ℚ) / (K.DT_SECOND : ℚ)) →
        (run_ticks K s bs dt m).sc_enabled_flag = false
          ∧ (run_ticks K s bs dt m).swt_status_writes = s.swt_status_writes + 1) := by
  have hd : (0 : ℚ) < (dt : ℚ) / (K.DT_SECOND : ℚ) :=
    div_pos (by exact_mod_cast hdt) (by exact_mod_cast hDT)
  induction m with
  | zero =>
    constructor
    · intro _
      exact ⟨harmed, by simp [run_ticks, ht], rfl, same_setup_refl s⟩
    · intro h
      simp only [Nat.cast_zero, zero_mul] at h
      exact absurd hP (not_lt.mpr h)
  | succ n ih =>
    have hcast : ((n + 1 : ℕ) : ℚ) * ((dt : ℚ) / (K.DT_SECOND : ℚ))
        = (n : ℚ) * ((dt : ℚ) / (K.DT_SECOND : ℚ)) + (dt : ℚ) / (K.DT_SECOND : ℚ) := by
      push_cast; ring
    rw [hcast]
    show (_ → (tick K (run_ticks K s bs dt n) (bs n) dt).sc_enabled_flag = true
          ∧ (tick K (run_ticks K s bs dt n) (bs n) dt).t_sat = _
          ∧ (tick K (run_ticks K s bs dt n) (bs n) dt).swt_status_writes = _
          ∧ same_setup s (tick K (run_ticks K s bs dt n) (bs n) dt))
      ∧ (_ → (tick K (run_ticks K s bs dt n) (bs n) dt).sc_enabled_flag = false
          ∧ (tick K (run_ticks K s bs dt n) (bs n) dt).swt_status_writes = _)
    by_cases hn : (n : ℚ) * ((dt : ℚ) / (K.DT_SECOND : ℚ)) < s.metrics_period_sec
    · obtain ⟨a1, a2, a3, a4⟩ := ih.1 hn
      have step := tick_armed_compliant K s (run_ticks K s bs dt n) (bs n) dt a1 a4 (hc n)
      rw [a2] at step
      constructor
      · intro hlt
        obtain ⟨b1, b2, b3, b4⟩ := step.1 hlt
        exact ⟨b1, b2, b3.trans a3, b4⟩
      · intro hge
        obtain ⟨b1, b2⟩ := step.2 hge
        exact ⟨b1, by rw [b2, a3]⟩
    · have hge0 := not_lt.mp hn
      obtain ⟨a1, a2⟩ := ih.2 hge0
      have step := tick_disarmed K (run_ticks K s bs dt n) (bs n) dt a1
      constructor
      · intro hlt
        linarith
      · intro _
        exact ⟨step.1, step.2.trans a2⟩


/-! ## Claim on runs of evaluating sub-steps -/

/-- Tick `m + 1` closes exactly when `m * d` is below the dwell period and `(m + 1) * d` is
not. -/
theorem closes_at_succ_iff (K : Core) (s : sync_check) (bs : ℕ → bus_values) (dt : ℕ)
    (hDT : 0 < K.DT_SECOND) (harmed : s.sc_enabled_flag = true) (ht : s.t_sat = 0)
    (hP : 0 < s.metrics_period_sec) (hdt : 0 < dt)
    (hc : ∀ k, (check_metrics K (update_measurements s (bs k)) false).metrics_flag = true)
    (m : ℕ) :
    closes_at K s bs dt (m + 1)
      ↔ (m : ℚ) * ((dt : ℚ) / (K.DT_SECOND : ℚ)) < s.metrics_period_sec
        ∧ s.metrics_period_sec ≤ ((m + 1 : ℕ) : ℚ) * ((dt : ℚ) / (K.DT_SECOND : ℚ)) := by
  have hd : (0 : ℚ) < (dt : ℚ) / (K.DT_SECOND : ℚ) :=
    div_pos (by exact_mod_cast hdt) (by exact_mod_cast hDT)
  have hm := run_ticks_state K s bs dt hDT harmed ht hP hdt hc m
  have hm1 := run_ticks_state K s bs dt hDT harmed ht hP hdt hc (m + 1)
  have hcast : ((m + 1 : ℕ) : ℚ) * ((dt : ℚ) / (K.DT_SECOND : ℚ))
      = (m : ℚ) * ((dt : ℚ) / (K.DT_SECOND : ℚ)) + (dt : ℚ) / (K.DT_SECOND : ℚ) := by
    push_cast; ring
  unfold closes_at
  rw [Nat.add_sub_cancel]
  by_cases hA : (m : ℚ) * ((dt : ℚ) / (K.DT_SECOND : ℚ)) < s.metrics_period_sec
  · have w0 := (hm.1 hA).2.2.1
    by_cases hB : s.metrics_period_sec ≤ ((m + 1 : ℕ) : ℚ) * ((dt : ℚ) / (K.DT_SECOND : ℚ))
    · have w1 := (hm1.2 hB).2
      constructor
      · intro _
        exact ⟨hA, hB⟩
      · intro _
        rw [w1, w0]
    · have w1 := (hm1.1 (not_le.mp hB)).2.2.1
      constructor
      · intro h
        rw [w1, w0] at h
        omega
      · intro h
        exact absurd h.2 hB
  · have hge := not_lt.mp hA
    have w0 := (hm.2 hge).2
    have hB : s.metrics_period_sec ≤ ((m + 1 : ℕ) : ℚ) * ((dt : ℚ) / (K.DT_SECOND : ℚ)) := by
      rw [hcast]; linarith
    have w1 := (hm1.2 hB).2
    constructor
    · intro h
      rw [w1, w0] at h
      omega
    · intro h
      exact absurd h.1 hA

/-- With exact arithmetic (the sums are not rounded): starting from an armed monitor with
accumulator 0 and dwell period `P > 0`, under consecutive compliant evaluating sub-steps of
equal length `d = dt / DT_SECOND > 0`, tick `n` issues the close command exactly when `n` is
the least positive integer with `n * d >= P`; for `P = 1.2` and `d = 1.0` the first tick
does not close and the second does. -/
theorem exact_close_at_least_tick (K : Core) (s : sync_check) (bs : ℕ → bus_values) (dt : ℕ)
    (hDT : 0 < K.DT_SECOND) (harmed : s.sc_enabled_flag = true) (ht : s.t_sat = 0)
    (hP : 0 < s.metrics_period_sec) (hdt : 0 < dt)
    (hc : ∀ k, (check_metrics K (update_measurements s (bs k)) false).metrics_flag = true) :
    (∀ n : ℕ, 1 ≤ n →
        (closes_at K s bs dt n
          ↔ s.metrics_period_sec ≤ (n : ℚ) * ((dt : ℚ) / (K.DT_SECOND : ℚ))
            ∧ ∀ k : ℕ, 1 ≤ k → k < n →
              (k : ℚ) * ((dt : ℚ) / (K.DT_SECOND : ℚ)) < s.metrics_period_sec))
      ∧ (s.metrics_period_sec = 1.2 → (dt : ℚ) / (K.DT_SECOND : ℚ) = 1.0 →
          ¬ closes_at K s bs dt 1 ∧ closes_at K s bs dt 2) := by
  have hd : (0 : ℚ) < (dt : ℚ) / (K.DT_SECOND : ℚ) :=
    div_pos (by exact_mod_cast hdt) (by exact_mod_cast hDT)
  have key := closes_at_succ_iff K s bs dt hDT harmed ht hP hdt hc
  constructor
  · intro n hn
    obtain ⟨m, rfl⟩ : ∃ m, n = m + 1 := ⟨n - 1, by omega⟩
    rw [key m]
    constructor
    · rintro ⟨hA, hB⟩
      refine ⟨hB, fun k _ hk => ?_⟩
      have hkm : (k : ℚ) ≤ (m : ℚ) := by exact_mod_cast Nat.lt_succ_iff.mp hk
      nlinarith
    · rintro ⟨hB, hall⟩
      refine ⟨?_, hB⟩
      rcases Nat.eq_zero_or_pos m with h0 | hpos
      · subst h0
        simpa using hP
      · exact hall m hpos (Nat.lt_succ_self m)
  · intro hPeq hdeq
    rw [key 0, key 1, hPeq, hdeq]
    norm_num


theorem steady_bus_compliant (m : VOLT_COMPARE_MODE) :
    (check_metrics stdCore (update_measurements (after_setup m 60 7200 7) steady_bus)
      false).metrics_flag = true := by
  rw [update_measurements_eq]
  refine (strict_iff_freq stdCore _ (by norm_num [after_setup])
    (volt_diffs_zero_of_identical _ _ stdCore_Mag_zero
      (by norm_num [after_setup, steady_bus, phasors_identical, land_seven]))
    (by norm_num [after_setup]) (by norm_num [after_setup]) (by norm_num [after_setup])).mpr ?_
  norm_num [after_setup, steady_bus]

/-- Sample of the closing tick with exact arithmetic: the armed sample object with dwell
period 1.2 s, on steady compliant bus values, with sub-steps of one second. -/
theorem exact_close_at_least_tick_sample :
    ¬ closes_at stdCore (after_setup VOLT_COMPARE_MODE.MAG_DIFF 60 7200 7)
        (fun _ => steady_bus) 1000000000 1
      ∧ closes_at stdCore (after_setup VOLT_COMPARE_MODE.MAG_DIFF 60 7200 7)
        (fun _ => steady_bus) 1000000000 2 :=
  (exact_close_at_least_tick stdCore (after_setup VOLT_COMPARE_MODE.MAG_DIFF 60 7200 7)
    (fun _ => steady_bus) 1000000000 (by norm_num [stdCore]) rfl rfl
    (by norm_num [after_setup]) (by norm_num)
    (fun _ => steady_bus_compliant VOLT_COMPARE_MODE.MAG_DIFF)).2
    (by norm_num [after_setup]) (by norm_num [stdCore])

/-! ## Lemmas on the two entry points -/

theorem inter_deltaupdate_disarmed (K : Core) (s : sync_check) (b : bus_values)
    (delta_time dt iteration_count_val : ℕ) (interupdate_pos : Bool)
    (h : s.sc_enabled_flag = false) :
    inter_deltaupdate_sync_check K s b delta_time dt iteration_count_val interupdate_pos
      = ({ s with
            deltamode_trigger_keep_flag := false
            deltamode_check_return_val := SIMULATIONMODE.SM_EVENT
            t_sat := 0 }, SIMULATIONMODE.SM_EVENT) := by
  unfold inter_deltaupdate_sync_check
  simp only [h, Bool.false_eq_true, if_false]
  norm_num

theorem inter_deltaupdate_skip (K : Core) (s : sync_check) (b : bus_values)
    (delta_time dt iteration_count_val : ℕ) (interupdate_pos : Bool)
    (h : s.sc_enabled_flag = true)
    (hne : ¬ (iteration_count_val = 0 ∧ interupdate_pos = false)) :
    inter_deltaupdate_sync_check K s b delta_time dt iteration_count_val interupdate_pos
      = (s, s.deltamode_check_return_val) := by
  unfold inter_deltaupdate_sync_check
  simp only [h, if_true, if_neg hne]

theorem inter_deltaupdate_eval (K : Core) (s : sync_check) (b : bus_values)
    (delta_time dt : ℕ) :
    (inter_deltaupdate_sync_check K s b delta_time dt 0 false).1 = tick K s b dt := rfl

theorem inter_deltaupdate_snd (K : Core) (s : sync_check) (b : bus_values)
    (delta_time dt iteration_count_val : ℕ) (interupdate_pos : Bool) :
    (inter_deltaupdate_sync_check K s b delta_time dt iteration_count_val interupdate_pos).2
      = (inter_deltaupdate_sync_check K s b delta_time dt iteration_count_val
          interupdate_pos).1.deltamode_check_return_val := rfl

theorem postsync_not_due (K : Core) (s : sync_check) (b : bus_values) (t0 tret0 : TIMESTAMP)
    (h : ¬ s.next_trigger_update_time ≤ t0) : postsync K s b t0 tret0 = (s, tret0) := by
  unfold postsync
  simp only [if_neg h]

theorem postsync_disarmed (K : Core) (s : sync_check) (b : bus_values) (t0 tret0 : TIMESTAMP)
    (hd : s.next_trigger_update_time ≤ t0) (h : s.sc_enabled_flag = false) :
    postsync K s b t0 tret0
      = ({ s with
            t_sat := 0
            next_trigger_update_time := t0 + 1
            deltamode_trigger_keep_flag := false
            deltamode_check_return_val := SIMULATIONMODE.SM_EVENT }, tret0) := by
  unfold postsync
  simp only [if_pos hd, h, Bool.false_eq_true, if_false]
  norm_num

theorem postsync_armed (K : Core) (s : sync_check) (b : bus_values) (t0 tret0 : TIMESTAMP)
    (hd : s.next_trigger_update_time ≤ t0) (h : s.sc_enabled_flag = true) :
    postsync K s b t0 tret0
      = if (postsync_eval K s b t0).deltamode_trigger_keep_flag = true then
          (postsync_request (postsync_eval K s b t0) t0, t0)
        else (postsync_eval K s b t0, tret0) := by
  unfold postsync postsync_eval postsync_request
  simp only [if_pos hd, h, if_true]
  norm_num

theorem same_setup_trans (a b c : sync_check) (h1 : same_setup a b) (h2 : same_setup b c) :
    same_setup a c := by
  obtain ⟨a1, a2, a3, a4, a5, a6, a7, a8, a9, a10, a11, a12, a13⟩ := h1
  obtain ⟨b1, b2, b3, b4, b5, b6, b7, b8, b9, b10, b11, b12, b13⟩ := h2
  refine ⟨b1.trans a1, b2.trans a2, b3.trans a3, b4.trans a4, b5.trans a5, b6.trans a6,
    b7.trans a7, b8.trans a8, b9.trans a9, b10.trans a10, ?_, ?_, ?_⟩
  · intro h
    have hb := b11 (a8.trans h)
    exact ⟨hb.1.trans (a11 h).1, hb.2.trans (a11 h).2⟩
  · intro h
    have hb := b12 (a9.trans h)
    exact ⟨hb.1.trans (a12 h).1, hb.2.trans (a12 h).2⟩
  · intro h
    have hb := b13 (a10.trans h)
    exact ⟨hb.1.trans (a13 h).1, hb.2.trans (a13 h).2⟩

theorem same_config_refl (s : sync_check) : same_config s s :=
  ⟨same_setup_refl s, rfl, rfl, rfl, rfl, rfl⟩

theorem same_config_trans (a b c : sync_check) (h1 : same_config a b) (h2 : same_config b c) :
    same_config a c := by
  obtain ⟨a0, a1, a2, a3, a4, a5⟩ := h1
  obtain ⟨b0, b1, b2, b3, b4, b5⟩ := h2
  exact ⟨same_setup_trans a b c a0 b0, b1.trans a1, b2.trans a2, b3.trans a3, b4.trans a4,
    b5.trans a5⟩

theorem update_measurements_same_config (s : sync_check) (b : bus_values) :
    same_config s (update_measurements s b) := by
  rw [update_measurements_eq]
  refine ⟨⟨rfl, rfl, rfl, rfl, rfl, rfl, rfl, rfl, rfl, rfl, ?_, ?_, ?_⟩, rfl, rfl, rfl, rfl, rfl⟩
  · intro h; simp [h]
  · intro h; simp [h]
  · intro h; simp [h]

theorem check_metrics_same_config (K : Core) (s : sync_check) (d : Bool) :
    same_config s (check_metrics K s d) := by
  cases d
  · rw [check_metrics_false_eq]; exact same_config_refl s
  · rw [check_metrics_true_eq]; exact same_config_refl s

/-- The two outcomes of `check_excitation`: the accumulator alone changes, or the switch is
closed and the monitor reset. -/
theorem check_excitation_cases (K : Core) (s : sync_check) (dt : ℕ) :
    (∃ t, t < s.metrics_period_sec ∧ check_excitation K s dt = { s with t_sat := t })
      ∨ check_excitation K s dt = { s with
          swt_status := K.LS_CLOSED
          swt_status_writes := s.swt_status_writes + 1
          sc_enabled_flag := false
          metrics_flag := false
          t_sat := 0 } := by
  unfold check_excitation
  cases hf : s.metrics_flag
  · simp only [Bool.false_eq_true, if_false]
    split_ifs with h
    · exact Or.inr rfl
    · exact Or.inl ⟨0, not_le.mp h, rfl⟩
  · simp only [if_true]
    split_ifs with h
    · exact Or.inr rfl
    · exact Or.inl ⟨_, not_le.mp h, rfl⟩

theorem check_excitation_same_config (K : Core) (s : sync_check) (dt : ℕ) :
    same_config s (check_excitation K s dt) := by
  rcases check_excitation_cases K s dt with ⟨t, -, h⟩ | h <;> rw [h] <;>
    exact same_config_refl s

/-- What `postsync` leaves alone in every case: the armed flag, the switch status and its
write count, the strict verdict flag and the configuration. -/
theorem postsync_frame (K : Core) (s : sync_check) (b : bus_values) (t0 tret0 : TIMESTAMP) :
    (postsync K s b t0 tret0).1.sc_enabled_flag = s.sc_enabled_flag
      ∧ (postsync K s b t0 tret0).1.swt_status = s.swt_status
      ∧ (postsync K s b t0 tret0).1.swt_status_writes = s.swt_status_writes
      ∧ (postsync K s b t0 tret0).1.metrics_flag = s.metrics_flag
      ∧ same_config s (postsync K s b t0 tret0).1 := by
  by_cases hd : s.next_trigger_update_time ≤ t0
  · rcases Bool.eq_false_or_eq_true s.sc_enabled_flag with h | h
    swap
    · rw [postsync_disarmed K s b t0 tret0 hd h]
      exact ⟨rfl, rfl, rfl, rfl, same_config_refl s⟩
    · rw [postsync_armed K s b t0 tret0 hd h]
      have e : postsync_eval K s b t0
          = { update_measurements { s with t_sat := 0, next_trigger_update_time := t0 + 1 } b with
              deltamode_trigger_keep_flag :=
                (postsync_eval K s b t0).deltamode_trigger_keep_flag } := by
        unfold postsync_eval
        exact check_metrics_true_eq K _
      have hc : same_config s (postsync_eval K s b t0) := by
        unfold postsync_eval
        exact same_config_trans _ _ _
          (update_measurements_same_config
            { s with t_sat := 0, next_trigger_update_time := t0 + 1 } b)
          (check_metrics_same_config K _ true)
      have hf : (postsync_eval K s b t0).sc_enabled_flag = s.sc_enabled_flag
          ∧ (postsync_eval K s b t0).swt_status = s.swt_status
          ∧ (postsync_eval K s b t0).swt_status_writes = s.swt_status_writes
          ∧ (postsync_eval K s b t0).metrics_flag = s.metrics_flag := by
        rw [e, update_measurements_eq]
        exact ⟨rfl, rfl, rfl, rfl⟩
      split_ifs
      · exact ⟨hf.1, hf.2.1, hf.2.2.1, hf.2.2.2, hc⟩
      · exact ⟨hf.1, hf.2.1, hf.2.2.1, hf.2.2.2, hc⟩
  · rw [postsync_not_due K s b t0 tret0 hd]
    exact ⟨rfl, rfl, rfl, rfl, same_config_refl s⟩

theorem tick_same_config (K : Core) (s : sync_check) (b : bus_values) (dt : ℕ)
    (h : s.sc_enabled_flag = true) : same_config s (tick K s b dt) := by
  obtain ⟨k, r, e⟩ := tick_armed K s b dt h
  rw [e]
  refine same_config_trans _ _ _ (update_measurements_same_config s b)
    (same_config_trans _ _ _ ?_ (check_excitation_same_config K _ dt))
  exact same_config_refl _

/-- A write of the switch status by `check_excitation` comes with the self-disarm. -/
theorem check_excitation_write (K : Core) (s : sync_check) (dt : ℕ) :
    ((check_excitation K s dt).swt_status_writes = s.swt_status_writes
        ∧ (check_excitation K s dt).swt_status = s.swt_status
        ∧ (check_excitation K s dt).sc_enabled_flag = s.sc_enabled_flag)
      ∨ ((check_excitation K s dt).swt_status_writes = s.swt_status_writes + 1
        ∧ (check_excitation K s dt).swt_status = K.LS_CLOSED
        ∧ (check_excitation K s dt).sc_enabled_flag = false) := by
  rcases check_excitation_cases K s dt with ⟨t, -, h⟩ | h <;> rw [h]
  · exact Or.inl ⟨rfl, rfl, rfl⟩
  · exact Or.inr ⟨rfl, rfl, rfl⟩

/-- What every call of `inter_deltaupdate_sync_check` guarantees: the configuration is
kept; either the switch status, its write count and the armed flag are kept, or the monitor
was armed, the call was an evaluating one, the status is written once and the monitor is
disarmed. -/
theorem inter_deltaupdate_frame (K : Core) (s : sync_check) (b : bus_values)
    (delta_time dt iteration_count_val : ℕ) (interupdate_pos : Bool) :
    same_config s
        (inter_deltaupdate_sync_check K s b delta_time dt iteration_count_val interupdate_pos).1
      ∧ (((inter_deltaupdate_sync_check K s b delta_time dt iteration_count_val
              interupdate_pos).1.swt_status_writes = s.swt_status_writes
          ∧ (inter_deltaupdate_sync_check K s b delta_time dt iteration_count_val
              interupdate_pos).1.swt_status = s.swt_status
          ∧ (inter_deltaupdate_sync_check K s b delta_time dt iteration_count_val
              interupdate_pos).1.sc_enabled_flag = s.sc_enabled_flag)
        ∨ (s.sc_enabled_flag = true ∧ iteration_count_val = 0 ∧ interupdate_pos = false
          ∧ (inter_deltaupdate_sync_check K s b delta_time dt iteration_count_val
              interupdate_pos).1.swt_status_writes = s.swt_status_writes + 1
          ∧ (inter_deltaupdate_sync_check K s b delta_time dt iteration_count_val
              interupdate_pos).1.swt_status = K.LS_CLOSED
          ∧ (inter_deltaupdate_sync_check K s b delta_time dt iteration_count_val
              interupdate_pos).1.sc_enabled_flag = false)) := by
  rcases Bool.eq_false_or_eq_true s.sc_enabled_flag with h | h
  swap
  · rw [inter_deltaupdate_disarmed K s b _ _ _ _ h]
    exact ⟨same_config_refl s, Or.inl ⟨rfl, rfl, rfl⟩⟩
  · by_cases he : iteration_count_val = 0 ∧ interupdate_pos = false
    · obtain ⟨rfl, rfl⟩ := he
      rw [inter_deltaupdate_eval]
      refine ⟨tick_same_config K s b dt h, ?_⟩
      obtain ⟨k, r, e⟩ := tick_armed K s b dt h
      rw [e]
      have w1 : (update_measurements s b).swt_status_writes = s.swt_status_writes := by
        rw [update_measurements_eq]
      have w2 : (update_measurements s b).swt_status = s.swt_status := by
        rw [update_measurements_eq]
      have w3 : (update_measurements s b).sc_enabled_flag = s.sc_enabled_flag := by
        rw [update_measurements_eq]
      rcases check_excitation_write K
        { update_measurements s b with
          deltamode_trigger_keep_flag := k
          deltamode_check_return_val := r
          metrics_flag := (check_metrics K (update_measurements s b) false).metrics_flag } dt
        with ⟨h1, h2, h3⟩ | ⟨h1, h2, h3⟩
      · left
        exact ⟨h1.trans w1, h2.trans w2, h3.trans w3⟩
      · right
        exact ⟨h, rfl, rfl, h1.trans (congrArg (· + 1) w1), h2, h3⟩
    · rw [inter_deltaupdate_skip K s b _ _ _ _ h he]
      exact ⟨same_config_refl s, Or.inl ⟨rfl, rfl, rfl⟩⟩

/-! ## What setup changes -/

theorem with_setup_fields_self (s : sync_check) : with_setup_fields s s = s := rfl

theorem with_setup_fields_trans (a b c : sync_check) (h1 : with_setup_fields a b = b)
    (h2 : with_setup_fields b c = c) : with_setup_fields a c = c := by
  rw [← h2, ← h1]
  rfl

theorem dsc_status_eq (K : Core) (st : enumeration) (s : sync_check) :
    dsc_status K st s = { s with
      swt_status := st
      sc_enabled_flag := s.sc_enabled_flag && decide (st = K.LS_OPEN) } := by
  unfold dsc_status
  rcases Bool.eq_false_or_eq_true s.sc_enabled_flag with h | h
  · by_cases hst : st = K.LS_OPEN
    · simp [h, hst]
    · simp [h, hst]
  · simp [h]

theorem dsc_status_fields (K : Core) (st : enumeration) (s : sync_check) :
    with_setup_fields s (dsc_status K st s) = dsc_status K st s := by
  rw [dsc_status_eq]; rfl

theorem dsc_freq_fields (G : Globals) (s r : sync_check) (h : dsc_freq G s = Except.ok r) :
    with_setup_fields s r = r := by
  unfold dsc_freq at h
  split_ifs at h
  · split at h
    · cases h
    · injection h with h; subst h; rfl
  · injection h with h; subst h; rfl

theorem dsc_rest_fields (s : sync_check) : with_setup_fields s (dsc_rest s) = dsc_rest s := by
  have h1 : with_setup_fields s (dsc_volt s) = dsc_volt s := by
    unfold dsc_volt; split_ifs <;> rfl
  have h2 : with_setup_fields (dsc_volt s) (dsc_vmag (dsc_volt s)) = dsc_vmag (dsc_volt s) := by
    generalize dsc_volt s = u
    unfold dsc_vmag; split_ifs <;> rfl
  have h3 : with_setup_fields (dsc_vmag (dsc_volt s)) (dsc_vang (dsc_vmag (dsc_volt s)))
      = dsc_vang (dsc_vmag (dsc_volt s)) := by
    generalize dsc_vmag (dsc_volt s) = u
    unfold dsc_vang; split_ifs <;> rfl
  have h4 : with_setup_fields (dsc_vang (dsc_vmag (dsc_volt s))) (dsc_rest s) = dsc_rest s := by
    unfold dsc_rest
    generalize dsc_vang (dsc_vmag (dsc_volt s)) = u
    unfold dsc_period; split_ifs <;> rfl
  exact with_setup_fields_trans _ _ _ h1
    (with_setup_fields_trans _ _ _ h2 (with_setup_fields_trans _ _ _ h3 h4))

theorem inv_fields (G : Globals) (fm tn : node) (vf vt : ℚ) (s : sync_check) :
    with_setup_fields s (inv_tail G (inv_nodes fm tn vf vt s))
      = inv_tail G (inv_nodes fm tn vf vt s) := by
  have h1 : with_setup_fields s (inv_nodes fm tn vf vt s) = inv_nodes fm tn vf vt s := rfl
  refine with_setup_fields_trans _ _ _ h1 ?_
  generalize inv_nodes fm tn vf vt s = u
  simp only [inv_tail]
  split_ifs <;> rfl

theorem sensors_state_fields (K : Core) (ph : ℕ) (s : sync_check) :
    with_setup_fields s (sensors_state K ph s) = sensors_state K ph s := rfl

theorem reg_deltamode_check_fields (G : Globals) (s : sync_check) :
    with_setup_fields s (reg_deltamode_check G s) = reg_deltamode_check G s := by
  simp only [reg_deltamode_check]
  split_ifs <;> rfl

/-- A successful `data_sanity_check` assigns setup fields only. -/
theorem data_sanity_check_fields (K : Core) (G : Globals) (par : Option switch_object)
    (s s1 : sync_check) (h : data_sanity_check K G par s = Except.ok s1) :
    with_setup_fields s s1 = s1 := by
  obtain ⟨p, st, r, -, -, -, hr, rfl⟩ := (data_sanity_check_ok_iff K G par s s1).mp h
  exact with_setup_fields_trans _ _ _ (dsc_status_fields K st s)
    (with_setup_fields_trans _ _ _ (dsc_freq_fields G _ r hr) (dsc_rest_fields r))

/-- A successful `init_norm_values` assigns setup fields only. -/
theorem init_norm_values_fields (G : Globals) (par : Option switch_object)
    (s s2 : sync_check) (h : init_norm_values G par s = Except.ok s2) :
    with_setup_fields s s2 = s2 := by
  obtain ⟨fm, tn, vf, vt, -, -, -, -, -, rfl⟩ := (init_norm_values_ok_iff G par s s2).mp h
  exact inv_fields G fm tn vf vt s

/-- A successful `init` assigns setup fields only. -/
theorem init_fields (K : Core) (G : Globals) (parent : Option switch_object)
    (s r : sync_check) (h : init K G parent s = Except.ok r) : with_setup_fields s r = r := by
  obtain ⟨s1, s2, s3, h1, h2, h3, rfl⟩ := (init_ok_iff K G parent s r).mp h
  obtain ⟨ph, -, rfl⟩ := init_sensors_ok K parent s2 s3 h3
  exact with_setup_fields_trans _ _ _ (data_sanity_check_fields K G parent s s1 h1)
    (with_setup_fields_trans _ _ _ (init_norm_values_fields G parent s1 s2 h2)
      (with_setup_fields_trans _ _ _ (sensors_state_fields K ph s2)
        (reg_deltamode_check_fields G _)))

theorem dsc_freq_armed (G : Globals) (s r : sync_check) (h : dsc_freq G s = Except.ok r) :
    r.sc_enabled_flag = s.sc_enabled_flag := by
  unfold dsc_freq at h
  split_ifs at h
  · split at h
    · cases h
    · injection h with h; subst h; rfl
  · injection h with h; subst h; rfl

theorem dsc_rest_armed (s : sync_check) :
    (dsc_rest s).sc_enabled_flag = s.sc_enabled_flag := by
  have h1 : (dsc_volt s).sc_enabled_flag = s.sc_enabled_flag := by
    unfold dsc_volt; split_ifs <;> rfl
  have h2 : ∀ u : sync_check, (dsc_vmag u).sc_enabled_flag = u.sc_enabled_flag := by
    intro u; unfold dsc_vmag; split_ifs <;> rfl
  have h3 : ∀ u : sync_check, (dsc_vang u).sc_enabled_flag = u.sc_enabled_flag := by
    intro u; unfold dsc_vang; split_ifs <;> rfl
  have h4 : ∀ u : sync_check, (dsc_period u).sc_enabled_flag = u.sc_enabled_flag := by
    intro u; unfold dsc_period; split_ifs <;> rfl
  unfold dsc_rest
  rw [h4, h3, h2, h1]

theorem inv_armed (G : Globals) (fm tn : node) (vf vt : ℚ) (s : sync_check) :
    (inv_tail G (inv_nodes fm tn vf vt s)).sc_enabled_flag = s.sc_enabled_flag := by
  simp only [inv_tail, inv_nodes]
  split_ifs <;> rfl

/-- The armed flag after a successful `data_sanity_check`. -/
theorem data_sanity_check_armed (K : Core) (G : Globals) (par : Option switch_object)
    (s s1 : sync_check) (h : data_sanity_check K G par s = Except.ok s1) :
    ∃ p st, par = some p ∧ p.status = some st
      ∧ s1.sc_enabled_flag = (s.sc_enabled_flag && decide (st = K.LS_OPEN)) := by
  obtain ⟨p, st, r, hp, -, hst, hr, rfl⟩ := (data_sanity_check_ok_iff K G par s s1).mp h
  refine ⟨p, st, hp, hst, ?_⟩
  rw [dsc_rest_armed, dsc_freq_armed G _ r hr, dsc_status_eq]

theorem init_norm_values_armed (G : Globals) (par : Option switch_object)
    (s s2 : sync_check) (h : init_norm_values G par s = Except.ok s2) :
    s2.sc_enabled_flag = s.sc_enabled_flag := by
  obtain ⟨fm, tn, vf, vt, -, -, -, -, -, rfl⟩ := (init_norm_values_ok_iff G par s s2).mp h
  exact inv_armed G fm tn vf vt s

/-! ## Claims on the state machine -/

theorem do_call_frame (K : Core) (s : sync_check) (c : call) :
    same_config s (do_call K s c)
      ∧ (((do_call K s c).swt_status_writes = s.swt_status_writes
          ∧ (do_call K s c).swt_status = s.swt_status
          ∧ (do_call K s c).sc_enabled_flag = s.sc_enabled_flag)
        ∨ (s.sc_enabled_flag = true
          ∧ (do_call K s c).swt_status_writes = s.swt_status_writes + 1
          ∧ (do_call K s c).swt_status = K.LS_CLOSED
          ∧ (do_call K s c).sc_enabled_flag = false)) := by
  cases c with
  | postsync b t0 tret0 =>
    obtain ⟨h1, h2, h3, -, h5⟩ := postsync_frame K s b t0 tret0
    exact ⟨h5, Or.inl ⟨h3, h2, h1⟩⟩
  | inter_deltaupdate b delta_time dt iteration_count_val interupdate_pos =>
    obtain ⟨h0, h | h⟩ :=
      inter_deltaupdate_frame K s b delta_time dt iteration_count_val interupdate_pos
    · exact ⟨h0, Or.inl h⟩
    · exact ⟨h0, Or.inr ⟨h.1, h.2.2.2.1, h.2.2.2.2.1, h.2.2.2.2.2⟩⟩

/-- A disarmed monitor stays disarmed and writes nothing over any sequence of calls. -/
theorem run_calls_disarmed (K : Core) (cs : List call) :
    ∀ s : sync_check, s.sc_enabled_flag = false →
      (run_calls K s cs).sc_enabled_flag = false
        ∧ (run_calls K s cs).swt_status_writes = s.swt_status_writes
        ∧ (run_calls K s cs).swt_status = s.swt_status := by
  induction cs with
  | nil => intro s h; exact ⟨h, rfl, rfl⟩
  | cons c cs ih =>
    intro s h
    rcases (do_call_frame K s c).2 with ⟨h1, h2, h3⟩ | ⟨h1, -⟩
    · obtain ⟨a1, a2, a3⟩ := ih (do_call K s c) (h3.trans h)
      exact ⟨a1, a2.trans h1, a3.trans h2⟩
    · rw [h] at h1
      exact absurd h1 (by decide)

/-- C11: after a call of `inter_deltaupdate_sync_check` that writes the switch status (the
close command fires) the armed flag is false, and over every subsequent sequence of
`postsync` and `inter_deltaupdate_sync_check` calls, with arbitrary bus values and no write
to the object from outside, the switch status is not written again and the monitor stays
disarmed. -/
theorem C11_self_disarm (K : Core) (s : sync_check) (b : bus_values)
    (delta_time dt iteration_count_val : ℕ) (interupdate_pos : Bool)
    (hfire : (inter_deltaupdate_sync_check K s b delta_time dt iteration_count_val
      interupdate_pos).1.swt_status_writes ≠ s.swt_status_writes) :
    (inter_deltaupdate_sync_check K s b delta_time dt iteration_count_val
        interupdate_pos).1.sc_enabled_flag = false
      ∧ ∀ cs : List call,
        (run_calls K (inter_deltaupdate_sync_check K s b delta_time dt iteration_count_val
            interupdate_pos).1 cs).swt_status_writes
          = (inter_deltaupdate_sync_check K s b delta_time dt iteration_count_val
            interupdate_pos).1.swt_status_writes
        ∧ (run_calls K (inter_deltaupdate_sync_check K s b delta_time dt iteration_count_val
            interupdate_pos).1 cs).swt_status
          = (inter_deltaupdate_sync_check K s b delta_time dt iteration_count_val
            interupdate_pos).1.swt_status
        ∧ (run_calls K (inter_deltaupdate_sync_check K s b delta_time dt iteration_count_val
            interupdate_pos).1 cs).sc_enabled_flag = false := by
  have hd : (inter_deltaupdate_sync_check K s b delta_time dt iteration_count_val
      interupdate_pos).1.sc_enabled_flag = false := by
    rcases (inter_deltaupdate_frame K s b delta_time dt iteration_count_val
      interupdate_pos).2 with ⟨h1, -, -⟩ | h
    · exact absurd h1 hfire
    · exact h.2.2.2.2.2
  refine ⟨hd, fun cs => ?_⟩
  obtain ⟨a1, a2, a3⟩ := run_calls_disarmed K cs _ hd
  exact ⟨a2, a3, a1⟩

theorem near_close_fires :
    (inter_deltaupdate_sync_check stdCore near_close steady_bus 0 1000000000 0
        false).1.swt_status_writes = near_close.swt_status_writes + 1 := by
  have hs : same_setup (after_setup VOLT_COMPARE_MODE.MAG_DIFF 60 7200 7) near_close :=
    same_setup_refl _
  have hc := (strict_verdict_of_same_setup stdCore _ near_close steady_bus hs).trans
    (steady_bus_compliant VOLT_COMPARE_MODE.MAG_DIFF)
  have h := (tick_armed_compliant stdCore near_close near_close steady_bus 1000000000 rfl
    (same_setup_refl _) hc).2 (by norm_num [near_close, with_t_sat, after_setup, stdCore])
  exact h.2

/-- Witness of C11: the sample object closes on a compliant second and then stays disarmed
through a coarse tick and a further compliant sub-step. -/
theorem C11_self_disarm_witness :
    (run_calls stdCore
      (inter_deltaupdate_sync_check stdCore near_close steady_bus 0 1000000000 0 false).1
      [call.postsync steady_bus 5 6,
        call.inter_deltaupdate steady_bus 0 1000000000 0 false]).swt_status_writes
      = (inter_deltaupdate_sync_check stdCore near_close steady_bus 0 1000000000 0
          false).1.swt_status_writes :=
  ((C11_self_disarm stdCore near_close steady_bus 0 1000000000 0 false
    (by rw [near_close_fires]; omega)).2 _).1

/-- C12: with a positive dwell period, a call of `inter_deltaupdate_sync_check` writes the
switch status only if the monitor was armed at entry, the call was an evaluating one and
the freshly refreshed snapshot passes the strict check in the active mode; a snapshot that
passes the relaxed check and fails the strict one causes no write; `postsync` never writes
the switch status. -/
theorem C12_close_needs_strict_pass (K : Core) (s : sync_check) (b : bus_values)
    (delta_time dt iteration_count_val : ℕ) (interupdate_pos : Bool)
    (hP : 0 < s.metrics_period_sec) :
    ((inter_deltaupdate_sync_check K s b delta_time dt iteration_count_val
          interupdate_pos).1.swt_status_writes ≠ s.swt_status_writes →
        s.sc_enabled_flag = true ∧ iteration_count_val = 0 ∧ interupdate_pos = false
          ∧ (check_metrics K (update_measurements s b) false).metrics_flag = true)
      ∧ ((check_metrics K (update_measurements s b) true).deltamode_trigger_keep_flag = true →
        (check_metrics K (update_measurements s b) false).metrics_flag = false →
        (inter_deltaupdate_sync_check K s b delta_time dt iteration_count_val
            interupdate_pos).1.swt_status_writes = s.swt_status_writes
          ∧ (inter_deltaupdate_sync_check K s b delta_time dt iteration_count_val
            interupdate_pos).1.swt_status = s.swt_status)
      ∧ (∀ (t0 tret0 : TIMESTAMP),
        (postsync K s b t0 tret0).1.swt_status_writes = s.swt_status_writes
          ∧ (postsync K s b t0 tret0).1.swt_status = s.swt_status) := by
  have key : (check_metrics K (update_measurements s b) false).metrics_flag = false →
      (inter_deltaupdate_sync_check K s b delta_time dt iteration_count_val
          interupdate_pos).1.swt_status_writes = s.swt_status_writes
        ∧ (inter_deltaupdate_sync_check K s b delta_time dt iteration_count_val
          interupdate_pos).1.swt_status = s.swt_status := by
    intro hfail
    rcases (inter_deltaupdate_frame K s b delta_time dt iteration_count_val
      interupdate_pos).2 with ⟨h1, h2, -⟩ | ⟨ha, rfl, rfl, hw, -, -⟩
    · exact ⟨h1, h2⟩
    · exfalso
      rw [inter_deltaupdate_eval] at hw
      obtain ⟨k, r, e⟩ := tick_armed K s b dt ha
      rw [e, hfail] at hw
      have hp : (update_measurements s b).metrics_period_sec = s.metrics_period_sec := by
        rw [update_measurements_eq]
      have hn : ¬ ((0 : ℚ) ≥ (update_measurements s b).metrics_period_sec) := by
        rw [hp]; exact not_le.mpr hP
      have hw0 : (update_measurements s b).swt_status_writes = s.swt_status_writes := by
        rw [update_measurements_eq]
      simp only [check_excitation, Bool.false_eq_true, if_false, if_neg hn] at hw
      rw [hw0] at hw
      omega
  refine ⟨?_, fun _ hfail => key hfail, fun t0 tret0 => ?_⟩
  · intro hw
    rcases (inter_deltaupdate_frame K s b delta_time dt iteration_count_val
      interupdate_pos).2 with ⟨h1, -, -⟩ | ⟨ha, h0, hpos, -, -, -⟩
    · exact absurd h1 hw
    · refine ⟨ha, h0, hpos, ?_⟩
      rcases Bool.eq_false_or_eq_true
        (check_metrics K (update_measurements s b) false).metrics_flag with h | h
      · exact h
      · exact absurd (key h).1 hw
  · obtain ⟨-, h2, h3, -, -⟩ := postsync_frame K s b t0 tret0
    exact ⟨h3, h2⟩

/-- Witness of C12: the sample object near its dwell period; the close it issues comes
with a strict pass on the refreshed snapshot. -/
theorem C12_close_needs_strict_pass_witness :
    (check_metrics stdCore (update_measurements near_close steady_bus) false).metrics_flag
      = true :=
  ((C12_close_needs_strict_pass stdCore near_close steady_bus 0 1000000000 0 false
    (by norm_num [near_close, with_t_sat, after_setup])).1
    (by rw [near_close_fires]; omega)).2.2.2

/-- C13: when the monitor is disarmed, for all arguments, `inter_deltaupdate_sync_check`
returns `SM_EVENT`, sets the dwell accumulator to 0 and the trigger keep flag to false, and
changes neither the stored snapshot, the strict verdict flag, the armed flag nor the switch
status. -/
theorem C13_disarmed_call (K : Core) (s : sync_check) (b : bus_values)
    (delta_time dt iteration_count_val : ℕ) (interupdate_pos : Bool)
    (h : s.sc_enabled_flag = false) :
    (inter_deltaupdate_sync_check K s b delta_time dt iteration_count_val interupdate_pos).2
        = SIMULATIONMODE.SM_EVENT
      ∧ (inter_deltaupdate_sync_check K s b delta_time dt iteration_count_val
          interupdate_pos).1.t_sat = 0
      ∧ (inter_deltaupdate_sync_check K s b delta_time dt iteration_count_val
          interupdate_pos).1.deltamode_trigger_keep_flag = false
      ∧ snapshot_of (inter_deltaupdate_sync_check K s b delta_time dt iteration_count_val
          interupdate_pos).1 = snapshot_of s
      ∧ (inter_deltaupdate_sync_check K s b delta_time dt iteration_count_val
          interupdate_pos).1.metrics_flag = s.metrics_flag
      ∧ (inter_deltaupdate_sync_check K s b delta_time dt iteration_count_val
          interupdate_pos).1.sc_enabled_flag = false
      ∧ (inter_deltaupdate_sync_check K s b delta_time dt iteration_count_val
          interupdate_pos).1.swt_status = s.swt_status
      ∧ (inter_deltaupdate_sync_check K s b delta_time dt iteration_count_val
          interupdate_pos).1.swt_status_writes = s.swt_status_writes := by
  rw [inter_deltaupdate_disarmed K s b _ _ _ _ h]
  exact ⟨rfl, rfl, rfl, rfl, rfl, h, rfl, rfl⟩

/-- Witness of C13: a compliant evaluating sub-step on the disarmed sample object. -/
theorem C13_disarmed_call_witness :
    (inter_deltaupdate_sync_check stdCore disarmed_sample steady_bus 0 1000000000 0 false).2
        = SIMULATIONMODE.SM_EVENT
      ∧ (inter_deltaupdate_sync_check stdCore disarmed_sample steady_bus 0 1000000000 0
          false).1.t_sat = 0 :=
  ⟨(C13_disarmed_call stdCore disarmed_sample steady_bus 0 1000000000 0 false rfl).1,
    (C13_disarmed_call stdCore disarmed_sample steady_bus 0 1000000000 0 false rfl).2.1⟩

theorem check_excitation_armed (K : Core) (s : sync_check) (dt : ℕ)
    (h : (check_excitation K s dt).sc_enabled_flag = true) : s.sc_enabled_flag = true := by
  rcases check_excitation_write K s dt with ⟨-, -, h3⟩ | ⟨-, -, h3⟩
  · exact h3.symm.trans h
  · rw [h3] at h
    exact absurd h (by decide)

/-- C14: none of `data_sanity_check`, `init_norm_values`, `postsync`,
`inter_deltaupdate_sync_check`, `check_metrics`, `check_excitation` and
`reset_after_excitation` changes the armed flag from false to true: when the monitor is
armed after one of them, it was armed before. -/
theorem C14_never_rearms (K : Core) (G : Globals) (par : Option switch_object)
    (s : sync_check) (b : bus_values) (t0 tret0 : TIMESTAMP)
    (delta_time dt iteration_count_val : ℕ) (interupdate_pos deltamode_check : Bool) :
    (∀ s1, data_sanity_check K G par s = Except.ok s1 → s1.sc_enabled_flag = true →
        s.sc_enabled_flag = true)
      ∧ (∀ s2, init_norm_values G par s = Except.ok s2 → s2.sc_enabled_flag = true →
        s.sc_enabled_flag = true)
      ∧ ((postsync K s b t0 tret0).1.sc_enabled_flag = true → s.sc_enabled_flag = true)
      ∧ ((inter_deltaupdate_sync_check K s b delta_time dt iteration_count_val
          interupdate_pos).1.sc_enabled_flag = true → s.sc_enabled_flag = true)
      ∧ ((check_metrics K s deltamode_check).sc_enabled_flag = true → s.sc_enabled_flag = true)
      ∧ ((check_excitation K s dt).sc_enabled_flag = true → s.sc_enabled_flag = true)
      ∧ ((reset_after_excitation s).sc_enabled_flag = true → s.sc_enabled_flag = true) := by
  refine ⟨?_, ?_, ?_, ?_, ?_, check_excitation_armed K s dt, ?_⟩
  · intro s1 h1 ha
    obtain ⟨p, st, -, -, e⟩ := data_sanity_check_armed K G par s s1 h1
    rw [e, Bool.and_eq_true] at ha
    exact ha.1
  · intro s2 h2 ha
    rw [init_norm_values_armed G par s s2 h2] at ha
    exact ha
  · intro ha
    rw [(postsync_frame K s b t0 tret0).1] at ha
    exact ha
  · intro ha
    rcases (inter_deltaupdate_frame K s b delta_time dt iteration_count_val
      interupdate_pos).2 with ⟨-, -, h3⟩ | h
    · exact h3.symm.trans ha
    · exact h.1
  · intro ha
    cases deltamode_check
    · rw [check_metrics_false_eq] at ha; exact ha
    · rw [check_metrics_true_eq] at ha; exact ha
  · intro ha
    exact absurd ha (by simp [reset_after_excitation])

/-- Witness of C14: a due coarse tick on the disarmed sample object leaves it disarmed. -/
theorem C14_never_rearms_witness :
    (postsync stdCore disarmed_sample steady_bus 5 6).1.sc_enabled_flag = false :=
  Bool.eq_false_iff.mpr fun h =>
    absurd ((C14_never_rearms stdCore (globals_at 60) (some (open_switch 7200 7200))
      disarmed_sample steady_bus 5 6 0 1000000000 0 false false).2.2.1 h) (by decide)

/-- The frequency block succeeds exactly when the nominal frequency can be read or is
not needed. -/
theorem dsc_freq_ok_iff (G : Globals) (s : sync_check) :
    (∃ r, dsc_freq G s = Except.ok r)
      ↔ (s.frequency_tolerance_hz ≤ 0 → ∃ f, G.nominal_frequency = some f) := by
  unfold dsc_freq
  by_cases hle : s.frequency_tolerance_hz ≤ 0
  · rw [if_pos hle]
    cases hn : G.nominal_frequency with
    | none =>
      constructor
      · rintro ⟨r, hr⟩; cases hr
      · intro h2
        obtain ⟨f, hf⟩ := h2 hle
        cases hf
    | some f => exact ⟨fun _ _ => ⟨f, rfl⟩, fun _ => ⟨_, rfl⟩⟩
  · rw [if_neg hle]
    exact ⟨fun _ h2 => absurd h2 hle, fun _ => ⟨_, rfl⟩⟩

/-- C18: after a successful `data_sanity_check` the armed flag is the armed flag before
and-ed with "the parent switch status is `LS_OPEN`": an armed monitor whose switch is
not open is disarmed, an armed monitor whose switch is open stays armed, a disarmed
monitor stays disarmed; the outcome of the call (success or fatal error) does not depend
on the armed flag. -/
theorem C18_armed_needs_open_switch (K : Core) (G : Globals) (p : switch_object)
    (st : enumeration) (s s1 : sync_check) (hst : p.status = some st)
    (h : data_sanity_check K G (some p) s = Except.ok s1) :
    s1.sc_enabled_flag = (s.sc_enabled_flag && decide (st = K.LS_OPEN))
      ∧ (s.sc_enabled_flag = true → st ≠ K.LS_OPEN → s1.sc_enabled_flag = false)
      ∧ (s.sc_enabled_flag = true → st = K.LS_OPEN → s1.sc_enabled_flag = true)
      ∧ (s.sc_enabled_flag = false → s1.sc_enabled_flag = false)
      ∧ (∀ a : Bool, ∃ r, data_sanity_check K G (some p) { s with sc_enabled_flag := a }
          = Except.ok r) := by
  obtain ⟨p2, st2, hp2, hst2, e⟩ := data_sanity_check_armed K G (some p) s s1 h
  injection hp2 with hp2
  subst hp2
  rw [hst] at hst2
  injection hst2 with hst2
  subst hst2
  refine ⟨e, ?_, ?_, ?_, ?_⟩
  · intro ha hne
    rw [e, ha]
    simp [hne]
  · intro ha heq
    rw [e, ha]
    simp [heq]
  · intro ha
    rw [e, ha]
    rfl
  · intro a
    obtain ⟨p3, st3, r, hp3, hsw, hst3, hr, -⟩ :=
      (data_sanity_check_ok_iff K G (some p) s s1).mp h
    injection hp3 with hp3
    subst hp3
    have hok : ∃ r2, dsc_freq G (dsc_status K st3 { s with sc_enabled_flag := a })
        = Except.ok r2 := by
      have h0 := (dsc_freq_ok_iff G (dsc_status K st3 s)).mp ⟨r, hr⟩
      rw [dsc_freq_ok_iff, dsc_status_freq]
      rw [dsc_status_freq] at h0
      exact h0
    obtain ⟨r2, hr2⟩ := hok
    exact ⟨dsc_rest r2, (data_sanity_check_ok_iff K G (some p) _ _).mpr
      ⟨p, st3, r2, rfl, hsw, hst3, hr2, rfl⟩⟩

theorem data_sanity_check_closed_sample :
    data_sanity_check stdCore (globals_at 60) (some (closed_switch 7200 7200))
        (arm VOLT_COMPARE_MODE.MAG_DIFF (created 60 7))
      = Except.ok (dsc_rest (dsc_status stdCore stdCore.LS_CLOSED
          (arm VOLT_COMPARE_MODE.MAG_DIFF (created 60 7)))) := by
  refine (data_sanity_check_ok_iff _ _ _ _ _).mpr ⟨_, _, _, rfl, rfl, rfl, ?_, rfl⟩
  unfold dsc_freq
  rw [if_neg]
  rw [dsc_status_freq]
  norm_num [arm, created, blank]

/-- Witness of C18: the armed sample configuration on a closed switch is disarmed. -/
theorem C18_armed_needs_open_switch_witness :
    (dsc_rest (dsc_status stdCore stdCore.LS_CLOSED
      (arm VOLT_COMPARE_MODE.MAG_DIFF (created 60 7)))).sc_enabled_flag = false :=
  (C18_armed_needs_open_switch stdCore (globals_at 60) (closed_switch 7200 7200)
    stdCore.LS_CLOSED (arm VOLT_COMPARE_MODE.MAG_DIFF (created 60 7)) _ rfl
    data_sanity_check_closed_sample).2.1 rfl (by decide)

/-! ## Claims on the defaults of setup -/

theorem dsc_freq_eq (G : Globals) (s r : sync_check) (h : dsc_freq G s = Except.ok r) :
    r = { s with frequency_tolerance_hz := r.frequency_tolerance_hz } := by
  unfold dsc_freq at h
  split_ifs at h
  · split at h
    · cases h
    · injection h with h; subst h; rfl
  · injection h with h; subst h; rfl

/-- The values of the four fields that the last blocks of `data_sanity_check` correct. -/
theorem dsc_rest_values (s : sync_check) :
    (dsc_rest s).voltage_tolerance_pu
        = (if s.voltage_tolerance_pu ≤ 0 then 1e-2 else s.voltage_tolerance_pu)
      ∧ (dsc_rest s).voltage_magnitude_tolerance_pu
        = (if s.voltage_magnitude_tolerance_pu ≤ 0 then 1e-2
            else s.voltage_magnitude_tolerance_pu)
      ∧ (dsc_rest s).voltage_angle_tolerance_deg
        = (if s.voltage_angle_tolerance_deg ≤ 0 then 5 else s.voltage_angle_tolerance_deg)
      ∧ (dsc_rest s).metrics_period_sec
        = (if s.metrics_period_sec ≤ 0 then 1.2 else s.metrics_period_sec) := by
  obtain ⟨-, a2, a3, a4, -, -⟩ := dsc_volt_props s
  obtain ⟨b1, -, b3, b4, -, -⟩ := dsc_vmag_props (dsc_volt s)
  obtain ⟨c1, c2, -, c4, -, -⟩ := dsc_vang_props (dsc_vmag (dsc_volt s))
  obtain ⟨d1, d2, d3, -, -, -⟩ := dsc_period_props (dsc_vang (dsc_vmag (dsc_volt s)))
  have v1 : (dsc_volt s).voltage_tolerance_pu
      = (if s.voltage_tolerance_pu ≤ 0 then 1e-2 else s.voltage_tolerance_pu) := by
    unfold dsc_volt; split_ifs <;> rfl
  have v2 : ∀ u : sync_check, (dsc_vmag u).voltage_magnitude_tolerance_pu
      = (if u.voltage_magnitude_tolerance_pu ≤ 0 then 1e-2
          else u.voltage_magnitude_tolerance_pu) := by
    intro u; unfold dsc_vmag; split_ifs <;> rfl
  have v3 : ∀ u : sync_check, (dsc_vang u).voltage_angle_tolerance_deg
      = (if u.voltage_angle_tolerance_deg ≤ 0 then 5 else u.voltage_angle_tolerance_deg) := by
    intro u; unfold dsc_vang; split_ifs <;> rfl
  have v4 : ∀ u : sync_check, (dsc_period u).metrics_period_sec
      = (if u.metrics_period_sec ≤ 0 then 1.2 else u.metrics_period_sec) := by
    intro u; unfold dsc_period; split_ifs <;> rfl
  unfold dsc_rest
  refine ⟨?_, ?_, ?_, ?_⟩
  · rw [d1, c1, b1, v1]
  · rw [d2, c2, v2, a2]
  · rw [d3, v3, b3, a3]
  · rw [v4, c4, b4, a4]

/-- The values of the corrected fields after the two setup steps, except the frequency
tolerance (see `setup_steps_freq`). -/
theorem setup_steps_values (K : Core) (G : Globals) (par : Option switch_object)
    (s0 s : sync_check) (h : setup_steps K G par s0 = Except.ok s) :
    s.voltage_tolerance_pu
        = (if s0.voltage_tolerance_pu ≤ 0 then 1e-2 else s0.voltage_tolerance_pu)
      ∧ s.voltage_magnitude_tolerance_pu
        = (if s0.voltage_magnitude_tolerance_pu ≤ 0 then 1e-2
            else s0.voltage_magnitude_tolerance_pu)
      ∧ s.voltage_angle_tolerance_deg
        = (if s0.voltage_angle_tolerance_deg ≤ 0 then 5 else s0.voltage_angle_tolerance_deg)
      ∧ s.metrics_period_sec
        = (if s0.metrics_period_sec ≤ 0 then 1.2 else s0.metrics_period_sec)
      ∧ s.delta_trigger_mult
        = (if s0.delta_trigger_mult ≤ 1.0 then 2.0 else s0.delta_trigger_mult) := by
  obtain ⟨s1, h1, h2⟩ := (setup_steps_ok_iff K G par s0 s).mp h
  obtain ⟨p, st, r, -, -, -, hr, rfl⟩ := (data_sanity_check_ok_iff K G par s0 s1).mp h1
  obtain ⟨fm, tn, vf, vt, -, -, -, -, -, rfl⟩ := (init_norm_values_ok_iff G par _ s).mp h2
  have er := dsc_freq_eq G _ r hr
  rw [dsc_status_eq] at er
  have r1 : r.voltage_tolerance_pu = s0.voltage_tolerance_pu := by rw [er]
  have r2 : r.voltage_magnitude_tolerance_pu = s0.voltage_magnitude_tolerance_pu := by rw [er]
  have r3 : r.voltage_angle_tolerance_deg = s0.voltage_angle_tolerance_deg := by rw [er]
  have r4 : r.metrics_period_sec = s0.metrics_period_sec := by rw [er]
  have r5 : r.delta_trigger_mult = s0.delta_trigger_mult := by rw [er]
  obtain ⟨v1, v2, v3, v4⟩ := dsc_rest_values r
  obtain ⟨t1, t2, t3, t4, -, -, -, -, -, -⟩ :=
    inv_tail_props G (inv_nodes fm tn vf vt (dsc_rest r))
  have m0 : (dsc_rest r).delta_trigger_mult = r.delta_trigger_mult :=
    (dsc_rest_props r).2.2.2.2.2
  have m1 : (inv_tail G (inv_nodes fm tn vf vt (dsc_rest r))).delta_trigger_mult
      = (if (dsc_rest r).delta_trigger_mult ≤ 1.0 then 2.0
          else (dsc_rest r).delta_trigger_mult) := by
    simp only [inv_tail, inv_nodes]
    split_ifs <;> rfl
  refine ⟨?_, ?_, ?_, ?_, ?_⟩
  · rw [t1]; show (dsc_rest r).voltage_tolerance_pu = _; rw [v1, r1]
  · rw [t2]; show (dsc_rest r).voltage_magnitude_tolerance_pu = _; rw [v2, r2]
  · rw [t3]; show (dsc_rest r).voltage_angle_tolerance_deg = _; rw [v3, r3]
  · rw [t4]; show (dsc_rest r).metrics_period_sec = _; rw [v4, r4]
  · rw [m1, m0, r5]

/-- The voltage tolerance that `init_norm_values` reads is the corrected one. -/
theorem dsc_voltage_tolerance (K : Core) (G : Globals) (par : Option switch_object)
    (s0 s1 : sync_check) (h1 : data_sanity_check K G par s0 = Except.ok s1) :
    s1.voltage_tolerance_pu
      = (if s0.voltage_tolerance_pu ≤ 0 then 1e-2 else s0.voltage_tolerance_pu) := by
  obtain ⟨p, st, r, -, -, -, hr, rfl⟩ := (data_sanity_check_ok_iff K G par s0 s1).mp h1
  have er := dsc_freq_eq G _ r hr
  rw [dsc_status_eq] at er
  have r1 : r.voltage_tolerance_pu = s0.voltage_tolerance_pu := by rw [er]
  rw [(dsc_rest_values r).1, r1]

/-- Setup succeeds exactly when the parent is a switch whose status and whose two nodes
with their nominal voltages can be read, the nominal frequency can be read when it is
needed, and the nominal voltages agree within the corrected voltage tolerance. -/
theorem setup_steps_succeeds_iff (K : Core) (G : Globals) (par : Option switch_object)
    (s0 : sync_check) :
    (∃ s, setup_steps K G par s0 = Except.ok s)
      ↔ ∃ p st fm tn vf vt, par = some p ∧ p.is_switch = true ∧ p.status = some st
          ∧ (s0.frequency_tolerance_hz ≤ 0 → ∃ f, G.nominal_frequency = some f)
          ∧ p.from_node = some fm ∧ p.to_node = some tn
          ∧ fm.nominal_voltage = some vf ∧ tn.nominal_voltage = some vt
          ∧ ¬ (|vf - vt|
                > (if s0.voltage_tolerance_pu ≤ 0 then 1e-2 else s0.voltage_tolerance_pu)
                    * ((vf + vt) / 2)) := by
  constructor
  · rintro ⟨s, h⟩
    obtain ⟨s1, h1, h2⟩ := (setup_steps_ok_iff K G par s0 s).mp h
    have hv := dsc_voltage_tolerance K G par s0 s1 h1
    obtain ⟨p, st, r, rfl, hsw, hst, hr, rfl⟩ := (data_sanity_check_ok_iff K G _ s0 s1).mp h1
    obtain ⟨fm, tn, vf, vt, hfm, htn, hvf, hvt, hc, -⟩ :=
      (init_norm_values_ok_iff G _ _ s).mp h2
    rw [hv] at hc
    have hq := (dsc_freq_ok_iff G (dsc_status K st s0)).mp ⟨r, hr⟩
    rw [dsc_status_freq] at hq
    exact ⟨p, st, fm, tn, vf, vt, rfl, hsw, hst, hq, hfm, htn, hvf, hvt, hc⟩
  · rintro ⟨p, st, fm, tn, vf, vt, rfl, hsw, hst, hq, hfm, htn, hvf, hvt, hc⟩
    rw [← dsc_status_freq K st s0] at hq
    obtain ⟨r, hr⟩ := (dsc_freq_ok_iff G (dsc_status K st s0)).mpr hq
    have h1 : data_sanity_check K G (some p) s0 = Except.ok (dsc_rest r) :=
      (data_sanity_check_ok_iff K G _ s0 _).mpr ⟨p, st, r, rfl, hsw, hst, hr, rfl⟩
    rw [← dsc_voltage_tolerance K G _ s0 _ h1] at hc
    have h2 : init_norm_values G (some p) (dsc_rest r)
        = Except.ok (inv_tail G (inv_nodes fm tn vf vt (dsc_rest r))) :=
      (init_norm_values_ok_iff G _ _ _).mpr ⟨fm, tn, vf, vt, hfm, htn, hvf, hvt, hc, rfl⟩
    exact ⟨_, (setup_steps_ok_iff K G _ s0 _).mpr ⟨_, h1, h2⟩⟩

/-- With exact arithmetic and finite configuration values: whenever setup completes without
a fatal error, the voltage tolerance, the voltage magnitude tolerance, the voltage angle
tolerance and the dwell period are strictly positive and the trigger multiplier is above
one; the frequency tolerance is strictly positive exactly when the configured one was, or
the global nominal frequency is strictly positive. Under that condition all six hold. -/
theorem exact_tolerances_positive (K : Core) (G : Globals) (par : Option switch_object)
    (s0 s : sync_check) (h : setup_steps K G par s0 = Except.ok s) :
    (0 < s.voltage_tolerance_pu ∧ 0 < s.voltage_magnitude_tolerance_pu
        ∧ 0 < s.voltage_angle_tolerance_deg ∧ 0 < s.metrics_period_sec
        ∧ 1 < s.delta_trigger_mult)
      ∧ (0 < s.frequency_tolerance_hz
          ↔ (0 < s0.frequency_tolerance_hz ∨ ∃ f, G.nominal_frequency = some f ∧ 0 < f))
      ∧ ((0 < s0.frequency_tolerance_hz ∨ ∃ f, G.nominal_frequency = some f ∧ 0 < f)
          → C15_as_stated s) := by
  obtain ⟨s1, h1, h2⟩ := (setup_steps_ok_iff K G par s0 s).mp h
  obtain ⟨a1, a2, a3, a4, a5, -⟩ := setup_invariant_of_steps K G par s0 s1 s h1 h2
  have hiff : 0 < s.frequency_tolerance_hz
      ↔ (0 < s0.frequency_tolerance_hz ∨ ∃ f, G.nominal_frequency = some f ∧ 0 < f) := by
    rcases setup_steps_freq K G par s0 s h with ⟨hp, he⟩ | ⟨hle, f, hf, he⟩
    · rw [he]
      exact ⟨fun _ => Or.inl hp, fun _ => hp⟩
    · rw [he]
      constructor
      · intro hpos
        exact Or.inr ⟨f, hf, by linarith⟩
      · rintro (hp | ⟨g, hg, hgp⟩)
        · exact absurd hp (not_lt.mpr hle)
        · rw [hf] at hg
          injection hg with hg
          subst hg
          linarith
  exact ⟨⟨a1, a2, a3, a4, a5⟩, hiff, fun hc => ⟨hiff.mpr hc, a1, a2, a3, a4, a5⟩⟩

/-- Sample of the corrected tolerances with exact arithmetic: the sample setup at a nominal
frequency of 60 Hz. -/
theorem exact_tolerances_positive_sample :
    C15_as_stated (after_steps VOLT_COMPARE_MODE.MAG_DIFF 60 7200 7) :=
  (exact_tolerances_positive stdCore (globals_at 60) (some (open_switch 7200 7200))
    (arm VOLT_COMPARE_MODE.MAG_DIFF (created 60 7))
    (after_steps VOLT_COMPARE_MODE.MAG_DIFF 60 7200 7)
    (setup_steps_sample VOLT_COMPARE_MODE.MAG_DIFF 60 7200 7 (by norm_num))).2.2
    (Or.inr ⟨60, rfl, by norm_num⟩)

/-- A failing input of C15 as stated, with exact arithmetic: with the global nominal
frequency set to 0 and the frequency tolerance left unset, setup succeeds and the frequency
tolerance is 0, which is not strictly positive. -/
theorem C15_fails_at_zero_nominal_frequency :
    setup_steps stdCore (globals_at 0) (some (open_switch 7200 7200))
        (arm VOLT_COMPARE_MODE.MAG_DIFF (created 0 7))
      = Except.ok (after_steps VOLT_COMPARE_MODE.MAG_DIFF 0 7200 7)
    ∧ ¬ C15_as_stated (after_steps VOLT_COMPARE_MODE.MAG_DIFF 0 7200 7) := by
  refine ⟨setup_steps_sample _ _ _ _ (by norm_num), ?_⟩
  intro h
  have h2 := h.1
  norm_num [after_steps, after_setup] at h2

/-- C16: with the global nominal frequency `f` readable, setup maps the configured value
`v` of the frequency tolerance to `0.01 * f` if `v ≤ 0` and to `v` otherwise, of the voltage
tolerance and of the voltage magnitude tolerance to `0.01` if `v ≤ 0` and to `v` otherwise,
of the voltage angle tolerance to `5` if `v ≤ 0` and to `v` otherwise, of the dwell period
to `1.2` if `v ≤ 0` and to `v` otherwise, and of the trigger multiplier to `2.0` if
`v ≤ 1.0` and to `v` otherwise (so a valid value is kept). No correction is fatal: setup
succeeds exactly when the parent switch, its status, its two nodes and their nominal
voltages can be read and the nominal voltages agree within the corrected voltage
tolerance, whatever the six configured values are. -/
theorem C16_setup_defaults (K : Core) (G : Globals) (par : Option switch_object)
    (s0 : sync_check) (f : ℚ) (hf : G.nominal_frequency = some f) :
    (∀ s, setup_steps K G par s0 = Except.ok s →
        s.frequency_tolerance_hz
            = (if s0.frequency_tolerance_hz ≤ 0 then 0.01 * f else s0.frequency_tolerance_hz)
          ∧ s.voltage_tolerance_pu
            = (if s0.voltage_tolerance_pu ≤ 0 then 0.01 else s0.voltage_tolerance_pu)
          ∧ s.voltage_magnitude_tolerance_pu
            = (if s0.voltage_magnitude_tolerance_pu ≤ 0 then 0.01
                else s0.voltage_magnitude_tolerance_pu)
          ∧ s.voltage_angle_tolerance_deg
            = (if s0.voltage_angle_tolerance_deg ≤ 0 then 5
                else s0.voltage_angle_tolerance_deg)
          ∧ s.metrics_period_sec
            = (if s0.metrics_period_sec ≤ 0 then 1.2 else s0.metrics_period_sec)
          ∧ s.delta_trigger_mult
            = (if s0.delta_trigger_mult ≤ 1.0 then 2.0 else s0.delta_trigger_mult))
      ∧ ((∃ s1, data_sanity_check K G par s0 = Except.ok s1)
          ↔ ∃ p st, par = some p ∧ p.is_switch = true ∧ p.status = some st)
      ∧ ((∃ s, setup_steps K G par s0 = Except.ok s)
          ↔ ∃ p st fm tn vf vt, par = some p ∧ p.is_switch = true ∧ p.status = some st
              ∧ p.from_node = some fm ∧ p.to_node = some tn
              ∧ fm.nominal_voltage = some vf ∧ tn.nominal_voltage = some vt
              ∧ ¬ (|vf - vt|
                    > (if s0.voltage_tolerance_pu ≤ 0 then 0.01 else s0.voltage_tolerance_pu)
                        * ((vf + vt) / 2))) := by
  refine ⟨?_, ?_, ?_⟩
  · intro s h
    obtain ⟨v1, v2, v3, v4, v5⟩ := setup_steps_values K G par s0 s h
    have e : (1e-2 : ℚ) = 0.01 := by norm_num
    rw [e] at v1 v2
    refine ⟨?_, v1, v2, v3, v4, v5⟩
    rcases setup_steps_freq K G par s0 s h with ⟨hp, he⟩ | ⟨hle, g, hg, he⟩
    · rw [if_neg (not_le.mpr hp)]
      exact he
    · rw [if_pos hle, he]
      rw [hf] at hg
      injection hg with hg
      rw [hg]
  · constructor
    · rintro ⟨s1, h1⟩
      obtain ⟨p, st, r, hp, hsw, hst, -, -⟩ := (data_sanity_check_ok_iff K G par s0 s1).mp h1
      exact ⟨p, st, hp, hsw, hst⟩
    · rintro ⟨p, st, hp, hsw, hst⟩
      obtain ⟨r, hr⟩ := (dsc_freq_ok_iff G (dsc_status K st s0)).mpr (fun _ => ⟨f, hf⟩)
      exact ⟨_, (data_sanity_check_ok_iff K G par s0 _).mpr ⟨p, st, r, hp, hsw, hst, hr, rfl⟩⟩
  · rw [setup_steps_succeeds_iff]
    have e : (1e-2 : ℚ) = 0.01 := by norm_num
    rw [e]
    constructor
    · rintro ⟨p, st, fm, tn, vf, vt, hp, hsw, hst, -, hr⟩
      exact ⟨p, st, fm, tn, vf, vt, hp, hsw, hst, hr⟩
    · rintro ⟨p, st, fm, tn, vf, vt, hp, hsw, hst, hr⟩
      exact ⟨p, st, fm, tn, vf, vt, hp, hsw, hst, fun _ => ⟨f, hf⟩, hr⟩

/-- Witness of C16: a configuration with every corrected field invalid is set up without
a fatal error, and each field gets its default. -/
theorem C16_setup_defaults_witness :
    ∃ s, setup_steps stdCore (globals_at 60) (some (open_switch 7200 7200)) unset_config
        = Except.ok s
      ∧ s.frequency_tolerance_hz = 0.6 ∧ s.voltage_tolerance_pu = 0.01
      ∧ s.voltage_magnitude_tolerance_pu = 0.01 ∧ s.voltage_angle_tolerance_deg = 5
      ∧ s.metrics_period_sec = 1.2 ∧ s.delta_trigger_mult = 2 := by
  have c := C16_setup_defaults stdCore (globals_at 60) (some (open_switch 7200 7200))
    unset_config 60 rfl
  obtain ⟨s, hs⟩ := c.2.2.mpr
    ⟨open_switch 7200 7200, stdCore.LS_OPEN, bus_at 7200, bus_at 7200, 7200, 7200,
      rfl, rfl, rfl, rfl, rfl, rfl, rfl, by norm_num [unset_config]⟩
  obtain ⟨v0, v1, v2, v3, v4, v5⟩ := c.1 s hs
  refine ⟨s, hs, ?_, ?_, ?_, ?_, ?_, ?_⟩
  · rw [v0]; norm_num [unset_config]
  · rw [v1]; norm_num [unset_config]
  · rw [v2]; norm_num [unset_config]
  · rw [v3]; norm_num [unset_config]
  · rw [v4]; norm_num [unset_config]
  · rw [v5]; norm_num [unset_config]

/-! ## Claim on the phase flags -/

theorem init_sensors_sample (m : VOLT_COMPARE_MODE) (f v : ℚ) (ph : ℕ) :
    init_sensors stdCore (some (open_switch v v)) (after_steps m f v ph)
      = Except.ok (sensors_state stdCore 7 (after_steps m f v ph)) := by
  simp [init_sensors, sensors_state, open_switch, after_steps, after_setup, bus_at]

/-- C19 (the code departs from it): after a successful `init_sensors` the phases value
read from the parent switch is stored in `swt_phases`, but each of the flags
`swt_ph_A_flag`, `swt_ph_B_flag`, `swt_ph_C_flag` is true exactly when the bit of that
phase is set in the own `phases` field of the monitor, not in `swt_phases`. -/
theorem C19_flags_follow_own_phases (K : Core) (par : Option switch_object)
    (s s3 : sync_check) (h : init_sensors K par s = Except.ok s3) :
    par.bind (fun p => p.phases) = some s3.swt_phases
      ∧ (s3.swt_ph_A_flag = true ↔ s.phases &&& K.PHASE_A = K.PHASE_A)
      ∧ (s3.swt_ph_B_flag = true ↔ s.phases &&& K.PHASE_B = K.PHASE_B)
      ∧ (s3.swt_ph_C_flag = true ↔ s.phases &&& K.PHASE_C = K.PHASE_C) := by
  obtain ⟨ph, hph, rfl⟩ := init_sensors_ok K par s s3 h
  refine ⟨hph, ?_, ?_, ?_⟩ <;> simp [sensors_state]

/-- Witness of C19, and the input on which the code departs from the claim: the parent
switch has the three phases (`swt_phases = 7`, in which the bit of each phase is set),
the own `phases` field of the monitor is 0, and no flag is set. -/
theorem C19_flags_follow_own_phases_witness :
    ∃ s3, init_sensors stdCore (some (open_switch 7200 7200))
          (after_steps VOLT_COMPARE_MODE.MAG_DIFF 60 7200 0) = Except.ok s3
      ∧ s3.swt_phases = 7
      ∧ s3.swt_phases &&& stdCore.PHASE_A = stdCore.PHASE_A
      ∧ s3.swt_phases &&& stdCore.PHASE_B = stdCore.PHASE_B
      ∧ s3.swt_phases &&& stdCore.PHASE_C = stdCore.PHASE_C
      ∧ s3.swt_ph_A_flag = false ∧ s3.swt_ph_B_flag = false ∧ s3.swt_ph_C_flag = false := by
  have h := init_sensors_sample VOLT_COMPARE_MODE.MAG_DIFF 60 7200 0
  obtain ⟨-, hA, hB, hC⟩ := C19_flags_follow_own_phases stdCore _ _ _ h
  have z : (after_steps VOLT_COMPARE_MODE.MAG_DIFF 60 7200 0).phases = 0 := rfl
  rw [z] at hA hB hC
  refine ⟨_, h, rfl, by decide, by decide, by decide, ?_, ?_, ?_⟩
  · exact Bool.eq_false_iff.mpr (fun hf => absurd (hA.mp hf) (by decide))
  · exact Bool.eq_false_iff.mpr (fun hf => absurd (hB.mp hf) (by decide))
  · exact Bool.eq_false_iff.mpr (fun hf => absurd (hC.mp hf) (by decide))

/-! ## Claim on the inactive phases -/

theorem init_vars_phasors (G : Globals) (s s1 : sync_check)
    (h : init_vars G s = Except.ok s1) : phasors_zero s1 := by
  unfold init_vars at h
  simp only [] at h
  split at h
  · cases h
  · injection h with h
    subst h
    exact ⟨rfl, rfl, rfl, rfl, rfl, rfl⟩

theorem published_only_phasors (configure : sync_check → sync_check)
    (h : published_only configure) (x : sync_check) (hx : phasors_zero x) :
    phasors_zero (configure x) := by
  rw [h x]
  exact hx

theorem init_phasors (K : Core) (G : Globals) (parent : Option switch_object)
    (s r : sync_check) (h : init K G parent s = Except.ok r) (hs : phasors_zero s) :
    phasors_zero r := by
  rw [← init_fields K G parent s r h]
  exact hs

theorem run_calls_same_config (K : Core) (cs : List call) :
    ∀ s : sync_check, same_config s (run_calls K s cs) := by
  induction cs with
  | nil => intro s; exact same_config_refl s
  | cons c cs ih =>
    intro s
    exact same_config_trans _ _ _ (do_call_frame K s c).1 (ih (do_call K s c))

/-- In a state reachable after setup the configuration is the one setup established and
the stored phasors of the inactive phases are still zero. -/
theorem reachable_invariant (K : Core) (s : sync_check) (h : reachable_after_setup K s) :
    setup_invariant s ∧ inactive_phasors_zero s := by
  obtain ⟨G, parent, configure, s_pre, s0, cs, hpub, hci, rfl⟩ := h
  unfold create_and_init at hci
  split at hci
  · cases hci
  · rename_i s1 h1
    have z0 : phasors_zero s0 :=
      init_phasors K G parent _ s0 hci
        (published_only_phasors configure hpub s1 (init_vars_phasors G s_pre s1 h1))
    have i0 : setup_invariant s0 := setup_invariant_of_init K G parent _ s0 hci
    obtain ⟨⟨-, e2, e3, e4, e5, -, e7, eA, eB, eC, pA, pB, pC⟩, r1, r2, r3, r4, r5⟩ :=
      run_calls_same_config K cs s0
    obtain ⟨a1, a2, a3, a4, a5, a6, a7, a8, a9⟩ := i0
    obtain ⟨zA1, zA2, zB1, zB2, zC1, zC2⟩ := z0
    refine ⟨⟨?_, ?_, ?_, ?_, ?_, ?_, ?_, ?_, ?_⟩, ?_, ?_, ?_⟩
    · rw [e3]; exact a1
    · rw [e4]; exact a2
    · rw [e5]; exact a3
    · rw [e7]; exact a4
    · rw [r5]; exact a5
    · rw [r1, r5, e2]; exact a6
    · rw [r2, r5, e3]; exact a7
    · rw [r3, r5, e4]; exact a8
    · rw [r4, r5, e5]; exact a9
    · intro hf
      rw [eA] at hf
      obtain ⟨q1, q2⟩ := pA hf
      exact ⟨q1.trans zA1, q2.trans zA2⟩
    · intro hf
      rw [eB] at hf
      obtain ⟨q1, q2⟩ := pB hf
      exact ⟨q1.trans zB1, q2.trans zB2⟩
    · intro hf
      rw [eC] at hf
      obtain ⟨q1, q2⟩ := pC hf
      exact ⟨q1.trans zC1, q2.trans zC2⟩

theorem published_only_arm (m : VOLT_COMPARE_MODE) : published_only (arm m) :=
  fun _ => rfl

theorem tick_armed_eq (K : Core) (s : sync_check) (b : bus_values) (dt : ℕ)
    (h : s.sc_enabled_flag = true) :
    tick K s b dt = check_excitation K (tick_checked K s b) dt := by
  have e : tick K s b dt = check_excitation K (check_metrics K
      (if (check_metrics K (update_measurements s b) true).deltamode_trigger_keep_flag = true then
        { check_metrics K (update_measurements s b) true with
          deltamode_check_return_val := SIMULATIONMODE.SM_DELTA }
      else { check_metrics K (update_measurements s b) true with
          deltamode_check_return_val := SIMULATIONMODE.SM_EVENT }) false) dt := by
    unfold tick inter_deltaupdate_sync_check
    simp only [h, if_true, and_self]
  rw [e, ite_return_eq, check_metrics_false_eq]
  unfold tick_checked
  congr 1
  rw [metrics_flag_congr K (update_measurements s b) _ ?_]
  · conv_lhs => rw [check_metrics_true_eq]
  · rw [check_metrics_true_eq]
    exact ⟨rfl, rfl, rfl, rfl, rfl, rfl, rfl, rfl, rfl, rfl, rfl, rfl, rfl, rfl⟩

/-- What `check_excitation` never touches: the stored snapshot, the relaxed verdict flag,
the stored mode, the requests and the next trigger time. -/
theorem check_excitation_keeps (K : Core) (s : sync_check) (dt : ℕ) :
    snapshot_of (check_excitation K s dt) = snapshot_of s
      ∧ (check_excitation K s dt).deltamode_check_return_val = s.deltamode_check_return_val
      ∧ (check_excitation K s dt).deltamode_trigger_keep_flag = s.deltamode_trigger_keep_flag
      ∧ (check_excitation K s dt).deltamode_starts = s.deltamode_starts
      ∧ (check_excitation K s dt).next_trigger_update_time = s.next_trigger_update_time := by
  rcases check_excitation_cases K s dt with ⟨t, -, h⟩ | h <;> rw [h] <;>
    exact ⟨rfl, rfl, rfl, rfl, rfl⟩

theorem tick_return_val (K : Core) (s : sync_check) (b : bus_values) (dt : ℕ)
    (h : s.sc_enabled_flag = true) :
    (tick K s b dt).deltamode_check_return_val
      = if (check_metrics K (update_measurements s b) true).deltamode_trigger_keep_flag = true
        then SIMULATIONMODE.SM_DELTA else SIMULATIONMODE.SM_EVENT := by
  rw [tick_armed_eq K s b dt h, (check_excitation_keeps K _ dt).2.1]
  rfl

theorem update_measurements_with_times (s : sync_check) (b : bus_values) (t : ℚ)
    (n : TIMESTAMP) :
    update_measurements { s with t_sat := t, next_trigger_update_time := n } b
      = { update_measurements s b with t_sat := t, next_trigger_update_time := n } := by
  rw [update_measurements_eq, update_measurements_eq]

theorem keep_flag_with_times (K : Core) (u : sync_check) (t : ℚ) (n : TIMESTAMP) :
    (check_metrics K { u with t_sat := t, next_trigger_update_time := n }
        true).deltamode_trigger_keep_flag
      = (check_metrics K u true).deltamode_trigger_keep_flag := by
  by_cases hm : u.volt_compare_mode = VOLT_COMPARE_MODE.MAG_DIFF
  · exact (keep_flag_MAG_DIFF K { u with t_sat := t, next_trigger_update_time := n } hm).trans
      (keep_flag_MAG_DIFF K u hm).symm
  · exact (keep_flag_SEP_DIFF K { u with t_sat := t, next_trigger_update_time := n } hm).trans
      (keep_flag_SEP_DIFF K u hm).symm

/-- The state of a due coarse tick of an armed monitor, field by field. -/
theorem postsync_eval_eq (K : Core) (s : sync_check) (b : bus_values) (t0 : TIMESTAMP) :
    postsync_eval K s b t0
      = { update_measurements s b with
          t_sat := 0
          next_trigger_update_time := t0 + 1
          deltamode_trigger_keep_flag :=
            (check_metrics K (update_measurements s b) true).deltamode_trigger_keep_flag } := by
  unfold postsync_eval
  rw [check_metrics_true_eq, update_measurements_with_times, keep_flag_with_times]

theorem postsync_mode (K : Core) (s : sync_check) (b : bus_values) (t0 tret0 : TIMESTAMP)
    (h : mode_is_event_or_delta s) : mode_is_event_or_delta (postsync K s b t0 tret0).1 := by
  by_cases hd : s.next_trigger_update_time ≤ t0
  · rcases Bool.eq_false_or_eq_true s.sc_enabled_flag with ha | ha
    · rw [postsync_armed K s b t0 tret0 hd ha]
      split_ifs
      · exact Or.inl rfl
      · rw [postsync_eval_eq, update_measurements_eq]
        exact h
    · rw [postsync_disarmed K s b t0 tret0 hd ha]
      exact Or.inl rfl
  · rw [postsync_not_due K s b t0 tret0 hd]
    exact h

theorem inter_deltaupdate_mode (K : Core) (s : sync_check) (b : bus_values)
    (delta_time dt iteration_count_val : ℕ) (interupdate_pos : Bool)
    (h : mode_is_event_or_delta s) :
    mode_is_event_or_delta
      (inter_deltaupdate_sync_check K s b delta_time dt iteration_count_val
        interupdate_pos).1 := by
  rcases Bool.eq_false_or_eq_true s.sc_enabled_flag with ha | ha
  · by_cases he : iteration_count_val = 0 ∧ interupdate_pos = false
    · obtain ⟨rfl, rfl⟩ := he
      rw [inter_deltaupdate_eval]
      unfold mode_is_event_or_delta
      rw [tick_return_val K s b dt ha]
      split_ifs
      · exact Or.inr rfl
      · exact Or.inl rfl
    · rw [inter_deltaupdate_skip K s b _ _ _ _ ha he]
      exact h
  · rw [inter_deltaupdate_disarmed K s b _ _ _ _ ha]
    exact Or.inl rfl

theorem run_calls_mode (K : Core) (cs : List call) :
    ∀ s : sync_check, mode_is_event_or_delta s → mode_is_event_or_delta (run_calls K s cs) := by
  induction cs with
  | nil => intro s h; exact h
  | cons c cs ih =>
    intro s h
    refine ih (do_call K s c) ?_
    cases c with
    | postsync b t0 tret0 => exact postsync_mode K s b t0 tret0 h
    | inter_deltaupdate b delta_time dt iteration_count_val interupdate_pos =>
      exact inter_deltaupdate_mode K s b delta_time dt iteration_count_val interupdate_pos h

/-- What `create` leaves in the members that neither the configuration nor `init` assigns:
a zero accumulator and the stored mode `SM_EVENT`. -/
theorem create_and_init_start (K : Core) (G : Globals) (parent : Option switch_object)
    (configure : sync_check → sync_check) (s_pre s0 : sync_check)
    (hpub : published_only configure)
    (h : create_and_init K G parent configure s_pre = Except.ok s0) :
    s0.t_sat = 0 ∧ s0.deltamode_check_return_val = SIMULATIONMODE.SM_EVENT := by
  unfold create_and_init at h
  split at h
  · cases h
  · rename_i s1 h1
    have hf := init_fields K G parent _ s0 h
    have c1 : (configure s1).t_sat = s1.t_sat := by rw [hpub s1]
    have c2 : (configure s1).deltamode_check_return_val = s1.deltamode_check_return_val := by
      rw [hpub s1]
    have i1 : s1.t_sat = 0 ∧ s1.deltamode_check_return_val = SIMULATIONMODE.SM_EVENT := by
      unfold init_vars at h1
      simp only [] at h1
      split at h1
      · cases h1
      · injection h1 with h1
        subst h1
        exact ⟨rfl, rfl⟩
    have f1 : s0.t_sat = (configure s1).t_sat := by rw [← hf]; rfl
    have f2 : s0.deltamode_check_return_val = (configure s1).deltamode_check_return_val := by
      rw [← hf]; rfl
    exact ⟨f1.trans (c1.trans i1.1), f2.trans (c2.trans i1.2)⟩

theorem reachable_mode (K : Core) (s : sync_check) (h : reachable_after_setup K s) :
    mode_is_event_or_delta s := by
  obtain ⟨G, parent, configure, s_pre, s0, cs, hpub, hci, rfl⟩ := h
  exact run_calls_mode K cs s0
    (Or.inl (create_and_init_start K G parent configure s_pre s0 hpub hci).2)

/-- C21: for an armed monitor on an evaluating fine sub-step (`iteration_count_val = 0`,
`interupdate_pos` false), `inter_deltaupdate_sync_check` refreshes the snapshot, and the
mode it stores in `deltamode_check_return_val` is `SM_DELTA` if and only if the relaxed
check passes on the refreshed snapshot and `SM_EVENT` otherwise; the value returned is the
stored mode, one of `SM_EVENT` and `SM_DELTA`.  In every state reachable after setup the
value returned is one of the two whatever the arguments are. -/
theorem C21_step_mode_request (K : Core) (s : sync_check) (b : bus_values)
    (delta_time dt : ℕ) (h : s.sc_enabled_flag = true) :
    snapshot_of (inter_deltaupdate_sync_check K s b delta_time dt 0 false).1
        = snapshot_of (update_measurements s b)
      ∧ ((inter_deltaupdate_sync_check K s b delta_time dt 0 false).1.deltamode_check_return_val
            = SIMULATIONMODE.SM_DELTA
          ↔ (check_metrics K (update_measurements s b) true).deltamode_trigger_keep_flag = true)
      ∧ ((inter_deltaupdate_sync_check K s b delta_time dt 0 false).1.deltamode_check_return_val
            = SIMULATIONMODE.SM_EVENT
          ↔ (check_metrics K (update_measurements s b) true).deltamode_trigger_keep_flag = false)
      ∧ (inter_deltaupdate_sync_check K s b delta_time dt 0 false).2
          = (inter_deltaupdate_sync_check K s b delta_time dt 0
              false).1.deltamode_check_return_val
      ∧ ((inter_deltaupdate_sync_check K s b delta_time dt 0 false).2 = SIMULATIONMODE.SM_EVENT
          ∨ (inter_deltaupdate_sync_check K s b delta_time dt 0 false).2
              = SIMULATIONMODE.SM_DELTA)
      ∧ (∀ (r : sync_check) (b2 : bus_values) (delta_time2 dt2 iteration_count_val : ℕ)
          (interupdate_pos : Bool), reachable_after_setup K r →
          (inter_deltaupdate_sync_check K r b2 delta_time2 dt2 iteration_count_val
              interupdate_pos).2 = SIMULATIONMODE.SM_EVENT
            ∨ (inter_deltaupdate_sync_check K r b2 delta_time2 dt2 iteration_count_val
              interupdate_pos).2 = SIMULATIONMODE.SM_DELTA) := by
  have hv := tick_return_val K s b dt h
  have hs : snapshot_of (tick K s b dt) = snapshot_of (update_measurements s b) := by
    rw [tick_armed_eq K s b dt h, (check_excitation_keeps K _ dt).1]
    rfl
  rw [inter_deltaupdate_snd, inter_deltaupdate_eval]
  refine ⟨hs, ?_, ?_, rfl, ?_, ?_⟩
  · rw [hv]
    rcases Bool.eq_false_or_eq_true
      (check_metrics K (update_measurements s b) true).deltamode_trigger_keep_flag with k | k <;>
      simp [k]
  · rw [hv]
    rcases Bool.eq_false_or_eq_true
      (check_metrics K (update_measurements s b) true).deltamode_trigger_keep_flag with k | k <;>
      simp [k]
  · rw [hv]
    split_ifs
    · exact Or.inr rfl
    · exact Or.inl rfl
  · intro r b2 delta_time2 dt2 iteration_count_val interupdate_pos hr
    rw [inter_deltaupdate_snd]
    exact inter_deltaupdate_mode K r b2 _ _ _ _ (reachable_mode K r hr)

theorem setup_invariant_update (s : sync_check) (b : bus_values) (h : setup_invariant s) :
    setup_invariant (update_measurements s b) := by
  rw [update_measurements_eq]
  exact h

theorem setup_invariant_sample (m : VOLT_COMPARE_MODE) (f v : ℚ) (ph : ℕ) (hv : 0 ≤ v) :
    setup_invariant (after_setup m f v ph) :=
  setup_invariant_of_init _ _ _ _ _ (init_sample m f v ph hv)

/-- The steady bus values pass the relaxed check of the sample object. -/
theorem steady_bus_relaxed (m : VOLT_COMPARE_MODE) :
    (check_metrics stdCore (update_measurements (after_setup m 60 7200 7) steady_bus)
      true).deltamode_trigger_keep_flag = true :=
  strict_implies_relaxed stdCore _
    (setup_invariant_update _ _ (setup_invariant_sample m 60 7200 7 (by norm_num)))
    (steady_bus_compliant m)

/-- Witness of C21: the armed sample object on steady bus values returns `SM_DELTA`. -/
theorem C21_step_mode_request_witness :
    (inter_deltaupdate_sync_check stdCore (after_setup VOLT_COMPARE_MODE.MAG_DIFF 60 7200 7)
        steady_bus 0 200000000 0 false).1.deltamode_check_return_val
      = SIMULATIONMODE.SM_DELTA :=
  (C21_step_mode_request stdCore (after_setup VOLT_COMPARE_MODE.MAG_DIFF 60 7200 7)
    steady_bus 0 200000000 rfl).2.1.mpr (steady_bus_relaxed VOLT_COMPARE_MODE.MAG_DIFF)

/-! ## Claims on the coarse tick -/

/-- C22: on a due coarse tick (`next_trigger_update_time ≤ t0`) of an armed monitor,
`postsync` refreshes the snapshot and stores the relaxed verdict on it; when the relaxed
check passes it requests fine-step mode at `t0` (`schedule_deltamode_start`) and returns
`t0`, when it fails it makes no request and returns the base-class time; the request is
made exactly when the check passes.  On a due tick of a disarmed monitor it leaves the
snapshot alone, makes no request, sets the trigger keep flag to false and the stored mode
to `SM_EVENT`, and returns the base-class time. -/
theorem C22_coarse_tick (K : Core) (s : sync_check) (b : bus_values) (t0 tret0 : TIMESTAMP)
    (hd : s.next_trigger_update_time ≤ t0) :
    (s.sc_enabled_flag = true →
        snapshot_of (postsync K s b t0 tret0).1 = snapshot_of (update_measurements s b)
          ∧ (postsync K s b t0 tret0).1.deltamode_trigger_keep_flag
              = (check_metrics K (update_measurements s b) true).deltamode_trigger_keep_flag
          ∧ ((check_metrics K (update_measurements s b) true).deltamode_trigger_keep_flag = true →
              (postsync K s b t0 tret0).1.deltamode_starts = s.deltamode_starts ++ [t0]
                ∧ (postsync K s b t0 tret0).2 = t0)
          ∧ ((check_metrics K (update_measurements s b) true).deltamode_trigger_keep_flag = false →
              (postsync K s b t0 tret0).1.deltamode_starts = s.deltamode_starts
                ∧ (postsync K s b t0 tret0).2 = tret0)
          ∧ ((postsync K s b t0 tret0).1.deltamode_starts ≠ s.deltamode_starts
              ↔ (check_metrics K (update_measurements s b) true).deltamode_trigger_keep_flag
                  = true))
      ∧ (s.sc_enabled_flag = false →
        snapshot_of (postsync K s b t0 tret0).1 = snapshot_of s
          ∧ (postsync K s b t0 tret0).1.deltamode_starts = s.deltamode_starts
          ∧ (postsync K s b t0 tret0).1.deltamode_trigger_keep_flag = false
          ∧ (postsync K s b t0 tret0).1.deltamode_check_return_val = SIMULATIONMODE.SM_EVENT
          ∧ (postsync K s b t0 tret0).2 = tret0) := by
  constructor
  · intro ha
    have hk : (postsync_eval K s b t0).deltamode_trigger_keep_flag
        = (check_metrics K (update_measurements s b) true).deltamode_trigger_keep_flag := by
      rw [postsync_eval_eq]
    have hst : (postsync_eval K s b t0).deltamode_starts = s.deltamode_starts := by
      rw [postsync_eval_eq, update_measurements_eq]
    have hsn : snapshot_of (postsync_eval K s b t0) = snapshot_of (update_measurements s b) := by
      rw [postsync_eval_eq]
      rfl
    rw [postsync_armed K s b t0 tret0 hd ha, hk]
    rcases Bool.eq_false_or_eq_true
      (check_metrics K (update_measurements s b) true).deltamode_trigger_keep_flag with k | k
    · rw [k]
      simp only [if_true]
      refine ⟨hsn, hk.trans k, fun _ => ⟨?_, trivial⟩, fun hf => absurd hf (by decide), ?_⟩
      · show (postsync_eval K s b t0).deltamode_starts ++ [t0] = _
        rw [hst]
      · refine ⟨fun _ => trivial, fun _ => ?_⟩
        show (postsync_eval K s b t0).deltamode_starts ++ [t0] ≠ _
        rw [hst]
        simp
    · rw [k]
      simp only [Bool.false_eq_true, if_false]
      refine ⟨hsn, hk.trans k, fun hf => absurd hf (by decide), fun _ => ⟨hst, trivial⟩, ?_⟩
      exact ⟨fun hne => absurd hst hne, fun hf => absurd hf (by decide)⟩
  · intro ha
    rw [postsync_disarmed K s b t0 tret0 hd ha]
    exact ⟨rfl, rfl, rfl, rfl, rfl⟩

/-- Witness of C22: the armed sample object, with steady bus values, on a coarse tick at
time 5 with base-class time 6: the request is made and the call returns 5. -/
theorem C22_coarse_tick_witness :
    (postsync stdCore (after_setup VOLT_COMPARE_MODE.MAG_DIFF 60 7200 7) steady_bus 5 6).1.deltamode_starts
        = [5]
      ∧ (postsync stdCore (after_setup VOLT_COMPARE_MODE.MAG_DIFF 60 7200 7) steady_bus 5 6).2
        = 5 :=
  ((C22_coarse_tick stdCore (after_setup VOLT_COMPARE_MODE.MAG_DIFF 60 7200 7) steady_bus 5 6
    (by decide)).1 rfl).2.2.1 (steady_bus_relaxed VOLT_COMPARE_MODE.MAG_DIFF)

theorem postsync_t_sat (K : Core) (s : sync_check) (b : bus_values) (t0 tret0 : TIMESTAMP) :
    (¬ s.next_trigger_update_time ≤ t0 → (postsync K s b t0 tret0).1.t_sat = s.t_sat)
      ∧ (s.next_trigger_update_time ≤ t0 → (postsync K s b t0 tret0).1.t_sat = 0) := by
  constructor
  · intro hd
    rw [postsync_not_due K s b t0 tret0 hd]
  · intro hd
    rcases Bool.eq_false_or_eq_true s.sc_enabled_flag with ha | ha
    · rw [postsync_armed K s b t0 tret0 hd ha]
      split_ifs
      · show (postsync_eval K s b t0).t_sat = 0
        rw [postsync_eval_eq]
      · rw [postsync_eval_eq]
    · rw [postsync_disarmed K s b t0 tret0 hd ha]

theorem after_one_tick_state :
    after_one_tick.t_sat = 1 / 5 ∧ after_one_tick.sc_enabled_flag = true
      ∧ after_one_tick.next_trigger_update_time = 0 := by
  have h := (tick_armed_compliant stdCore (after_setup VOLT_COMPARE_MODE.MAG_DIFF 60 7200 7)
    (after_setup VOLT_COMPARE_MODE.MAG_DIFF 60 7200 7) steady_bus 200000000 rfl
    (same_setup_refl _) (steady_bus_compliant VOLT_COMPARE_MODE.MAG_DIFF)).1
    (by norm_num [after_setup, stdCore])
  have hn : (tick stdCore (after_setup VOLT_COMPARE_MODE.MAG_DIFF 60 7200 7) steady_bus
      200000000).next_trigger_update_time = 0 := by
    rw [tick_armed_eq _ _ _ _ rfl, (check_excitation_keeps _ _ _).2.2.2.2]
    show (update_measurements (after_setup VOLT_COMPARE_MODE.MAG_DIFF 60 7200 7)
      steady_bus).next_trigger_update_time = 0
    rw [update_measurements_eq]
    rfl
  refine ⟨?_, h.1, hn⟩
  have e : (after_setup VOLT_COMPARE_MODE.MAG_DIFF 60 7200 7).t_sat
      + ((200000000 : ℕ) : ℚ) / (stdCore.DT_SECOND : ℚ) = 1 / 5 := by
    norm_num [after_setup, stdCore]
  exact h.2.1.trans e

theorem after_one_tick_reachable : reachable_after_setup stdCore after_one_tick :=
  ⟨globals_at 60, some (open_switch 7200 7200), arm VOLT_COMPARE_MODE.MAG_DIFF, blank 7,
    after_setup VOLT_COMPARE_MODE.MAG_DIFF 60 7200 7,
    [call.inter_deltaupdate steady_bus 0 200000000 0 false],
    published_only_arm _, create_and_init_sample _ _ _ _ (by norm_num), rfl⟩

/-- C23 (amended): `postsync(t0)` leaves the dwell accumulator `t_sat` as it was when no
evaluation is due (`next_trigger_update_time > t0`), and sets it to 0 when one is due,
whether the monitor is armed or not and whatever the relaxed check yields; so dwell time
accumulated on earlier compliant sub-steps persists only across the coarse ticks on which
no evaluation is due. -/
theorem C23_coarse_tick_accumulator (K : Core) (s : sync_check) (b : bus_values)
    (t0 tret0 : TIMESTAMP) :
    (t0 < s.next_trigger_update_time → (postsync K s b t0 tret0).1.t_sat = s.t_sat)
      ∧ (s.next_trigger_update_time ≤ t0 → (postsync K s b t0 tret0).1.t_sat = 0) :=
  ⟨fun h => (postsync_t_sat K s b t0 tret0).1 (not_le.mpr h), (postsync_t_sat K s b t0 tret0).2⟩

/-- Witness of C23: a coarse tick at time 5 on the sample object after one compliant
sub-step sets the accumulator to 0. -/
theorem C23_coarse_tick_accumulator_witness :
    (postsync stdCore after_one_tick steady_bus 5 6).1.t_sat = 0 :=
  (C23_coarse_tick_accumulator stdCore after_one_tick steady_bus 5 6).2
    (by rw [after_one_tick_state.2.2]; decide)

/-- Counterexample to C23 as stated: the sample object after one compliant fine sub-step
of 0.2 s is reachable and has 0.2 s on the accumulator; the coarse tick at time 5 is due
and resets the accumulator to 0. -/
theorem C23_fails_on_due_tick :
    reachable_after_setup stdCore after_one_tick
      ∧ after_one_tick.t_sat = 1 / 5
      ∧ (postsync stdCore after_one_tick steady_bus 5 6).1.t_sat = 0
      ∧ ¬ C23_as_stated stdCore after_one_tick := by
  have h0 : (postsync stdCore after_one_tick steady_bus 5 6).1.t_sat = 0 :=
    (postsync_t_sat stdCore after_one_tick steady_bus 5 6).2
      (by rw [after_one_tick_state.2.2]; decide)
  refine ⟨after_one_tick_reachable, after_one_tick_state.1, h0, ?_⟩
  intro h
  have h1 := h steady_bus 5 6
  rw [h0, after_one_tick_state.1] at h1
  norm_num at h1

/-! ## Claims on the dwell timer across calls -/

/-- The outcomes of `check_excitation` after a passing strict check: the elapsed time is
added, or the dwell period is reached and the switch is closed. -/
theorem check_excitation_pass (K : Core) (s : sync_check) (dt : ℕ)
    (hflag : s.metrics_flag = true) :
    (s.t_sat + (dt : ℚ) / (K.DT_SECOND : ℚ) < s.metrics_period_sec
        ∧ check_excitation K s dt = { s with t_sat := s.t_sat + (dt : ℚ) / (K.DT_SECOND : ℚ) })
      ∨ (s.metrics_period_sec ≤ s.t_sat + (dt : ℚ) / (K.DT_SECOND : ℚ)
        ∧ check_excitation K s dt = { s with
            swt_status := K.LS_CLOSED
            swt_status_writes := s.swt_status_writes + 1
            sc_enabled_flag := false
            metrics_flag := false
            t_sat := 0 }) := by
  unfold check_excitation
  simp only [hflag, if_true]
  split_ifs with h
  · exact Or.inr ⟨h, rfl⟩
  · exact Or.inl ⟨not_le.mp h, rfl⟩

/-- The outcome of `check_excitation` after a failing strict check, with a positive dwell
period: the accumulator is reset. -/
theorem check_excitation_fail (K : Core) (s : sync_check) (dt : ℕ)
    (hflag : s.metrics_flag = false) (hP : 0 < s.metrics_period_sec) :
    check_excitation K s dt = { s with t_sat := 0 } := by
  unfold check_excitation
  simp only [hflag, Bool.false_eq_true, if_false]
  rw [if_neg (not_le.mpr hP)]

/-- The accumulator stays within `[0, metrics_period_sec)` over `check_excitation`. -/
theorem check_excitation_bounds (K : Core) (s : sync_check) (dt : ℕ)
    (h0 : 0 ≤ s.t_sat) (hP : 0 < s.metrics_period_sec) :
    0 ≤ (check_excitation K s dt).t_sat
      ∧ (check_excitation K s dt).t_sat < (check_excitation K s dt).metrics_period_sec := by
  have hdt : (0 : ℚ) ≤ (dt : ℚ) / (K.DT_SECOND : ℚ) :=
    div_nonneg (Nat.cast_nonneg _) (Nat.cast_nonneg _)
  rcases Bool.eq_false_or_eq_true s.metrics_flag with hf | hf
  · rcases check_excitation_pass K s dt hf with ⟨hlt, e⟩ | ⟨-, e⟩
    · rw [e]
      exact ⟨add_nonneg h0 hdt, hlt⟩
    · rw [e]
      exact ⟨le_refl 0, hP⟩
  · rw [check_excitation_fail K s dt hf hP]
    exact ⟨le_refl 0, hP⟩

theorem postsync_dwell (K : Core) (s : sync_check) (b : bus_values) (t0 tret0 : TIMESTAMP)
    (h : dwell_in_range s) : dwell_in_range (postsync K s b t0 tret0).1 := by
  obtain ⟨hP, h0, h1⟩ := h
  have hp : (postsync K s b t0 tret0).1.metrics_period_sec = s.metrics_period_sec :=
    (postsync_frame K s b t0 tret0).2.2.2.2.1.2.2.2.2.2.2.1
  unfold dwell_in_range
  rw [hp]
  by_cases hd : s.next_trigger_update_time ≤ t0
  · rw [(postsync_t_sat K s b t0 tret0).2 hd]
    exact ⟨hP, le_refl 0, hP⟩
  · rw [(postsync_t_sat K s b t0 tret0).1 hd]
    exact ⟨hP, h0, h1⟩

theorem inter_deltaupdate_dwell (K : Core) (s : sync_check) (b : bus_values)
    (delta_time dt iteration_count_val : ℕ) (interupdate_pos : Bool)
    (h : dwell_in_range s) :
    dwell_in_range
      (inter_deltaupdate_sync_check K s b delta_time dt iteration_count_val
        interupdate_pos).1 := by
  obtain ⟨hP, h0, h1⟩ := h
  rcases Bool.eq_false_or_eq_true s.sc_enabled_flag with ha | ha
  · by_cases he : iteration_count_val = 0 ∧ interupdate_pos = false
    · obtain ⟨rfl, rfl⟩ := he
      rw [inter_deltaupdate_eval, tick_armed_eq K s b dt ha]
      have u1 : (tick_checked K s b).t_sat = s.t_sat := by
        unfold tick_checked
        rw [update_measurements_eq]
      have u2 : (tick_checked K s b).metrics_period_sec = s.metrics_period_sec := by
        unfold tick_checked
        rw [update_measurements_eq]
      have hb := check_excitation_bounds K (tick_checked K s b) dt (by rw [u1]; exact h0)
        (by rw [u2]; exact hP)
      exact ⟨lt_of_le_of_lt hb.1 hb.2, hb.1, hb.2⟩
    · rw [inter_deltaupdate_skip K s b _ _ _ _ ha he]
      exact ⟨hP, h0, h1⟩
  · rw [inter_deltaupdate_disarmed K s b _ _ _ _ ha]
    exact ⟨hP, le_refl 0, hP⟩

theorem run_calls_dwell (K : Core) (cs : List call) :
    ∀ s : sync_check, dwell_in_range s → dwell_in_range (run_calls K s cs) := by
  induction cs with
  | nil => intro s h; exact h
  | cons c cs ih =>
    intro s h
    refine ih (do_call K s c) ?_
    cases c with
    | postsync b t0 tret0 => exact postsync_dwell K s b t0 tret0 h
    | inter_deltaupdate b delta_time dt iteration_count_val interupdate_pos =>
      exact inter_deltaupdate_dwell K s b delta_time dt iteration_count_val interupdate_pos h

/-- With exact arithmetic and finite configuration values: in every state reachable from a
successful setup by any sequence of `postsync` and `inter_deltaupdate_sync_check` calls (the
elapsed times are unsigned), the dwell accumulator satisfies `0 ≤ t_sat <
metrics_period_sec`. -/
theorem exact_accumulator_in_range (K : Core) (s : sync_check)
    (hr : reachable_after_setup K s) : 0 ≤ s.t_sat ∧ s.t_sat < s.metrics_period_sec := by
  obtain ⟨G, parent, configure, s_pre, s0, cs, hpub, hci, rfl⟩ := hr
  have h0 := (create_and_init_start K G parent configure s_pre s0 hpub hci).1
  have hinv : setup_invariant s0 :=
    (reachable_invariant K s0 ⟨G, parent, configure, s_pre, s0, [], hpub, hci, rfl⟩).1
  have hP : 0 < s0.metrics_period_sec := hinv.2.2.2.1
  exact (run_calls_dwell K cs s0 ⟨hP, by rw [h0], by rw [h0]; exact hP⟩).2

/-- Sample of the accumulator range with exact arithmetic: the sample object after one
compliant fine sub-step of 0.2 s. -/
theorem exact_accumulator_in_range_sample :
    0 ≤ after_one_tick.t_sat ∧ after_one_tick.t_sat < after_one_tick.metrics_period_sec :=
  exact_accumulator_in_range stdCore after_one_tick after_one_tick_reachable

/-! ## Claim on the normalization base -/

/-- With exact arithmetic and finite configuration values: in a state with the configuration
that a successful setup establishes (`setup_invariant`, which holds in every state reachable
after setup), when a call of `inter_deltaupdate_sync_check` issues the close command (it
writes the switch status), the value returned is `SM_DELTA` and the monitor is disarmed when
the call returns. -/
theorem exact_close_returns_delta (K : Core) (s : sync_check) (b : bus_values)
    (delta_time dt iteration_count_val : ℕ) (interupdate_pos : Bool)
    (hinv : setup_invariant s)
    (hfire : (inter_deltaupdate_sync_check K s b delta_time dt iteration_count_val
      interupdate_pos).1.swt_status_writes ≠ s.swt_status_writes) :
    (inter_deltaupdate_sync_check K s b delta_time dt iteration_count_val interupdate_pos).2
        = SIMULATIONMODE.SM_DELTA
      ∧ (inter_deltaupdate_sync_check K s b delta_time dt iteration_count_val
          interupdate_pos).1.sc_enabled_flag = false
      ∧ (inter_deltaupdate_sync_check K s b delta_time dt iteration_count_val
          interupdate_pos).1.swt_status = K.LS_CLOSED := by
  rcases (inter_deltaupdate_frame K s b delta_time dt iteration_count_val
    interupdate_pos).2 with ⟨h1, -, -⟩ | ⟨ha, rfl, rfl, hw, hst, hdis⟩
  · exact absurd h1 hfire
  · refine ⟨?_, hdis, hst⟩
    have hP : 0 < s.metrics_period_sec := hinv.2.2.2.1
    have u2 : (tick_checked K s b).metrics_period_sec = s.metrics_period_sec := by
      unfold tick_checked
      rw [update_measurements_eq]
    have u4 : (tick_checked K s b).swt_status_writes = s.swt_status_writes := by
      unfold tick_checked
      rw [update_measurements_eq]
    have hstrict : (check_metrics K (update_measurements s b) false).metrics_flag = true := by
      rcases Bool.eq_false_or_eq_true
        (check_metrics K (update_measurements s b) false).metrics_flag with hp | hf
      · exact hp
      · exfalso
        rw [inter_deltaupdate_eval, tick_armed_eq K s b dt ha,
          check_excitation_fail K (tick_checked K s b) dt hf (by rw [u2]; exact hP)] at hw
        have hw2 : (tick_checked K s b).swt_status_writes = s.swt_status_writes + 1 := hw
        rw [u4] at hw2
        omega
    have hrel := strict_implies_relaxed K (update_measurements s b)
      (setup_invariant_update s b hinv) hstrict
    rw [inter_deltaupdate_snd, inter_deltaupdate_eval, tick_return_val K s b dt ha, hrel]
    rfl

/-- Sample of the closing sub-step with exact arithmetic: the sample object near its dwell
period closes on a compliant second and returns `SM_DELTA`. -/
theorem exact_close_returns_delta_sample :
    (inter_deltaupdate_sync_check stdCore near_close steady_bus 0 1000000000 0 false).2
      = SIMULATIONMODE.SM_DELTA :=
  (exact_close_returns_delta stdCore near_close steady_bus 0 1000000000 0 false
    (setup_invariant_sample VOLT_COMPARE_MODE.MAG_DIFF 60 7200 7 (by norm_num))
    (by rw [near_close_fires]; omega)).1

/-! ## Claim on the forced re-iteration -/

/-- With unbounded timestamps: after any call `postsync(t0)` the next trigger time is after
`t0` (it is set to `t0 + 1` when an evaluation was due, and was after `t0` already
otherwise); consequently a second `postsync` call at the same `t0`, with any bus values and
any base-class time, changes nothing in the monitor state (no refresh, no check, no request)
and returns the base-class time. -/
theorem unbounded_no_second_evaluation (K : Core) (s : sync_check) (b b2 : bus_values)
    (t0 tret0 tret2 : TIMESTAMP) :
    t0 < (postsync K s b t0 tret0).1.next_trigger_update_time
      ∧ (s.next_trigger_update_time ≤ t0 →
          (postsync K s b t0 tret0).1.next_trigger_update_time = t0 + 1)
      ∧ postsync K (postsync K s b t0 tret0).1 b2 t0 tret2
          = ((postsync K s b t0 tret0).1, tret2) := by
  have hdue : s.next_trigger_update_time ≤ t0 →
      (postsync K s b t0 tret0).1.next_trigger_update_time = t0 + 1 := by
    intro hd
    rcases Bool.eq_false_or_eq_true s.sc_enabled_flag with ha | ha
    · rw [postsync_armed K s b t0 tret0 hd ha]
      split_ifs
      · show (postsync_eval K s b t0).next_trigger_update_time = t0 + 1
        rw [postsync_eval_eq]
      · rw [postsync_eval_eq]
    · rw [postsync_disarmed K s b t0 tret0 hd ha]
  have hlt : t0 < (postsync K s b t0 tret0).1.next_trigger_update_time := by
    by_cases hd : s.next_trigger_update_time ≤ t0
    · rw [hdue hd]
      exact lt_add_one t0
    · rw [postsync_not_due K s b t0 tret0 hd]
      exact not_le.mp hd
  exact ⟨hlt, hdue, postsync_not_due K _ b2 t0 tret2 (not_le.mpr hlt)⟩

/-- Sample of the forced re-iteration with unbounded timestamps: the armed sample object,
with steady bus values, on the coarse tick at time 5: the call forces a re-iteration, and
the second call at time 5 changes nothing. -/
theorem unbounded_no_second_evaluation_sample :
    (postsync stdCore (after_setup VOLT_COMPARE_MODE.MAG_DIFF 60 7200 7) steady_bus
        5 6).1.next_trigger_update_time = 6 :=
  (unbounded_no_second_evaluation stdCore (after_setup VOLT_COMPARE_MODE.MAG_DIFF 60 7200 7)
    steady_bus steady_bus 5 6 6).2.1 (by decide)

/-! ## Claims on the variable frequency drive -/

theorem initialParameters_eq (s : vfd) :
    s.initialParameters
      = if s.desiredRPM * s.motorPoles / 120 < 6.67 then Except.error vfd_fault.low_speed
        else Except.ok { s with
          driveFrequency := roundf (s.desiredRPM * s.motorPoles / 120 * 1000) / 1000
          currEfficiency := efficiency_curve
            ((s.HPbyF * (roundf (s.desiredRPM * s.motorPoles / 120 * 1000) / 1000) - 50.138)
              / 37.009) } := by
  rfl

theorem initialParameters_ok_iff (s : vfd) :
    (∃ r, s.initialParameters = Except.ok r) ↔ ¬ s.desiredRPM * s.motorPoles / 120 < 6.67 := by
  rw [initialParameters_eq]
  split_ifs with h
  · exact ⟨fun ⟨r, hr⟩ => (by cases hr), fun hn => absurd h hn⟩
  · exact ⟨fun _ => h, fun _ => ⟨_, rfl⟩⟩

/-- C29 (the code departs from it): `initialParameters` raises its low-speed error, and no
other, exactly when `desiredRPM * motorPoles / 120 < 6.67`; for a 4-pole motor this is
`desiredRPM < 200.1`, so that the speeds from 200 RPM up to, but not including, 200.1 RPM
are rejected although the message of the error asks for at least 200 RPM. -/
theorem C29_low_speed_threshold (s : vfd) :
    (s.initialParameters = Except.error vfd_fault.low_speed
        ↔ s.desiredRPM * s.motorPoles / 120 < 6.67)
      ∧ (∀ e, s.initialParameters = Except.error e → e = vfd_fault.low_speed)
      ∧ ((∃ r, s.initialParameters = Except.ok r) ↔ ¬ s.desiredRPM * s.motorPoles / 120 < 6.67)
      ∧ (s.motorPoles = 4 →
          (s.initialParameters = Except.error vfd_fault.low_speed ↔ s.desiredRPM < 200.1)) := by
  have e := initialParameters_eq s
  by_cases h : s.desiredRPM * s.motorPoles / 120 < 6.67
  · rw [if_pos h] at e
    refine ⟨⟨fun _ => h, fun _ => e⟩, ?_, ?_, ?_⟩
    · intro x hx
      rw [e] at hx
      injection hx with hx
      exact hx.symm
    · constructor
      · rintro ⟨r, hr⟩
        rw [e] at hr
        cases hr
      · intro hn
        exact absurd h hn
    · intro hp
      rw [hp] at h
      refine ⟨fun _ => ?_, fun _ => e⟩
      norm_num at h ⊢
      linarith
  · rw [if_neg h] at e
    refine ⟨⟨fun he => ?_, fun hh => absurd hh h⟩, ?_, ?_, ?_⟩
    · rw [e] at he
      cases he
    · intro x hx
      rw [e] at hx
      cases hx
    · exact ⟨fun _ => h, fun _ => ⟨_, e⟩⟩
    · intro hp
      rw [hp] at h
      constructor
      · intro he
        rw [e] at he
        cases he
      · intro hlt
        exfalso
        apply h
        norm_num at hlt ⊢
        linarith

/-- Witness of C29, and the input on which the code departs from the claim: a 4-pole motor
with a desired speed of 200 RPM is rejected. -/
theorem C29_low_speed_threshold_witness :
    (vfd_at 200 4).initialParameters = Except.error vfd_fault.low_speed :=
  ((C29_low_speed_threshold (vfd_at 200 4)).2.2.2 rfl).mpr
    (by norm_num [vfd_at, vfd.create, blank_vfd])

theorem loop_passes_pos (x : ℚ) (h : 0 < x) : ∃ n, loop_passes x = n + 1 := by
  have h1 : 0 < ⌈x⌉ := Int.ceil_pos.mpr h
  have h2 : 0 < loop_passes x := by
    unfold loop_passes
    omega
  exact ⟨loop_passes x - 1, by omega⟩

/-- The loop counter `i` passes the test `i < x` exactly when it is below
`loop_passes x`. -/
theorem lt_loop_passes_iff (x : ℚ) (i : ℕ) : i < loop_passes x ↔ (i : ℚ) < x := by
  unfold loop_passes
  rw [Int.lt_toNat, Int.lt_ceil]
  norm_cast

theorem vfdCoreCalculations_keeps (s r : vfd) (h : s.vfdCoreCalculations = Except.ok r) :
    r.vfdState = s.vfdState ∧ r.stableTime = s.stableTime ∧ r.settleFreq = s.settleFreq
      ∧ r.curr_array_position = s.curr_array_position ∧ r.motorPoles = s.motorPoles := by
  unfold vfd.vfdCoreCalculations at h
  simp only [] at h
  split_ifs at h
  injection h with h
  subst h
  exact ⟨rfl, rfl, rfl, rfl, rfl⟩

theorem fill_loop_keeps (a : ℚ) (n : ℕ) :
    ∀ s r : vfd, fill_loop a n s = Except.ok r →
      r.vfdState = s.vfdState ∧ r.stableTime = s.stableTime
        ∧ r.motorPoles = s.motorPoles := by
  induction n with
  | zero =>
    intro s r h
    unfold fill_loop at h
    injection h with h
    subst h
    exact ⟨rfl, rfl, rfl⟩
  | succ n ih =>
    intro s r h
    unfold fill_loop at h
    split at h
    · cases h
    · have hh := ih _ r h
      exact hh

theorem ramp_loop_keeps (n : ℕ) :
    ∀ (s r : vfd) (m : ℚ), ramp_loop n s m = Except.ok r →
      r.vfdState = s.vfdState ∧ r.stableTime = s.stableTime
        ∧ r.motorPoles = s.motorPoles := by
  induction n with
  | zero =>
    intro s r m h
    unfold ramp_loop at h
    injection h with h
    subst h
    exact ⟨rfl, rfl, rfl⟩
  | succ n ih =>
    intro s r m h
    unfold ramp_loop at h
    split at h
    · cases h
    · simp only [] at h
      split at h
      · cases h
      · split at h
        · cases h
        · rename_i q hq
          obtain ⟨k1, k2, -, -, k5⟩ := vfdCoreCalculations_keeps _ q hq
          obtain ⟨i1, i2, i3⟩ := ih _ r 0 h
          exact ⟨i1.trans k1, i2.trans k2, i3.trans k5⟩

/-- The block for `vfdState` 0 or 1, when it returns, leaves the `NULL` pointer in
`settleFreq`. -/
theorem ramp_ok (s r : vfd) (a m : ℚ) (h : s.ramp a m = Except.ok r) :
    r.settleFreq = none ∧ r.vfdState = s.vfdState ∧ r.stableTime = s.stableTime
      ∧ r.motorPoles = s.motorPoles ∧ r.prevDesiredFreq = r.currSetFreq := by
  unfold vfd.ramp at h
  split at h
  · cases h
  · rename_i s1 h1
    split at h
    · cases h
    · rename_i s2 h2
      injection h with h
      subst h
      obtain ⟨f1, f2, f3⟩ := fill_loop_keeps a _ _ s1 h1
      obtain ⟨g1, g2, g3⟩ := ramp_loop_keeps _ _ s2 m h2
      exact ⟨rfl, g1.trans f1, g2.trans f2, g3.trans f3, rfl⟩

/-- With the `NULL` pointer in `settleFreq` and a positive `stableTime`, the block for
`vfdState` 0 or 1 writes through the `NULL` pointer in the first pass of its first loop. -/
theorem ramp_null (s : vfd) (a m : ℚ) (hn : s.settleFreq = none) (hst : 0 < s.stableTime) :
    s.ramp a m = Except.error vfd_fault.null_pointer := by
  obtain ⟨n, hn1⟩ := loop_passes_pos s.stableTime hst
  unfold vfd.ramp
  rw [hn1]
  unfold fill_loop
  simp only [hn, arr_write]

theorem choose_state_keeps (s q : vfd) (a b : ℚ) (h : s.choose_state a = Except.ok (q, b)) :
    q.stableTime = s.stableTime ∧ q.motorPoles = s.motorPoles
      ∧ ((q.vfdState = 0 ∨ q.vfdState = 1) → q.settleFreq = s.settleFreq)
      ∧ (q.vfdState = 0 ∨ q.vfdState = 1 ∨ q.vfdState = 2 ∨ q.vfdState = s.vfdState) := by
  unfold vfd.choose_state at h
  by_cases h1 : s.prevDesiredFreq = 0.0
  · rw [if_pos h1] at h
    cases h
    exact ⟨rfl, rfl, fun _ => rfl, Or.inl rfl⟩
  · rw [if_neg h1] at h
    by_cases h2 : s.prevDesiredFreq ≠ 0.0 ∧ s.prevDesiredFreq ≠ s.driveFrequency
    · rw [if_pos h2] at h
      simp only [] at h
      split_ifs at h
      cases h
      exact ⟨rfl, rfl, fun _ => rfl, Or.inr (Or.inl rfl)⟩
    · rw [if_neg h2] at h
      by_cases h3 : s.prevDesiredFreq ≠ 0.0 ∧ s.prevDesiredFreq = s.driveFrequency
      · rw [if_pos h3] at h
        simp only [] at h
        split_ifs at h
        split at h
        · cases h
        · rename_i r hr
          cases h
          obtain ⟨k1, k2, k3, -, k5⟩ := vfdCoreCalculations_keeps _ q hr
          refine ⟨k2, k5, ?_, Or.inr (Or.inr (Or.inl k1))⟩
          intro hv
          rw [k1] at hv
          have e2 : (2 : ℤ) ≠ 0 ∧ (2 : ℤ) ≠ 1 := by decide
          rcases hv with hv | hv
          · exact absurd hv e2.1
          · exact absurd hv e2.2
      · rw [if_neg h3] at h
        cases h
        exact ⟨rfl, rfl, fun _ => rfl, Or.inr (Or.inr (Or.inr rfl))⟩

/-- The choice of `vfdState` when the previous frequency is zero, or positive and
different from the drive frequency: state 0 or 1, nothing thrown. -/
theorem choose_state_ramp (s : vfd) (a : ℚ)
    (h : s.prevDesiredFreq = 0 ∨ (0 < s.prevDesiredFreq ∧ s.prevDesiredFreq ≠ s.driveFrequency)) :
    ∃ q b, s.choose_state a = Except.ok (q, b) ∧ (q.vfdState = 0 ∨ q.vfdState = 1)
      ∧ q.settleFreq = s.settleFreq ∧ q.stableTime = s.stableTime := by
  unfold vfd.choose_state
  rcases h with h0 | ⟨hp, hne⟩
  · refine ⟨{ s with vfdState := 0, settleTime := 0 }, 3, ?_, Or.inl rfl, rfl, rfl⟩
    rw [if_pos (by rw [h0]; norm_num)]
  · have hz : ¬ s.prevDesiredFreq = 0.0 := by
      intro hz
      rw [hz] at hp
      norm_num at hp
    refine ⟨{ s with vfdState := 1 }, s.prevDesiredFreq, ?_, Or.inr rfl, rfl, rfl⟩
    rw [if_neg hz, if_pos ⟨hz, hne⟩]
    simp only []
    rw [if_neg (by norm_num; exact hp)]

theorem trunc_int_nonneg (x : ℚ) (h : 0 ≤ x) : 0 ≤ trunc_int x := by
  unfold trunc_int
  rw [if_pos h]
  exact Int.floor_nonneg.mpr h

theorem trunc_int_intCast_half (z : ℤ) (hz : 0 ≤ z) : trunc_int ((z : ℚ) / 1.0 + 0.5) = z := by
  have h0 : (0 : ℚ) ≤ (z : ℚ) := by exact_mod_cast hz
  have e : (z : ℚ) / 1.0 + 0.5 = (z : ℚ) + 1 / 2 := by norm_num
  unfold trunc_int
  rw [e, if_pos (by linarith)]
  rw [Int.floor_eq_iff]
  constructor <;> linarith

theorem loop_passes_intCast (z : ℤ) : loop_passes (z : ℚ) = z.toNat := by
  unfold loop_passes
  rw [Int.ceil_intCast]

/-- The state after `alloc_freq_arrays` called with `delta_t_val = 1.0` on a `NULL`
pointer and an integer `stableTime`, when it reports success. -/
theorem alloc_ok (s : vfd) (z : ℤ) (malloc_ok : Bool) (hz : 0 ≤ z)
    (hst : s.stableTime = (z : ℚ)) (hn : s.settleFreq = none)
    (hf : s.force_array_realloc = false)
    (h : (s.alloc_freq_arrays 1.0 malloc_ok).2 ≠ 0) :
    0 < z ∧ s.alloc_freq_arrays 1.0 malloc_ok
      = ({ s with settleFreq_length := z
                  settleFreq := some (List.replicate z.toNat 0.0) }, 1) := by
  unfold vfd.alloc_freq_arrays at h ⊢
  simp only [hf, Bool.false_eq_true, if_false, hn, if_true, hst,
    trunc_int_intCast_half z hz] at h ⊢
  by_cases hle : z ≤ 0
  · rw [if_pos hle] at h
    exact absurd rfl h
  · rw [if_neg hle] at h ⊢
    rcases Bool.eq_false_or_eq_true malloc_ok with hm | hm
    · rw [hm]
      simp only [Bool.true_eq_false, if_false]
      exact ⟨not_le.mp hle, trivial⟩
    · rw [hm] at h
      simp only [if_true] at h
      exact absurd rfl h

/-- After a successful `init` of an object whose array pointer is `NULL` (as `create`
leaves it), `settleFreq` is an allocated block of `settleFreq_length` entries, which is the
number of passes of the loops over `stableTime`, and `stableTime` is positive. -/
theorem init_ok_array (s s0 : vfd) (from_volt_mag : ℚ) (attach : Option Bool)
    (malloc_ok : Bool) (hn : s.settleFreq = none) (hf : s.force_array_realloc = false)
    (h : s.init from_volt_mag attach malloc_ok = Except.ok s0) :
    ∃ l, s0.settleFreq = some l ∧ (l.length : ℤ) = s0.settleFreq_length
      ∧ l.length = loop_passes s0.stableTime ∧ 0 < s0.stableTime
      ∧ s0.prevDesiredFreq = s.prevDesiredFreq := by
  unfold vfd.init at h
  split_ifs at h with hneg
  simp only [] at h
  have hz : 0 ≤ trunc_int (100 * s.stableTime + 0.5) :=
    trunc_int_nonneg _ (by have := not_lt.mp hneg; norm_num at this ⊢; linarith)
  split_ifs at h with h1 h2
  obtain ⟨hpos, e⟩ := alloc_ok
    { s with stableTime := (trunc_int (100 * s.stableTime + 0.5) : ℚ)
             stayTime := (trunc_int (0.0206 * (trunc_int (100 * s.stableTime + 0.5) : ℚ)
                + 0.5) : ℚ) }
    (trunc_int (100 * s.stableTime + 0.5)) malloc_ok hz rfl hn hf h1
  rw [e] at h
  simp only [] at h
  split at h
  · cases h
  · cases h
  · injection h with h
    subst h
    refine ⟨_, rfl, ?_, ?_, ?_, rfl⟩
    · show ((List.replicate _ _).length : ℤ) = trunc_int (100 * s.stableTime + 0.5)
      rw [List.length_replicate]
      exact Int.toNat_of_nonneg hz
    · show (List.replicate _ _).length = loop_passes (trunc_int (100 * s.stableTime + 0.5) : ℚ)
      rw [List.length_replicate, loop_passes_intCast]
    · show (0 : ℚ) < (trunc_int (100 * s.stableTime + 0.5) : ℚ)
      exact_mod_cast hpos

theorem arr_write_in_bounds (l : List ℚ) (i : ℕ) (v : ℚ) (h : i < l.length) :
    arr_write (some l) i v = Except.ok (some (l.set i v)) := by
  unfold arr_write
  simp only [if_pos h]

theorem arr_read_in_bounds (l : List ℚ) (i : ℕ) (h : i < l.length) :
    ∃ v, arr_read (some l) i = Except.ok v := by
  unfold arr_read
  simp only []
  cases hg : l.get? i with
  | none =>
    exfalso
    have := List.get?_eq_none.mp hg
    omega
  | some v => exact ⟨v, rfl⟩

theorem fill_loop_in_bounds (a : ℚ) (n : ℕ) :
    ∀ (s : vfd) (l : List ℚ), s.settleFreq = some l → s.curr_array_position + n ≤ l.length →
      ∃ r l2, fill_loop a n s = Except.ok r ∧ r.settleFreq = some l2
        ∧ l2.length = l.length := by
  induction n with
  | zero =>
    intro s l hs _
    exact ⟨s, l, rfl, hs, rfl⟩
  | succ n ih =>
    intro s l hs hb
    unfold fill_loop
    rw [hs, arr_write_in_bounds l _ a (by omega)]
    simp only []
    obtain ⟨r, l2, h1, h2, h3⟩ := ih
      { s with settleFreq := some (l.set s.curr_array_position a)
               curr_array_position := s.curr_array_position + 1 }
      (l.set s.curr_array_position a) rfl
      (by rw [List.length_set]; show s.curr_array_position + 1 + n ≤ l.length; omega)
    exact ⟨r, l2, h1, h2, h3.trans (List.length_set _ _ _)⟩

theorem sum_loop_in_bounds (l : List ℚ) (n : ℕ) :
    ∀ (i : ℕ) (m : ℚ), i + n ≤ l.length → ∃ v, sum_loop (some l) n i m = Except.ok v := by
  induction n with
  | zero =>
    intro i m _
    exact ⟨m, rfl⟩
  | succ n ih =>
    intro i m hb
    unfold sum_loop
    obtain ⟨v, hv⟩ := arr_read_in_bounds l i (by omega)
    rw [hv]
    simp only []
    exact ih (i + 1) (m + v) (by omega)

theorem vfdCoreCalculations_fault (s : vfd) (e : vfd_fault)
    (h : s.vfdCoreCalculations = Except.error e) : ¬ memory_fault e := by
  unfold vfd.vfdCoreCalculations at h
  simp only [] at h
  split_ifs at h
  · injection h with h
    subst h
    rintro (h | h) <;> cases h
  · injection h with h
    subst h
    rintro (h | h) <;> cases h

theorem ramp_loop_in_bounds (n : ℕ) :
    ∀ (s : vfd) (l : List ℚ) (m : ℚ), s.settleFreq = some l →
      s.curr_array_position + n ≤ l.length → loop_passes s.stableTime ≤ l.length →
      ∀ e, ramp_loop n s m = Except.error e → ¬ memory_fault e := by
  induction n with
  | zero =>
    intro s l m _ _ _ e h
    cases h
  | succ n ih =>
    intro s l m hs hb hp e h
    unfold ramp_loop at h
    rw [hs, arr_write_in_bounds l _ _ (by omega)] at h
    simp only [] at h
    obtain ⟨v, hv⟩ := sum_loop_in_bounds (l.set s.curr_array_position s.driveFrequency)
      (loop_passes s.stableTime) 0 m (by rw [List.length_set]; omega)
    rw [hv] at h
    simp only [] at h
    split at h
    · rename_i e2 he2
      injection h with h
      subst h
      exact vfdCoreCalculations_fault _ _ he2
    · rename_i q hq
      obtain ⟨-, k2, k3, k4, -⟩ := vfdCoreCalculations_keeps _ q hq
      refine ih { q with curr_array_position := q.curr_array_position + 1 }
        (l.set s.curr_array_position s.driveFrequency) 0 k3 ?_ ?_ e h
      · rw [List.length_set]
        show q.curr_array_position + 1 + n ≤ l.length
        rw [k4]
        show s.curr_array_position + 1 + n ≤ l.length
        omega
      · rw [List.length_set]
        show loop_passes q.stableTime ≤ l.length
        rw [k2]
        exact hp

/-- With an allocated block at least as long as the number of passes, the block for
`vfdState` 0 or 1 makes no access outside the block. -/
theorem ramp_in_bounds (s : vfd) (l : List ℚ) (a m : ℚ) (hs : s.settleFreq = some l)
    (hp : loop_passes s.stableTime ≤ l.length) (e : vfd_fault)
    (h : s.ramp a m = Except.error e) : ¬ memory_fault e := by
  unfold vfd.ramp at h
  obtain ⟨r, l2, h1, h2, h3⟩ := fill_loop_in_bounds a (loop_passes s.stableTime)
    { s with curr_array_position := 0 } l hs
    (by show 0 + loop_passes s.stableTime ≤ l.length; omega)
  have hst := (fill_loop_keeps a _ _ r h1).2.1
  rw [h1] at h
  simp only [] at h
  split at h
  · rename_i e2 he2
    injection h with h
    subst h
    refine ramp_loop_in_bounds _ { r with curr_array_position := 0 } l2 m h2 ?_ ?_ _ he2
    · show 0 + loop_passes r.stableTime ≤ l2.length
      rw [hst, h3]
      show 0 + loop_passes s.stableTime ≤ l.length
      omega
    · show loop_passes r.stableTime ≤ l2.length
      rw [hst, h3]
      exact hp
  · cases h

theorem initialParameters_keeps (s p : vfd) (h : s.initialParameters = Except.ok p) :
    p.settleFreq = s.settleFreq ∧ p.stableTime = s.stableTime
      ∧ p.prevDesiredFreq = s.prevDesiredFreq ∧ p.motorPoles = s.motorPoles
      ∧ p.driveFrequency = roundf (s.desiredRPM * s.motorPoles / 120 * 1000) / 1000 := by
  rw [initialParameters_eq] at h
  split_ifs at h
  injection h with h
  subst h
  exact ⟨rfl, rfl, rfl, rfl, rfl⟩

theorem initialParameters_fault (s : vfd) (e : vfd_fault)
    (h : s.initialParameters = Except.error e) : ¬ memory_fault e := by
  rw [initialParameters_eq] at h
  split_ifs at h
  injection h with h
  subst h
  rintro (h | h) <;> cases h

theorem choose_state_fault (s : vfd) (a : ℚ) (e : vfd_fault)
    (h : s.choose_state a = Except.error e) : ¬ memory_fault e := by
  unfold vfd.choose_state at h
  by_cases h1 : s.prevDesiredFreq = 0.0
  · rw [if_pos h1] at h
    cases h
  · rw [if_neg h1] at h
    by_cases h2 : s.prevDesiredFreq ≠ 0.0 ∧ s.prevDesiredFreq ≠ s.driveFrequency
    · rw [if_pos h2] at h
      simp only [] at h
      split_ifs at h
      injection h with h
      subst h
      rintro (h | h) <;> cases h
    · rw [if_neg h2] at h
      by_cases h3 : s.prevDesiredFreq ≠ 0.0 ∧ s.prevDesiredFreq = s.driveFrequency
      · rw [if_pos h3] at h
        simp only [] at h
        split_ifs at h
        · injection h with h
          subst h
          rintro (h | h) <;> cases h
        · split at h
          · rename_i e2 he2
            injection h with h
            subst h
            exact vfdCoreCalculations_fault _ _ he2
          · cases h
      · rw [if_neg h3] at h
        cases h

theorem vfd_init_sample :
    (vfd.create blank_vfd).init 480 (some true) true = Except.ok vfd_ready := by
  have t3 : Int.toNat 3 = 3 := by decide
  norm_num [vfd.init, vfd.alloc_freq_arrays, vfd.create, blank_vfd, vfd_ready, trunc_int, t3,
    List.replicate]

theorem vfd_first_call :
    vfd_ready.VFD_current_injection 0 0 = Except.ok vfd_started := by
  have t3 : Int.toNat 3 = 3 := by decide
  have p3 : loop_passes 3 = 2 + 1 := by norm_num [loop_passes, t3]
  norm_num [vfd.VFD_current_injection, vfd.initialParameters, vfd.choose_state, vfd.ramp,
    vfd.vfdCoreCalculations, vfd_ready, vfd_started, vfd.create, blank_vfd, p3, fill_loop,
    ramp_loop, sum_loop, arr_write, arr_read, roundf]

theorem VFD_current_injection_ok (s s1 : vfd) (m st : ℚ)
    (h : s.VFD_current_injection m st = Except.ok s1)
    (hb : s1.vfdState = 0 ∨ s1.vfdState = 1) :
    s1.settleFreq = none ∧ s1.stableTime = s.stableTime ∧ s1.motorPoles = s.motorPoles := by
  unfold vfd.VFD_current_injection at h
  split at h
  · cases h
  · rename_i p hp
    obtain ⟨-, p2, -, p4, -⟩ := initialParameters_keeps s p hp
    split at h
    · cases h
    · rename_i q a hq
      obtain ⟨c1, c2, -, -⟩ := choose_state_keeps p q st a hq
      split_ifs at h with hv
      · obtain ⟨r1, -, r3, r4, -⟩ := ramp_ok q s1 a m h
        exact ⟨r1, r3.trans (c1.trans p2), r4.trans (c2.trans p4)⟩
      · injection h with h
        subst h
        exact absurd hb hv

theorem VFD_current_injection_null (s : vfd) (m st : ℚ) (hn : s.settleFreq = none)
    (hst : 0 < s.stableTime) (hsp : ¬ s.desiredRPM * s.motorPoles / 120 < 6.67)
    (hbr : s.prevDesiredFreq = 0
      ∨ (0 < s.prevDesiredFreq
        ∧ s.prevDesiredFreq ≠ roundf (s.desiredRPM * s.motorPoles / 120 * 1000) / 1000)) :
    s.VFD_current_injection m st = Except.error vfd_fault.null_pointer := by
  obtain ⟨p, hp⟩ := (initialParameters_ok_iff s).mpr hsp
  obtain ⟨p1, p2, p3, -, p5⟩ := initialParameters_keeps s p hp
  obtain ⟨q, a, hq, hv, q1, q2⟩ := choose_state_ramp p st (by rw [p3, p5]; exact hbr)
  unfold vfd.VFD_current_injection
  rw [hp]
  simp only []
  rw [hq]
  simp only []
  rw [if_pos hv]
  exact ramp_null q a m (q1.trans (p1.trans hn)) (by rw [q2, p2]; exact hst)

theorem VFD_current_injection_in_bounds (s : vfd) (l : List ℚ) (m st : ℚ)
    (hs : s.settleFreq = some l) (hp : loop_passes s.stableTime ≤ l.length) (e : vfd_fault)
    (h : s.VFD_current_injection m st = Except.error e) : ¬ memory_fault e := by
  unfold vfd.VFD_current_injection at h
  split at h
  · rename_i e2 he2
    injection h with h
    subst h
    exact initialParameters_fault s _ he2
  · rename_i p hp2
    obtain ⟨p1, p2, -, -, -⟩ := initialParameters_keeps s p hp2
    split at h
    · rename_i e2 he2
      injection h with h
      subst h
      exact choose_state_fault p st _ he2
    · rename_i q a hq
      obtain ⟨c1, -, c3, -⟩ := choose_state_keeps p q st a hq
      split_ifs at h with hv
      exact ramp_in_bounds q l a m ((c3 hv).trans (p1.trans hs))
        (by rw [c1, p2]; exact hp) e h

/-- C30 (the code departs from it): with an allocated block of at least as many entries as
the loops over `stableTime` make passes (as after a successful `init`), a call of
`VFD_current_injection` makes no access outside the block.  But a call that takes the
start or speed-change branch (`vfdState` 0 or 1) and returns leaves the `NULL` pointer in
`settleFreq`; so whenever a later call takes one of these branches again (the desired speed
has been changed to `rpm`, which is not below the low-speed limit and gives another drive
frequency) with a positive `stableTime`, it writes through the `NULL` pointer in its first
pass. -/
theorem C30_second_ramp_writes_through_null (s s1 : vfd) (m st : ℚ)
    (h : s.VFD_current_injection m st = Except.ok s1)
    (hb : s1.vfdState = 0 ∨ s1.vfdState = 1) :
    (∀ l, s.settleFreq = some l → loop_passes s.stableTime ≤ l.length →
        ∀ (m0 st0 : ℚ) (e : vfd_fault),
          s.VFD_current_injection m0 st0 = Except.error e → ¬ memory_fault e)
      ∧ s1.settleFreq = none
      ∧ s1.stableTime = s.stableTime
      ∧ ∀ rpm m2 st2 : ℚ, 0 < s1.stableTime → ¬ rpm * s1.motorPoles / 120 < 6.67 →
          (s1.prevDesiredFreq = 0
            ∨ (0 < s1.prevDesiredFreq
              ∧ s1.prevDesiredFreq ≠ roundf (rpm * s1.motorPoles / 120 * 1000) / 1000)) →
          vfd.VFD_current_injection { s1 with desiredRPM := rpm } m2 st2
            = Except.error vfd_fault.null_pointer := by
  obtain ⟨k1, k2, -⟩ := VFD_current_injection_ok s s1 m st h hb
  refine ⟨fun l hs hp m0 st0 e he => VFD_current_injection_in_bounds s l m0 st0 hs hp e he,
    k1, k2, ?_⟩
  intro rpm m2 st2 hst hsp hbr
  exact VFD_current_injection_null { s1 with desiredRPM := rpm } m2 st2 k1 hst hsp hbr

/-- Witness of C30, and the run on which the code departs from the claim: the default
object is created and initialized (three entries are allocated), the first call takes the
start branch and returns, the desired speed is changed from 900 to 1200 RPM, and the
second call, which takes the speed-change branch, writes through the `NULL` pointer. -/
theorem C30_second_ramp_writes_through_null_witness :
    (vfd.create blank_vfd).init 480 (some true) true = Except.ok vfd_ready
      ∧ vfd_ready.settleFreq = some [0, 0, 0]
      ∧ vfd_ready.VFD_current_injection 0 0 = Except.ok vfd_started
      ∧ vfd_started.vfdState = 0
      ∧ vfd_started.settleFreq = none
      ∧ vfd.VFD_current_injection { vfd_started with desiredRPM := 1200 } 0 0
          = Except.error vfd_fault.null_pointer :=
  ⟨vfd_init_sample, rfl, vfd_first_call, rfl, rfl,
    (C30_second_ramp_writes_through_null vfd_ready vfd_started 0 0 vfd_first_call
      (Or.inl rfl)).2.2.2 1200 0 0
      (by norm_num [vfd_started, vfd_ready])
      (by norm_num [vfd_started, vfd_ready, vfd.create, blank_vfd])
      (Or.inr (by norm_num [vfd_started, vfd_ready, vfd.create, blank_vfd, roundf]))⟩

/-! ## Lemmas on rounding and on the comparisons of doubles -/

theorem round_half_even_eq (q : ℚ) (m : ℤ) (h1 : (m : ℚ) - 1 / 2 < q) (h2 : q < (m : ℚ) + 1 / 2) :
    round_half_even q = m := by
  unfold round_half_even
  rcases le_or_lt (m : ℚ) q with h | h
  · have hf : ⌊q⌋ = m := Int.floor_eq_iff.mpr ⟨h, by linarith⟩
    rw [hf, if_pos (by linarith)]
  · have hf : ⌊q⌋ = m - 1 := Int.floor_eq_iff.mpr ⟨by push_cast; linarith, by push_cast; linarith⟩
    rw [hf]
    have h3 : ¬ (q - ((m - 1 : ℤ) : ℚ) < 1 / 2) := by push_cast; linarith
    have h4 : 1 / 2 < q - ((m - 1 : ℤ) : ℚ) := by push_cast; linarith
    rw [if_neg h3, if_pos h4]
    ring

/-- A number halfway between two integers is rounded to the even one. -/
theorem round_half_even_tie (f : ℤ) :
    round_half_even ((f : ℚ) + 1 / 2) = if f % 2 = 0 then f else f + 1 := by
  have hf : ⌊(f : ℚ) + 1 / 2⌋ = f := Int.floor_eq_iff.mpr ⟨by linarith, by linarith⟩
  unfold round_half_even
  rw [hf]
  have h3 : ¬ ((f : ℚ) + 1 / 2 - (f : ℚ) < 1 / 2) := by
    have : (f : ℚ) + 1 / 2 - (f : ℚ) = 1 / 2 := by ring
    rw [this]; exact lt_irrefl _
  have h4 : ¬ ((1 : ℚ) / 2 < (f : ℚ) + 1 / 2 - (f : ℚ)) := by
    have : (f : ℚ) + 1 / 2 - (f : ℚ) = 1 / 2 := by ring
    rw [this]; exact lt_irrefl _
  rw [if_neg h3, if_neg h4]

theorem round_half_even_nonneg (q : ℚ) (h : 0 ≤ q) : 0 ≤ round_half_even q := by
  have hf : 0 ≤ ⌊q⌋ := Int.floor_nonneg.mpr h
  unfold round_half_even
  split_ifs <;> omega

/-- Rounding to a double keeps a number that is not negative so. -/
theorem round_to_double_nonneg (x : ℚ) (h : 0 ≤ x) : 0 ≤ round_to_double x := by
  unfold round_to_double
  split_ifs with h0
  · exact le_refl _
  · have hp : (0 : ℚ) < (2 : ℚ) ^ (Int.log 2 |x| - 52) := zpow_pos (by norm_num) _
    have hq : 0 ≤ x / (2 : ℚ) ^ (Int.log 2 |x| - 52) := div_nonneg h hp.le
    have := round_half_even_nonneg _ hq
    have h2 : (0 : ℚ) ≤ (round_half_even (x / (2 : ℚ) ^ (Int.log 2 |x| - 52)) : ℚ) := by
      exact_mod_cast this
    exact mul_nonneg h2 hp.le

theorem round_to_double_zero : round_to_double 0 = 0 := by
  simp [round_to_double]

/-- The binary exponent of a positive number, from its two bounds. -/
theorem log_two_eq (x : ℚ) (e : ℤ) (hx : 0 < x) (h1 : (2 : ℚ) ^ e ≤ x)
    (h2 : x < (2 : ℚ) ^ (e + 1)) : Int.log 2 |x| = e := by
  rw [abs_of_pos hx]
  apply le_antisymm
  · have := (Int.lt_zpow_iff_log_lt (b := 2) (by norm_num) hx (x := e + 1)).mp
      (by exact_mod_cast h2)
    omega
  · exact (Int.zpow_le_iff_le_log (b := 2) (by norm_num) hx).mp (by exact_mod_cast h1)

/-- Certificate of one rounding of a positive number: the binary exponent `e` and the
53-bit significand `m`, when the number is not halfway between two doubles. -/
theorem round_to_double_eq (x : ℚ) (e m : ℤ) (hx : 0 < x) (h1 : (2 : ℚ) ^ e ≤ x)
    (h2 : x < (2 : ℚ) ^ (e + 1)) (h3 : (m : ℚ) - 1 / 2 < x / (2 : ℚ) ^ (e - 52))
    (h4 : x / (2 : ℚ) ^ (e - 52) < (m : ℚ) + 1 / 2) :
    round_to_double x = (m : ℚ) * (2 : ℚ) ^ (e - 52) := by
  unfold round_to_double
  rw [if_neg hx.ne.symm, log_two_eq x e hx h1 h2, round_half_even_eq _ m h3 h4]

/-- Certificate of one rounding of a positive number that is halfway between two doubles:
the binary exponent `e` and the lower significand `f`. -/
theorem round_to_double_tie (x : ℚ) (e f : ℤ) (hx : 0 < x) (h1 : (2 : ℚ) ^ e ≤ x)
    (h2 : x < (2 : ℚ) ^ (e + 1)) (h3 : x / (2 : ℚ) ^ (e - 52) = (f : ℚ) + 1 / 2) :
    round_to_double x
      = ((if f % 2 = 0 then f else f + 1 : ℤ) : ℚ) * (2 : ℚ) ^ (e - 52) := by
  unfold round_to_double
  rw [if_neg hx.ne.symm, log_two_eq x e hx h1 h2, h3, round_half_even_tie]

theorem finite_le (a c : ℚ) : (quot_val.finite a).le c = decide (a ≤ c) := rfl

theorem finite_mul (a b : ℚ) :
    (quot_val.finite a).mul (quot_val.finite b) = quot_val.finite (a * b) := rfl

theorem finite_le_val (a b : ℚ) :
    (quot_val.finite a).le_val (quot_val.finite b) = decide (a ≤ b) := rfl

theorem finite_lt_val (a b : ℚ) :
    (quot_val.finite a).lt_val (quot_val.finite b) = decide (a < b) := rfl

theorem le_false_cases (x : quot_val) (c : ℚ) (h : x.le c = false) :
    x = quot_val.nan ∨ x = quot_val.pos_inf ∨ ∃ a, x = quot_val.finite a ∧ c < a := by
  cases x with
  | finite a =>
    right; right
    refine ⟨a, rfl, ?_⟩
    simpa [quot_val.le] using h
  | pos_inf => right; left; rfl
  | neg_inf => simp [quot_val.le] at h
  | nan => left; rfl

theorem le_false_of_cases (x : quot_val) (c : ℚ)
    (h : x = quot_val.nan ∨ x = quot_val.pos_inf ∨ ∃ a, x = quot_val.finite a ∧ c < a) :
    x.le c = false := by
  rcases h with rfl | rfl | ⟨a, rfl, ha⟩
  · rfl
  · rfl
  · simpa [quot_val.le] using ha

/-- A double that fails the test `<= c` compares strictly above `c` unless it is NaN. -/
theorem lt_val_iff_of_le_false (x : quot_val) (c : ℚ) (h : x.le c = false) :
    (quot_val.finite c).lt_val x = true ↔ x ≠ quot_val.nan := by
  rcases le_false_cases x c h with rfl | rfl | ⟨a, rfl, ha⟩
  · simp [quot_val.lt_val]
  · simp [quot_val.lt_val]
  · simp [quot_val.lt_val, ha]

/-- A double that passes the test `<= c` does not compare strictly above `c`. -/
theorem lt_val_false_of_le (x : quot_val) (c : ℚ) (h : x.le c = true) :
    (quot_val.finite c).lt_val x = false := by
  cases x with
  | finite a =>
    have : a ≤ c := by simpa [quot_val.le] using h
    simpa [quot_val.lt_val] using this
  | pos_inf => simp [quot_val.le] at h
  | neg_inf => rfl
  | nan => rfl

theorem ite_metrics_flag_d (c : Bool) (s : sync_check_d) :
    (if c = true then { s with metrics_flag := true }
      else { s with metrics_flag := false }).metrics_flag = c := by
  cases c <;> rfl

theorem ite_keep_flag_d (c : Bool) (s : sync_check_d) :
    (if c = true then { s with deltamode_trigger_keep_flag := true }
      else { s with deltamode_trigger_keep_flag := false }).deltamode_trigger_keep_flag = c := by
  cases c <;> rfl

/-- Strict verdict of `check_metrics_d` in `MAG_DIFF` mode as a Boolean expression. -/
theorem metrics_flag_MAG_DIFF_d (K : Core) (s : sync_check_d)
    (hm : s.volt_compare_mode = VOLT_COMPARE_MODE.MAG_DIFF) :
    (check_metrics_d K s false).metrics_flag =
      ((quot_val.finite |s.swt_fm_node_freq - s.swt_to_node_freq|).le_val
          s.frequency_tolerance_hz
        && (fdiv (K.Mag (s.swt_fm_volt_A - s.swt_to_volt_A)) s.volt_norm).le_val
            s.voltage_tolerance_pu
        && (fdiv (K.Mag (s.swt_fm_volt_B - s.swt_to_volt_B)) s.volt_norm).le_val
            s.voltage_tolerance_pu
        && (fdiv (K.Mag (s.swt_fm_volt_C - s.swt_to_volt_C)) s.volt_norm).le_val
            s.voltage_tolerance_pu) := by
  unfold check_metrics_d
  rw [if_pos hm]
  exact ite_metrics_flag_d _ s

/-- Relaxed verdict of `check_metrics_d` in `MAG_DIFF` mode as a Boolean expression. -/
theorem keep_flag_MAG_DIFF_d (K : Core) (s : sync_check_d)
    (hm : s.volt_compare_mode = VOLT_COMPARE_MODE.MAG_DIFF) :
    (check_metrics_d K s true).deltamode_trigger_keep_flag =
      ((quot_val.finite |s.swt_fm_node_freq - s.swt_to_node_freq|).le_val
          s.frequency_tolerance_hz_deltamode_trig
        && (fdiv (K.Mag (s.swt_fm_volt_A - s.swt_to_volt_A)) s.volt_norm).le_val
            s.voltage_tolerance_pu_deltamode_trig
        && (fdiv (K.Mag (s.swt_fm_volt_B - s.swt_to_volt_B)) s.volt_norm).le_val
            s.voltage_tolerance_pu_deltamode_trig
        && (fdiv (K.Mag (s.swt_fm_volt_C - s.swt_to_volt_C)) s.volt_norm).le_val
            s.voltage_tolerance_pu_deltamode_trig) := by
  unfold check_metrics_d
  rw [if_pos hm]
  exact ite_keep_flag_d _ s

/-- Strict verdict of `check_metrics_d` in `SEP_DIFF` mode as a Boolean expression. -/
theorem metrics_flag_SEP_DIFF_d (K : Core) (s : sync_check_d)
    (hm : s.volt_compare_mode ≠ VOLT_COMPARE_MODE.MAG_DIFF) :
    (check_metrics_d K s false).metrics_flag =
      ((quot_val.finite |s.swt_fm_node_freq - s.swt_to_node_freq|).le_val
          s.frequency_tolerance_hz
        && (fdiv |K.Mag s.swt_fm_volt_A - K.Mag s.swt_to_volt_A| s.volt_norm).le_val
            s.voltage_magnitude_tolerance_pu
        && (fdiv |K.Mag s.swt_fm_volt_B - K.Mag s.swt_to_volt_B| s.volt_norm).le_val
            s.voltage_magnitude_tolerance_pu
        && (fdiv |K.Mag s.swt_fm_volt_C - K.Mag s.swt_to_volt_C| s.volt_norm).le_val
            s.voltage_magnitude_tolerance_pu
        && (quot_val.finite (ang_deg_diff (K.Arg s.swt_fm_volt_A) (K.Arg s.swt_to_volt_A))).le_val
            s.voltage_angle_tolerance_deg
        && (quot_val.finite (ang_deg_diff (K.Arg s.swt_fm_volt_B) (K.Arg s.swt_to_volt_B))).le_val
            s.voltage_angle_tolerance_deg
        && (quot_val.finite (ang_deg_diff (K.Arg s.swt_fm_volt_C) (K.Arg s.swt_to_volt_C))).le_val
            s.voltage_angle_tolerance_deg) := by
  unfold check_metrics_d
  rw [if_neg hm]
  exact ite_metrics_flag_d _ s

/-- Relaxed verdict of `check_metrics_d` in `SEP_DIFF` mode as a Boolean expression. -/
theorem keep_flag_SEP_DIFF_d (K : Core) (s : sync_check_d)
    (hm : s.volt_compare_mode ≠ VOLT_COMPARE_MODE.MAG_DIFF) :
    (check_metrics_d K s true).deltamode_trigger_keep_flag =
      ((quot_val.finite |s.swt_fm_node_freq - s.swt_to_node_freq|).le_val
          s.frequency_tolerance_hz_deltamode_trig
        && (fdiv |K.Mag s.swt_fm_volt_A - K.Mag s.swt_to_volt_A| s.volt_norm).le_val
            s.voltage_magnitude_tolerance_pu_deltamode_trig
        && (fdiv |K.Mag s.swt_fm_volt_B - K.Mag s.swt_to_volt_B| s.volt_norm).le_val
            s.voltage_magnitude_tolerance_pu_deltamode_trig
        && (fdiv |K.Mag s.swt_fm_volt_C - K.Mag s.swt_to_volt_C| s.volt_norm).le_val
            s.voltage_magnitude_tolerance_pu_deltamode_trig
        && (quot_val.finite (ang_deg_diff (K.Arg s.swt_fm_volt_A) (K.Arg s.swt_to_volt_A))).le_val
            s.voltage_angle_tolerance_deg_deltamode_trig
        && (quot_val.finite (ang_deg_diff (K.Arg s.swt_fm_volt_B) (K.Arg s.swt_to_volt_B))).le_val
            s.voltage_angle_tolerance_deg_deltamode_trig
        && (quot_val.finite (ang_deg_diff (K.Arg s.swt_fm_volt_C) (K.Arg s.swt_to_volt_C))).le_val
            s.voltage_angle_tolerance_deg_deltamode_trig) := by
  unfold check_metrics_d
  rw [if_neg hm]
  exact ite_keep_flag_d _ s

/-! ## Lemmas on setup over the doubles of the machine -/

theorem data_sanity_check_d_eq (K : Core) (G : Globals) (par : Option switch_object)
    (s : sync_check_d) :
    data_sanity_check_d K G par s =
      match par with
      | none => Except.error SetupError.parent_not_specified
      | some p =>
        if p.is_switch = false then Except.error SetupError.parent_not_switch
        else
          match p.status with
          | none => Except.error SetupError.status_not_mapped
          | some swt_init_status =>
            match dsc_freq_d G (dsc_status_d K swt_init_status s) with
            | Except.error e => Except.error e
            | Except.ok s => Except.ok (dsc_rest_d s) := by
  rfl

theorem data_sanity_check_d_ok_iff (K : Core) (G : Globals) (par : Option switch_object)
    (s s1 : sync_check_d) :
    data_sanity_check_d K G par s = Except.ok s1 ↔
      ∃ p st r, par = some p ∧ p.is_switch = true ∧ p.status = some st
        ∧ dsc_freq_d G (dsc_status_d K st s) = Except.ok r ∧ s1 = dsc_rest_d r := by
  rw [data_sanity_check_d_eq]
  constructor
  · intro h
    split at h
    · cases h
    · rename_i p
      split at h
      · cases h
      · rename_i hsw
        split at h
        · cases h
        · rename_i st hst
          split at h
          · cases h
          · rename_i r hr
            injection h with h
            exact ⟨p, st, r, rfl, by simpa using hsw, hst, hr, h.symm⟩
  · rintro ⟨p, st, r, rfl, hsw, hst, hr, rfl⟩
    simp [hsw, hst, hr]

theorem init_norm_values_d_eq (G : Globals) (par : Option switch_object) (s : sync_check_d) :
    init_norm_values_d G par s =
      match par.bind (fun p => p.from_node) with
      | none => Except.error SetupError.from_not_mapped
      | some fm =>
        match par.bind (fun p => p.to_node) with
        | none => Except.error SetupError.to_not_mapped
        | some tn =>
          match fm.nominal_voltage with
          | none => Except.error SetupError.nominal_voltage_not_mapped
          | some volt_norm_fm =>
            match tn.nominal_voltage with
            | none => Except.error SetupError.nominal_voltage_not_mapped
            | some volt_norm_to =>
              if (s.voltage_tolerance_pu.mul
                    (quot_val.finite ((volt_norm_fm + volt_norm_to) / 2))).lt_val
                  (quot_val.finite |volt_norm_fm - volt_norm_to|) = true then
                Except.error SetupError.nominal_voltage_mismatch
              else Except.ok (inv_tail_d G (inv_nodes_d fm tn volt_norm_fm volt_norm_to s)) := by
  rfl

theorem init_norm_values_d_ok_iff (G : Globals) (par : Option switch_object)
    (s s2 : sync_check_d) :
    init_norm_values_d G par s = Except.ok s2 ↔
      ∃ fm tn vf vt, par.bind (fun p => p.from_node) = some fm
        ∧ par.bind (fun p => p.to_node) = some tn
        ∧ fm.nominal_voltage = some vf ∧ tn.nominal_voltage = some vt
        ∧ ¬ ((s.voltage_tolerance_pu.mul (quot_val.finite ((vf + vt) / 2))).lt_val
              (quot_val.finite |vf - vt|) = true)
        ∧ s2 = inv_tail_d G (inv_nodes_d fm tn vf vt s) := by
  rw [init_norm_values_d_eq]
  constructor
  · intro h
    split at h
    · cases h
    · rename_i fm hfm
      split at h
      · cases h
      · rename_i tn htn
        split at h
        · cases h
        · rename_i vf hvf
          split at h
          · cases h
          · rename_i vt hvt
            split at h
            · cases h
            · rename_i hc
              injection h with h
              exact ⟨fm, tn, vf, vt, hfm, htn, hvf, hvt, hc, h.symm⟩
  · rintro ⟨fm, tn, vf, vt, hfm, htn, hvf, hvt, hc, rfl⟩
    simp only [hfm, htn, hvf, hvt, if_neg hc]

theorem init_sensors_d_ok (K : Core) (par : Option switch_object) (s s3 : sync_check_d)
    (h : init_sensors_d K par s = Except.ok s3) :
    ∃ ph, par.bind (fun p => p.phases) = some ph ∧ s3 = sensors_state_d K ph s := by
  unfold init_sensors_d at h
  split at h
  · cases h
  · rename_i ph hph
    refine ⟨ph, hph, ?_⟩
    simp only [] at h
    split_ifs at h
    injection h with h
    exact h.symm

theorem init_d_ok_iff (K : Core) (G : Globals) (parent : Option switch_object)
    (s r : sync_check_d) :
    init_d K G parent s = Except.ok r ↔
      ∃ s1 s2 s3, data_sanity_check_d K G parent s = Except.ok s1
        ∧ init_norm_values_d G parent s1 = Except.ok s2
        ∧ init_sensors_d K parent s2 = Except.ok s3 ∧ r = reg_deltamode_check_d G s3 := by
  unfold init_d
  constructor
  · intro h
    split at h
    · cases h
    · rename_i s1 h1
      split at h
      · cases h
      · rename_i s2 h2
        split at h
        · cases h
        · rename_i s3 h3
          injection h with h
          exact ⟨s1, s2, s3, h1, h2, h3, h.symm⟩
  · rintro ⟨s1, s2, s3, h1, h2, h3, rfl⟩
    simp only [h1, h2, h3]

theorem setup_steps_d_ok_iff (K : Core) (G : Globals) (par : Option switch_object)
    (s r : sync_check_d) :
    setup_steps_d K G par s = Except.ok r ↔
      ∃ s1, data_sanity_check_d K G par s = Except.ok s1
        ∧ init_norm_values_d G par s1 = Except.ok r := by
  unfold setup_steps_d
  constructor
  · intro h
    split at h
    · cases h
    · rename_i s1 h1
      exact ⟨s1, h1, h⟩
  · rintro ⟨s1, h1, h2⟩
    simp only [h1, h2]

theorem dsc_status_d_eq (K : Core) (st : enumeration) (s : sync_check_d) :
    dsc_status_d K st s
      = { s with
          swt_status := st
          sc_enabled_flag := (dsc_status_d K st s).sc_enabled_flag } := by
  unfold dsc_status_d
  simp only []
  split_ifs <;> rfl

/-- The frequency block of `data_sanity_check_d`: a tolerance that passes the test `<= 0`
is replaced by one hundredth of the nominal frequency, any other (a NaN too) is kept. -/
theorem dsc_freq_d_cases (G : Globals) (s r : sync_check_d)
    (h : dsc_freq_d G s = Except.ok r) :
    (s.frequency_tolerance_hz.le 0 = false ∧ r = s)
      ∨ (s.frequency_tolerance_hz.le 0 = true ∧ ∃ f, G.nominal_frequency = some f
          ∧ r = { s with frequency_tolerance_hz := quot_val.finite (0.01 * f) }) := by
  unfold dsc_freq_d at h
  split_ifs at h with hc
  · right
    refine ⟨hc, ?_⟩
    split at h
    · cases h
    · rename_i f hf
      injection h with h
      exact ⟨f, hf, h.symm⟩
  · left
    injection h with h
    exact ⟨by simpa using hc, h.symm⟩

theorem dsc_volt_d_values (s : sync_check_d) :
    (dsc_volt_d s).voltage_tolerance_pu
        = (if s.voltage_tolerance_pu.le 0 = true then quot_val.finite 1e-2
            else s.voltage_tolerance_pu)
      ∧ (dsc_volt_d s).voltage_magnitude_tolerance_pu = s.voltage_magnitude_tolerance_pu
      ∧ (dsc_volt_d s).voltage_angle_tolerance_deg = s.voltage_angle_tolerance_deg
      ∧ (dsc_volt_d s).metrics_period_sec = s.metrics_period_sec
      ∧ (dsc_volt_d s).frequency_tolerance_hz = s.frequency_tolerance_hz
      ∧ (dsc_volt_d s).delta_trigger_mult = s.delta_trigger_mult := by
  unfold dsc_volt_d
  split_ifs with h <;> exact ⟨rfl, rfl, rfl, rfl, rfl, rfl⟩

theorem dsc_vmag_d_values (s : sync_check_d) :
    (dsc_vmag_d s).voltage_tolerance_pu = s.voltage_tolerance_pu
      ∧ (dsc_vmag_d s).voltage_magnitude_tolerance_pu
        = (if s.voltage_magnitude_tolerance_pu.le 0 = true then quot_val.finite 1e-2
            else s.voltage_magnitude_tolerance_pu)
      ∧ (dsc_vmag_d s).voltage_angle_tolerance_deg = s.voltage_angle_tolerance_deg
      ∧ (dsc_vmag_d s).metrics_period_sec = s.metrics_period_sec
      ∧ (dsc_vmag_d s).frequency_tolerance_hz = s.frequency_tolerance_hz
      ∧ (dsc_vmag_d s).delta_trigger_mult = s.delta_trigger_mult := by
  unfold dsc_vmag_d
  split_ifs with h <;> exact ⟨rfl, rfl, rfl, rfl, rfl, rfl⟩

theorem dsc_vang_d_values (s : sync_check_d) :
    (dsc_vang_d s).voltage_tolerance_pu = s.voltage_tolerance_pu
      ∧ (dsc_vang_d s).voltage_magnitude_tolerance_pu = s.voltage_magnitude_tolerance_pu
      ∧ (dsc_vang_d s).voltage_angle_tolerance_deg
        = (if s.voltage_angle_tolerance_deg.le 0 = true then quot_val.finite 5
            else s.voltage_angle_tolerance_deg)
      ∧ (dsc_vang_d s).metrics_period_sec = s.metrics_period_sec
      ∧ (dsc_vang_d s).frequency_tolerance_hz = s.frequency_tolerance_hz
      ∧ (dsc_vang_d s).delta_trigger_mult = s.delta_trigger_mult := by
  unfold dsc_vang_d
  split_ifs with h <;> exact ⟨rfl, rfl, rfl, rfl, rfl, rfl⟩

theorem dsc_period_d_values (s : sync_check_d) :
    (dsc_period_d s).voltage_tolerance_pu = s.voltage_tolerance_pu
      ∧ (dsc_period_d s).voltage_magnitude_tolerance_pu = s.voltage_magnitude_tolerance_pu
      ∧ (dsc_period_d s).voltage_angle_tolerance_deg = s.voltage_angle_tolerance_deg
      ∧ (dsc_period_d s).metrics_period_sec
        = (if s.metrics_period_sec.le 0 = true then quot_val.finite 1.2
            else s.metrics_period_sec)
      ∧ (dsc_period_d s).frequency_tolerance_hz = s.frequency_tolerance_hz
      ∧ (dsc_period_d s).delta_trigger_mult = s.delta_trigger_mult := by
  unfold dsc_period_d
  split_ifs with h <;> exact ⟨rfl, rfl, rfl, rfl, rfl, rfl⟩

theorem dsc_rest_d_values (s : sync_check_d) :
    (dsc_rest_d s).voltage_tolerance_pu
        = (if s.voltage_tolerance_pu.le 0 = true then quot_val.finite 1e-2
            else s.voltage_tolerance_pu)
      ∧ (dsc_rest_d s).voltage_magnitude_tolerance_pu
        = (if s.voltage_magnitude_tolerance_pu.le 0 = true then quot_val.finite 1e-2
            else s.voltage_magnitude_tolerance_pu)
      ∧ (dsc_rest_d s).voltage_angle_tolerance_deg
        = (if s.voltage_angle_tolerance_deg.le 0 = true then quot_val.finite 5
            else s.voltage_angle_tolerance_deg)
      ∧ (dsc_rest_d s).metrics_period_sec
        = (if s.metrics_period_sec.le 0 = true then quot_val.finite 1.2
            else s.metrics_period_sec)
      ∧ (dsc_rest_d s).frequency_tolerance_hz = s.frequency_tolerance_hz
      ∧ (dsc_rest_d s).delta_trigger_mult = s.delta_trigger_mult := by
  obtain ⟨a1, a2, a3, a4, a5, a6⟩ := dsc_volt_d_values s
  obtain ⟨b1, b2, b3, b4, b5, b6⟩ := dsc_vmag_d_values (dsc_volt_d s)
  obtain ⟨c1, c2, c3, c4, c5, c6⟩ := dsc_vang_d_values (dsc_vmag_d (dsc_volt_d s))
  obtain ⟨d1, d2, d3, d4, d5, d6⟩ :=
    dsc_period_d_values (dsc_vang_d (dsc_vmag_d (dsc_volt_d s)))
  unfold dsc_rest_d
  refine ⟨?_, ?_, ?_, ?_, ?_, ?_⟩
  · rw [d1, c1, b1, a1]
  · rw [d2, c2, b2, a2]
  · rw [d3, c3, b3, a3]
  · rw [d4, c4, b4, a4]
  · rw [d5, c5, b5, a5]
  · rw [d6, c6, b6, a6]

theorem inv_tail_d_values (G : Globals) (s : sync_check_d) :
    (inv_tail_d G s).voltage_tolerance_pu = s.voltage_tolerance_pu
      ∧ (inv_tail_d G s).voltage_magnitude_tolerance_pu = s.voltage_magnitude_tolerance_pu
      ∧ (inv_tail_d G s).voltage_angle_tolerance_deg = s.voltage_angle_tolerance_deg
      ∧ (inv_tail_d G s).metrics_period_sec = s.metrics_period_sec
      ∧ (inv_tail_d G s).frequency_tolerance_hz = s.frequency_tolerance_hz
      ∧ (inv_tail_d G s).delta_trigger_mult
          = (if s.delta_trigger_mult.le 1 = true then quot_val.finite 2
              else s.delta_trigger_mult)
      ∧ (inv_tail_d G s).frequency_tolerance_hz_deltamode_trig
          = (inv_tail_d G s).delta_trigger_mult.mul (inv_tail_d G s).frequency_tolerance_hz
      ∧ (inv_tail_d G s).voltage_tolerance_pu_deltamode_trig
          = (inv_tail_d G s).delta_trigger_mult.mul (inv_tail_d G s).voltage_tolerance_pu
      ∧ (inv_tail_d G s).voltage_magnitude_tolerance_pu_deltamode_trig
          = (inv_tail_d G s).delta_trigger_mult.mul
              (inv_tail_d G s).voltage_magnitude_tolerance_pu
      ∧ (inv_tail_d G s).voltage_angle_tolerance_deg_deltamode_trig
          = (inv_tail_d G s).delta_trigger_mult.mul
              (inv_tail_d G s).voltage_angle_tolerance_deg := by
  have e1 : ((1.0 : ℚ)) = 1 := by norm_num
  have e2 : ((2.0 : ℚ)) = 2 := by norm_num
  unfold inv_tail_d
  rw [e1, e2]
  by_cases h : s.delta_trigger_mult.le 1 = true
  · rw [if_pos h, if_pos h]
    exact ⟨rfl, rfl, rfl, rfl, rfl, rfl, rfl, rfl, rfl, rfl⟩
  · rw [if_neg h, if_neg h]
    exact ⟨rfl, rfl, rfl, rfl, rfl, rfl, rfl, rfl, rfl, rfl⟩

theorem ite_le_false (x : quot_val) (c d : ℚ) (hd : c < d) :
    (if x.le c = true then quot_val.finite d else x).le c = false := by
  by_cases h : x.le c = true
  · rw [if_pos h]
    simpa [quot_val.le] using hd
  · rw [if_neg h]
    simpa using h

/-- The values of the six configuration fields after a successful setup, from the
configured ones, and the invariant on them. -/
theorem setup_steps_d_values (K : Core) (G : Globals) (par : Option switch_object)
    (s0 s : sync_check_d) (h : setup_steps_d K G par s0 = Except.ok s) :
    s.voltage_tolerance_pu
        = (if s0.voltage_tolerance_pu.le 0 = true then quot_val.finite 1e-2
            else s0.voltage_tolerance_pu)
      ∧ s.voltage_magnitude_tolerance_pu
        = (if s0.voltage_magnitude_tolerance_pu.le 0 = true then quot_val.finite 1e-2
            else s0.voltage_magnitude_tolerance_pu)
      ∧ s.voltage_angle_tolerance_deg
        = (if s0.voltage_angle_tolerance_deg.le 0 = true then quot_val.finite 5
            else s0.voltage_angle_tolerance_deg)
      ∧ s.metrics_period_sec
        = (if s0.metrics_period_sec.le 0 = true then quot_val.finite 1.2
            else s0.metrics_period_sec)
      ∧ s.delta_trigger_mult
        = (if s0.delta_trigger_mult.le 1 = true then quot_val.finite 2
            else s0.delta_trigger_mult)
      ∧ ((s0.frequency_tolerance_hz.le 0 = false
            ∧ s.frequency_tolerance_hz = s0.frequency_tolerance_hz)
          ∨ (s0.frequency_tolerance_hz.le 0 = true ∧ ∃ f, G.nominal_frequency = some f
            ∧ s.frequency_tolerance_hz = quot_val.finite (0.01 * f)))
      ∧ setup_invariant_d s := by
  obtain ⟨s1, h1, h2⟩ := (setup_steps_d_ok_iff K G par s0 s).mp h
  obtain ⟨p, st, r, -, -, -, hr, rfl⟩ := (data_sanity_check_d_ok_iff K G par s0 s1).mp h1
  obtain ⟨fm, tn, vf, vt, -, -, -, -, -, rfl⟩ := (init_norm_values_d_ok_iff G par _ s).mp h2
  have hst := dsc_status_d_eq K st s0
  have q1 : (dsc_status_d K st s0).voltage_tolerance_pu = s0.voltage_tolerance_pu := by
    rw [hst]
  have q2 : (dsc_status_d K st s0).voltage_magnitude_tolerance_pu
      = s0.voltage_magnitude_tolerance_pu := by rw [hst]
  have q3 : (dsc_status_d K st s0).voltage_angle_tolerance_deg
      = s0.voltage_angle_tolerance_deg := by rw [hst]
  have q4 : (dsc_status_d K st s0).metrics_period_sec = s0.metrics_period_sec := by rw [hst]
  have q5 : (dsc_status_d K st s0).delta_trigger_mult = s0.delta_trigger_mult := by rw [hst]
  have q6 : (dsc_status_d K st s0).frequency_tolerance_hz = s0.frequency_tolerance_hz := by
    rw [hst]
  have r1 : r.voltage_tolerance_pu = s0.voltage_tolerance_pu := by
    rcases dsc_freq_d_cases G _ r hr with ⟨-, e⟩ | ⟨-, f, -, e⟩ <;> rw [e] <;> exact q1
  have r2 : r.voltage_magnitude_tolerance_pu = s0.voltage_magnitude_tolerance_pu := by
    rcases dsc_freq_d_cases G _ r hr with ⟨-, e⟩ | ⟨-, f, -, e⟩ <;> rw [e] <;> exact q2
  have r3 : r.voltage_angle_tolerance_deg = s0.voltage_angle_tolerance_deg := by
    rcases dsc_freq_d_cases G _ r hr with ⟨-, e⟩ | ⟨-, f, -, e⟩ <;> rw [e] <;> exact q3
  have r4 : r.metrics_period_sec = s0.metrics_period_sec := by
    rcases dsc_freq_d_cases G _ r hr with ⟨-, e⟩ | ⟨-, f, -, e⟩ <;> rw [e] <;> exact q4
  have r5 : r.delta_trigger_mult = s0.delta_trigger_mult := by
    rcases dsc_freq_d_cases G _ r hr with ⟨-, e⟩ | ⟨-, f, -, e⟩ <;> rw [e] <;> exact q5
  obtain ⟨v1, v2, v3, v4, v5, v6⟩ := dsc_rest_d_values r
  obtain ⟨t1, t2, t3, t4, t5, t6, t7, t8, t9, t10⟩ :=
    inv_tail_d_values G (inv_nodes_d fm tn vf vt (dsc_rest_d r))
  have w1 : (inv_tail_d G (inv_nodes_d fm tn vf vt (dsc_rest_d r))).voltage_tolerance_pu
      = (if s0.voltage_tolerance_pu.le 0 = true then quot_val.finite 1e-2
          else s0.voltage_tolerance_pu) := by
    rw [t1]; show (dsc_rest_d r).voltage_tolerance_pu = _; rw [v1, r1]
  have w2 : (inv_tail_d G (inv_nodes_d fm tn vf vt (dsc_rest_d r))).voltage_magnitude_tolerance_pu
      = (if s0.voltage_magnitude_tolerance_pu.le 0 = true then quot_val.finite 1e-2
          else s0.voltage_magnitude_tolerance_pu) := by
    rw [t2]; show (dsc_rest_d r).voltage_magnitude_tolerance_pu = _; rw [v2, r2]
  have w3 : (inv_tail_d G (inv_nodes_d fm tn vf vt (dsc_rest_d r))).voltage_angle_tolerance_deg
      = (if s0.voltage_angle_tolerance_deg.le 0 = true then quot_val.finite 5
          else s0.voltage_angle_tolerance_deg) := by
    rw [t3]; show (dsc_rest_d r).voltage_angle_tolerance_deg = _; rw [v3, r3]
  have w4 : (inv_tail_d G (inv_nodes_d fm tn vf vt (dsc_rest_d r))).metrics_period_sec
      = (if s0.metrics_period_sec.le 0 = true then quot_val.finite 1.2
          else s0.metrics_period_sec) := by
    rw [t4]; show (dsc_rest_d r).metrics_period_sec = _; rw [v4, r4]
  have w5 : (inv_tail_d G (inv_nodes_d fm tn vf vt (dsc_rest_d r))).delta_trigger_mult
      = (if s0.delta_trigger_mult.le 1 = true then quot_val.finite 2
          else s0.delta_trigger_mult) := by
    rw [t6]; show (if (dsc_rest_d r).delta_trigger_mult.le 1 = true then _
      else (dsc_rest_d r).delta_trigger_mult) = _
    rw [v6, r5]
  have w6 : (inv_tail_d G (inv_nodes_d fm tn vf vt (dsc_rest_d r))).frequency_tolerance_hz
      = r.frequency_tolerance_hz := by
    rw [t5]; show (dsc_rest_d r).frequency_tolerance_hz = _; rw [v5]
  refine ⟨w1, w2, w3, w4, w5, ?_, ?_, ?_, ?_, ?_, ?_, t7, t8, t9, t10⟩
  · rw [w6]
    rcases dsc_freq_d_cases G _ r hr with ⟨c, e⟩ | ⟨c, f, hf, e⟩
    · left
      rw [q6] at c
      exact ⟨c, by rw [e]; exact q6⟩
    · right
      rw [q6] at c
      exact ⟨c, f, hf, by rw [e]⟩
  · rw [w1]; exact ite_le_false _ 0 _ (by norm_num)
  · rw [w2]; exact ite_le_false _ 0 _ (by norm_num)
  · rw [w3]; exact ite_le_false _ 0 _ (by norm_num)
  · rw [w4]; exact ite_le_false _ 0 _ (by norm_num)
  · rw [w5]; exact ite_le_false _ 1 _ (by norm_num)

/-! ## The sample setups over the doubles of the machine -/

theorem init_vars_d_blank (f : ℚ) (ph : ℕ) :
    init_vars_d (globals_at f) (to_machine (blank ph)) = Except.ok (to_machine (created f ph)) := by
  have e1 : (1 : ℚ) / 100 * f = f / 100 := by ring
  norm_num [init_vars_d, to_machine, globals_at, blank, created, e1]

theorem setup_steps_d_sample (vtol mult period : quot_val) (h1 : vtol.le 0 = false)
    (h2 : mult.le 1 = false) (h3 : period.le 0 = false)
    (h4 : (vtol.mul (quot_val.finite 7200)).lt_val (quot_val.finite 0) = false) :
    setup_steps_d stdCore (globals_at 60) (some (open_switch 7200 7200))
        (sample_config_d vtol mult period)
      = Except.ok (sample_after_steps_d vtol mult period) := by
  norm_num [setup_steps_d, data_sanity_check_d, init_norm_values_d, globals_at, open_switch,
    bus_at, created, blank, stdCore, arm, after_steps, after_setup, to_machine,
    sample_config_d, sample_after_steps_d, h1, h2, h3, h4, finite_le, finite_mul]

theorem init_d_sample (vtol mult period : quot_val) (h1 : vtol.le 0 = false)
    (h2 : mult.le 1 = false) (h3 : period.le 0 = false)
    (h4 : (vtol.mul (quot_val.finite 7200)).lt_val (quot_val.finite 0) = false) :
    init_d stdCore (globals_at 60) (some (open_switch 7200 7200))
        (sample_config_d vtol mult period)
      = Except.ok (sample_after_setup_d vtol mult period) := by
  norm_num [init_d, data_sanity_check_d, init_norm_values_d, init_sensors_d,
    reg_deltamode_check_d, globals_at, open_switch,
    bus_at, created, blank, stdCore, arm, after_setup, to_machine,
    sample_config_d, sample_after_setup_d, h1, h2, h3, h4, finite_le, finite_mul]

theorem create_and_init_d_sample (vtol mult period : quot_val) (h1 : vtol.le 0 = false)
    (h2 : mult.le 1 = false) (h3 : period.le 0 = false)
    (h4 : (vtol.mul (quot_val.finite 7200)).lt_val (quot_val.finite 0) = false) :
    create_and_init_d stdCore (globals_at 60) (some (open_switch 7200 7200))
        (configure_d vtol mult period) (to_machine (blank 7))
      = Except.ok (sample_after_setup_d vtol mult period) := by
  have e : configure_d vtol mult period (to_machine (created 60 7))
      = sample_config_d vtol mult period := by
    simp [configure_d, sample_config_d, to_machine, arm, created, blank]
  unfold create_and_init_d
  rw [init_vars_d_blank]
  simp only []
  rw [e]
  exact init_d_sample vtol mult period h1 h2 h3 h4

/-! ## Claims on setup and on the relaxed tolerances, with NaN and infinite values -/

theorem ite_eq_nan_iff (x : quot_val) (c d : ℚ) :
    (if x.le c = true then quot_val.finite d else x) = quot_val.nan ↔ x = quot_val.nan := by
  by_cases h : x.le c = true
  · rw [if_pos h]
    constructor
    · intro e; cases e
    · intro e; rw [e] at h; cases h
  · rw [if_neg h]

/-- A tolerance that fails the test `<= 0` compares at most its product with a multiplier
that fails the test `<= 1`, exactly when neither is NaN. -/
theorem le_val_mul_iff (X m : quot_val) (hX : X.le 0 = false) (hm : m.le 1 = false) :
    X.le_val (m.mul X) = true ↔ X ≠ quot_val.nan ∧ m ≠ quot_val.nan := by
  rcases le_false_cases X 0 hX with rfl | rfl | ⟨a, rfl, ha⟩ <;>
    rcases le_false_cases m 1 hm with rfl | rfl | ⟨b, rfl, hb⟩
  · simp [quot_val.le_val]
  · simp [quot_val.le_val]
  · simp [quot_val.le_val]
  · simp [quot_val.le_val, quot_val.mul]
  · simp [quot_val.le_val, quot_val.mul]
  · have hb0 : (0 : ℚ) < b := by linarith
    simp [quot_val.le_val, quot_val.mul, hb0, hb0.ne.symm]
  · simp [quot_val.le_val, quot_val.mul]
  · simp [quot_val.le_val, quot_val.mul, ha, ha.ne.symm]
  · have : a ≤ b * a := by nlinarith
    simp [quot_val.le_val, quot_val.mul, this]

/-- The strict frequency tolerance compares at most its product with a multiplier that
fails the test `<= 1` exactly when the multiplier is a number, the tolerance compares at
least zero, and the product is not infinity times zero. -/
theorem freq_le_val_mul_iff (F m : quot_val) (hF : F ≠ quot_val.neg_inf)
    (hm : m.le 1 = false) :
    F.le_val (m.mul F) = true
      ↔ m ≠ quot_val.nan ∧ (quot_val.finite 0).le_val F = true
        ∧ ¬ (m = quot_val.pos_inf ∧ F = quot_val.finite 0) := by
  rcases le_false_cases m 1 hm with rfl | rfl | ⟨b, rfl, hb⟩
  · simp [quot_val.mul]
    cases F <;> simp [quot_val.le_val]
  · cases F with
    | finite a =>
      rcases lt_trichotomy a 0 with h | h | h
      · have h1 : ¬ (0 < a) := not_lt.mpr h.le
        have h2 : ¬ (0 ≤ a) := not_le.mpr h
        simp [quot_val.mul, quot_val.le_val, h.ne, h1, h2]
      · subst h
        simp [quot_val.mul, quot_val.le_val]
      · simp [quot_val.mul, quot_val.le_val, h, h.ne.symm, h.le]
    | pos_inf => simp [quot_val.mul, quot_val.le_val]
    | neg_inf => exact absurd rfl hF
    | nan => simp [quot_val.mul, quot_val.le_val]
  · have hb0 : (0 : ℚ) < b := by linarith
    cases F with
    | finite a =>
      have : a ≤ b * a ↔ 0 ≤ a := by
        constructor
        · intro h; nlinarith
        · intro h; nlinarith
      simp [quot_val.mul, quot_val.le_val, this]
    | pos_inf => simp [quot_val.mul, quot_val.le_val, hb0, hb0.ne.symm]
    | neg_inf => exact absurd rfl hF
    | nan => simp [quot_val.mul, quot_val.le_val]

theorem setup_steps_d_freq_ne_neg_inf (K : Core) (G : Globals) (par : Option switch_object)
    (s0 s : sync_check_d) (h : setup_steps_d K G par s0 = Except.ok s) :
    s.frequency_tolerance_hz ≠ quot_val.neg_inf := by
  rcases (setup_steps_d_values K G par s0 s h).2.2.2.2.2.1 with ⟨c, e⟩ | ⟨c, f, -, e⟩
  · rw [e]
    intro hn
    rw [hn] at c
    cases c
  · rw [e]
    intro hn
    cases hn

/-- C15, amended: whenever setup completes without a fatal error, each of the voltage
tolerance, the voltage magnitude tolerance, the voltage angle tolerance and the dwell
period compares strictly above zero exactly when its configured value is not NaN, and the
trigger multiplier compares strictly above one exactly when its configured value is not
NaN (a NaN fails every test `<= 0` and `<= 1` and is kept); the frequency tolerance
compares strictly above zero exactly when the configured one does, or the configured one
passes the test `<= 0` and its default, one hundredth of the global nominal frequency, is
strictly positive.  When all of these conditions hold, the six properties of the claim
hold. -/
theorem C15_tolerances_positive_unless_nan (K : Core) (G : Globals)
    (par : Option switch_object) (s0 s : sync_check_d)
    (h : setup_steps_d K G par s0 = Except.ok s) :
    ((quot_val.finite 0).lt_val s.voltage_tolerance_pu = true
        ↔ s0.voltage_tolerance_pu ≠ quot_val.nan)
      ∧ ((quot_val.finite 0).lt_val s.voltage_magnitude_tolerance_pu = true
        ↔ s0.voltage_magnitude_tolerance_pu ≠ quot_val.nan)
      ∧ ((quot_val.finite 0).lt_val s.voltage_angle_tolerance_deg = true
        ↔ s0.voltage_angle_tolerance_deg ≠ quot_val.nan)
      ∧ ((quot_val.finite 0).lt_val s.metrics_period_sec = true
        ↔ s0.metrics_period_sec ≠ quot_val.nan)
      ∧ ((quot_val.finite 1).lt_val s.delta_trigger_mult = true
        ↔ s0.delta_trigger_mult ≠ quot_val.nan)
      ∧ ((quot_val.finite 0).lt_val s.frequency_tolerance_hz = true
        ↔ ((quot_val.finite 0).lt_val s0.frequency_tolerance_hz = true
          ∨ (s0.frequency_tolerance_hz.le 0 = true
            ∧ ∃ f, G.nominal_frequency = some f ∧ 0 < 0.01 * f)))
      ∧ (s0.voltage_tolerance_pu ≠ quot_val.nan
          → s0.voltage_magnitude_tolerance_pu ≠ quot_val.nan
          → s0.voltage_angle_tolerance_deg ≠ quot_val.nan
          → s0.metrics_period_sec ≠ quot_val.nan
          → s0.delta_trigger_mult ≠ quot_val.nan
          → ((quot_val.finite 0).lt_val s0.frequency_tolerance_hz = true
            ∨ (s0.frequency_tolerance_hz.le 0 = true
              ∧ ∃ f, G.nominal_frequency = some f ∧ 0 < 0.01 * f))
          → C15_d_as_stated s) := by
  obtain ⟨w1, w2, w3, w4, w5, w6, i1, i2, i3, i4, i5, -⟩ := setup_steps_d_values K G par s0 s h
  have a1 : (quot_val.finite 0).lt_val s.voltage_tolerance_pu = true
      ↔ s0.voltage_tolerance_pu ≠ quot_val.nan := by
    rw [lt_val_iff_of_le_false _ 0 i1, w1, ne_eq, ite_eq_nan_iff]
  have a2 : (quot_val.finite 0).lt_val s.voltage_magnitude_tolerance_pu = true
      ↔ s0.voltage_magnitude_tolerance_pu ≠ quot_val.nan := by
    rw [lt_val_iff_of_le_false _ 0 i2, w2, ne_eq, ite_eq_nan_iff]
  have a3 : (quot_val.finite 0).lt_val s.voltage_angle_tolerance_deg = true
      ↔ s0.voltage_angle_tolerance_deg ≠ quot_val.nan := by
    rw [lt_val_iff_of_le_false _ 0 i3, w3, ne_eq, ite_eq_nan_iff]
  have a4 : (quot_val.finite 0).lt_val s.metrics_period_sec = true
      ↔ s0.metrics_period_sec ≠ quot_val.nan := by
    rw [lt_val_iff_of_le_false _ 0 i4, w4, ne_eq, ite_eq_nan_iff]
  have a5 : (quot_val.finite 1).lt_val s.delta_trigger_mult = true
      ↔ s0.delta_trigger_mult ≠ quot_val.nan := by
    rw [lt_val_iff_of_le_false _ 1 i5, w5, ne_eq, ite_eq_nan_iff]
  have a6 : (quot_val.finite 0).lt_val s.frequency_tolerance_hz = true
      ↔ ((quot_val.finite 0).lt_val s0.frequency_tolerance_hz = true
        ∨ (s0.frequency_tolerance_hz.le 0 = true
          ∧ ∃ f, G.nominal_frequency = some f ∧ 0 < 0.01 * f)) := by
    rcases w6 with ⟨c, e⟩ | ⟨c, f, hf, e⟩
    · rw [e]
      constructor
      · intro hp
        exact Or.inl hp
      · rintro (hp | ⟨hc, -⟩)
        · exact hp
        · rw [c] at hc
          cases hc
    · rw [e, finite_lt_val, decide_eq_true_eq]
      constructor
      · intro hp
        exact Or.inr ⟨c, f, hf, hp⟩
      · rintro (hp | ⟨-, g, hg, hgp⟩)
        · rw [lt_val_false_of_le _ 0 c] at hp
          cases hp
        · rw [hf] at hg
          injection hg with hg
          subst hg
          exact hgp
  exact ⟨a1, a2, a3, a4, a5, a6, fun h1 h2 h3 h4 h5 h6 =>
    ⟨a6.mpr h6, a1.mpr h1, a2.mpr h2, a3.mpr h3, a4.mpr h4, a5.mpr h5⟩⟩

/-- Witness of C15: the two setup steps of the sample object with the default
configuration, at 60 Hz on a 7200 V switch. -/
theorem C15_tolerances_positive_unless_nan_witness :
    C15_d_as_stated
      (sample_after_steps_d (quot_val.finite (1 / 100)) (quot_val.finite 2)
        (quot_val.finite (6 / 5))) :=
  (C15_tolerances_positive_unless_nan stdCore (globals_at 60)
    (some (open_switch 7200 7200))
    (sample_config_d (quot_val.finite (1 / 100)) (quot_val.finite 2) (quot_val.finite (6 / 5)))
    (sample_after_steps_d (quot_val.finite (1 / 100)) (quot_val.finite 2)
      (quot_val.finite (6 / 5)))
    (setup_steps_d_sample _ _ _ (by norm_num [finite_le]) (by norm_num [finite_le])
      (by norm_num [finite_le]) (by norm_num [finite_mul, finite_lt_val]))).2.2.2.2.2.2
    (by simp [sample_config_d]) (by simp [sample_config_d, to_machine])
    (by simp [sample_config_d, to_machine]) (by simp [sample_config_d])
    (by simp [sample_config_d])
    (Or.inl (by norm_num [sample_config_d, to_machine, arm, created, finite_lt_val]))

/-- Counterexample to C15 as stated: with the voltage tolerance configured as NaN, setup
succeeds on the sample switch at 60 Hz and the voltage tolerance is still NaN, which does
not compare above zero. -/
theorem C15_fails_at_nan_voltage_tolerance :
    setup_steps_d stdCore (globals_at 60) (some (open_switch 7200 7200))
        (sample_config_d quot_val.nan (quot_val.finite 2) (quot_val.finite (6 / 5)))
      = Except.ok
          (sample_after_steps_d quot_val.nan (quot_val.finite 2) (quot_val.finite (6 / 5)))
    ∧ ¬ C15_d_as_stated
          (sample_after_steps_d quot_val.nan (quot_val.finite 2) (quot_val.finite (6 / 5))) := by
  refine ⟨setup_steps_d_sample _ _ _ rfl (by norm_num [finite_le]) (by norm_num [finite_le])
    rfl, ?_⟩
  intro h
  have h2 := h.2.1
  simp [sample_after_steps_d, quot_val.lt_val] at h2

/-- A negative strict frequency tolerance has a product with a multiplier that is a number
and fails the test `<= 1` which compares at most the tolerance. -/
theorem mul_le_val_of_neg (a : ℚ) (ha : a < 0) (m : quot_val) (hm : m.le 1 = false)
    (hn : m ≠ quot_val.nan) :
    (m.mul (quot_val.finite a)).le_val (quot_val.finite a) = true := by
  rcases le_false_cases m 1 hm with rfl | rfl | ⟨b, rfl, hb⟩
  · exact absurd rfl hn
  · have h1 : ¬ (0 < a) := not_lt.mpr ha.le
    simp [quot_val.mul, quot_val.le_val, ha.ne, h1]
  · have : b * a ≤ a := by nlinarith
    simpa [quot_val.mul, quot_val.le_val] using this

/-- C7, amended: after every successful setup each of the four relaxed tolerances is the
product of `delta_trigger_mult` and the corresponding strict tolerance as corrected by
setup; each of the three relaxed voltage tolerances compares at least its strict
tolerance exactly when neither the configured tolerance nor the configured multiplier is
NaN; the relaxed frequency tolerance compares at least the strict one when the configured
multiplier is not NaN, the corrected strict frequency tolerance compares at least zero and
the product is not infinity times zero; it does not when the multiplier or the corrected
strict frequency tolerance is NaN; and for a negative corrected strict frequency tolerance
and a multiplier that is not NaN it compares at most the strict one. -/
theorem C7_relaxed_tolerances_unless_nan (K : Core) (G : Globals)
    (par : Option switch_object) (s0 s : sync_check_d)
    (h : setup_steps_d K G par s0 = Except.ok s) :
    (s.frequency_tolerance_hz_deltamode_trig
          = s.delta_trigger_mult.mul s.frequency_tolerance_hz
        ∧ s.voltage_tolerance_pu_deltamode_trig
          = s.delta_trigger_mult.mul s.voltage_tolerance_pu
        ∧ s.voltage_magnitude_tolerance_pu_deltamode_trig
          = s.delta_trigger_mult.mul s.voltage_magnitude_tolerance_pu
        ∧ s.voltage_angle_tolerance_deg_deltamode_trig
          = s.delta_trigger_mult.mul s.voltage_angle_tolerance_deg)
      ∧ (s.voltage_tolerance_pu.le_val s.voltage_tolerance_pu_deltamode_trig = true
        ↔ s0.voltage_tolerance_pu ≠ quot_val.nan ∧ s0.delta_trigger_mult ≠ quot_val.nan)
      ∧ (s.voltage_magnitude_tolerance_pu.le_val
            s.voltage_magnitude_tolerance_pu_deltamode_trig = true
        ↔ s0.voltage_magnitude_tolerance_pu ≠ quot_val.nan
          ∧ s0.delta_trigger_mult ≠ quot_val.nan)
      ∧ (s.voltage_angle_tolerance_deg.le_val
            s.voltage_angle_tolerance_deg_deltamode_trig = true
        ↔ s0.voltage_angle_tolerance_deg ≠ quot_val.nan
          ∧ s0.delta_trigger_mult ≠ quot_val.nan)
      ∧ (s0.delta_trigger_mult ≠ quot_val.nan
          → (quot_val.finite 0).le_val s.frequency_tolerance_hz = true
          → ¬ (s.delta_trigger_mult = quot_val.pos_inf
              ∧ s.frequency_tolerance_hz = quot_val.finite 0)
          → s.frequency_tolerance_hz.le_val s.frequency_tolerance_hz_deltamode_trig = true)
      ∧ (s.frequency_tolerance_hz.le_val s.frequency_tolerance_hz_deltamode_trig = true
          → s0.delta_trigger_mult ≠ quot_val.nan
            ∧ s.frequency_tolerance_hz ≠ quot_val.nan)
      ∧ (∀ a : ℚ, s.frequency_tolerance_hz = quot_val.finite a → a < 0
          → s0.delta_trigger_mult ≠ quot_val.nan
          → s.frequency_tolerance_hz_deltamode_trig.le_val s.frequency_tolerance_hz
              = true) := by
  obtain ⟨w1, w2, w3, w4, w5, w6, i1, i2, i3, i4, i5, e1, e2, e3, e4⟩ :=
    setup_steps_d_values K G par s0 s h
  have n1 : s.voltage_tolerance_pu ≠ quot_val.nan
      ↔ s0.voltage_tolerance_pu ≠ quot_val.nan := by
    rw [w1, ne_eq, ite_eq_nan_iff]
  have n2 : s.voltage_magnitude_tolerance_pu ≠ quot_val.nan
      ↔ s0.voltage_magnitude_tolerance_pu ≠ quot_val.nan := by
    rw [w2, ne_eq, ite_eq_nan_iff]
  have n3 : s.voltage_angle_tolerance_deg ≠ quot_val.nan
      ↔ s0.voltage_angle_tolerance_deg ≠ quot_val.nan := by
    rw [w3, ne_eq, ite_eq_nan_iff]
  have n5 : s.delta_trigger_mult ≠ quot_val.nan ↔ s0.delta_trigger_mult ≠ quot_val.nan := by
    rw [w5, ne_eq, ite_eq_nan_iff]
  have hf := freq_le_val_mul_iff s.frequency_tolerance_hz s.delta_trigger_mult
    (setup_steps_d_freq_ne_neg_inf K G par s0 s h) i5
  refine ⟨⟨e1, e2, e3, e4⟩, ?_, ?_, ?_, ?_, ?_, ?_⟩
  · rw [e2, le_val_mul_iff _ _ i1 i5, n1, n5]
  · rw [e3, le_val_mul_iff _ _ i2 i5, n2, n5]
  · rw [e4, le_val_mul_iff _ _ i3 i5, n3, n5]
  · intro hm h0 hz
    rw [e1]
    exact hf.mpr ⟨n5.mpr hm, h0, hz⟩
  · intro hle
    rw [e1] at hle
    obtain ⟨hm, h0, -⟩ := hf.mp hle
    refine ⟨n5.mp hm, ?_⟩
    intro hn
    rw [hn] at h0
    cases h0
  · intro a ha hneg hm
    rw [e1, ha]
    exact mul_le_val_of_neg a hneg _ i5 (n5.mpr hm)

/-- Witness of C7: the two setup steps of the sample object with the default
configuration: the relaxed voltage tolerance 0.02 compares at least the strict 0.01. -/
theorem C7_relaxed_tolerances_unless_nan_witness :
    (sample_after_steps_d (quot_val.finite (1 / 100)) (quot_val.finite 2)
        (quot_val.finite (6 / 5))).voltage_tolerance_pu.le_val
      (sample_after_steps_d (quot_val.finite (1 / 100)) (quot_val.finite 2)
        (quot_val.finite (6 / 5))).voltage_tolerance_pu_deltamode_trig = true :=
  (C7_relaxed_tolerances_unless_nan stdCore (globals_at 60)
    (some (open_switch 7200 7200))
    (sample_config_d (quot_val.finite (1 / 100)) (quot_val.finite 2) (quot_val.finite (6 / 5)))
    (sample_after_steps_d (quot_val.finite (1 / 100)) (quot_val.finite 2)
      (quot_val.finite (6 / 5)))
    (setup_steps_d_sample _ _ _ (by norm_num [finite_le]) (by norm_num [finite_le])
      (by norm_num [finite_le]) (by norm_num [finite_mul, finite_lt_val]))).2.1.mpr
    ⟨by simp [sample_config_d], by simp [sample_config_d]⟩

/-- Counterexample to C7 as stated: with the trigger multiplier configured as NaN, setup
succeeds on the sample switch at 60 Hz and every relaxed tolerance is NaN, which does not
compare at least the strict tolerance. -/
theorem C7_fails_at_nan_multiplier :
    setup_steps_d stdCore (globals_at 60) (some (open_switch 7200 7200))
        (sample_config_d (quot_val.finite (1 / 100)) quot_val.nan (quot_val.finite (6 / 5)))
      = Except.ok
          (sample_after_steps_d (quot_val.finite (1 / 100)) quot_val.nan
            (quot_val.finite (6 / 5)))
    ∧ ¬ C7_d_as_stated
          (sample_after_steps_d (quot_val.finite (1 / 100)) quot_val.nan
            (quot_val.finite (6 / 5))) := by
  refine ⟨setup_steps_d_sample _ _ _ (by norm_num [finite_le]) rfl (by norm_num [finite_le])
    (by norm_num [finite_mul, finite_lt_val]), ?_⟩
  intro h
  have h2 := h.2.1.2
  simp [sample_after_steps_d, quot_val.mul, quot_val.le_val] at h2

/-! ## Claim on the strict and the relaxed check, with NaN and infinite values -/

/-- A comparison that a tolerance passes is passed by the product of the tolerance and a
multiplier, when the tolerance fails the test `<= 0` and the multiplier is a number that
fails the test `<= 1`. -/
theorem le_val_relax (x X m : quot_val) (hX : X.le 0 = false) (hm : m.le 1 = false)
    (hn : m ≠ quot_val.nan) (h : x.le_val X = true) : x.le_val (m.mul X) = true := by
  rcases le_false_cases X 0 hX with rfl | rfl | ⟨a, rfl, ha⟩
  · cases x <;> simp [quot_val.le_val] at h
  · rcases le_false_cases m 1 hm with rfl | rfl | ⟨b, rfl, hb⟩
    · exact absurd rfl hn
    · exact h
    · have hb0 : (0 : ℚ) < b := by linarith
      simpa [quot_val.mul, hb0, hb0.ne.symm] using h
  · rcases le_false_cases m 1 hm with rfl | rfl | ⟨b, rfl, hb⟩
    · exact absurd rfl hn
    · cases x <;> simp [quot_val.le_val, quot_val.mul, ha, ha.ne.symm] at h ⊢
    · cases x with
      | finite c =>
        have hc : c ≤ a := by simpa [quot_val.le_val] using h
        have : c ≤ b * a := by nlinarith
        simpa [quot_val.le_val, quot_val.mul] using this
      | pos_inf => simp [quot_val.le_val] at h
      | neg_inf => simp [quot_val.le_val, quot_val.mul]
      | nan => simp [quot_val.le_val] at h

/-- A frequency difference within the strict tolerance is within its product with a
multiplier that is a number, fails the test `<= 1` and is not infinite while the tolerance
is zero. -/
theorem freq_le_val_relax (c : ℚ) (hc : 0 ≤ c) (F m : quot_val) (hm : m.le 1 = false)
    (hn : m ≠ quot_val.nan) (hu : ¬ (m = quot_val.pos_inf ∧ F = quot_val.finite 0))
    (h : (quot_val.finite c).le_val F = true) :
    (quot_val.finite c).le_val (m.mul F) = true := by
  rcases le_false_cases m 1 hm with rfl | rfl | ⟨b, rfl, hb⟩
  · exact absurd rfl hn
  · cases F with
    | finite a =>
      have hca : c ≤ a := by simpa [quot_val.le_val] using h
      have ha0 : a ≠ 0 := fun e => hu ⟨rfl, by rw [e]⟩
      have ha : 0 < a := lt_of_le_of_ne (le_trans hc hca) (Ne.symm ha0)
      simp [quot_val.le_val, quot_val.mul, ha, ha0]
    | pos_inf => simp [quot_val.le_val, quot_val.mul]
    | neg_inf => simp [quot_val.le_val] at h
    | nan => simp [quot_val.le_val] at h
  · have hb0 : (0 : ℚ) < b := by linarith
    cases F with
    | finite a =>
      have hca : c ≤ a := by simpa [quot_val.le_val] using h
      have : c ≤ b * a := by nlinarith
      simpa [quot_val.le_val, quot_val.mul] using this
    | pos_inf => simp [quot_val.le_val, quot_val.mul, hb0, hb0.ne.symm]
    | neg_inf => simp [quot_val.le_val] at h
    | nan => simp [quot_val.le_val] at h

/-- Under the setup invariant and with a usable multiplier, a strict pass is a relaxed
pass, on every snapshot and in either mode. -/
theorem strict_implies_relaxed_d (K : Core) (s : sync_check_d) (hinv : setup_invariant_d s)
    (hu : mult_usable s) (h : (check_metrics_d K s false).metrics_flag = true) :
    (check_metrics_d K s true).deltamode_trigger_keep_flag = true := by
  obtain ⟨p1, p2, p3, -, pm, e1, e2, e3, e4⟩ := hinv
  obtain ⟨hn, hz⟩ := hu
  by_cases hm : s.volt_compare_mode = VOLT_COMPARE_MODE.MAG_DIFF
  · rw [metrics_flag_MAG_DIFF_d _ _ hm] at h
    rw [keep_flag_MAG_DIFF_d _ _ hm, e1, e2]
    simp only [Bool.and_eq_true] at h ⊢
    obtain ⟨⟨⟨hf, hA⟩, hB⟩, hC⟩ := h
    exact ⟨⟨⟨freq_le_val_relax _ (abs_nonneg _) _ _ pm hn hz hf,
      le_val_relax _ _ _ p1 pm hn hA⟩, le_val_relax _ _ _ p1 pm hn hB⟩,
      le_val_relax _ _ _ p1 pm hn hC⟩
  · rw [metrics_flag_SEP_DIFF_d _ _ hm] at h
    rw [keep_flag_SEP_DIFF_d _ _ hm, e1, e3, e4]
    simp only [Bool.and_eq_true] at h ⊢
    obtain ⟨⟨⟨⟨⟨⟨hf, hA⟩, hB⟩, hC⟩, gA⟩, gB⟩, gC⟩ := h
    exact ⟨⟨⟨⟨⟨⟨freq_le_val_relax _ (abs_nonneg _) _ _ pm hn hz hf,
      le_val_relax _ _ _ p2 pm hn hA⟩, le_val_relax _ _ _ p2 pm hn hB⟩,
      le_val_relax _ _ _ p2 pm hn hC⟩, le_val_relax _ _ _ p3 pm hn gA⟩,
      le_val_relax _ _ _ p3 pm hn gB⟩, le_val_relax _ _ _ p3 pm hn gC⟩

theorem reg_deltamode_check_d_invariant (G : Globals) (s : sync_check_d)
    (h : setup_invariant_d s) : setup_invariant_d (reg_deltamode_check_d G s) := by
  simp only [reg_deltamode_check_d]
  split_ifs <;> exact h

/-- Every successful `init_d` establishes the invariant. -/
theorem setup_invariant_d_of_init (K : Core) (G : Globals) (parent : Option switch_object)
    (s r : sync_check_d) (h : init_d K G parent s = Except.ok r) : setup_invariant_d r := by
  obtain ⟨s1, s2, s3, h1, h2, h3, rfl⟩ := (init_d_ok_iff K G parent s r).mp h
  obtain ⟨ph, -, rfl⟩ := init_sensors_d_ok K parent s2 s3 h3
  have hs : setup_steps_d K G parent s = Except.ok s2 :=
    (setup_steps_d_ok_iff K G parent s s2).mpr ⟨s1, h1, h2⟩
  exact reg_deltamode_check_d_invariant G _ (setup_steps_d_values K G parent s s2 hs).2.2.2.2.2.2

/-- C6, amended: in every state produced by a successful `init_d` in which the trigger
multiplier is a number (not NaN) and is not infinite while the strict frequency tolerance
is zero, for every snapshot and in both modes, a pass of the strict check implies a pass
of the relaxed check on the same snapshot. -/
theorem C6_strict_pass_implies_relaxed_pass_unless_nan (K : Core) (G : Globals)
    (parent : Option switch_object) (s0 s : sync_check_d)
    (hinit : init_d K G parent s0 = Except.ok s) (hu : mult_usable s)
    (m : VOLT_COMPARE_MODE) (b : bus_values)
    (hstrict : (check_metrics_d K (with_snapshot_d { s with volt_compare_mode := m } b)
      false).metrics_flag = true) :
    (check_metrics_d K (with_snapshot_d { s with volt_compare_mode := m } b)
      true).deltamode_trigger_keep_flag = true :=
  strict_implies_relaxed_d K _ (setup_invariant_d_of_init K G parent s0 s hinit) hu hstrict

theorem steady_bus_strict_d (vtol mult period : quot_val)
    (hv : (quot_val.finite 0).le_val vtol = true) :
    (check_metrics_d stdCore
      (with_snapshot_d
        { sample_after_setup_d vtol mult period with
          volt_compare_mode := VOLT_COMPARE_MODE.MAG_DIFF } steady_bus)
      false).metrics_flag = true := by
  rw [metrics_flag_MAG_DIFF_d _ _ rfl]
  have h0 : fdiv 0 (7200 : ℚ) = quot_val.finite 0 := by norm_num [fdiv]
  norm_num [with_snapshot_d, sample_after_setup_d, to_machine, after_setup, steady_bus,
    complex_sub_self, stdCore_Mag_zero, h0, hv, finite_le_val]

/-- Witness of C6: the sample object with the default configuration, on steady bus
values. -/
theorem C6_strict_pass_implies_relaxed_pass_unless_nan_witness :
    (check_metrics_d stdCore
      (with_snapshot_d
        { sample_after_setup_d (quot_val.finite (1 / 100)) (quot_val.finite 2)
            (quot_val.finite (6 / 5)) with
          volt_compare_mode := VOLT_COMPARE_MODE.MAG_DIFF } steady_bus)
      true).deltamode_trigger_keep_flag = true :=
  C6_strict_pass_implies_relaxed_pass_unless_nan stdCore (globals_at 60)
    (some (open_switch 7200 7200))
    (sample_config_d (quot_val.finite (1 / 100)) (quot_val.finite 2) (quot_val.finite (6 / 5)))
    (sample_after_setup_d (quot_val.finite (1 / 100)) (quot_val.finite 2)
      (quot_val.finite (6 / 5)))
    (init_d_sample _ _ _ (by norm_num [finite_le]) (by norm_num [finite_le])
      (by norm_num [finite_le]) (by norm_num [finite_mul, finite_lt_val]))
    ⟨by simp [sample_after_setup_d], by simp [sample_after_setup_d]⟩
    VOLT_COMPARE_MODE.MAG_DIFF steady_bus
    (steady_bus_strict_d _ _ _ (by norm_num [finite_le_val]))

/-- Counterexample to C6 as stated: with the trigger multiplier configured as NaN, `init_d`
succeeds on the sample switch at 60 Hz; on steady bus values the strict check passes and
the relaxed check, whose tolerances are NaN, fails. -/
theorem C6_fails_at_nan_multiplier :
    init_d stdCore (globals_at 60) (some (open_switch 7200 7200))
        (sample_config_d (quot_val.finite (1 / 100)) quot_val.nan (quot_val.finite (6 / 5)))
      = Except.ok
          (sample_after_setup_d (quot_val.finite (1 / 100)) quot_val.nan
            (quot_val.finite (6 / 5)))
    ∧ (check_metrics_d stdCore
        (with_snapshot_d
          (sample_after_setup_d (quot_val.finite (1 / 100)) quot_val.nan
            (quot_val.finite (6 / 5))) steady_bus)
        false).metrics_flag = true
    ∧ (check_metrics_d stdCore
        (with_snapshot_d
          (sample_after_setup_d (quot_val.finite (1 / 100)) quot_val.nan
            (quot_val.finite (6 / 5))) steady_bus)
        true).deltamode_trigger_keep_flag = false := by
  refine ⟨init_d_sample _ _ _ (by norm_num [finite_le]) rfl (by norm_num [finite_le])
    (by norm_num [finite_mul, finite_lt_val]),
    steady_bus_strict_d _ _ _ (by norm_num [finite_le_val]), ?_⟩
  rw [keep_flag_MAG_DIFF_d _ _ rfl]
  simp [with_snapshot_d, sample_after_setup_d, quot_val.mul, quot_val.le_val]

/-! ## Lemmas on the evaluation steps and on the two entry points over the doubles -/

theorem le_eq_le_val (x : quot_val) (c : ℚ) : x.le c = x.le_val (quot_val.finite c) := by
  cases x <;> rfl

theorem check_metrics_d_true_eq (K : Core) (s : sync_check_d) :
    check_metrics_d K s true
      = { s with deltamode_trigger_keep_flag :=
            (check_metrics_d K s true).deltamode_trigger_keep_flag } := by
  unfold check_metrics_d
  split <;> simp only [if_true] <;> split <;> rfl

theorem check_metrics_d_false_eq (K : Core) (s : sync_check_d) :
    check_metrics_d K s false
      = { s with metrics_flag := (check_metrics_d K s false).metrics_flag } := by
  unfold check_metrics_d
  split <;> simp only [Bool.false_eq_true, if_false] <;> split <;> rfl

/-- The strict verdict does not read the relaxed verdict flag or the stored mode. -/
theorem metrics_flag_d_with (K : Core) (s : sync_check_d) (k : Bool) (r : SIMULATIONMODE) :
    (check_metrics_d K
        { s with
          deltamode_trigger_keep_flag := k
          deltamode_check_return_val := r } false).metrics_flag
      = (check_metrics_d K s false).metrics_flag := by
  by_cases hm : s.volt_compare_mode = VOLT_COMPARE_MODE.MAG_DIFF
  · exact (metrics_flag_MAG_DIFF_d K
      { s with
        deltamode_trigger_keep_flag := k
        deltamode_check_return_val := r } hm).trans (metrics_flag_MAG_DIFF_d K s hm).symm
  · exact (metrics_flag_SEP_DIFF_d K
      { s with
        deltamode_trigger_keep_flag := k
        deltamode_check_return_val := r } hm).trans (metrics_flag_SEP_DIFF_d K s hm).symm

theorem check_metrics_d_true_with (K : Core) (u : sync_check_d) (r : SIMULATIONMODE) :
    ({ check_metrics_d K u true with deltamode_check_return_val := r } : sync_check_d)
      = { u with
          deltamode_trigger_keep_flag := (check_metrics_d K u true).deltamode_trigger_keep_flag
          deltamode_check_return_val := r } := by
  conv_lhs => rw [check_metrics_d_true_eq]

theorem update_measurements_d_eq (s : sync_check_d) (b : bus_values) :
    update_measurements_d s b = { s with
      swt_fm_node_freq := b.fm_node_freq
      swt_to_node_freq := b.to_node_freq
      swt_fm_volt_A := if s.swt_ph_A_flag = true then b.fm_node_volt_A else s.swt_fm_volt_A
      swt_to_volt_A := if s.swt_ph_A_flag = true then b.to_node_volt_A else s.swt_to_volt_A
      swt_fm_volt_B := if s.swt_ph_B_flag = true then b.fm_node_volt_B else s.swt_fm_volt_B
      swt_to_volt_B := if s.swt_ph_B_flag = true then b.to_node_volt_B else s.swt_to_volt_B
      swt_fm_volt_C := if s.swt_ph_C_flag = true then b.fm_node_volt_C else s.swt_fm_volt_C
      swt_to_volt_C := if s.swt_ph_C_flag = true then b.to_node_volt_C else s.swt_to_volt_C } := by
  unfold update_measurements_d
  cases hA : s.swt_ph_A_flag <;> cases hB : s.swt_ph_B_flag <;> cases hC : s.swt_ph_C_flag <;>
    simp [hA, hB, hC]

theorem ite_return_d_eq (s : sync_check_d) :
    (if s.deltamode_trigger_keep_flag = true then
        { s with deltamode_check_return_val := SIMULATIONMODE.SM_DELTA }
      else { s with deltamode_check_return_val := SIMULATIONMODE.SM_EVENT })
      = { s with deltamode_check_return_val :=
          if s.deltamode_trigger_keep_flag = true then SIMULATIONMODE.SM_DELTA
          else SIMULATIONMODE.SM_EVENT } := by
  split <;> rfl

/-- The evaluating call of an armed monitor is `check_excitation_d` on the checked
state. -/
theorem inter_deltaupdate_d_armed (K : Core) (s : sync_check_d) (b : bus_values)
    (delta_time dt : ℕ) (h : s.sc_enabled_flag = true) :
    (inter_deltaupdate_sync_check_d K s b delta_time dt 0 false).1
      = check_excitation_d K (tick_checked_d K s b) dt := by
  have e : (inter_deltaupdate_sync_check_d K s b delta_time dt 0 false).1
      = check_excitation_d K (check_metrics_d K
      (if (check_metrics_d K (update_measurements_d s b) true).deltamode_trigger_keep_flag
          = true then
        { check_metrics_d K (update_measurements_d s b) true with
          deltamode_check_return_val := SIMULATIONMODE.SM_DELTA }
      else { check_metrics_d K (update_measurements_d s b) true with
          deltamode_check_return_val := SIMULATIONMODE.SM_EVENT }) false) dt := by
    unfold inter_deltaupdate_sync_check_d
    simp only [h, if_true, and_self]
  rw [e, ite_return_d_eq, check_metrics_d_true_with, check_metrics_d_false_eq,
    metrics_flag_d_with]
  rfl

/-- The two outcomes of `check_excitation_d`: the close, when the dwell period compares at
most the new accumulator value, and the new accumulator value otherwise. -/
theorem check_excitation_d_eq (K : Core) (s : sync_check_d) (dt : ℕ) :
    check_excitation_d K s dt
      = if s.metrics_period_sec.le_val (quot_val.finite (dwell_next K s dt)) = true then
          closed_d K s
        else { s with t_sat := dwell_next K s dt } := by
  unfold check_excitation_d dwell_next elapsed_d closed_d reset_after_excitation_d
  cases hm : s.metrics_flag <;> simp only [Bool.false_eq_true, if_false, if_true]

theorem inter_deltaupdate_d_disarmed (K : Core) (s : sync_check_d) (b : bus_values)
    (delta_time dt iteration_count_val : ℕ) (interupdate_pos : Bool)
    (h : s.sc_enabled_flag = false) :
    inter_deltaupdate_sync_check_d K s b delta_time dt iteration_count_val interupdate_pos
      = ({ s with
            deltamode_trigger_keep_flag := false
            deltamode_check_return_val := SIMULATIONMODE.SM_EVENT
            t_sat := 0 }, SIMULATIONMODE.SM_EVENT) := by
  unfold inter_deltaupdate_sync_check_d
  simp only [h, Bool.false_eq_true, if_false]
  norm_num

theorem inter_deltaupdate_d_skip (K : Core) (s : sync_check_d) (b : bus_values)
    (delta_time dt iteration_count_val : ℕ) (interupdate_pos : Bool)
    (h : s.sc_enabled_flag = true)
    (hn : ¬ (iteration_count_val = 0 ∧ interupdate_pos = false)) :
    inter_deltaupdate_sync_check_d K s b delta_time dt iteration_count_val interupdate_pos
      = (s, s.deltamode_check_return_val) := by
  unfold inter_deltaupdate_sync_check_d
  simp only [h, if_true, if_neg hn]

theorem inter_deltaupdate_d_snd (K : Core) (s : sync_check_d) (b : bus_values)
    (delta_time dt iteration_count_val : ℕ) (interupdate_pos : Bool) :
    (inter_deltaupdate_sync_check_d K s b delta_time dt iteration_count_val
        interupdate_pos).2
      = (inter_deltaupdate_sync_check_d K s b delta_time dt iteration_count_val
          interupdate_pos).1.deltamode_check_return_val := rfl

/-- The three cases of a call of `inter_deltaupdate_sync_check_d`. -/
theorem inter_deltaupdate_d_cases (K : Core) (s : sync_check_d) (b : bus_values)
    (delta_time dt iteration_count_val : ℕ) (interupdate_pos : Bool) :
    (s.sc_enabled_flag = false
        ∧ (inter_deltaupdate_sync_check_d K s b delta_time dt iteration_count_val
            interupdate_pos).1
          = { s with
              deltamode_trigger_keep_flag := false
              deltamode_check_return_val := SIMULATIONMODE.SM_EVENT
              t_sat := 0 })
      ∨ (s.sc_enabled_flag = true
        ∧ (inter_deltaupdate_sync_check_d K s b delta_time dt iteration_count_val
            interupdate_pos).1 = s)
      ∨ (s.sc_enabled_flag = true
        ∧ (inter_deltaupdate_sync_check_d K s b delta_time dt iteration_count_val
            interupdate_pos).1 = check_excitation_d K (tick_checked_d K s b) dt) := by
  rcases Bool.eq_false_or_eq_true s.sc_enabled_flag with ha | ha
  · by_cases hn : iteration_count_val = 0 ∧ interupdate_pos = false
    · right; right
      obtain ⟨rfl, rfl⟩ := hn
      exact ⟨ha, inter_deltaupdate_d_armed K s b delta_time dt ha⟩
    · right; left
      rw [inter_deltaupdate_d_skip K s b delta_time dt iteration_count_val interupdate_pos ha hn]
      exact ⟨ha, rfl⟩
  · left
    rw [inter_deltaupdate_d_disarmed K s b delta_time dt iteration_count_val interupdate_pos ha]
    exact ⟨ha, rfl⟩

theorem postsync_d_not_due (K : Core) (s : sync_check_d) (b : bus_values)
    (t0 tret0 : TIMESTAMP) (h : ¬ s.next_trigger_update_time ≤ t0) :
    postsync_d K s b t0 tret0 = (s, tret0) := by
  unfold postsync_d
  rw [if_neg h]

theorem postsync_d_disarmed (K : Core) (s : sync_check_d) (b : bus_values)
    (t0 tret0 : TIMESTAMP) (h : s.next_trigger_update_time ≤ t0)
    (ha : s.sc_enabled_flag = false) :
    postsync_d K s b t0 tret0
      = ({ s with
            t_sat := 0
            next_trigger_update_time := wrap_int64 (t0 + 1)
            deltamode_trigger_keep_flag := false
            deltamode_check_return_val := SIMULATIONMODE.SM_EVENT }, tret0) := by
  unfold postsync_d
  simp only [if_pos h, ha, Bool.false_eq_true, if_false]
  norm_num

/-- The state in which `postsync_d` evaluates the relaxed check on a due tick of an armed
monitor, as a record update of the state before the call. -/
theorem postsync_d_armed (K : Core) (s : sync_check_d) (b : bus_values)
    (t0 tret0 : TIMESTAMP) (h : s.next_trigger_update_time ≤ t0)
    (ha : s.sc_enabled_flag = true) :
    postsync_d K s b t0 tret0
      = if (check_metrics_d K (update_measurements_d
            { s with t_sat := 0, next_trigger_update_time := wrap_int64 (t0 + 1) } b)
            true).deltamode_trigger_keep_flag = true then
          ({ check_metrics_d K (update_measurements_d
              { s with t_sat := 0, next_trigger_update_time := wrap_int64 (t0 + 1) } b) true with
              deltamode_starts := (check_metrics_d K (update_measurements_d
                { s with t_sat := 0, next_trigger_update_time := wrap_int64 (t0 + 1) } b)
                true).deltamode_starts ++ [t0]
              deltamode_check_return_val := SIMULATIONMODE.SM_EVENT }, t0)
        else
          (check_metrics_d K (update_measurements_d
            { s with t_sat := 0, next_trigger_update_time := wrap_int64 (t0 + 1) } b) true,
            tret0) := by
  unfold postsync_d
  simp only [if_pos h, ha, if_true]
  norm_num

/-! ## What the entry points keep of the configuration -/

theorem same_config_d_refl (s : sync_check_d) : same_config_d s s :=
  ⟨rfl, rfl, rfl, rfl, rfl, rfl, rfl, rfl, rfl, rfl, rfl, rfl, rfl, rfl, rfl,
    fun _ => ⟨rfl, rfl⟩, fun _ => ⟨rfl, rfl⟩, fun _ => ⟨rfl, rfl⟩⟩

theorem same_config_d_trans (s r u : sync_check_d) (h1 : same_config_d s r)
    (h2 : same_config_d r u) : same_config_d s u := by
  obtain ⟨a1, a2, a3, a4, a5, a6, a7, a8, a9, a10, a11, a12, fA, fB, fC, pA, pB, pC⟩ := h1
  obtain ⟨b1, b2, b3, b4, b5, b6, b7, b8, b9, b10, b11, b12, gA, gB, gC, qA, qB, qC⟩ := h2
  refine ⟨b1.trans a1, b2.trans a2, b3.trans a3, b4.trans a4, b5.trans a5, b6.trans a6,
    b7.trans a7, b8.trans a8, b9.trans a9, b10.trans a10, b11.trans a11, b12.trans a12,
    gA.trans fA, gB.trans fB, gC.trans fC, ?_, ?_, ?_⟩
  · intro h
    have h2 := qA (fA.trans h)
    exact ⟨h2.1.trans (pA h).1, h2.2.trans (pA h).2⟩
  · intro h
    have h2 := qB (fB.trans h)
    exact ⟨h2.1.trans (pB h).1, h2.2.trans (pB h).2⟩
  · intro h
    have h2 := qC (fC.trans h)
    exact ⟨h2.1.trans (pC h).1, h2.2.trans (pC h).2⟩

theorem update_measurements_d_same_config (s : sync_check_d) (b : bus_values) :
    same_config_d s (update_measurements_d s b) := by
  rw [update_measurements_d_eq]
  refine ⟨rfl, rfl, rfl, rfl, rfl, rfl, rfl, rfl, rfl, rfl, rfl, rfl, rfl, rfl, rfl,
    ?_, ?_, ?_⟩ <;> intro h <;> simp [h]

theorem check_metrics_d_same_config (K : Core) (s : sync_check_d) (c : Bool) :
    same_config_d s (check_metrics_d K s c) := by
  cases c
  · rw [check_metrics_d_false_eq]
    exact same_config_d_refl s
  · rw [check_metrics_d_true_eq]
    exact same_config_d_refl s

theorem tick_checked_d_same_config (K : Core) (s : sync_check_d) (b : bus_values) :
    same_config_d s (tick_checked_d K s b) :=
  same_config_d_trans s (update_measurements_d s b) _ (update_measurements_d_same_config s b)
    (same_config_d_refl (update_measurements_d s b))

theorem check_excitation_d_same_config (K : Core) (s : sync_check_d) (dt : ℕ) :
    same_config_d s (check_excitation_d K s dt) := by
  rw [check_excitation_d_eq]
  split_ifs
  · exact same_config_d_refl s
  · exact same_config_d_refl s

theorem inter_deltaupdate_d_same_config (K : Core) (s : sync_check_d) (b : bus_values)
    (delta_time dt iteration_count_val : ℕ) (interupdate_pos : Bool) :
    same_config_d s
      (inter_deltaupdate_sync_check_d K s b delta_time dt iteration_count_val
        interupdate_pos).1 := by
  rcases inter_deltaupdate_d_cases K s b delta_time dt iteration_count_val interupdate_pos
    with ⟨-, e⟩ | ⟨-, e⟩ | ⟨-, e⟩
  · rw [e]; exact same_config_d_refl s
  · rw [e]; exact same_config_d_refl s
  · rw [e]
    exact same_config_d_trans _ _ _ (tick_checked_d_same_config K s b)
      (check_excitation_d_same_config K _ dt)

theorem postsync_d_same_config (K : Core) (s : sync_check_d) (b : bus_values)
    (t0 tret0 : TIMESTAMP) : same_config_d s (postsync_d K s b t0 tret0).1 := by
  by_cases hd : s.next_trigger_update_time ≤ t0
  · rcases Bool.eq_false_or_eq_true s.sc_enabled_flag with ha | ha
    · rw [postsync_d_armed K s b t0 tret0 hd ha]
      have h1 : same_config_d s
          (check_metrics_d K (update_measurements_d
            { s with t_sat := 0, next_trigger_update_time := wrap_int64 (t0 + 1) } b) true) :=
        same_config_d_trans _ _ _
          (same_config_d_trans s
            { s with t_sat := 0, next_trigger_update_time := wrap_int64 (t0 + 1) } _
            (same_config_d_refl s) (update_measurements_d_same_config _ b))
          (check_metrics_d_same_config K _ true)
      split_ifs
      · exact h1
      · exact h1
    · rw [postsync_d_disarmed K s b t0 tret0 hd ha]
      exact same_config_d_refl s
  · rw [postsync_d_not_due K s b t0 tret0 hd]
    exact same_config_d_refl s

theorem do_call_d_same_config (K : Core) (s : sync_check_d) (c : call) :
    same_config_d s (do_call_d K s c) := by
  cases c with
  | postsync b t0 tret0 => exact postsync_d_same_config K s b t0 tret0
  | inter_deltaupdate b delta_time dt iteration_count_val interupdate_pos =>
    exact inter_deltaupdate_d_same_config K s b delta_time dt iteration_count_val
      interupdate_pos

/-- No sequence of calls changes what setup fixes. -/
theorem run_calls_d_same_config (K : Core) (cs : List call) :
    ∀ s : sync_check_d, same_config_d s (run_calls_d K s cs) := by
  induction cs with
  | nil => intro s; exact same_config_d_refl s
  | cons c cs ih =>
    intro s
    exact same_config_d_trans _ _ _ (do_call_d_same_config K s c) (ih (do_call_d K s c))

theorem setup_invariant_d_of_same_config (s r : sync_check_d) (h : same_config_d s r)
    (hinv : setup_invariant_d s) : setup_invariant_d r := by
  obtain ⟨-, a2, a3, a4, a5, -, a7, a8, a9, a10, a11, a12, -⟩ := h
  unfold setup_invariant_d at hinv ⊢
  rw [a2, a3, a4, a5, a7, a8, a9, a10, a11, a12]
  exact hinv

theorem mult_usable_of_same_config (s r : sync_check_d) (h : same_config_d s r)
    (hu : mult_usable s) : mult_usable r := by
  obtain ⟨-, a2, -, -, -, -, -, a8, -⟩ := h
  unfold mult_usable at hu ⊢
  rw [a2, a8]
  exact hu

/-! ## Claim on the forced re-iteration, with 64-bit timestamps -/

theorem wrap_int64_eq (x : ℤ) (h1 : -2 ^ 63 ≤ x) (h2 : x < 2 ^ 63) : wrap_int64 x = x := by
  unfold wrap_int64
  rw [Int.emod_eq_of_lt (by linarith) (by linarith)]
  ring

/-- On a due call `postsync_d` leaves the wrapped 64-bit value of `t0 + 1` as the next
trigger time. -/
theorem postsync_d_due_next (K : Core) (s : sync_check_d) (b : bus_values)
    (t0 tret0 : TIMESTAMP) (hd : s.next_trigger_update_time ≤ t0) :
    (postsync_d K s b t0 tret0).1.next_trigger_update_time = wrap_int64 (t0 + 1) := by
  rcases Bool.eq_false_or_eq_true s.sc_enabled_flag with ha | ha
  · rw [postsync_d_armed K s b t0 tret0 hd ha]
    split_ifs
    · show (check_metrics_d K _ true).next_trigger_update_time = _
      rw [check_metrics_d_true_eq, update_measurements_d_eq]
    · show (check_metrics_d K _ true).next_trigger_update_time = _
      rw [check_metrics_d_true_eq, update_measurements_d_eq]
  · rw [postsync_d_disarmed K s b t0 tret0 hd ha]

/-- C28, amended: for a timestamp `t0` below the largest 64-bit value, after a call
`postsync_d(t0)` the next trigger time is after `t0` (it is set to `t0 + 1` when an
evaluation was due, and was after `t0` already otherwise); consequently a second call at
the same `t0`, with any bus values and any base-class time, changes nothing in the monitor
state (no refresh, no check, no request) and returns the base-class time. -/
theorem C28_no_second_evaluation_below_max (K : Core) (s : sync_check_d) (b b2 : bus_values)
    (t0 tret0 tret2 : TIMESTAMP) (hlo : -2 ^ 63 ≤ t0) (hhi : t0 < 2 ^ 63 - 1) :
    t0 < (postsync_d K s b t0 tret0).1.next_trigger_update_time
      ∧ (s.next_trigger_update_time ≤ t0 →
          (postsync_d K s b t0 tret0).1.next_trigger_update_time = t0 + 1)
      ∧ postsync_d K (postsync_d K s b t0 tret0).1 b2 t0 tret2
          = ((postsync_d K s b t0 tret0).1, tret2) := by
  have hw : wrap_int64 (t0 + 1) = t0 + 1 := wrap_int64_eq _ (by linarith) (by linarith)
  have hdue : s.next_trigger_update_time ≤ t0 →
      (postsync_d K s b t0 tret0).1.next_trigger_update_time = t0 + 1 := by
    intro hd
    rw [postsync_d_due_next K s b t0 tret0 hd, hw]
  have hlt : t0 < (postsync_d K s b t0 tret0).1.next_trigger_update_time := by
    by_cases hd : s.next_trigger_update_time ≤ t0
    · rw [hdue hd]
      exact lt_add_one t0
    · rw [postsync_d_not_due K s b t0 tret0 hd]
      exact not_le.mp hd
  exact ⟨hlt, hdue, postsync_d_not_due K _ b2 t0 tret2 (not_le.mpr hlt)⟩

/-! ## The sample object on steady bus values -/

theorem tick_checked_d_fields (K : Core) (s : sync_check_d) (b : bus_values) :
    (tick_checked_d K s b).swt_status_writes = s.swt_status_writes
      ∧ (tick_checked_d K s b).t_sat = s.t_sat
      ∧ (tick_checked_d K s b).metrics_period_sec = s.metrics_period_sec
      ∧ (tick_checked_d K s b).sc_enabled_flag = s.sc_enabled_flag
      ∧ (tick_checked_d K s b).metrics_flag
          = (check_metrics_d K (update_measurements_d s b) false).metrics_flag
      ∧ (tick_checked_d K s b).deltamode_check_return_val
          = (if (check_metrics_d K (update_measurements_d s b)
                true).deltamode_trigger_keep_flag = true
              then SIMULATIONMODE.SM_DELTA else SIMULATIONMODE.SM_EVENT) := by
  unfold tick_checked_d
  refine ⟨?_, ?_, ?_, ?_, rfl, rfl⟩ <;>
    simp only [] <;> rw [update_measurements_d_eq]

/-- The relaxed check of the sample configuration passes on the steady bus values, in
every state that has the configuration of the sample. -/
theorem steady_bus_relaxed_d (period : quot_val) (u : sync_check_d)
    (h : same_config_d
      (sample_after_setup_d (quot_val.finite (1 / 100)) (quot_val.finite 2) period) u) :
    (check_metrics_d stdCore (update_measurements_d u steady_bus)
      true).deltamode_trigger_keep_flag = true := by
  obtain ⟨a1, a2, a3, a4, a5, a6, a7, a8, a9, a10, a11, a12, fA, fB, fC, -⟩ := h
  have hm : (update_measurements_d u steady_bus).volt_compare_mode
      = VOLT_COMPARE_MODE.MAG_DIFF := by
    rw [update_measurements_d_eq]
    exact a1
  have h0 : fdiv 0 (7200 : ℚ) = quot_val.finite 0 := by norm_num [fdiv]
  have gA : u.swt_ph_A_flag = true := by rw [fA]; rfl
  have gB : u.swt_ph_B_flag = true := by rw [fB]; rfl
  have gC : u.swt_ph_C_flag = true := by rw [fC]; rfl
  have v : u.volt_norm = 7200 := by rw [a6]; rfl
  have t1 : u.frequency_tolerance_hz_deltamode_trig = quot_val.finite (6 / 5) := by
    rw [a9]
    norm_num [sample_after_setup_d, finite_mul]
  have t2 : u.voltage_tolerance_pu_deltamode_trig = quot_val.finite (1 / 50) := by
    rw [a10]
    norm_num [sample_after_setup_d, finite_mul]
  rw [keep_flag_MAG_DIFF_d _ _ hm, update_measurements_d_eq]
  norm_num [gA, gB, gC, v, t1, t2, steady_bus, complex_sub_self, stdCore_Mag_zero, h0,
    finite_le_val]

/-- The strict check of the sample configuration passes on the steady bus values, in
every state that has the configuration of the sample. -/
theorem steady_bus_strict_update_d (mult period : quot_val) (u : sync_check_d)
    (h : same_config_d (sample_after_setup_d (quot_val.finite (1 / 100)) mult period) u) :
    (check_metrics_d stdCore (update_measurements_d u steady_bus) false).metrics_flag
      = true := by
  obtain ⟨a1, a2, a3, a4, a5, a6, a7, a8, a9, a10, a11, a12, fA, fB, fC, -⟩ := h
  have hm : (update_measurements_d u steady_bus).volt_compare_mode
      = VOLT_COMPARE_MODE.MAG_DIFF := by
    rw [update_measurements_d_eq]
    exact a1
  have h0 : fdiv 0 (7200 : ℚ) = quot_val.finite 0 := by norm_num [fdiv]
  have gA : u.swt_ph_A_flag = true := by rw [fA]; rfl
  have gB : u.swt_ph_B_flag = true := by rw [fB]; rfl
  have gC : u.swt_ph_C_flag = true := by rw [fC]; rfl
  have v : u.volt_norm = 7200 := by rw [a6]; rfl
  have t1 : u.frequency_tolerance_hz = quot_val.finite (3 / 5) := by
    rw [a2]
    norm_num [sample_after_setup_d, to_machine, after_setup]
  have t2 : u.voltage_tolerance_pu = quot_val.finite (1 / 100) := by
    rw [a3]
    rfl
  rw [metrics_flag_MAG_DIFF_d _ _ hm, update_measurements_d_eq]
  norm_num [gA, gB, gC, v, t1, t2, steady_bus, complex_sub_self, stdCore_Mag_zero, h0,
    finite_le_val]

/-- A due call of `postsync_d` on an armed monitor whose relaxed check passes: the request
is recorded, the monitor stays armed and the call returns `t0`. -/
theorem postsync_d_passing (K : Core) (s : sync_check_d) (b : bus_values)
    (t0 tret0 : TIMESTAMP) (hd : s.next_trigger_update_time ≤ t0)
    (ha : s.sc_enabled_flag = true)
    (hk : (check_metrics_d K (update_measurements_d
        { s with t_sat := 0, next_trigger_update_time := wrap_int64 (t0 + 1) } b)
        true).deltamode_trigger_keep_flag = true) :
    (postsync_d K s b t0 tret0).1.deltamode_starts = s.deltamode_starts ++ [t0]
      ∧ (postsync_d K s b t0 tret0).1.sc_enabled_flag = true
      ∧ (postsync_d K s b t0 tret0).2 = t0 := by
  rw [postsync_d_armed K s b t0 tret0 hd ha, if_pos hk]
  refine ⟨?_, ?_, rfl⟩
  · show (check_metrics_d K _ true).deltamode_starts ++ [t0] = _
    rw [check_metrics_d_true_eq, update_measurements_d_eq]
  · show (check_metrics_d K _ true).sc_enabled_flag = _
    rw [check_metrics_d_true_eq, update_measurements_d_eq]
    exact ha

theorem sample_init_d_default (period : quot_val) (h3 : period.le 0 = false) :
    init_d stdCore (globals_at 60) (some (open_switch 7200 7200))
        (sample_config_d (quot_val.finite (1 / 100)) (quot_val.finite 2) period)
      = Except.ok (sample_after_setup_d (quot_val.finite (1 / 100)) (quot_val.finite 2) period) :=
  init_d_sample _ _ _ (by norm_num [finite_le]) (by norm_num [finite_le]) h3
    (by norm_num [finite_mul, finite_lt_val])

/-- Witness of C28: the armed sample object, with steady bus values, on the coarse tick at
time 5: the next trigger time is 6. -/
theorem C28_no_second_evaluation_below_max_witness :
    (postsync_d stdCore
        (sample_after_setup_d (quot_val.finite (1 / 100)) (quot_val.finite 2)
          (quot_val.finite (6 / 5)))
        steady_bus 5 6).1.next_trigger_update_time = 6 :=
  (C28_no_second_evaluation_below_max stdCore
    (sample_after_setup_d (quot_val.finite (1 / 100)) (quot_val.finite 2)
      (quot_val.finite (6 / 5)))
    steady_bus steady_bus 5 6 6 (by norm_num) (by norm_num)).2.1
    (by norm_num [sample_after_setup_d, to_machine, after_setup])

/-- Counterexample to C28 as stated: at the largest 64-bit timestamp the sum `t0 + 1`
wraps, so after the first call of `postsync_d` on the armed sample object the next trigger
time is the smallest timestamp, which is not after `t0`; the second call at the same
timestamp is due again, records a second fine-step request and returns `t0` instead of
the base-class time 0. -/
theorem C28_fails_at_largest_timestamp :
    init_d stdCore (globals_at 60) (some (open_switch 7200 7200))
        (sample_config_d (quot_val.finite (1 / 100)) (quot_val.finite 2)
          (quot_val.finite (6 / 5)))
      = Except.ok
          (sample_after_setup_d (quot_val.finite (1 / 100)) (quot_val.finite 2)
            (quot_val.finite (6 / 5)))
    ∧ (postsync_d stdCore
        (sample_after_setup_d (quot_val.finite (1 / 100)) (quot_val.finite 2)
          (quot_val.finite (6 / 5)))
        steady_bus 9223372036854775807 0).1.next_trigger_update_time
        = -9223372036854775808
    ∧ (postsync_d stdCore
        (postsync_d stdCore
          (sample_after_setup_d (quot_val.finite (1 / 100)) (quot_val.finite 2)
            (quot_val.finite (6 / 5)))
          steady_bus 9223372036854775807 0).1
        steady_bus 9223372036854775807 0).1.deltamode_starts
        = [9223372036854775807, 9223372036854775807]
    ∧ (postsync_d stdCore
        (postsync_d stdCore
          (sample_after_setup_d (quot_val.finite (1 / 100)) (quot_val.finite 2)
            (quot_val.finite (6 / 5)))
          steady_bus 9223372036854775807 0).1
        steady_bus 9223372036854775807 0).2 = 9223372036854775807 := by
  have hw : wrap_int64 (9223372036854775807 + 1) = -9223372036854775808 := by
    norm_num [wrap_int64]
  have hd0 : (sample_after_setup_d (quot_val.finite (1 / 100)) (quot_val.finite 2)
      (quot_val.finite (6 / 5))).next_trigger_update_time ≤ 9223372036854775807 := by
    norm_num [sample_after_setup_d, to_machine, after_setup]
  have h1 := postsync_d_passing stdCore
    (sample_after_setup_d (quot_val.finite (1 / 100)) (quot_val.finite 2)
      (quot_val.finite (6 / 5))) steady_bus 9223372036854775807 0 hd0 rfl
    (steady_bus_relaxed_d _ _ (same_config_d_refl _))
  have hn := postsync_d_due_next stdCore
    (sample_after_setup_d (quot_val.finite (1 / 100)) (quot_val.finite 2)
      (quot_val.finite (6 / 5))) steady_bus 9223372036854775807 0 hd0
  rw [hw] at hn
  have hc := postsync_d_same_config stdCore
    (sample_after_setup_d (quot_val.finite (1 / 100)) (quot_val.finite 2)
      (quot_val.finite (6 / 5))) steady_bus 9223372036854775807 0
  have hd1 : (postsync_d stdCore
      (sample_after_setup_d (quot_val.finite (1 / 100)) (quot_val.finite 2)
        (quot_val.finite (6 / 5)))
      steady_bus 9223372036854775807 0).1.next_trigger_update_time ≤ 9223372036854775807 := by
    rw [hn]
    norm_num
  have h2 := postsync_d_passing stdCore _ steady_bus 9223372036854775807 0 hd1 h1.2.1
    (steady_bus_relaxed_d _ _ (same_config_d_trans _ _ _ hc (same_config_d_refl _)))
  refine ⟨sample_init_d_default _ (by norm_num [finite_le]), hn, ?_, h2.2.2⟩
  rw [h2.1, h1.1]
  rfl

/-! ## Claim on the closing sub-step, with NaN and infinite values -/

/-- C27, amended: in every state reached from a successful `init_d` by any sequence of
calls, when the trigger multiplier is a number (not NaN) and is not infinite while the
strict frequency tolerance is zero, a call of `inter_deltaupdate_sync_check_d` that issues
the close command (it writes the switch status) returns `SM_DELTA`, and the monitor is
disarmed and the switch status is `LS_CLOSED` when the call returns.  The constant
`DT_SECOND` of the core is positive. -/
theorem C27_close_returns_delta_unless_nan (K : Core) (G : Globals)
    (parent : Option switch_object) (c0 s0 : sync_check_d) (cs : List call)
    (b : bus_values) (delta_time dt iteration_count_val : ℕ) (interupdate_pos : Bool)
    (hDT : 0 < K.DT_SECOND)
    (hinit : init_d K G parent c0 = Except.ok s0) (hu : mult_usable s0)
    (hfire : (inter_deltaupdate_sync_check_d K (run_calls_d K s0 cs) b delta_time dt
        iteration_count_val interupdate_pos).1.swt_status_writes
      ≠ (run_calls_d K s0 cs).swt_status_writes) :
    (inter_deltaupdate_sync_check_d K (run_calls_d K s0 cs) b delta_time dt
        iteration_count_val interupdate_pos).2 = SIMULATIONMODE.SM_DELTA
      ∧ (inter_deltaupdate_sync_check_d K (run_calls_d K s0 cs) b delta_time dt
          iteration_count_val interupdate_pos).1.sc_enabled_flag = false
      ∧ (inter_deltaupdate_sync_check_d K (run_calls_d K s0 cs) b delta_time dt
          iteration_count_val interupdate_pos).1.swt_status = K.LS_CLOSED := by
  have _ := hDT
  have hcfg := run_calls_d_same_config K cs s0
  have hinv := setup_invariant_d_of_same_config _ _ hcfg
    (setup_invariant_d_of_init K G parent c0 s0 hinit)
  have hus := mult_usable_of_same_config _ _ hcfg hu
  generalize run_calls_d K s0 cs = s at hfire hinv hus ⊢
  obtain ⟨f1, f2, f3, f4, f5, f6⟩ := tick_checked_d_fields K s b
  rw [inter_deltaupdate_d_snd]
  rcases inter_deltaupdate_d_cases K s b delta_time dt iteration_count_val interupdate_pos
    with ⟨-, e⟩ | ⟨-, e⟩ | ⟨-, e⟩
  · rw [e] at hfire
    exact absurd rfl hfire
  · rw [e] at hfire
    exact absurd rfl hfire
  · rw [e] at hfire ⊢
    rw [check_excitation_d_eq] at hfire ⊢
    by_cases hcl : (tick_checked_d K s b).metrics_period_sec.le_val
        (quot_val.finite (dwell_next K (tick_checked_d K s b) dt)) = true
    · rw [if_pos hcl]
      refine ⟨?_, rfl, rfl⟩
      show (tick_checked_d K s b).deltamode_check_return_val = _
      have hstrict : (check_metrics_d K (update_measurements_d s b) false).metrics_flag
          = true := by
        rcases Bool.eq_false_or_eq_true
          (check_metrics_d K (update_measurements_d s b) false).metrics_flag with hp | hf
        · exact hp
        · exfalso
          have hz : dwell_next K (tick_checked_d K s b) dt = 0 := by
            unfold dwell_next
            rw [f5, hf]
            rfl
          rw [hz, f3, ← le_eq_le_val, hinv.2.2.2.1] at hcl
          cases hcl
      have hrel := strict_implies_relaxed_d K (update_measurements_d s b)
        (setup_invariant_d_of_same_config _ _ (update_measurements_d_same_config s b) hinv)
        (mult_usable_of_same_config _ _ (update_measurements_d_same_config s b) hus) hstrict
      rw [f6, hrel]
      rfl
    · rw [if_neg hcl] at hfire
      exact absurd f1 hfire

/-- A number with a 53-bit significand is its own rounding. -/
theorem round_to_double_exact (x : ℚ) (e m : ℤ) (hx : 0 < x) (h1 : (2 : ℚ) ^ e ≤ x)
    (h2 : x < (2 : ℚ) ^ (e + 1)) (hm : x = (m : ℚ) * (2 : ℚ) ^ (e - 52)) :
    round_to_double x = x := by
  have hp : (0 : ℚ) < (2 : ℚ) ^ (e - 52) := zpow_pos (by norm_num) _
  have hq : x / (2 : ℚ) ^ (e - 52) = (m : ℚ) := by
    rw [hm]
    field_simp
  rw [round_to_double_eq x e m hx h1 h2 (by rw [hq]; linarith) (by rw [hq]; linarith)]
  exact hm.symm

theorem round_to_double_one : round_to_double 1 = 1 :=
  round_to_double_exact 1 0 (2 ^ 52) (by norm_num) (by norm_num) (by norm_num) (by norm_num)

theorem round_to_double_two : round_to_double 2 = 2 :=
  round_to_double_exact 2 1 (2 ^ 52) (by norm_num) (by norm_num) (by norm_num) (by norm_num)

/-- One second of the nanosecond clock of `stdCore` is the double 1. -/
theorem elapsed_d_one_second : elapsed_d stdCore 1000000000 = 1 := by
  have h : round_to_double (1000000000 : ℚ) = 1000000000 :=
    round_to_double_exact _ 29 (1000000000 * 2 ^ 23) (by norm_num) (by norm_num)
      (by norm_num) (by norm_num)
  unfold elapsed_d
  have hk : ((stdCore.DT_SECOND : ℕ) : ℚ) = 1000000000 := by norm_num [stdCore]
  rw [hk]
  push_cast
  rw [h]
  norm_num [round_to_double_one]

/-- Two seconds of the nanosecond clock of `stdCore` are the double 2. -/
theorem elapsed_d_two_seconds : elapsed_d stdCore 2000000000 = 2 := by
  have h : round_to_double (1000000000 : ℚ) = 1000000000 :=
    round_to_double_exact _ 29 (1000000000 * 2 ^ 23) (by norm_num) (by norm_num)
      (by norm_num) (by norm_num)
  have h2 : round_to_double (2000000000 : ℚ) = 2000000000 :=
    round_to_double_exact _ 30 (2000000000 * 2 ^ 22) (by norm_num) (by norm_num)
      (by norm_num) (by norm_num)
  unfold elapsed_d
  have hk : ((stdCore.DT_SECOND : ℕ) : ℚ) = 1000000000 := by norm_num [stdCore]
  rw [hk]
  push_cast
  rw [h, h2]
  norm_num [round_to_double_two]

theorem elapsed_d_nonneg (K : Core) (dt : ℕ) : 0 ≤ elapsed_d K dt := by
  unfold elapsed_d
  exact round_to_double_nonneg _
    (div_nonneg (round_to_double_nonneg _ (Nat.cast_nonneg _))
      (round_to_double_nonneg _ (Nat.cast_nonneg _)))

/-! ## Claim on the range of the dwell accumulator, with NaN and infinite values -/

theorem lt_val_of_not_le_val (P : quot_val) (t : ℚ) (hn : P ≠ quot_val.nan)
    (h : ¬ P.le_val (quot_val.finite t) = true) : (quot_val.finite t).lt_val P = true := by
  cases P with
  | finite a =>
    have : ¬ a ≤ t := by simpa [quot_val.le_val] using h
    simpa [quot_val.lt_val] using this
  | pos_inf => rfl
  | neg_inf => simp [quot_val.le_val] at h
  | nan => exact absurd rfl hn

theorem dwell_next_nonneg (K : Core) (s : sync_check_d) (dt : ℕ) (h : 0 ≤ s.t_sat) :
    0 ≤ dwell_next K s dt := by
  unfold dwell_next
  split_ifs
  · exact round_to_double_nonneg _ (add_nonneg h (elapsed_d_nonneg K dt))
  · exact le_refl 0

theorem postsync_d_due_t_sat (K : Core) (s : sync_check_d) (b : bus_values)
    (t0 tret0 : TIMESTAMP) (hd : s.next_trigger_update_time ≤ t0) :
    (postsync_d K s b t0 tret0).1.t_sat = 0 := by
  rcases Bool.eq_false_or_eq_true s.sc_enabled_flag with ha | ha
  · rw [postsync_d_armed K s b t0 tret0 hd ha]
    split_ifs
    · show (check_metrics_d K _ true).t_sat = _
      rw [check_metrics_d_true_eq, update_measurements_d_eq]
    · show (check_metrics_d K _ true).t_sat = _
      rw [check_metrics_d_true_eq, update_measurements_d_eq]
  · rw [postsync_d_disarmed K s b t0 tret0 hd ha]

/-- One call keeps the dwell accumulator in range, when the dwell period is a number that
fails the test `<= 0`. -/
theorem do_call_d_dwell (K : Core) (s : sync_check_d) (c : call)
    (hP0 : s.metrics_period_sec.le 0 = false) (hPn : s.metrics_period_sec ≠ quot_val.nan)
    (h : dwell_in_range_d s) : dwell_in_range_d (do_call_d K s c) := by
  have hz : (quot_val.finite 0).lt_val s.metrics_period_sec = true :=
    (lt_val_iff_of_le_false _ 0 hP0).mpr hPn
  have hcfg := do_call_d_same_config K s c
  have hPe : (do_call_d K s c).metrics_period_sec = s.metrics_period_sec := hcfg.2.2.2.2.2.2.1
  unfold dwell_in_range_d
  rw [hPe]
  cases c with
  | postsync b t0 tret0 =>
    show 0 ≤ (postsync_d K s b t0 tret0).1.t_sat
      ∧ (quot_val.finite (postsync_d K s b t0 tret0).1.t_sat).lt_val s.metrics_period_sec = true
    by_cases hd : s.next_trigger_update_time ≤ t0
    · rw [postsync_d_due_t_sat K s b t0 tret0 hd]
      exact ⟨le_refl 0, hz⟩
    · rw [postsync_d_not_due K s b t0 tret0 hd]
      exact h
  | inter_deltaupdate b delta_time dt iteration_count_val interupdate_pos =>
    show 0 ≤ (inter_deltaupdate_sync_check_d K s b delta_time dt iteration_count_val
          interupdate_pos).1.t_sat
      ∧ (quot_val.finite (inter_deltaupdate_sync_check_d K s b delta_time dt
          iteration_count_val interupdate_pos).1.t_sat).lt_val s.metrics_period_sec = true
    obtain ⟨-, f2, f3, -⟩ := tick_checked_d_fields K s b
    rcases inter_deltaupdate_d_cases K s b delta_time dt iteration_count_val interupdate_pos
      with ⟨-, e⟩ | ⟨-, e⟩ | ⟨-, e⟩
    · rw [e]
      exact ⟨le_refl 0, hz⟩
    · rw [e]
      exact h
    · rw [e, check_excitation_d_eq]
      by_cases hcl : (tick_checked_d K s b).metrics_period_sec.le_val
          (quot_val.finite (dwell_next K (tick_checked_d K s b) dt)) = true
      · rw [if_pos hcl]
        exact ⟨le_refl 0, hz⟩
      · rw [if_neg hcl]
        rw [f3] at hcl
        exact ⟨dwell_next_nonneg K _ dt (by rw [f2]; exact h.1),
          lt_val_of_not_le_val _ _ hPn hcl⟩

theorem run_calls_d_dwell (K : Core) (cs : List call) :
    ∀ s : sync_check_d, s.metrics_period_sec.le 0 = false →
      s.metrics_period_sec ≠ quot_val.nan → dwell_in_range_d s →
      dwell_in_range_d (run_calls_d K s cs) := by
  induction cs with
  | nil => intro s _ _ h; exact h
  | cons c cs ih =>
    intro s hP0 hPn h
    have hPe : (do_call_d K s c).metrics_period_sec = s.metrics_period_sec :=
      (do_call_d_same_config K s c).2.2.2.2.2.2.1
    exact ih (do_call_d K s c) (by rw [hPe]; exact hP0) (by rw [hPe]; exact hPn)
      (do_call_d_dwell K s c hP0 hPn h)

theorem dsc_rest_d_t_sat (s : sync_check_d) : (dsc_rest_d s).t_sat = s.t_sat := by
  have a : ∀ u : sync_check_d, (dsc_volt_d u).t_sat = u.t_sat := by
    intro u; unfold dsc_volt_d; split_ifs <;> rfl
  have b : ∀ u : sync_check_d, (dsc_vmag_d u).t_sat = u.t_sat := by
    intro u; unfold dsc_vmag_d; split_ifs <;> rfl
  have c : ∀ u : sync_check_d, (dsc_vang_d u).t_sat = u.t_sat := by
    intro u; unfold dsc_vang_d; split_ifs <;> rfl
  have d : ∀ u : sync_check_d, (dsc_period_d u).t_sat = u.t_sat := by
    intro u; unfold dsc_period_d; split_ifs <;> rfl
  unfold dsc_rest_d
  rw [d, c, b, a]

/-- Setup does not assign the dwell accumulator. -/
theorem init_d_t_sat (K : Core) (G : Globals) (parent : Option switch_object)
    (s r : sync_check_d) (h : init_d K G parent s = Except.ok r) : r.t_sat = s.t_sat := by
  obtain ⟨s1, s2, s3, h1, h2, h3, rfl⟩ := (init_d_ok_iff K G parent s r).mp h
  obtain ⟨ph, -, rfl⟩ := init_sensors_d_ok K parent s2 s3 h3
  obtain ⟨p, st, u, -, -, -, hu, rfl⟩ := (data_sanity_check_d_ok_iff K G parent s s1).mp h1
  obtain ⟨fm, tn, vf, vt, -, -, -, -, -, rfl⟩ := (init_norm_values_d_ok_iff G parent _ s2).mp h2
  have e1 : (reg_deltamode_check_d G (sensors_state_d K ph
      (inv_tail_d G (inv_nodes_d fm tn vf vt (dsc_rest_d u))))).t_sat
      = (inv_tail_d G (inv_nodes_d fm tn vf vt (dsc_rest_d u))).t_sat := by
    simp only [reg_deltamode_check_d]
    split_ifs <;> rfl
  have e2 : (inv_tail_d G (inv_nodes_d fm tn vf vt (dsc_rest_d u))).t_sat
      = (dsc_rest_d u).t_sat := by
    unfold inv_tail_d
    by_cases hc : (inv_nodes_d fm tn vf vt (dsc_rest_d u)).delta_trigger_mult.le 1.0 = true
    · rw [if_pos hc]; rfl
    · rw [if_neg hc]; rfl
  have e3 : u.t_sat = s.t_sat := by
    rcases dsc_freq_d_cases G _ u hu with ⟨-, e⟩ | ⟨-, f, -, e⟩
    · rw [e, dsc_status_d_eq]
    · rw [e, dsc_status_d_eq]
  rw [e1, e2, dsc_rest_d_t_sat, e3]

/-- The accumulator is zero, and the dwell period fails the test `<= 0`, after `create`, a
configuration of the published properties and a successful `init_d`. -/
theorem create_and_init_d_start (K : Core) (G : Globals) (parent : Option switch_object)
    (configure : sync_check_d → sync_check_d) (s_pre s0 : sync_check_d)
    (hpub : published_only_d configure)
    (h : create_and_init_d K G parent configure s_pre = Except.ok s0) :
    s0.t_sat = 0 ∧ s0.metrics_period_sec.le 0 = false := by
  unfold create_and_init_d at h
  split at h
  · cases h
  · rename_i s1 h1
    have hinv := setup_invariant_d_of_init K G parent _ s0 h
    refine ⟨?_, hinv.2.2.2.1⟩
    rw [init_d_t_sat K G parent _ s0 h, hpub s1]
    show s1.t_sat = 0
    unfold init_vars_d at h1
    split at h1
    · cases h1
    · injection h1 with h1
      rw [← h1]

/-- C25, amended: in every state reached from `create`, a configuration of the published
properties and a successful `init_d` by any sequence of `postsync_d` and
`inter_deltaupdate_sync_check_d` calls (the elapsed times are unsigned), when the dwell
period is not NaN after setup (which is the case exactly when it was not configured as
NaN), the dwell accumulator satisfies `0 <= t_sat` and `t_sat < metrics_period_sec`.  The
constant `DT_SECOND` of the core is positive. -/
theorem C25_accumulator_in_range_unless_nan (K : Core) (G : Globals)
    (parent : Option switch_object) (configure : sync_check_d → sync_check_d)
    (s_pre s0 : sync_check_d) (cs : List call) (hDT : 0 < K.DT_SECOND)
    (hpub : published_only_d configure)
    (hci : create_and_init_d K G parent configure s_pre = Except.ok s0)
    (hP : s0.metrics_period_sec ≠ quot_val.nan) :
    0 ≤ (run_calls_d K s0 cs).t_sat
      ∧ (quot_val.finite (run_calls_d K s0 cs).t_sat).lt_val
          (run_calls_d K s0 cs).metrics_period_sec = true := by
  have _ := hDT
  obtain ⟨h0, hP0⟩ := create_and_init_d_start K G parent configure s_pre s0 hpub hci
  refine run_calls_d_dwell K cs s0 hP0 hP ⟨by rw [h0], ?_⟩
  rw [h0]
  exact (lt_val_iff_of_le_false _ 0 hP0).mpr hP

/-! ## The closing sub-step and the dwell range on the sample object -/

/-- An evaluating sub-step of two seconds on the armed sample object with accumulator zero
and the default dwell period of 1.2 s, on steady bus values: the close command. -/
theorem sample_two_seconds_d (mult : quot_val) :
    (inter_deltaupdate_sync_check_d stdCore
        (sample_after_setup_d (quot_val.finite (1 / 100)) mult (quot_val.finite (6 / 5)))
        steady_bus 0 2000000000 0 false).1
      = closed_d stdCore
          (tick_checked_d stdCore
            (sample_after_setup_d (quot_val.finite (1 / 100)) mult (quot_val.finite (6 / 5)))
            steady_bus) := by
  obtain ⟨f1, f2, f3, f4, f5, f6⟩ := tick_checked_d_fields stdCore
    (sample_after_setup_d (quot_val.finite (1 / 100)) mult (quot_val.finite (6 / 5))) steady_bus
  have hs := steady_bus_strict_update_d mult (quot_val.finite (6 / 5)) _ (same_config_d_refl _)
  have hn : dwell_next stdCore (tick_checked_d stdCore
      (sample_after_setup_d (quot_val.finite (1 / 100)) mult (quot_val.finite (6 / 5)))
      steady_bus) 2000000000 = 2 := by
    unfold dwell_next
    rw [f5, hs, if_pos rfl, f2, elapsed_d_two_seconds]
    have : (sample_after_setup_d (quot_val.finite (1 / 100)) mult
        (quot_val.finite (6 / 5))).t_sat = 0 := rfl
    rw [this, zero_add, round_to_double_two]
  rw [inter_deltaupdate_d_armed _ _ _ _ _ rfl, check_excitation_d_eq, hn, f3]
  have : (sample_after_setup_d (quot_val.finite (1 / 100)) mult
      (quot_val.finite (6 / 5))).metrics_period_sec = quot_val.finite (6 / 5) := rfl
  rw [this, if_pos (by norm_num [finite_le_val])]

/-- Witness of C27: the sample object with the default configuration closes on a compliant
sub-step of two seconds and returns `SM_DELTA`. -/
theorem C27_close_returns_delta_unless_nan_witness :
    (inter_deltaupdate_sync_check_d stdCore
        (run_calls_d stdCore
          (sample_after_setup_d (quot_val.finite (1 / 100)) (quot_val.finite 2)
            (quot_val.finite (6 / 5))) [])
        steady_bus 0 2000000000 0 false).2 = SIMULATIONMODE.SM_DELTA :=
  (C27_close_returns_delta_unless_nan stdCore (globals_at 60)
    (some (open_switch 7200 7200))
    (sample_config_d (quot_val.finite (1 / 100)) (quot_val.finite 2) (quot_val.finite (6 / 5)))
    (sample_after_setup_d (quot_val.finite (1 / 100)) (quot_val.finite 2)
      (quot_val.finite (6 / 5))) [] steady_bus 0 2000000000 0 false
    (by norm_num [stdCore])
    (sample_init_d_default _ (by norm_num [finite_le]))
    ⟨by simp [sample_after_setup_d], by simp [sample_after_setup_d]⟩
    (by
      show (inter_deltaupdate_sync_check_d stdCore
        (sample_after_setup_d (quot_val.finite (1 / 100)) (quot_val.finite 2)
          (quot_val.finite (6 / 5))) steady_bus 0 2000000000 0 false).1.swt_status_writes
        ≠ (sample_after_setup_d (quot_val.finite (1 / 100)) (quot_val.finite 2)
          (quot_val.finite (6 / 5))).swt_status_writes
      rw [sample_two_seconds_d]
      show (tick_checked_d stdCore _ steady_bus).swt_status_writes + 1 ≠ _
      rw [(tick_checked_d_fields stdCore _ steady_bus).1]
      exact Nat.succ_ne_self _)).1

/-- Counterexample to C27 as stated: with the trigger multiplier configured as NaN,
`init_d` succeeds on the sample switch; a compliant sub-step of two seconds issues the
close command (the switch status is written once, with `LS_CLOSED`), and the call returns
`SM_EVENT`, because the relaxed check against NaN tolerances fails. -/
theorem C27_returns_event_at_nan_multiplier :
    init_d stdCore (globals_at 60) (some (open_switch 7200 7200))
        (sample_config_d (quot_val.finite (1 / 100)) quot_val.nan (quot_val.finite (6 / 5)))
      = Except.ok
          (sample_after_setup_d (quot_val.finite (1 / 100)) quot_val.nan
            (quot_val.finite (6 / 5)))
    ∧ (inter_deltaupdate_sync_check_d stdCore
        (sample_after_setup_d (quot_val.finite (1 / 100)) quot_val.nan
          (quot_val.finite (6 / 5)))
        steady_bus 0 2000000000 0 false).1.swt_status_writes
        = (sample_after_setup_d (quot_val.finite (1 / 100)) quot_val.nan
            (quot_val.finite (6 / 5))).swt_status_writes + 1
    ∧ (inter_deltaupdate_sync_check_d stdCore
        (sample_after_setup_d (quot_val.finite (1 / 100)) quot_val.nan
          (quot_val.finite (6 / 5)))
        steady_bus 0 2000000000 0 false).1.swt_status = stdCore.LS_CLOSED
    ∧ (inter_deltaupdate_sync_check_d stdCore
        (sample_after_setup_d (quot_val.finite (1 / 100)) quot_val.nan
          (quot_val.finite (6 / 5)))
        steady_bus 0 2000000000 0 false).2 = SIMULATIONMODE.SM_EVENT := by
  obtain ⟨f1, f2, f3, f4, f5, f6⟩ := tick_checked_d_fields stdCore
    (sample_after_setup_d (quot_val.finite (1 / 100)) quot_val.nan (quot_val.finite (6 / 5)))
    steady_bus
  have hk : (check_metrics_d stdCore (update_measurements_d
      (sample_after_setup_d (quot_val.finite (1 / 100)) quot_val.nan (quot_val.finite (6 / 5)))
      steady_bus) true).deltamode_trigger_keep_flag = false := by
    have hm : (update_measurements_d
        (sample_after_setup_d (quot_val.finite (1 / 100)) quot_val.nan
          (quot_val.finite (6 / 5))) steady_bus).volt_compare_mode
        = VOLT_COMPARE_MODE.MAG_DIFF := by
      rw [update_measurements_d_eq]
      rfl
    rw [keep_flag_MAG_DIFF_d _ _ hm, update_measurements_d_eq]
    simp [sample_after_setup_d, quot_val.mul, quot_val.le_val]
  refine ⟨init_d_sample _ _ _ (by norm_num [finite_le]) rfl (by norm_num [finite_le])
    (by norm_num [finite_mul, finite_lt_val]), ?_, ?_, ?_⟩
  · rw [sample_two_seconds_d]
    show (tick_checked_d stdCore _ steady_bus).swt_status_writes + 1 = _
    rw [f1]
  · rw [sample_two_seconds_d]
    rfl
  · rw [inter_deltaupdate_d_snd, sample_two_seconds_d]
    have hc : (closed_d stdCore (tick_checked_d stdCore
        (sample_after_setup_d (quot_val.finite (1 / 100)) quot_val.nan
          (quot_val.finite (6 / 5))) steady_bus)).deltamode_check_return_val
        = (tick_checked_d stdCore
            (sample_after_setup_d (quot_val.finite (1 / 100)) quot_val.nan
              (quot_val.finite (6 / 5))) steady_bus).deltamode_check_return_val := rfl
    rw [hc, f6, hk]
    rfl

/-- Witness of C25: the sample object with the default configuration, after one compliant
sub-step of one second. -/
theorem C25_accumulator_in_range_unless_nan_witness :
    0 ≤ (run_calls_d stdCore
        (sample_after_setup_d (quot_val.finite (1 / 100)) (quot_val.finite 2)
          (quot_val.finite (6 / 5)))
        [call.inter_deltaupdate steady_bus 0 1000000000 0 false]).t_sat
      ∧ (quot_val.finite (run_calls_d stdCore
          (sample_after_setup_d (quot_val.finite (1 / 100)) (quot_val.finite 2)
            (quot_val.finite (6 / 5)))
          [call.inter_deltaupdate steady_bus 0 1000000000 0 false]).t_sat).lt_val
        (run_calls_d stdCore
          (sample_after_setup_d (quot_val.finite (1 / 100)) (quot_val.finite 2)
            (quot_val.finite (6 / 5)))
          [call.inter_deltaupdate steady_bus 0 1000000000 0 false]).metrics_period_sec
        = true :=
  C25_accumulator_in_range_unless_nan stdCore (globals_at 60)
    (some (open_switch 7200 7200))
    (configure_d (quot_val.finite (1 / 100)) (quot_val.finite 2) (quot_val.finite (6 / 5)))
    (to_machine (blank 7))
    (sample_after_setup_d (quot_val.finite (1 / 100)) (quot_val.finite 2)
      (quot_val.finite (6 / 5)))
    [call.inter_deltaupdate steady_bus 0 1000000000 0 false]
    (by norm_num [stdCore])
    (fun _ => rfl)
    (create_and_init_d_sample _ _ _ (by norm_num [finite_le]) (by norm_num [finite_le])
      (by norm_num [finite_le]) (by norm_num [finite_mul, finite_lt_val]))
    (by simp [sample_after_setup_d])

/-- Counterexample to C25 as stated: with the dwell period configured as NaN, `create`,
the configuration and `init_d` succeed on the sample switch; after one compliant sub-step
of one second the accumulator is 1 and the dwell period is still NaN, so the comparison
`t_sat < metrics_period_sec` is false. -/
theorem C25_fails_at_nan_period :
    published_only_d
        (configure_d (quot_val.finite (1 / 100)) (quot_val.finite 2) quot_val.nan)
    ∧ create_and_init_d stdCore (globals_at 60) (some (open_switch 7200 7200))
        (configure_d (quot_val.finite (1 / 100)) (quot_val.finite 2) quot_val.nan)
        (to_machine (blank 7))
      = Except.ok
          (sample_after_setup_d (quot_val.finite (1 / 100)) (quot_val.finite 2) quot_val.nan)
    ∧ (run_calls_d stdCore
        (sample_after_setup_d (quot_val.finite (1 / 100)) (quot_val.finite 2) quot_val.nan)
        [call.inter_deltaupdate steady_bus 0 1000000000 0 false]).t_sat = 1
    ∧ (run_calls_d stdCore
        (sample_after_setup_d (quot_val.finite (1 / 100)) (quot_val.finite 2) quot_val.nan)
        [call.inter_deltaupdate steady_bus 0 1000000000 0 false]).metrics_period_sec
        = quot_val.nan
    ∧ ¬ dwell_in_range_d
        (run_calls_d stdCore
          (sample_after_setup_d (quot_val.finite (1 / 100)) (quot_val.finite 2) quot_val.nan)
          [call.inter_deltaupdate steady_bus 0 1000000000 0 false]) := by
  obtain ⟨f1, f2, f3, f4, f5, f6⟩ := tick_checked_d_fields stdCore
    (sample_after_setup_d (quot_val.finite (1 / 100)) (quot_val.finite 2) quot_val.nan)
    steady_bus
  have hs := steady_bus_strict_update_d (quot_val.finite 2) quot_val.nan _
    (same_config_d_refl _)
  have hn : dwell_next stdCore (tick_checked_d stdCore
      (sample_after_setup_d (quot_val.finite (1 / 100)) (quot_val.finite 2) quot_val.nan)
      steady_bus) 1000000000 = 1 := by
    unfold dwell_next
    rw [f5, hs, if_pos rfl, f2, elapsed_d_one_second]
    have : (sample_after_setup_d (quot_val.finite (1 / 100)) (quot_val.finite 2)
        quot_val.nan).t_sat = 0 := rfl
    rw [this, zero_add, round_to_double_one]
  have hP : (sample_after_setup_d (quot_val.finite (1 / 100)) (quot_val.finite 2)
      quot_val.nan).metrics_period_sec = quot_val.nan := rfl
  have hr : run_calls_d stdCore
      (sample_after_setup_d (quot_val.finite (1 / 100)) (quot_val.finite 2) quot_val.nan)
      [call.inter_deltaupdate steady_bus 0 1000000000 0 false]
      = { tick_checked_d stdCore
            (sample_after_setup_d (quot_val.finite (1 / 100)) (quot_val.finite 2) quot_val.nan)
            steady_bus with t_sat := 1 } := by
    show (inter_deltaupdate_sync_check_d stdCore _ steady_bus 0 1000000000 0 false).1 = _
    rw [inter_deltaupdate_d_armed _ _ _ _ _ rfl, check_excitation_d_eq, hn, f3, hP,
      if_neg (by simp [quot_val.le_val])]
    rfl
  have hPr : (run_calls_d stdCore
      (sample_after_setup_d (quot_val.finite (1 / 100)) (quot_val.finite 2) quot_val.nan)
      [call.inter_deltaupdate steady_bus 0 1000000000 0 false]).metrics_period_sec
      = quot_val.nan := by
    rw [hr]
    exact f3.trans hP
  refine ⟨fun _ => rfl, create_and_init_d_sample _ _ _ (by norm_num [finite_le])
    (by norm_num [finite_le]) rfl (by norm_num [finite_mul, finite_lt_val]), ?_, hPr, ?_⟩
  · rw [hr]
  · intro h
    have h2 := h.2
    rw [hPr] at h2
    simp [quot_val.lt_val] at h2

/-! ## Claim on runs of evaluating sub-steps, with rounded sums -/

/-- States that agree on the fields read by the strict check have the same strict
verdict. -/
theorem metrics_flag_d_congr (K : Core) (s r : sync_check_d)
    (h : r.volt_compare_mode = s.volt_compare_mode
      ∧ r.frequency_tolerance_hz = s.frequency_tolerance_hz
      ∧ r.voltage_tolerance_pu = s.voltage_tolerance_pu
      ∧ r.voltage_magnitude_tolerance_pu = s.voltage_magnitude_tolerance_pu
      ∧ r.voltage_angle_tolerance_deg = s.voltage_angle_tolerance_deg
      ∧ r.volt_norm = s.volt_norm
      ∧ r.swt_fm_node_freq = s.swt_fm_node_freq ∧ r.swt_to_node_freq = s.swt_to_node_freq
      ∧ r.swt_fm_volt_A = s.swt_fm_volt_A ∧ r.swt_to_volt_A = s.swt_to_volt_A
      ∧ r.swt_fm_volt_B = s.swt_fm_volt_B ∧ r.swt_to_volt_B = s.swt_to_volt_B
      ∧ r.swt_fm_volt_C = s.swt_fm_volt_C ∧ r.swt_to_volt_C = s.swt_to_volt_C) :
    (check_metrics_d K r false).metrics_flag = (check_metrics_d K s false).metrics_flag := by
  obtain ⟨h1, h2, h3, h4, h5, h6, h7, h8, h9, h10, h11, h12, h13, h14⟩ := h
  by_cases hm : s.volt_compare_mode = VOLT_COMPARE_MODE.MAG_DIFF
  · rw [metrics_flag_MAG_DIFF_d K s hm, metrics_flag_MAG_DIFF_d K r (h1.trans hm),
      h2, h3, h6, h7, h8, h9, h10, h11, h12, h13, h14]
  · rw [metrics_flag_SEP_DIFF_d K s hm, metrics_flag_SEP_DIFF_d K r (by rw [h1]; exact hm),
      h2, h4, h5, h6, h7, h8, h9, h10, h11, h12, h13, h14]

/-- States with the same configuration give the same strict verdict on the same bus
values. -/
theorem strict_verdict_of_same_config_d (K : Core) (s r : sync_check_d) (b : bus_values)
    (h : same_config_d s r) :
    (check_metrics_d K (update_measurements_d r b) false).metrics_flag
      = (check_metrics_d K (update_measurements_d s b) false).metrics_flag := by
  obtain ⟨h1, h2, h3, h4, h5, h6, -, -, -, -, -, -, fA, fB, fC, pA, pB, pC⟩ := h
  apply metrics_flag_d_congr
  rw [update_measurements_d_eq, update_measurements_d_eq]
  refine ⟨h1, h2, h3, h4, h5, h6, rfl, rfl, ?_, ?_, ?_, ?_, ?_, ?_⟩ <;>
    simp only [fA, fB, fC]
  · cases hA : s.swt_ph_A_flag
    · simp [(pA hA).1]
    · simp
  · cases hA : s.swt_ph_A_flag
    · simp [(pA hA).2]
    · simp
  · cases hB : s.swt_ph_B_flag
    · simp [(pB hB).1]
    · simp
  · cases hB : s.swt_ph_B_flag
    · simp [(pB hB).2]
    · simp
  · cases hC : s.swt_ph_C_flag
    · simp [(pC hC).1]
    · simp
  · cases hC : s.swt_ph_C_flag
    · simp [(pC hC).2]
    · simp

/-- An evaluating sub-step of an armed monitor on compliant bus values: the accumulator
becomes the rounded sum; when the dwell period compares at most it the monitor closes and
disarms, otherwise it stays armed with the same configuration. -/
theorem tick_d_armed_compliant (K : Core) (s0 s : sync_check_d) (b : bus_values) (dt : ℕ)
    (harmed : s.sc_enabled_flag = true) (hs : same_config_d s0 s)
    (hc : (check_metrics_d K (update_measurements_d s0 b) false).metrics_flag = true) :
    (s0.metrics_period_sec.le_val
          (quot_val.finite (round_to_double (s.t_sat + elapsed_d K dt))) = false →
        (tick_d K s b dt).sc_enabled_flag = true
          ∧ (tick_d K s b dt).t_sat = round_to_double (s.t_sat + elapsed_d K dt)
          ∧ (tick_d K s b dt).swt_status_writes = s.swt_status_writes
          ∧ same_config_d s0 (tick_d K s b dt))
      ∧ (s0.metrics_period_sec.le_val
          (quot_val.finite (round_to_double (s.t_sat + elapsed_d K dt))) = true →
        (tick_d K s b dt).sc_enabled_flag = false
          ∧ (tick_d K s b dt).swt_status_writes = s.swt_status_writes + 1) := by
  obtain ⟨f1, f2, f3, f4, f5, f6⟩ := tick_checked_d_fields K s b
  have hc2 := (strict_verdict_of_same_config_d K s0 s b hs).trans hc
  have hP : s.metrics_period_sec = s0.metrics_period_sec := hs.2.2.2.2.2.2.1
  have hn : dwell_next K (tick_checked_d K s b) dt
      = round_to_double (s.t_sat + elapsed_d K dt) := by
    unfold dwell_next
    rw [f5, hc2, if_pos rfl, f2]
  have e : tick_d K s b dt = check_excitation_d K (tick_checked_d K s b) dt :=
    inter_deltaupdate_d_armed K s b 0 dt harmed
  have hcond : (tick_checked_d K s b).metrics_period_sec.le_val
      (quot_val.finite (dwell_next K (tick_checked_d K s b) dt))
      = s0.metrics_period_sec.le_val
          (quot_val.finite (round_to_double (s.t_sat + elapsed_d K dt))) := by
    rw [hn, f3, hP]
  rw [e, check_excitation_d_eq]
  constructor
  · intro hlt
    rw [if_neg (by rw [hcond, hlt]; simp)]
    refine ⟨f4.trans harmed, hn, f1, ?_⟩
    exact same_config_d_trans _ _ _ hs
      (same_config_d_trans _ _ _ (tick_checked_d_same_config K s b) (same_config_d_refl _))
  · intro hge
    rw [if_pos (by rw [hcond]; exact hge)]
    refine ⟨rfl, ?_⟩
    show (tick_checked_d K s b).swt_status_writes + 1 = _
    rw [f1]

/-- A sub-step of a disarmed monitor keeps it disarmed and writes nothing. -/
theorem tick_d_disarmed (K : Core) (s : sync_check_d) (b : bus_values) (dt : ℕ)
    (h : s.sc_enabled_flag = false) :
    (tick_d K s b dt).sc_enabled_flag = false
      ∧ (tick_d K s b dt).swt_status_writes = s.swt_status_writes := by
  unfold tick_d
  rw [inter_deltaupdate_d_disarmed K s b 0 dt 0 false h]
  exact ⟨h, rfl⟩

/-- State of a run of compliant evaluating sub-steps that starts armed with accumulator 0:
while none of the rounded sums has reached the dwell period the monitor is armed, its
accumulator is the rounded sum and it has not written the switch status; once one of them
has, it is disarmed and has written the switch status once. -/
theorem run_ticks_d_state (K : Core) (s : sync_check_d) (bs : ℕ → bus_values) (dt : ℕ)
    (harmed : s.sc_enabled_flag = true) (ht : s.t_sat = 0)
    (hc : ∀ k, (check_metrics_d K (update_measurements_d s (bs k)) false).metrics_flag = true)
    (m : ℕ) :
    ((∀ k, 1 ≤ k → k ≤ m →
          s.metrics_period_sec.le_val
            (quot_val.finite (dwell_sum (elapsed_d K dt) k)) = false) →
        (run_ticks_d K s bs dt m).sc_enabled_flag = true
          ∧ (run_ticks_d K s bs dt m).t_sat = dwell_sum (elapsed_d K dt) m
          ∧ (run_ticks_d K s bs dt m).swt_status_writes = s.swt_status_writes
          ∧ same_config_d s (run_ticks_d K s bs dt m))
      ∧ ((∃ k, 1 ≤ k ∧ k ≤ m
          ∧ s.metrics_period_sec.le_val
              (quot_val.finite (dwell_sum (elapsed_d K dt) k)) = true) →
        (run_ticks_d K s bs dt m).sc_enabled_flag = false
          ∧ (run_ticks_d K s bs dt m).swt_status_writes = s.swt_status_writes + 1) := by
  induction m with
  | zero =>
    constructor
    · intro _
      exact ⟨harmed, ht, rfl, same_config_d_refl s⟩
    · rintro ⟨k, h1, h2, -⟩
      omega
  | succ n ih =>
    show (_ → (tick_d K (run_ticks_d K s bs dt n) (bs n) dt).sc_enabled_flag = true
          ∧ (tick_d K (run_ticks_d K s bs dt n) (bs n) dt).t_sat = _
          ∧ (tick_d K (run_ticks_d K s bs dt n) (bs n) dt).swt_status_writes = _
          ∧ same_config_d s (tick_d K (run_ticks_d K s bs dt n) (bs n) dt))
      ∧ (_ → (tick_d K (run_ticks_d K s bs dt n) (bs n) dt).sc_enabled_flag = false
          ∧ (tick_d K (run_ticks_d K s bs dt n) (bs n) dt).swt_status_writes = _)
    by_cases hn : ∀ k, 1 ≤ k → k ≤ n →
        s.metrics_period_sec.le_val (quot_val.finite (dwell_sum (elapsed_d K dt) k)) = false
    · obtain ⟨a1, a2, a3, a4⟩ := ih.1 hn
      have step := tick_d_armed_compliant K s (run_ticks_d K s bs dt n) (bs n) dt a1 a4 (hc n)
      rw [a2] at step
      constructor
      · intro hall
        obtain ⟨b1, b2, b3, b4⟩ := step.1 (hall (n + 1) (by omega) (le_refl _))
        exact ⟨b1, b2, b3.trans a3, b4⟩
      · rintro ⟨k, h1, h2, h3⟩
        have hk : k = n + 1 := by
          rcases Nat.lt_or_ge k (n + 1) with hlt | hge
          · have := hn k h1 (by omega)
            rw [this] at h3
            cases h3
          · omega
        subst hk
        obtain ⟨b1, b2⟩ := step.2 h3
        exact ⟨b1, by rw [b2, a3]⟩
    · have hex : ∃ k, 1 ≤ k ∧ k ≤ n
          ∧ s.metrics_period_sec.le_val
              (quot_val.finite (dwell_sum (elapsed_d K dt) k)) = true := by
        by_contra hne
        apply hn
        intro k h1 h2
        rcases Bool.eq_false_or_eq_true (s.metrics_period_sec.le_val
          (quot_val.finite (dwell_sum (elapsed_d K dt) k))) with ht | hf
        · exact absurd ⟨k, h1, h2, ht⟩ hne
        · exact hf
      obtain ⟨a1, a2⟩ := ih.2 hex
      have step := tick_d_disarmed K (run_ticks_d K s bs dt n) (bs n) dt a1
      constructor
      · intro hall
        obtain ⟨k, h1, h2, h3⟩ := hex
        have := hall k h1 (by omega)
        rw [this] at h3
        cases h3
      · intro _
        exact ⟨step.1, step.2.trans a2⟩

/-- Tick `m + 1` closes exactly when none of the first `m` rounded sums has reached the
dwell period and the next one has. -/
theorem closes_at_d_succ_iff (K : Core) (s : sync_check_d) (bs : ℕ → bus_values) (dt : ℕ)
    (harmed : s.sc_enabled_flag = true) (ht : s.t_sat = 0)
    (hc : ∀ k, (check_metrics_d K (update_measurements_d s (bs k)) false).metrics_flag = true)
    (m : ℕ) :
    closes_at_d K s bs dt (m + 1)
      ↔ s.metrics_period_sec.le_val
            (quot_val.finite (dwell_sum (elapsed_d K dt) (m + 1))) = true
        ∧ ∀ k, 1 ≤ k → k < m + 1 →
            s.metrics_period_sec.le_val
              (quot_val.finite (dwell_sum (elapsed_d K dt) k)) = false := by
  have hm := run_ticks_d_state K s bs dt harmed ht hc m
  have hm1 := run_ticks_d_state K s bs dt harmed ht hc (m + 1)
  unfold closes_at_d
  rw [Nat.add_sub_cancel]
  by_cases hA : ∀ k, 1 ≤ k → k ≤ m →
      s.metrics_period_sec.le_val (quot_val.finite (dwell_sum (elapsed_d K dt) k)) = false
  · have w0 := (hm.1 hA).2.2.1
    rcases Bool.eq_false_or_eq_true (s.metrics_period_sec.le_val
      (quot_val.finite (dwell_sum (elapsed_d K dt) (m + 1)))) with hB | hB
    · have w1 := (hm1.2 ⟨m + 1, by omega, le_refl _, hB⟩).2
      constructor
      · intro _
        exact ⟨hB, fun k h1 h2 => hA k h1 (by omega)⟩
      · intro _
        rw [w1, w0]
    · have hall : ∀ k, 1 ≤ k → k ≤ m + 1 →
          s.metrics_period_sec.le_val
            (quot_val.finite (dwell_sum (elapsed_d K dt) k)) = false := by
        intro k h1 h2
        rcases Nat.lt_or_ge k (m + 1) with hlt | hge
        · exact hA k h1 (by omega)
        · have : k = m + 1 := by omega
          rw [this]
          exact hB
      have w1 := (hm1.1 hall).2.2.1
      constructor
      · intro h
        rw [w1, w0] at h
        omega
      · rintro ⟨h, -⟩
        rw [hB] at h
        cases h
  · have hex : ∃ k, 1 ≤ k ∧ k ≤ m
        ∧ s.metrics_period_sec.le_val
            (quot_val.finite (dwell_sum (elapsed_d K dt) k)) = true := by
      by_contra hne
      apply hA
      intro k h1 h2
      rcases Bool.eq_false_or_eq_true (s.metrics_period_sec.le_val
        (quot_val.finite (dwell_sum (elapsed_d K dt) k))) with ht | hf
      · exact absurd ⟨k, h1, h2, ht⟩ hne
      · exact hf
    have w0 := (hm.2 hex).2
    obtain ⟨k, h1, h2, h3⟩ := hex
    have w1 := (hm1.2 ⟨k, h1, by omega, h3⟩).2
    constructor
    · intro h
      rw [w1, w0] at h
      omega
    · rintro ⟨-, h⟩
      have := h k h1 (by omega)
      rw [this] at h3
      cases h3

/-- C10, amended: starting from an armed monitor with accumulator 0, under consecutive
compliant evaluating sub-steps of equal length `dt`, tick `n` issues the close command
exactly when `n` is the least positive integer at which the accumulated double `t_n`
compares at least the dwell period, where `t_0 = 0`, `t_k` is the double nearest to
`t_(k-1) + d` and `d` is the double nearest to `dt / DT_SECOND`, with `DT_SECOND`
positive; for a dwell period of 1.2 and `d = 1.0` the first tick does not close and the
second does. -/
theorem C10_close_at_least_tick_of_rounded_sums (K : Core) (s : sync_check_d)
    (bs : ℕ → bus_values) (dt : ℕ) (hDT : 0 < K.DT_SECOND)
    (harmed : s.sc_enabled_flag = true) (ht : s.t_sat = 0)
    (hc : ∀ k, (check_metrics_d K (update_measurements_d s (bs k)) false).metrics_flag
      = true) :
    (∀ n : ℕ, 1 ≤ n →
        (closes_at_d K s bs dt n
          ↔ s.metrics_period_sec.le_val
                (quot_val.finite (dwell_sum (elapsed_d K dt) n)) = true
            ∧ ∀ k : ℕ, 1 ≤ k → k < n →
                s.metrics_period_sec.le_val
                  (quot_val.finite (dwell_sum (elapsed_d K dt) k)) = false))
      ∧ (s.metrics_period_sec = quot_val.finite 1.2 → elapsed_d K dt = 1.0 →
          ¬ closes_at_d K s bs dt 1 ∧ closes_at_d K s bs dt 2) := by
  have _ := hDT
  have key := closes_at_d_succ_iff K s bs dt harmed ht hc
  constructor
  · intro n hn
    obtain ⟨m, rfl⟩ : ∃ m, n = m + 1 := ⟨n - 1, by omega⟩
    exact key m
  · intro hPeq hdeq
    have e1 : dwell_sum (elapsed_d K dt) 1 = 1 := by
      show round_to_double (0 + elapsed_d K dt) = 1
      rw [hdeq]
      norm_num [round_to_double_one]
    have e2 : dwell_sum (elapsed_d K dt) 2 = 2 := by
      show round_to_double (dwell_sum (elapsed_d K dt) 1 + elapsed_d K dt) = 2
      rw [e1, hdeq]
      norm_num [round_to_double_two]
    constructor
    · rw [key 0, hPeq, e1]
      norm_num [finite_le_val]
    · rw [key 1, hPeq, e2]
      refine ⟨by norm_num [finite_le_val], ?_⟩
      intro k h1 h2
      have hk : k = 1 := by omega
      rw [hk, e1]
      norm_num [finite_le_val]

/-! ## The rounded sums of a tenth of a second -/

/-- One tenth of a second of the nanosecond clock of `stdCore` is the double nearest to
0.1. -/
theorem elapsed_d_tenth :
    elapsed_d stdCore 100000000 = 3602879701896397 / 36028797018963968 := by
  have h : round_to_double (1000000000 : ℚ) = 1000000000 :=
    round_to_double_exact _ 29 (1000000000 * 2 ^ 23) (by norm_num) (by norm_num)
      (by norm_num) (by norm_num)
  have h2 : round_to_double (100000000 : ℚ) = 100000000 :=
    round_to_double_exact _ 26 (100000000 * 2 ^ 26) (by norm_num) (by norm_num)
      (by norm_num) (by norm_num)
  have h3 := round_to_double_eq (100000000 / 1000000000) (-4) 7205759403792794
    (by norm_num) (by norm_num) (by norm_num) (by norm_num) (by norm_num)
  unfold elapsed_d
  have hk : ((stdCore.DT_SECOND : ℕ) : ℚ) = 1000000000 := by norm_num [stdCore]
  rw [hk]
  push_cast
  rw [h, h2, h3]
  norm_num

/-- The first eleven rounded sums of the double nearest to 0.1: the tenth is the double
just below 1. -/
theorem dwell_sum_tenth :
    dwell_sum (3602879701896397 / 36028797018963968) 1 = 3602879701896397 / 36028797018963968
      ∧ dwell_sum (3602879701896397 / 36028797018963968) 2 = 3602879701896397 / 18014398509481984
      ∧ dwell_sum (3602879701896397 / 36028797018963968) 3 = 1351079888211149 / 4503599627370496
      ∧ dwell_sum (3602879701896397 / 36028797018963968) 4 = 3602879701896397 / 9007199254740992
      ∧ dwell_sum (3602879701896397 / 36028797018963968) 5 = 1 / 2
      ∧ dwell_sum (3602879701896397 / 36028797018963968) 6 = 5404319552844595 / 9007199254740992
      ∧ dwell_sum (3602879701896397 / 36028797018963968) 7 = 3152519739159347 / 4503599627370496
      ∧ dwell_sum (3602879701896397 / 36028797018963968) 8 = 7205759403792793 / 9007199254740992
      ∧ dwell_sum (3602879701896397 / 36028797018963968) 9 = 2026619832316723 / 2251799813685248
      ∧ dwell_sum (3602879701896397 / 36028797018963968) 10 = 9007199254740991 / 9007199254740992
      ∧ dwell_sum (3602879701896397 / 36028797018963968) 11 = 4953959590107545 / 4503599627370496 := by
  have r1 :=
    round_to_double_eq
      (0 + 3602879701896397 / 36028797018963968)
      (-4) 7205759403792794
      (by norm_num) (by norm_num) (by norm_num) (by norm_num) (by norm_num)
  have t1 :
      dwell_sum (3602879701896397 / 36028797018963968) 1 = 3602879701896397 / 36028797018963968 := by
    show round_to_double (0 + 3602879701896397 / 36028797018963968) = _
    rw [r1]
    norm_num
  have r2 :=
    round_to_double_eq
      (3602879701896397 / 36028797018963968 + 3602879701896397 / 36028797018963968)
      (-3) 7205759403792794
      (by norm_num) (by norm_num) (by norm_num) (by norm_num) (by norm_num)
  have t2 :
      dwell_sum (3602879701896397 / 36028797018963968) 2 = 3602879701896397 / 18014398509481984 := by
    show round_to_double
      (dwell_sum (3602879701896397 / 36028797018963968) 1
        + 3602879701896397 / 36028797018963968) = _
    rw [t1, r2]
    norm_num
  have r3 :=
    round_to_double_tie
      (3602879701896397 / 18014398509481984 + 3602879701896397 / 36028797018963968)
      (-2) 5404319552844595
      (by norm_num) (by norm_num) (by norm_num) (by norm_num)
  have t3 :
      dwell_sum (3602879701896397 / 36028797018963968) 3 = 1351079888211149 / 4503599627370496 := by
    show round_to_double
      (dwell_sum (3602879701896397 / 36028797018963968) 2
        + 3602879701896397 / 36028797018963968) = _
    rw [t2, r3]
    norm_num
  have r4 :=
    round_to_double_tie
      (1351079888211149 / 4503599627370496 + 3602879701896397 / 36028797018963968)
      (-2) 7205759403792794
      (by norm_num) (by norm_num) (by norm_num) (by norm_num)
  have t4 :
      dwell_sum (3602879701896397 / 36028797018963968) 4 = 3602879701896397 / 9007199254740992 := by
    show round_to_double
      (dwell_sum (3602879701896397 / 36028797018963968) 3
        + 3602879701896397 / 36028797018963968) = _
    rw [t3, r4]
    norm_num
  have r5 :=
    round_to_double_eq
      (3602879701896397 / 9007199254740992 + 3602879701896397 / 36028797018963968)
      (-1) 4503599627370496
      (by norm_num) (by norm_num) (by norm_num) (by norm_num) (by norm_num)
  have t5 :
      dwell_sum (3602879701896397 / 36028797018963968) 5 = 1 / 2 := by
    show round_to_double
      (dwell_sum (3602879701896397 / 36028797018963968) 4
        + 3602879701896397 / 36028797018963968) = _
    rw [t4, r5]
    norm_num
  have r6 :=
    round_to_double_eq
      (1 / 2 + 3602879701896397 / 36028797018963968)
      (-1) 5404319552844595
      (by norm_num) (by norm_num) (by norm_num) (by norm_num) (by norm_num)
  have t6 :
      dwell_sum (3602879701896397 / 36028797018963968) 6 = 5404319552844595 / 9007199254740992 := by
    show round_to_double
      (dwell_sum (3602879701896397 / 36028797018963968) 5
        + 3602879701896397 / 36028797018963968) = _
    rw [t5, r6]
    norm_num
  have r7 :=
    round_to_double_eq
      (5404319552844595 / 9007199254740992 + 3602879701896397 / 36028797018963968)
      (-1) 6305039478318694
      (by norm_num) (by norm_num) (by norm_num) (by norm_num) (by norm_num)
  have t7 :
      dwell_sum (3602879701896397 / 36028797018963968) 7 = 3152519739159347 / 4503599627370496 := by
    show round_to_double
      (dwell_sum (3602879701896397 / 36028797018963968) 6
        + 3602879701896397 / 36028797018963968) = _
    rw [t6, r7]
    norm_num
  have r8 :=
    round_to_double_eq
      (3152519739159347 / 4503599627370496 + 3602879701896397 / 36028797018963968)
      (-1) 7205759403792793
      (by norm_num) (by norm_num) (by norm_num) (by norm_num) (by norm_num)
  have t8 :
      dwell_sum (3602879701896397 / 36028797018963968) 8 = 7205759403792793 / 9007199254740992 := by
    show round_to_double
      (dwell_sum (3602879701896397 / 36028797018963968) 7
        + 3602879701896397 / 36028797018963968) = _
    rw [t7, r8]
    norm_num
  have r9 :=
    round_to_double_eq
      (7205759403792793 / 9007199254740992 + 3602879701896397 / 36028797018963968)
      (-1) 8106479329266892
      (by norm_num) (by norm_num) (by norm_num) (by norm_num) (by norm_num)
  have t9 :
      dwell_sum (3602879701896397 / 36028797018963968) 9 = 2026619832316723 / 2251799813685248 := by
    show round_to_double
      (dwell_sum (3602879701896397 / 36028797018963968) 8
        + 3602879701896397 / 36028797018963968) = _
    rw [t8, r9]
    norm_num
  have r10 :=
    round_to_double_eq
      (2026619832316723 / 2251799813685248 + 3602879701896397 / 36028797018963968)
      (-1) 9007199254740991
      (by norm_num) (by norm_num) (by norm_num) (by norm_num) (by norm_num)
  have t10 :
      dwell_sum (3602879701896397 / 36028797018963968) 10 = 9007199254740991 / 9007199254740992 := by
    show round_to_double
      (dwell_sum (3602879701896397 / 36028797018963968) 9
        + 3602879701896397 / 36028797018963968) = _
    rw [t9, r10]
    norm_num
  have r11 :=
    round_to_double_eq
      (9007199254740991 / 9007199254740992 + 3602879701896397 / 36028797018963968)
      (0) 4953959590107545
      (by norm_num) (by norm_num) (by norm_num) (by norm_num) (by norm_num)
  have t11 :
      dwell_sum (3602879701896397 / 36028797018963968) 11 = 4953959590107545 / 4503599627370496 := by
    show round_to_double
      (dwell_sum (3602879701896397 / 36028797018963968) 10
        + 3602879701896397 / 36028797018963968) = _
    rw [t10, r11]
    norm_num
  exact ⟨t1, t2, t3, t4, t5, t6, t7, t8, t9, t10, t11⟩

/-- Witness of C10: the armed sample object with dwell period 1.2 s, on steady compliant
bus values, with sub-steps of one second. -/
theorem C10_close_at_least_tick_of_rounded_sums_witness :
    ¬ closes_at_d stdCore
        (sample_after_setup_d (quot_val.finite (1 / 100)) (quot_val.finite 2)
          (quot_val.finite (6 / 5)))
        (fun _ => steady_bus) 1000000000 1
      ∧ closes_at_d stdCore
        (sample_after_setup_d (quot_val.finite (1 / 100)) (quot_val.finite 2)
          (quot_val.finite (6 / 5)))
        (fun _ => steady_bus) 1000000000 2 :=
  (C10_close_at_least_tick_of_rounded_sums stdCore
    (sample_after_setup_d (quot_val.finite (1 / 100)) (quot_val.finite 2)
      (quot_val.finite (6 / 5)))
    (fun _ => steady_bus) 1000000000 (by norm_num [stdCore]) rfl rfl
    (fun _ => steady_bus_strict_update_d _ _ _ (same_config_d_refl _))).2
    (by norm_num [sample_after_setup_d]) (by rw [elapsed_d_one_second]; norm_num)

/-- Counterexample to C10 as stated: the armed sample object with the dwell period
configured as 1 s, on steady compliant bus values, with sub-steps of 0.1 s.  Ten is the
least `n` with `n * d >= P`, for the exact `d = 0.1` and for the double nearest to it; the
tenth rounded sum is the double just below 1, so tick 10 does not close and tick 11
does. -/
theorem C10_fails_at_tenth_of_a_second :
    init_d stdCore (globals_at 60) (some (open_switch 7200 7200))
        (sample_config_d (quot_val.finite (1 / 100)) (quot_val.finite 2) (quot_val.finite 1))
      = Except.ok
          (sample_after_setup_d (quot_val.finite (1 / 100)) (quot_val.finite 2)
            (quot_val.finite 1))
    ∧ ((1 : ℚ) ≤ 10 * ((100000000 : ℚ) / 1000000000)
      ∧ (9 : ℚ) * ((100000000 : ℚ) / 1000000000) < 1)
    ∧ ((1 : ℚ) ≤ 10 * elapsed_d stdCore 100000000
      ∧ 9 * elapsed_d stdCore 100000000 < 1)
    ∧ ¬ closes_at_d stdCore
        (sample_after_setup_d (quot_val.finite (1 / 100)) (quot_val.finite 2)
          (quot_val.finite 1))
        (fun _ => steady_bus) 100000000 10
    ∧ closes_at_d stdCore
        (sample_after_setup_d (quot_val.finite (1 / 100)) (quot_val.finite 2)
          (quot_val.finite 1))
        (fun _ => steady_bus) 100000000 11 := by
  have key := closes_at_d_succ_iff stdCore
    (sample_after_setup_d (quot_val.finite (1 / 100)) (quot_val.finite 2) (quot_val.finite 1))
    (fun _ => steady_bus) 100000000 rfl rfl
    (fun _ => steady_bus_strict_update_d _ _ _ (same_config_d_refl _))
  have hP : (sample_after_setup_d (quot_val.finite (1 / 100)) (quot_val.finite 2)
      (quot_val.finite 1)).metrics_period_sec = quot_val.finite 1 := rfl
  obtain ⟨t1, t2, t3, t4, t5, t6, t7, t8, t9, t10, t11⟩ := dwell_sum_tenth
  refine ⟨sample_init_d_default _ (by norm_num [finite_le]), by norm_num,
    by rw [elapsed_d_tenth]; norm_num, ?_, ?_⟩
  · rw [key 9, hP, elapsed_d_tenth, t10]
    norm_num [finite_le_val]
  · rw [key 10, hP, elapsed_d_tenth, t11]
    refine ⟨by norm_num [finite_le_val], ?_⟩
    intro k h1 h2
    interval_cases k
    · rw [t1]; norm_num [finite_le_val]
    · rw [t2]; norm_num [finite_le_val]
    · rw [t3]; norm_num [finite_le_val]
    · rw [t4]; norm_num [finite_le_val]
    · rw [t5]; norm_num [finite_le_val]
    · rw [t6]; norm_num [finite_le_val]
    · rw [t7]; norm_num [finite_le_val]
    · rw [t8]; norm_num [finite_le_val]
    · rw [t9]; norm_num [finite_le_val]
    · rw [t10]; norm_num [finite_le_val]

end SyncCheck
